/-
Verification of the create-agent-harness scaffolder (repository: agentic-engine).

The development shallowly embeds the two source files of the repository:

* `src/index.js` — the interactive CLI: it collects a `ProjectConfig`,
  creates a fixed directory layout and writes a fixed set of template
  files (the Scaffold Emitter).
* `src/templates.js` — the Template Catalog: one pure function per
  emitted document, plus the generated Structure Validator script
  (emitted as text; its logic is embedded here as well, from the
  JavaScript variant of the generated script — the TypeScript variant
  carries identical logic).

Strings are modelled as Lean `String`s; the long template literals are
written as concatenations of chunk literals (the concatenation is
byte-identical to the source template text).  The file system is a pure
value: a list of directories and a list of (path, content, mtime)
records.  Machine timestamps (`Date.now()`, `statSync(..).mtimeMs`,
millisecond clock values) are modelled as `Int`.
-/
import Mathlib

set_option maxRecDepth 100000

namespace AgenticEngine

/-- The three values of the `projectType` prompt in `src/index.js`. -/
inductive ProjectType
  | fullstack
  | backend
  | frontend
deriving DecidableEq, Repr

/-- The two values of the `validationLanguage` prompt in `src/index.js`. -/
inductive ValidationLanguage
  | typescript
  | javascript
deriving DecidableEq, Repr

/-- The configuration collected by the interactive session (`p.group` in
`src/index.js`).  The target path is kept abstract: all emitted paths are
relative to it. -/
structure ProjectConfig where
  projectType : ProjectType
  validationLanguage : ValidationLanguage
  includeObservability : Bool
  includeCI : Bool
deriving DecidableEq, Repr

/-! ### String primitives

JavaScript string operations used by the scaffolder and by the generated
validator, embedded over `List Char`.  They are deliberately written with
plain structural recursion so that they evaluate by definitional
unfolding. -/

/-- Byte equality of strings (JavaScript `===` / `!==` on strings). -/
def beqStr (a b : String) : Bool := a.data == b.data

/-- `l` ends with the character list `suf` (JavaScript `String.endsWith`). -/
def endsWithStr (suf s : String) : Bool := suf.data.reverse.isPrefixOf s.data.reverse

/-- Leading `./` segments of a relative path are dropped; this is what
`path.join(rootDir, p)` does to the relative links that appear in the
generated documents (all compared paths in this development are relative
to the project root). -/
def stripDotSlash : List Char → List Char
  | '.' :: '/' :: rest => stripDotSlash rest
  | l => l

/-- Path normalisation used to model `path.join(rootDir, p)` followed by
comparison against the root-relative paths of the file-system model. -/
def normalizePath (p : String) : String := String.mk (stripDotSlash p.data)

/-- The number of newline characters in `l`. -/
def countNl : List Char → Nat
  | [] => 0
  | c :: cs => (if c = '\n' then 1 else 0) + countNl cs

/-- JavaScript `content.split('\n')`: the segments of `l` between newline
characters (`n + 1` segments for `n` newlines). -/
def splitNl : List Char → List (List Char)
  | [] => [[]]
  | c :: cs =>
    if c = '\n' then [] :: splitNl cs
    else
      match splitNl cs with
      | [] => [[c]]
      | h :: t => (c :: h) :: t

/-- `needle` occurs contiguously inside `l` (the substring test behind
"the document references FRONTEND.md"). -/
def containsSub (needle : List Char) : List Char → Bool
  | [] => needle.isEmpty
  | c :: cs => needle.isPrefixOf (c :: cs) || containsSub needle cs

/-- Propositional form of the substring test: `needle` is a contiguous
segment of `l`. -/
def SubSeg (needle l : List Char) : Prop := ∃ s t, l = s ++ needle ++ t

/-! ### The markdown-link scanner

The generated validator extracts links from AGENTS.md with the global
regular expression

  `/\[([^\]]+)\]\(([^)]+)\)/g`

run in an `exec` loop: repeatedly find the leftmost-first match of
`[label](path)` — a `[`, a non-empty label without `]`, a `]`, a `(`, a
non-empty path without `)`, and a `)` — and continue after the match.
When a candidate starting at some `[` fails (no `]` follows, an empty
label or path, or the `]` is not followed by `(`), the engine restarts
the search at the next position; since every match begins with `[`, that
is equivalent to rescanning the text that follows the failed `[`.

The scanner below is that loop written as a character automaton so that
it folds over the text; on a failed candidate it re-feeds the already
consumed characters that follow the failed `[` (they are held in the
state) and then continues with the rest of the text, which is exactly
the rescan that the regex engine performs.  Re-fed text is strictly
shorter than the text that produced the failure, so the fuel argument —
initialised generously by `scanStep` — never runs out. -/

inductive ScanMode
  /-- Not inside any candidate match. -/
  | outside
  /-- After a `[`; `labelRev` holds the label characters read so far,
  reversed.  No `]` has been seen. -/
  | inLabel (labelRev : List Char)
  /-- After `[label]` with a non-empty label; a `(` must follow. -/
  | expectParen (labelRev : List Char)
  /-- Inside `(...)`; `pathRev` holds the path characters, reversed. -/
  | inPath (labelRev : List Char) (pathRev : List Char)
deriving DecidableEq, Repr

structure ScanState where
  mode : ScanMode
  foundRev : List String
deriving DecidableEq, Repr

/-- Feed the characters `cs` through the scanner.  The fuel bounds the
nesting of re-feeds; every re-feed is strictly shorter than the text
that triggered it, so any fuel at least `(length + 4)^2` is enough. -/
def scanFeed (fuel : Nat) : ScanState → List Char → ScanState :=
  Nat.rec (motive := fun _ => ScanState → List Char → ScanState)
    (fun st _ => st)
    (fun _ ih st l =>
      match l with
      | [] => st
      | c :: cs =>
        match st.mode with
        | ScanMode.outside =>
          if c = '[' then ih ⟨ScanMode.inLabel [], st.foundRev⟩ cs
          else ih st cs
        | ScanMode.inLabel labelRev =>
          if c = ']' then
            if labelRev.isEmpty then ih ⟨ScanMode.outside, st.foundRev⟩ cs
            else ih ⟨ScanMode.expectParen labelRev, st.foundRev⟩ cs
          else ih ⟨ScanMode.inLabel (c :: labelRev), st.foundRev⟩ cs
        | ScanMode.expectParen labelRev =>
          if c = '(' then ih ⟨ScanMode.inPath labelRev [], st.foundRev⟩ cs
          else ih (ih ⟨ScanMode.outside, st.foundRev⟩ (labelRev.reverse ++ [']', c])) cs
        | ScanMode.inPath labelRev pathRev =>
          if c = ')' then
            if pathRev.isEmpty then
              ih (ih ⟨ScanMode.outside, st.foundRev⟩ (labelRev.reverse ++ [']', '(', ')'])) cs
            else ih ⟨ScanMode.outside, String.mk pathRev.reverse :: st.foundRev⟩ cs
          else ih ⟨ScanMode.inPath labelRev (c :: pathRev), st.foundRev⟩ cs)
    fuel

/-- Upper bound for the re-feed nesting of one `scanFeed` run over `cs`
starting in state `st`. -/
def scanFuel (st : ScanState) (cs : List Char) : Nat :=
  let pending :=
    match st.mode with
    | ScanMode.outside => 0
    | ScanMode.inLabel labelRev => labelRev.length
    | ScanMode.expectParen labelRev => labelRev.length
    | ScanMode.inPath labelRev pathRev => labelRev.length + pathRev.length
  (cs.length + pending + 4) * (cs.length + pending + 4)

/-- One scanner step: feed a single character. -/
def scanStep (st : ScanState) (c : Char) : ScanState := scanFeed (scanFuel st [c]) st [c]

/-- All link paths matched by the validator's regex loop over `s`, in
match order. -/
def extractLinks (s : String) : List String :=
  (s.data.foldl scanStep ⟨ScanMode.outside, []⟩).foundRev.reverse
/-! ### The Template Catalog (`src/templates.js`)

Each template function returns the literal template text of the source;
the long literals are split into chunk constants (concatenation is
byte-identical to the source literal). -/

def agA1 : String := "# Agent Development Guide\n\n**This file serves as the table of contents for agent development in this repository.**\n\nHumans steer. Agents execute.\n\n## Quick Reference\n\n"

def agA2 : String := "- **Architecture:** See [ARCHITECTURE.md](./ARCHITECTURE.md)\n- **Design Principles:** See [DESIGN.md](./DESIGN.md)\n- **Security:** See [SECURITY.md](./SECURITY.md)\n"

def agA3 : String := "- **Quality Standards:** See [QUALITY_SCORE.md](./QUALITY_SCORE.md)\n- **Reliability:** See [RELIABILITY.md](./RELIABILITY.md)\n"

def agA4 : String := "- **Product Sense:** See [PRODUCT_SENSE.md](./PRODUCT_SENSE.md)\n- **Planning:** See [PLANS.md](./PLANS.md)\n"

def agB1 : String := "\n\n## Documentation Structure\n\n### Design Documents\nLocation: \x60docs/design-docs/\x60\n\n"

def agB2 : String := "All design decisions and architectural choices are documented here. Before implementing features:\n1. Check for existing design docs\n"

def agB3 : String := "2. Create new design docs for significant changes\n3. Link to relevant designs in your PRs\n\nSee: [docs/design-docs/index.md](./docs/design-docs/index.md)\n\n"

def agB4 : String := "### Execution Plans\nLocation: \x60docs/exec-plans/\x60\n\nComplex work is broken down into execution plans:\n- **Active plans:** \x60docs/exec-plans/active/\x60\n"

def agB5 : String := "- **Completed plans:** \x60docs/exec-plans/completed/\x60\n- **Tech debt tracker:** \x60docs/exec-plans/tech-debt-tracker.md\x60\n\nSee: [PLANS.md](./PLANS.md) for planning guidelines.\n"

def agB6 : String := "\n### Product Specifications\nLocation: \x60docs/product-specs/\x60\n\nProduct requirements and feature specifications live here. Before building:\n1. Review relevant product specs\n"

def agB7 : String := "2. Ask clarifying questions if specs are incomplete\n3. Update specs based on implementation learnings\n\nSee: [docs/product-specs/index.md](./docs/product-specs/index.md)\n\n"

def agB8 : String := "### Reference Documentation\nLocation: \x60docs/references/\x60\n\nExternal library documentation optimized for LLM consumption. When integrating new libraries:\n"

def agB9 : String := "1. Extract key documentation\n2. Format for agent readability\n3. Store in \x60docs/references/[library-name]-llms.txt\x60\n\n### Generated Documentation\n"

def agB10 : String := "Location: \x60docs/generated/\x60\n\nAuto-generated documentation (schemas, API docs, etc.). This directory is maintained by automation.\n\n## Core Principles\n\n"

def agB11 : String := "1. **Repository is the source of truth** - If it\x27s not in the repo, it doesn\x27t exist to agents\n"

def agB12 : String := "2. **Progressive disclosure** - Start with this file, navigate to deeper sources\n3. **Enforce mechanically** - Use linters and tests, not manual review\n"

def agB13 : String := "4. **Agent legibility first** - Optimize for agent reasoning, not just human readability\n"

def agB14 : String := "5. **Continuous cleanup** - Fix patterns as soon as they drift, don\x27t let debt compound\n\n## Workflow\n\n1. **Context gathering:** Read relevant docs before coding\n"

def agB15 : String := "2. **Plan:** Create execution plans for complex work\n3. **Implement:** Follow architectural constraints and quality standards\n"

def agB16 : String := "4. **Validate:** Run tests, linters, and validation scripts\n5. **Review:** Get agent and human feedback\n6. **Iterate:** Respond to feedback, fix issues\n"

def agB17 : String := "7. **Document:** Update design docs and specs based on learnings\n\n## Validation\n\nBefore opening PRs, ensure:\n- [ ] All tests pass\n- [ ] Linters pass\n"

def agB18 : String := "- [ ] Documentation is updated\n- [ ] Architectural constraints are satisfied\n- [ ] Security guidelines are followed\n\n"

def agB19 : String := "Run validation: \x60npm run validate\x60 or \x60node scripts/validate-structure.js\x60\n\n## Getting Help\n\nWhen stuck:\n"

def agB20 : String := "1. Check [docs/design-docs/core-beliefs.md](./docs/design-docs/core-beliefs.md)\n2. Review similar implementations in the codebase\n"

def agB21 : String := "3. Check [docs/exec-plans/tech-debt-tracker.md](./docs/exec-plans/tech-debt-tracker.md) for known issues\n4. Ask humans for clarification on requirements\n\n---\n\n"

def agB22 : String := "*This file is intentionally kept short (~100 lines). For detailed guidance, follow the links above.*\n"

def archA1 : String := "# Architecture Overview\n\n**Top-level map of system domains and package layering.**\n\n## System Domains\n\nThis section will be populated as your application grows. Document major domains here (e.g., Auth, Users, Payments, etc.).\n\n### Example Domain: [Domain Name]\n\n**Purpose:** Brief description\n\n**Boundaries:**\n- Owns: What this domain is responsible for\n- Depends on: What other domains it uses\n- Used by: What domains depend on it\n\n**Key files:**\n- \x60src/[domain]/\x60 - Main implementation\n\n## Layered Architecture\n\nWithin each domain, code follows a strict layering model:\n\n\x60\x60\x60\nTypes → Config → Repository → Service → Runtime → UI\n         ↑\n    Providers (cross-cutting concerns)\n\x60\x60\x60\n\n### Layer Responsibilities\n\n1. **Types** - Data shapes, interfaces, domain models\n2. **Config** - Configuration schemas and defaults\n"

def archA2 : String := "3. **Repository** - Data access layer (database, external APIs)\n4. **Service** - Business logic\n5. **Runtime** - Application runtime concerns (initialization, shutdown)\n6. **UI** - User interface components\n\n### Providers (Cross-cutting)\n\nCross-cutting concerns enter through explicit Provider interfaces:\n- Authentication\n- Logging/Telemetry\n- Feature flags\n- External connectors\n\n### Dependency Rules\n\n✅ **Allowed:** Forward dependencies (Types → Config → Repo → Service → Runtime → UI)\n❌ **Forbidden:** Backward dependencies (UI cannot import from Service directly without going through Runtime)\n\nThese rules are enforced mechanically via custom linters.\n\n## Technology Choices\n\n"

def archB1 : String := "\n### Infrastructure\n\n[Document infrastructure choices as they\x27re made]\n\n## Architectural Constraints\n\n1. **Parsing at boundaries** - All external data must be validated/parsed at system boundaries\n2. **No circular dependencies** - Enforce strict DAG structure\n3. **Explicit cross-cutting** - Cross-cutting concerns go through Provider interfaces\n4. **Testability** - All layers must be independently testable\n\n## Decision Log\n\n| Date | Decision | Rationale | Status |\n|------|----------|-----------|--------|\n| TBD  | Example  | Why      | Active |\n\n---\n\n*Keep this document updated as architectural decisions are made. Link to detailed design docs for complex changes.*\n"

def design1 : String := "# Design Principles\n\n**Core design beliefs and patterns for this codebase.**\n\n## Philosophy\n\n1. **Simple over clever** - Readable code beats optimized code\n2. **Explicit over implicit** - Make behavior obvious\n3. **Boring over exciting** - Prefer proven technologies\n4. **Strict boundaries** - Enforce constraints mechanically\n\n## Code Organization\n\n### File Structure\n- One primary export per file\n- Co-locate related code (tests next to implementation)\n- Group by domain, not by type\n\n### Naming Conventions\n- Verbose and descriptive: \x60calculateTotalRevenue()\x60 not \x60calcRev()\x60\n- Consistent patterns across domains\n- No abbreviations unless universally understood\n\n### Comments\n- Comment **why**, not **what**\n- Explain business logic and constraints\n- Document security-critical sections\n- Avoid obvious comments\n\n"

def design2 : String := "## Error Handling\n\n1. **Fail fast** - Validate inputs early\n2. **Explicit errors** - Use typed error objects\n3. **Graceful degradation** - Never fail silently\n4. **Comprehensive logging** - All errors are logged with context\n\n## Testing Philosophy\n\n1. **Real environments over mocks** - Use Docker for databases, Redis, etc.\n2. **Integration tests preferred** - Test real behavior, not mocked behavior\n3. **Test the contract** - Focus on behavior, not implementation\n4. **Fail meaningfully** - Tests should fail when logic breaks\n\n## Security Principles\n\n1. **Zero trust** - Sanitize all user inputs\n2. **Least privilege** - Minimal access rights\n3. **No secrets in code** - Use environment variables\n4. **Defense in depth** - Multiple layers of security\n\n"

def design3 : String := "See [SECURITY.md](./SECURITY.md) for detailed security guidelines.\n\n## Performance Philosophy\n\n1. **Measure before optimizing** - No premature optimization\n2. **Optimize for maintainability** - Clear code is fast enough\n3. **Scale when needed** - Don\x27t over-engineer for imaginary scale\n\n## Dependencies\n\n1. **Minimize dependencies** - Prefer standard library\n2. **Agent-legible libraries** - Choose well-documented, stable libraries\n3. **Internalize when needed** - Sometimes it\x27s cheaper to implement than integrate\n\n---\n\n*These principles guide all code written by humans and agents in this repository.*\n"

def fe1 : String := "# Frontend Development Guide\n\n**Guidelines for building user interfaces in this project.**\n\n## Framework\n\n[Document your chosen framework here - React, Vue, Svelte, etc.]\n\n## Component Architecture\n\n### Component Organization\n\x60\x60\x60\ncomponents/\n├── ui/           # Reusable UI primitives (buttons, inputs, etc.)\n├── features/     # Feature-specific components\n└── layouts/      # Page layouts and shells\n\x60\x60\x60\n\n### Component Guidelines\n\n1. **Single Responsibility** - Each component does one thing well\n2. **Props over State** - Prefer passing data down\n3. **Composition over Inheritance** - Build complex UIs from simple pieces\n4. **Accessibility First** - ARIA labels, keyboard navigation, screen readers\n\n## State Management\n\n[Document state management approach - Context, Redux, Zustand, etc.]\n\n### State Principles\n"

def fe2 : String := "1. **Minimize global state** - Keep state as local as possible\n2. **Immutable updates** - Never mutate state directly\n3. **Derived state** - Compute from source of truth, don\x27t duplicate\n\n## Styling\n\n[Document styling approach - CSS Modules, Tailwind, Styled Components, etc.]\n\n### Styling Guidelines\n1. **Consistent design tokens** - Use variables for colors, spacing, typography\n2. **Mobile-first** - Design for small screens first\n3. **Performance** - Minimize CSS bundle size\n\n## Data Fetching\n\n[Document data fetching approach - React Query, SWR, GraphQL, etc.]\n\n### Data Fetching Principles\n1. **Loading states** - Always show loading UI\n2. **Error handling** - Display meaningful error messages\n3. **Caching** - Minimize redundant requests\n4. **Optimistic updates** - Update UI immediately, rollback on error\n\n"

def fe3 : String := "## Chrome DevTools Integration\n\nFor agent validation, the UI can be:\n- Launched per git worktree\n- Driven via Chrome DevTools Protocol\n- Validated via DOM snapshots and screenshots\n\nEnsure all critical user journeys are testable via automation.\n\n## Performance Budgets\n\n- **Initial Load:** < 3s on 3G\n- **Time to Interactive:** < 5s\n- **Lighthouse Score:** > 90\n\n## Accessibility Requirements\n\n- **WCAG 2.1 Level AA** compliance\n- **Keyboard navigation** for all interactive elements\n- **Screen reader** friendly\n\n---\n\n*Update this document as frontend patterns evolve.*\n"

def plans1 : String := "# Planning Guidelines\n\n**How to create and manage execution plans.**\n\n## When to Create a Plan\n\nCreate an execution plan when:\n1. Work will span multiple PRs\n2. Work involves multiple domains or systems\n3. Implementation approach needs alignment\n4. Work will take > 1 day\n5. Work has significant architectural impact\n\n## Plan Types\n\n### Lightweight Plans (< 1 day work)\n- Documented in PR description\n- No separate plan document needed\n- Focus on \"what\" and \"why\"\n\n### Execution Plans (> 1 day work)\n- Full plan document in \x60docs/exec-plans/active/\x60\n- Detailed implementation steps\n- Decision log\n- Progress tracking\n\n## Execution Plan Template\n\nSee [docs/exec-plans/template.md](./docs/exec-plans/template.md)\n\n## Plan Lifecycle\n\n1. **Draft** - Initial plan created\n"

def plans2 : String := "2. **In Review** - Plan being reviewed by humans/agents\n3. **Approved** - Plan approved, ready to execute\n4. **In Progress** - Work is happening\n5. **Completed** - Work done, plan moved to \x60completed/\x60\n\n## Plan Structure\n\n### 1. Context\n- Why is this work needed?\n- What problem does it solve?\n- What is the current state?\n\n### 2. Goals\n- What are we trying to achieve?\n- What are non-goals?\n- How will we measure success?\n\n### 3. Approach\n- High-level implementation strategy\n- Key technical decisions\n- Tradeoffs considered\n\n### 4. Implementation Steps\n- Ordered list of tasks\n- Dependencies between tasks\n- Estimated complexity (S/M/L)\n\n### 5. Validation\n- How will we know it works?\n- What tests need to be written?\n- What edge cases to consider?\n\n### 6. Risks\n- What could go wrong?\n- Mitigation strategies\n\n"

def plans3 : String := "### 7. Decision Log\n- Track decisions made during implementation\n- Rationale for changes to original plan\n\n## Tech Debt Tracker\n\nAll known technical debt is tracked in [docs/exec-plans/tech-debt-tracker.md](./docs/exec-plans/tech-debt-tracker.md)\n\n### Adding Tech Debt\nWhen you identify tech debt:\n1. Document it in the tracker\n2. Prioritize (P0/P1/P2/P3)\n3. Link to related code\n4. Propose resolution approach\n\n### Resolving Tech Debt\nWhen fixing tech debt:\n1. Update tracker status\n2. Link to PR that resolved it\n3. Document learnings\n\n---\n\n*Plans are living documents. Update them as you learn.*\n"

def psense1 : String := "# Product Sense\n\n**Product principles and user-facing guidelines.**\n\n## Product Principles\n\n1. **User value first** - Every feature must solve a real user problem\n2. **Simple by default** - Hide complexity, expose power\n3. **Fast and reliable** - Performance and reliability are features\n4. **Accessible to all** - Build for everyone\n\n## User Experience Guidelines\n\n### Core User Flows\n[Document your critical user journeys]\n\nExample:\n1. **New user onboarding**\n   - What do first-time users see?\n   - How do we guide them to value?\n\n2. **Core workflow**\n   - What is the main user action?\n   - How do we make it effortless?\n\n### UX Principles\n\n1. **Immediate feedback** - User actions get instant response\n2. **Forgiving** - Easy to undo, hard to break\n3. **Consistent** - Same patterns throughout\n"

def psense2 : String := "4. **Predictable** - Users can anticipate behavior\n\n## Feature Development\n\n### Feature Spec Requirements\n\nEvery feature needs:\n- [ ] User story (who, what, why)\n- [ ] Success metrics\n- [ ] Acceptance criteria\n- [ ] Edge cases identified\n- [ ] Failure modes considered\n\n### Product Quality Bar\n\nBefore shipping:\n- [ ] Works on happy path\n- [ ] Handles errors gracefully\n- [ ] Has loading states\n- [ ] Has empty states\n- [ ] Is accessible\n- [ ] Is performant\n- [ ] Is secure\n\n## Metrics & Analytics\n\n[Document what you measure and why]\n\n### Key Metrics\n- **Acquisition:** How users find the product\n- **Activation:** How users get to first value\n- **Retention:** How often users return\n- **Revenue:** How the business makes money (if applicable)\n\n## User Feedback Loop\n\n"

def psense3 : String := "1. **Collect** - Gather user feedback (support tickets, interviews, analytics)\n2. **Synthesize** - Identify patterns and themes\n3. **Prioritize** - Decide what to build based on impact\n4. **Build** - Implement with quality\n5. **Measure** - Track if it solved the problem\n\n---\n\n*Product sense guides what we build and why.*\n"

def qscore1 : String := "# Quality Score\n\n**Track quality metrics across domains and architectural layers.**\n\n## Scoring System\n\nEach domain and layer is graded on:\n- **Test Coverage:** % of code covered by tests\n- **Type Safety:** % of code that is type-checked\n- **Documentation:** Are interfaces and behaviors documented?\n- **Linting:** Are linting rules passing?\n- **Performance:** Meet performance budgets?\n\n### Grades\n\n- **A** - Excellent (90-100%)\n- **B** - Good (75-89%)\n- **C** - Acceptable (60-74%)\n- **D** - Needs Improvement (40-59%)\n- **F** - Unacceptable (< 40%)\n\n## Domain Quality\n\n| Domain | Test Coverage | Type Safety | Documentation | Linting | Performance | Overall |\n|--------|---------------|-------------|---------------|---------|-------------|---------|\n"

def qscore2 : String := "| TBD    | -             | -           | -             | -       | -           | -       |\n\n## Layer Quality\n\n| Layer      | Test Coverage | Type Safety | Documentation | Linting | Overall |\n|------------|---------------|-------------|---------------|---------|---------|\n| Types      | -             | -           | -             | -       | -       |\n| Config     | -             | -           | -             | -       | -       |\n| Repository | -             | -           | -             | -       | -       |\n| Service    | -             | -           | -             | -       | -       |\n| Runtime    | -             | -           | -             | -       | -       |\n| UI         | -             | -           | -             | -       | -       |\n\n## Quality Targets\n\n### Minimum Acceptable (Launch)\n"

def qscore3 : String := "- Test Coverage: 70%\n- Type Safety: 80%\n- Documentation: 60%\n- Linting: 100%\n- Performance: Meets budgets\n\n### Production Ready\n- Test Coverage: 85%\n- Type Safety: 95%\n- Documentation: 80%\n- Linting: 100%\n- Performance: Exceeds budgets\n\n## Known Quality Gaps\n\n[Track areas that need improvement]\n\n| Gap | Severity | Tracked In | Target Date |\n|-----|----------|------------|-------------|\n| TBD | P1       | Issue #X   | 2026-XX-XX  |\n\n## Quality Improvement Process\n\n1. **Automated Scanning** - CI runs quality checks on every PR\n2. **Quality Reports** - Weekly quality score updates\n3. **Improvement Plans** - Create execution plans for quality gaps\n4. **Continuous Monitoring** - Track quality trends over time\n\n---\n\n*Quality scores are updated automatically by CI. Manual updates indicate automation gaps.*\n"

def rel1 : String := "# Reliability Standards\n\n**Guidelines for building reliable, production-ready systems.**\n\n## Reliability Principles\n\n1. **Fail gracefully** - Degrade functionality, never crash\n2. **Observable** - Emit logs, metrics, and traces for all critical paths\n3. **Recoverable** - Automatic retry with backoff\n4. **Tested** - Integration tests against real infrastructure\n\n## Error Handling\n\n### Error Categories\n\n1. **Expected errors** - User input validation, not found, etc.\n   - Return typed error objects\n   - Log at INFO level\n   - Show user-friendly messages\n\n2. **Unexpected errors** - System failures, network issues, etc.\n   - Log at ERROR level with full context\n   - Alert on-call if production\n   - Retry with exponential backoff\n\n### Error Response Format\n\nAll errors should include:\n"

def rel2 : String := "- \x60code\x60 - Machine-readable error code\n- \x60message\x60 - Human-readable message\n- \x60details\x60 - Additional context (safe for logging)\n- \x60requestId\x60 - Trace ID for debugging\n\n## Observability\n\n### Logging\n\nUse structured logging:\n\x60\x60\x60javascript\nlogger.info(\x7b\n  event: \x27user_login\x27,\n  userId: \x27123\x27,\n  duration: 45,\n  success: true\n\x7d);\n\x60\x60\x60\n\n**Log Levels:**\n- **DEBUG** - Detailed debugging (not in production)\n- **INFO** - Normal operations\n- **WARN** - Potential issues (rate limits, retries)\n- **ERROR** - Failures requiring attention\n\n### Metrics\n\nTrack:\n- **Request latency** (p50, p95, p99)\n- **Error rate** (% of failed requests)\n- **Throughput** (requests per second)\n- **Resource usage** (CPU, memory, database connections)\n\n### Tracing\n\n- Generate trace ID for every request\n- Propagate trace ID across services\n"

def rel3 : String := "- Emit spans for all significant operations\n\n## Performance Requirements\n\n### Latency Budgets\n\n| Operation | p50 | p95 | p99 |\n|-----------|-----|-----|-----|\n| API requests | < 100ms | < 300ms | < 1s |\n| Database queries | < 50ms | < 150ms | < 500ms |\n| Background jobs | < 5s | < 30s | < 2m |\n\n### Resource Limits\n\n- **Memory** - Monitor heap usage, set max heap size\n- **CPU** - Alert on sustained > 70% usage\n- **Connections** - Pool and limit database/external connections\n\n## Retry & Circuit Breaker\n\n### Retry Strategy\n- Exponential backoff: 100ms, 200ms, 400ms, 800ms\n- Max retries: 3\n- Jitter: ±25% to prevent thundering herd\n\n### Circuit Breaker\n- **Closed** (normal): Requests flow through\n- **Open** (failing): Fast-fail without attempting request\n"

def rel4 : String := "- **Half-open** (recovering): Allow limited requests to test recovery\n\n## Deployment Safety\n\n1. **Gradual rollout** - Deploy to small % of traffic first\n2. **Health checks** - Automated health endpoint\n3. **Rollback plan** - One-click rollback if needed\n4. **Database migrations** - Backward-compatible, run before code deploy\n\n## Incident Response\n\nWhen production issues occur:\n1. **Mitigate** - Stop the bleeding (rollback, scale up, etc.)\n2. **Investigate** - Use logs, metrics, traces to find root cause\n3. **Resolve** - Fix the underlying issue\n4. **Document** - Write postmortem (what, why, how to prevent)\n5. **Follow-up** - Implement prevention tasks\n\n---\n\n*Reliability is not optional. These standards apply to all production code.*\n"

def sec1 : String := "# Security Guidelines\n\n**Security principles and practices for this codebase.**\n\n## Security Posture\n\n1. **Zero trust** - Never trust user input\n2. **Least privilege** - Minimal access rights\n3. **Defense in depth** - Multiple security layers\n4. **Secure by default** - Safe defaults, opt-in to dangerous operations\n\n## Input Validation\n\n### Validation Rules\n\n1. **Validate all inputs** - User data, API requests, file uploads, etc.\n2. **Whitelist over blacklist** - Define what\x27s allowed, reject everything else\n3. **Parse at boundaries** - Validate external data at system entry points\n4. **Type safety** - Use schema validation (Zod, Yup, etc.)\n\n### Common Vulnerabilities to Prevent\n\n- **SQL Injection** - Use parameterized queries, never string interpolation\n- **XSS** - Escape all user content, use CSP headers\n"

def sec2 : String := "- **CSRF** - Use CSRF tokens for state-changing operations\n- **Command Injection** - Never pass user input to shell commands\n- **Path Traversal** - Validate file paths, use allowlist for file access\n\n## Authentication & Authorization\n\n### Authentication\n- **Password storage** - bcrypt/argon2 with salt\n- **Session management** - Secure, httpOnly cookies\n- **Token expiry** - Short-lived access tokens, refresh tokens\n\n### Authorization\n- **Role-based access control (RBAC)** - Define roles and permissions\n- **Principle of least privilege** - Users/services get minimum necessary access\n- **Authorization checks** - Verify permissions on every request\n\n## Secrets Management\n\n### Rules\n1. **Never commit secrets** - No API keys, passwords, tokens in code\n"

def sec3 : String := "2. **Use environment variables** - Load secrets from env at runtime\n3. **Rotate secrets** - Regular rotation schedule\n4. **Limit secret scope** - Separate secrets per environment\n\n### .env Files\n- \x60.env\x60 - Never commit (add to .gitignore)\n- \x60.env.example\x60 - Template without real values (safe to commit)\n\n## Data Protection\n\n### Data Classification\n- **Public** - Anyone can see\n- **Internal** - Employees only\n- **Confidential** - Need-to-know basis\n- **Restricted** - Legal/compliance requirements\n\n### Encryption\n- **In transit** - TLS 1.3 for all network traffic\n- **At rest** - Encrypt sensitive data in database\n\n## API Security\n\n1. **Rate limiting** - Prevent abuse (e.g., 100 req/min per IP)\n2. **Input validation** - Validate request bodies, query params, headers\n"

def sec4 : String := "3. **Output encoding** - Prevent XSS in API responses\n4. **CORS** - Restrict allowed origins\n\n## Dependency Security\n\n1. **Audit dependencies** - Run \x60npm audit\x60 / \x60bun audit\x60 regularly\n2. **Update regularly** - Keep dependencies up to date\n3. **Minimal dependencies** - Fewer dependencies = smaller attack surface\n4. **Verify integrity** - Use lock files, verify package signatures\n\n## Security Testing\n\n1. **Static analysis** - Linters catch common vulnerabilities\n2. **Dependency scanning** - Automated vulnerability scanning in CI\n3. **Manual review** - Security-critical code gets human review\n4. **Penetration testing** - Regular security audits\n\n## Security Incident Response\n\nIf you discover a security vulnerability:\n1. **Do not publish** - Keep it private\n2. **Assess impact** - How severe is it?\n"

def sec5 : String := "3. **Fix immediately** - Security bugs are P0\n4. **Notify users** - If user data was exposed\n5. **Postmortem** - How did it happen? How to prevent?\n\n## Security Checklist\n\nBefore deploying:\n- [ ] All inputs validated\n- [ ] No secrets in code\n- [ ] Authentication/authorization implemented\n- [ ] HTTPS enforced\n- [ ] Security headers set (CSP, HSTS, etc.)\n- [ ] Rate limiting enabled\n- [ ] Dependencies audited\n- [ ] Error messages don\x27t leak sensitive info\n\n---\n\n*Security is everyone\x27s responsibility. When in doubt, ask for a security review.*\n"

def ddoc1 : String := "# [Feature/Component Name]\n\n**Status:** [Draft | In Review | Approved | Implemented | Deprecated]\n**Author:** [Agent/Human]\n**Created:** YYYY-MM-DD\n**Last Updated:** YYYY-MM-DD\n\n## Overview\n\nBrief 2-3 sentence summary of what this design document covers.\n\n## Context & Motivation\n\n### Problem Statement\nWhat problem are we solving? Why does it need to be solved?\n\n### Current State\nWhat exists today? What are the pain points?\n\n### Goals\n- What are we trying to achieve?\n- What does success look like?\n\n### Non-Goals\n- What are we explicitly not solving?\n- What\x27s out of scope?\n\n## Proposed Design\n\n### High-Level Approach\nDescribe the solution at a conceptual level.\n\n### Detailed Design\n\n#### Component/Module Structure\n\x60\x60\x60\n[Diagram or code structure]\n\x60\x60\x60\n\n#### Data Models\n\x60\x60\x60typescript\n"

def ddoc2 : String := "// Type definitions, schemas, etc.\n\x60\x60\x60\n\n#### API/Interface\n\x60\x60\x60typescript\n// Public interfaces\n\x60\x60\x60\n\n#### Implementation Details\nKey technical decisions and how things work internally.\n\n## Alternatives Considered\n\n### Alternative 1: [Name]\n**Pros:**\n- ...\n\n**Cons:**\n- ...\n\n**Why not chosen:** ...\n\n### Alternative 2: [Name]\n**Pros:**\n- ...\n\n**Cons:**\n- ...\n\n**Why not chosen:** ...\n\n## Tradeoffs & Decisions\n\n| Decision | Rationale | Tradeoffs |\n|----------|-----------|-----------|\n| Example  | Why       | What we gain vs lose |\n\n## Implementation Plan\n\n1. **Phase 1:** ...\n2. **Phase 2:** ...\n3. **Phase 3:** ...\n\n## Testing Strategy\n\n- **Unit tests:** What will be unit tested?\n- **Integration tests:** What will be integration tested?\n- **Edge cases:** What edge cases need coverage?\n\n## Security Considerations\n\n"

def ddoc3 : String := "- What security implications does this have?\n- What mitigations are in place?\n\n## Performance Implications\n\n- What is the performance impact?\n- Are there any bottlenecks?\n- What monitoring is needed?\n\n## Rollout Plan\n\n- How will this be deployed?\n- Is there a gradual rollout strategy?\n- What metrics will we track?\n\n## Open Questions\n\n- [ ] Question 1?\n- [ ] Question 2?\n\n## References\n\n- [Related design doc](./other-doc.md)\n- [External reference](https://example.com)\n\n---\n\n*Update this document as the design evolves during implementation.*\n"

def eplan1 : String := "# [Feature/Task Name]\n\n**Status:** [Draft | In Review | Approved | In Progress | Completed]\n**Owner:** [Agent/Human]\n**Created:** YYYY-MM-DD\n**Target Completion:** YYYY-MM-DD\n**Actual Completion:** YYYY-MM-DD (if completed)\n\n## Context\n\n### What are we building?\nBrief description of the feature/task.\n\n### Why are we building it?\nUser need, business value, or technical requirement.\n\n### Success Criteria\n- [ ] Criterion 1\n- [ ] Criterion 2\n- [ ] Criterion 3\n\n## Approach\n\n### High-Level Strategy\nHow will we approach this work?\n\n### Key Decisions\n| Decision | Rationale | Alternatives Considered |\n|----------|-----------|-------------------------|\n| Example  | Why       | What else we could do   |\n\n### Dependencies\n- **Blocks:** What this work depends on\n- **Blocked by:** What depends on this work\n\n"

def eplan2 : String := "## Implementation Tasks\n\n### Phase 1: [Phase Name]\n- [ ] Task 1 (Complexity: S/M/L)\n- [ ] Task 2 (Complexity: S/M/L)\n- [ ] Task 3 (Complexity: S/M/L)\n\n### Phase 2: [Phase Name]\n- [ ] Task 1 (Complexity: S/M/L)\n- [ ] Task 2 (Complexity: S/M/L)\n\n### Phase 3: [Phase Name]\n- [ ] Task 1 (Complexity: S/M/L)\n\n**Complexity Legend:**\n- S (Small): < 2 hours\n- M (Medium): 2-8 hours\n- L (Large): > 8 hours\n\n## Validation Plan\n\n### Testing\n- What tests will be written?\n- How will we validate correctness?\n\n### Quality Checks\n- [ ] Tests pass\n- [ ] Linters pass\n- [ ] Documentation updated\n- [ ] Performance benchmarks met\n\n### Acceptance Criteria\n- [ ] Feature works on happy path\n- [ ] Error cases handled\n- [ ] Edge cases covered\n- [ ] Performance meets requirements\n\n## Risks & Mitigations\n\n"

def eplan3 : String := "| Risk | Likelihood | Impact | Mitigation |\n|------|------------|--------|------------|\n| Example risk | Medium | High | How we\x27ll handle it |\n\n## Progress Log\n\n### YYYY-MM-DD\n- Started Phase 1\n- Completed Task 1\n- Discovered issue with X, created tech debt entry\n\n### YYYY-MM-DD\n- Completed Phase 1\n- Started Phase 2\n\n## Decision Log\n\n### YYYY-MM-DD: [Decision Title]\n**Context:** What prompted this decision\n**Decision:** What we decided\n**Rationale:** Why we made this choice\n**Impact:** How this affects the plan\n\n## Learnings\n\n### What Went Well\n- ...\n\n### What Could Be Improved\n- ...\n\n### What We Learned\n- ...\n\n---\n\n*Move to \x60docs/exec-plans/completed/\x60 when finished.*\n"

def pspec1 : String := "# [Feature Name]\n\n**Status:** [Draft | In Review | Approved | In Development | Shipped]\n**Owner:** [Product/Human]\n**Created:** YYYY-MM-DD\n**Target Ship:** YYYY-MM-DD\n\n## Overview\n\nOne-paragraph summary of what this feature is and why it matters.\n\n## Problem Statement\n\n### User Pain Point\nWhat problem do users have today?\n\n### Evidence\nHow do we know this is a problem? (User feedback, data, support tickets, etc.)\n\n### Impact\nWho is affected? How many users?\n\n## Goals\n\n### User Goals\nWhat does the user want to accomplish?\n\n### Business Goals\nWhat business metric does this move?\n\n### Success Metrics\nHow will we measure success?\n- Metric 1: Target value\n- Metric 2: Target value\n\n## User Stories\n\n### Primary User Story\n**As a** [type of user]\n**I want** [goal]\n**So that** [benefit]\n\n### Additional User Stories\n"

def pspec2 : String := "- **As a** ... **I want** ... **So that** ...\n- **As a** ... **I want** ... **So that** ...\n\n## User Experience\n\n### User Flow\n1. User does X\n2. System responds with Y\n3. User sees Z\n\n### Mockups/Wireframes\n[Link to designs or embed images]\n\n### Edge Cases\n- What happens if X?\n- What if user does Y?\n\n## Requirements\n\n### Functional Requirements\n- [ ] Requirement 1\n- [ ] Requirement 2\n- [ ] Requirement 3\n\n### Non-Functional Requirements\n- [ ] Performance: < Xms response time\n- [ ] Accessibility: WCAG 2.1 AA compliant\n- [ ] Security: [Specific security requirements]\n\n### Out of Scope\n- Explicitly not included in this version\n\n## Technical Considerations\n\n### Technical Constraints\nAny technical limitations or requirements?\n\n### Dependencies\nWhat other systems/features does this depend on?\n\n### Data Requirements\n"

def pspec3 : String := "What data do we need to collect/store?\n\n## Acceptance Criteria\n\n- [ ] User can accomplish X\n- [ ] Error case Y is handled gracefully\n- [ ] Performance meets Z requirement\n- [ ] Accessible via keyboard\n- [ ] Works on mobile and desktop\n\n## Launch Plan\n\n### Phased Rollout\n1. **Phase 1:** Internal testing\n2. **Phase 2:** Beta users (X% of traffic)\n3. **Phase 3:** General availability\n\n### Monitoring\nWhat metrics/logs will we track post-launch?\n\n### Rollback Plan\nHow do we turn this off if needed?\n\n## Open Questions\n\n- [ ] Question 1?\n- [ ] Question 2?\n\n## References\n\n- [Related product spec](./other-spec.md)\n- [User research](link)\n- [Design mockups](link)\n\n---\n\n*Update this spec as requirements evolve.*\n"

def tdebt1 : String := "# Technical Debt Tracker\n\n**Last Updated:** YYYY-MM-DD\n\n## Active Technical Debt\n\n### P0 - Critical (Must Fix)\n| Item | Description | Impact | Created | Owner | Tracked In |\n|------|-------------|--------|---------|-------|------------|\n| TBD  | Description | High   | Date    | Agent/Human | Issue/PR |\n\n### P1 - High Priority (Fix Soon)\n| Item | Description | Impact | Created | Owner | Tracked In |\n|------|-------------|--------|---------|-------|------------|\n| TBD  | Description | Medium | Date    | Agent/Human | Issue/PR |\n\n### P2 - Medium Priority (Plan to Fix)\n| Item | Description | Impact | Created | Owner | Tracked In |\n|------|-------------|--------|---------|-------|------------|\n| TBD  | Description | Low-Medium | Date | Agent/Human | Issue/PR |\n\n### P3 - Low Priority (Nice to Have)\n"

def tdebt2 : String := "| Item | Description | Impact | Created | Owner | Tracked In |\n|------|-------------|--------|---------|-------|------------|\n| TBD  | Description | Low    | Date    | Agent/Human | Issue/PR |\n\n## Debt Categories\n\n### Code Quality\n- Duplicated code that should be abstracted\n- Complex functions that need refactoring\n- Missing error handling\n- Inconsistent patterns\n\n### Testing\n- Missing test coverage\n- Flaky tests\n- Test infrastructure improvements\n\n### Documentation\n- Outdated documentation\n- Missing API documentation\n- Unclear code comments\n\n### Performance\n- Known performance bottlenecks\n- Missing performance monitoring\n- Unoptimized queries\n\n### Security\n- Known security vulnerabilities\n- Missing security controls\n- Outdated dependencies\n\n### Infrastructure\n- Configuration management issues\n"

def tdebt3 : String := "- Missing monitoring/alerting\n- Deployment process improvements\n\n## Resolved Debt (Recent)\n\n| Item | Description | Resolved Date | PR | Learnings |\n|------|-------------|---------------|-------|-----------|\n| TBD  | What was fixed | YYYY-MM-DD | #123 | What we learned |\n\n## Debt Prevention\n\n### Golden Principles\n1. **No duplicate code** - Extract to shared utilities\n2. **Parse at boundaries** - Validate all external data\n3. **Consistent error handling** - Use standard error patterns\n4. **Automated cleanup** - Run cleanup agents weekly\n\n### Automated Checks\n- Linters catch common issues\n- CI validates documentation freshness\n- Dependency audits run daily\n- Quality scores tracked weekly\n\n---\n\n*This tracker is maintained by humans and agents. Update when you identify or resolve technical debt.*\n"

def cbel1 : String := "# Core Beliefs\n\n**Fundamental principles for agent-first development in this repository.**\n\nLast Updated: YYYY-MM-DD\n\n## Agent-First Operating Principles\n\n### 1. Repository is the Source of Truth\n**Belief:** If it\x27s not in the repository, it doesn\x27t exist to agents.\n\n**Implications:**\n- All knowledge must be versioned in the repository\n- Slack discussions must be captured in design docs\n- External docs must be extracted to \x60docs/references/\x60\n- Decisions must be documented, not just discussed\n\n### 2. Progressive Disclosure\n**Belief:** Give agents a map, not an encyclopedia.\n\n**Implications:**\n- AGENTS.md is a table of contents (~100 lines)\n- Detailed docs live in \x60docs/\x60 directory\n- Links provide navigation, not inline walls of text\n- Context grows as needed, not all up-front\n\n### 3. Enforce Mechanically\n"

def cbel2 : String := "**Belief:** Linters and tests are better than manual review.\n\n**Implications:**\n- Architectural constraints are enforced by custom linters\n- Documentation freshness is validated in CI\n- Code quality is measured automatically\n- Humans review judgment calls, not mechanical issues\n\n### 4. Agent Legibility First\n**Belief:** Optimize for agent reasoning, not just human aesthetics.\n\n**Implications:**\n- Structure and patterns matter more than style\n- Consistency enables pattern recognition\n- Explicit is better than implicit\n- Documentation explains \"why,\" not \"what\"\n\n### 5. Continuous Cleanup\n**Belief:** Technical debt is like interest—pay it down continuously.\n\n**Implications:**\n- Automated cleanup runs regularly\n- Bad patterns are fixed as soon as spotted\n- Quality scores track drift over time\n"

def cbel3 : String := "- \"Friday cleanup\" is automated, not manual\n\n### 6. Real Environments Over Mocks\n**Belief:** Tests should validate real behavior, not mocked behavior.\n\n**Implications:**\n- Use Docker for databases, Redis, external services\n- Integration tests over unit tests\n- Validate actual contracts, not assumptions\n- Local dev mirrors production\n\n### 7. Boring Technology Wins\n**Belief:** Predictable, well-documented tools are better than exciting new ones.\n\n**Implications:**\n- Prefer standard libraries over cutting-edge frameworks\n- Choose technologies agents can reason about\n- Stability and composability over novelty\n- Internalize when external is too opaque\n\n### 8. Strict Boundaries, Flexible Internals\n**Belief:** Enforce constraints at boundaries, allow autonomy within them.\n\n**Implications:**\n"

def cbel4 : String := "- Layered architecture is non-negotiable\n- Within layers, implementation details are flexible\n- Cross-cutting concerns go through explicit interfaces\n- Dependency directions are enforced, not suggested\n\n### 9. Feedback Loops are Multipliers\n**Belief:** Fast, automated feedback enables speed without chaos.\n\n**Implications:**\n- CI validates every PR\n- Agents can test their own changes\n- Chrome DevTools lets agents drive the UI\n- Observability stack makes behavior visible\n\n### 10. Documentation is Code\n**Belief:** Docs are not second-class citizens—they are part of the system.\n\n**Implications:**\n- Docs are versioned with code\n- Stale docs break CI\n- Documentation gaps are treated as bugs\n- Design docs are reviewed like code\n\n## Anti-Patterns to Avoid\n\n### ❌ The \"One Big AGENTS.md\"\n"

def cbel5 : String := "- **Problem:** Crowds out context, impossible to maintain\n- **Solution:** AGENTS.md as table of contents, detailed docs in \x60docs/\x60\n\n### ❌ Relying on External Knowledge\n- **Problem:** Agents can\x27t access Slack, Google Docs, or tribal knowledge\n- **Solution:** Everything must be in-repo and discoverable\n\n### ❌ Mocking Everything\n- **Problem:** Tests pass but real code breaks\n- **Solution:** Use Docker for real infrastructure in tests\n\n### ❌ Manual Quality Gates\n- **Problem:** Doesn\x27t scale, blocks throughput\n- **Solution:** Automate checks, make failures obvious\n\n### ❌ Letting Debt Compound\n- **Problem:** Becomes overwhelming, requires painful cleanup\n- **Solution:** Continuous automated cleanup, fix patterns early\n\n## Evolution of Beliefs\n\n"

def cbel6 : String := "These beliefs are living principles. As we learn what works and what doesn\x27t, we update them.\n\n### Change Log\n\n| Date | Change | Rationale |\n|------|--------|-----------|\n| YYYY-MM-DD | Initial beliefs documented | Establish foundation |\n\n---\n\n*These beliefs guide all architectural and process decisions. Challenge them when they don\x27t serve us.*\n"

def gi1 : String := "# Dependencies\nnode_modules/\n.pnp\n.pnp.js\n\n# Testing\ncoverage/\n.nyc_output\n\n# Production\nbuild/\ndist/\n*.log\n\n# Environment variables\n.env\n.env.local\n.env.development.local\n.env.test.local\n.env.production.local\n\n# IDE\n.vscode/\n.idea/\n*.swp\n*.swo\n*~\n\n# OS\n.DS_Store\nThumbs.db\n\n# Generated files (but keep the directory)\ndocs/generated/*\n!docs/generated/.gitkeep\n"

def biome1 : String := "\x7b\n  \"$schema\": \"https://biomejs.dev/schemas/1.9.4/schema.json\",\n  \"vcs\": \x7b\n    \"enabled\": true,\n    \"clientKind\": \"git\",\n    \"useIgnoreFile\": true\n  \x7d,\n  \"files\": \x7b\n    \"ignoreUnknown\": false,\n    \"ignore\": [\"node_modules\", \"dist\", \"build\", \".next\", \"coverage\"]\n  \x7d,\n  \"formatter\": \x7b\n    \"enabled\": true,\n    \"indentStyle\": \"tab\",\n    \"indentWidth\": 2,\n    \"lineWidth\": 80\n  \x7d,\n  \"organizeImports\": \x7b\n    \"enabled\": true\n  \x7d,\n  \"linter\": \x7b\n    \"enabled\": true,\n    \"rules\": \x7b\n      \"recommended\": true,\n      \"complexity\": \x7b\n        \"noExtraBooleanCast\": \"error\",\n        \"noMultipleSpacesInRegularExpressionLiterals\": \"error\",\n        \"noUselessCatch\": \"error\",\n        \"noWith\": \"error\"\n      \x7d,\n      \"correctness\": \x7b\n        \"noConstAssign\": \"error\",\n        \"noConstantCondition\": \"error\",\n"

def biome2 : String := "        \"noEmptyCharacterClassInRegex\": \"error\",\n        \"noEmptyPattern\": \"error\",\n        \"noGlobalObjectCalls\": \"error\",\n        \"noInvalidConstructorSuper\": \"error\",\n        \"noInvalidNewBuiltin\": \"error\",\n        \"noNonoctalDecimalEscape\": \"error\",\n        \"noPrecisionLoss\": \"error\",\n        \"noSelfAssign\": \"error\",\n        \"noSetterReturn\": \"error\",\n        \"noSwitchDeclarations\": \"error\",\n        \"noUndeclaredVariables\": \"error\",\n        \"noUnreachable\": \"error\",\n        \"noUnreachableSuper\": \"error\",\n        \"noUnsafeFinally\": \"error\",\n        \"noUnsafeOptionalChaining\": \"error\",\n        \"noUnusedLabels\": \"error\",\n        \"noUnusedVariables\": \"warn\",\n        \"useIsNan\": \"error\",\n        \"useValidForDirection\": \"error\",\n        \"useYield\": \"error\"\n      \x7d,\n      \"style\": \x7b\n"

def biome3 : String := "        \"noNamespace\": \"error\",\n        \"useAsConstAssertion\": \"error\",\n        \"useBlockStatements\": \"off\",\n        \"useConsistentArrayType\": \"off\",\n        \"useForOf\": \"warn\",\n        \"useShorthandFunctionType\": \"error\"\n      \x7d,\n      \"suspicious\": \x7b\n        \"noAsyncPromiseExecutor\": \"error\",\n        \"noCatchAssign\": \"error\",\n        \"noClassAssign\": \"error\",\n        \"noCompareNegZero\": \"error\",\n        \"noControlCharactersInRegex\": \"error\",\n        \"noDebugger\": \"error\",\n        \"noDuplicateCase\": \"error\",\n        \"noDuplicateClassMembers\": \"error\",\n        \"noDuplicateObjectKeys\": \"error\",\n        \"noDuplicateParameters\": \"error\",\n        \"noEmptyBlockStatements\": \"error\",\n        \"noExplicitAny\": \"warn\",\n        \"noExtraNonNullAssertion\": \"error\",\n        \"noFallthroughSwitchClause\": \"error\",\n"

def biome4 : String := "        \"noFunctionAssign\": \"error\",\n        \"noGlobalAssign\": \"error\",\n        \"noImportAssign\": \"error\",\n        \"noMisleadingCharacterClass\": \"error\",\n        \"noMisleadingInstantiator\": \"error\",\n        \"noPrototypeBuiltins\": \"error\",\n        \"noRedeclare\": \"error\",\n        \"noShadowRestrictedNames\": \"error\",\n        \"noUnsafeDeclarationMerging\": \"error\",\n        \"noUnsafeNegation\": \"error\",\n        \"useGetterReturn\": \"error\",\n        \"useValidTypeof\": \"error\"\n      \x7d\n    \x7d\n  \x7d,\n  \"javascript\": \x7b\n    \"formatter\": \x7b\n      \"quoteStyle\": \"single\",\n      \"trailingCommas\": \"all\",\n      \"semicolons\": \"always\",\n      \"arrowParentheses\": \"always\"\n    \x7d\n  \x7d\n\x7d\n"

def mlc1 : String := "\x7b\n  \"ignorePatterns\": [\n    \x7b\n      \"pattern\": \"^http://localhost\"\n    \x7d,\n    \x7b\n      \"pattern\": \"^https://localhost\"\n    \x7d\n  ],\n  \"replacementPatterns\": [],\n  \"httpHeaders\": [],\n  \"timeout\": \"5s\",\n  \"retryOn429\": true,\n  \"retryCount\": 3,\n  \"fallbackRetryDelay\": \"5s\",\n  \"aliveStatusCodes\": [200, 206]\n\x7d\n"

def vsTs1 : String := "#!/usr/bin/env tsx\n/**\n * Structure Validation Script\n * Validates the agent-first project structure and documentation\n */\n\nimport \x7b existsSync, readdirSync, readFileSync, statSync \x7d from \x27node:fs\x27;\nimport \x7b join \x7d from \x27node:path\x27;\n\ninterface ValidationResult \x7b\n\tpassed: boolean;\n\tmessage: string;\n\x7d\n\nclass StructureValidator \x7b\n\tprivate rootDir: string;\n\tprivate errors: string[] = [];\n\tprivate warnings: string[] = [];\n\n\tconstructor(rootDir: string = process.cwd()) \x7b\n\t\tthis.rootDir = rootDir;\n\t\x7d\n\n\tvalidate(): boolean \x7b\n\t\tconsole.log(\x27🔍 Validating project structure...\\n\x27);\n\n\t\tthis.validateRootDocs();\n\t\tthis.validateDocsStructure();\n\t\tthis.validateCrossLinks();\n\t\tthis.validateDocFreshness();\n\n\t\tthis.printResults();\n\n\t\treturn this.errors.length === 0;\n\t\x7d\n\n\tprivate validateRootDocs(): void \x7b\n"

def vsTs2 : String := "\t\tconst requiredDocs = [\n\t\t\t\x27AGENTS.md\x27,\n\t\t\t\x27CLAUDE.md\x27,\n\t\t\t\x27ARCHITECTURE.md\x27,\n\t\t\t\x27DESIGN.md\x27,\n\t\t\t\x27PLANS.md\x27,\n\t\t\t\x27PRODUCT_SENSE.md\x27,\n\t\t\t\x27QUALITY_SCORE.md\x27,\n\t\t\t\x27RELIABILITY.md\x27,\n\t\t\t\x27SECURITY.md\x27,\n\t\t];\n\n\t\tfor (const doc of requiredDocs) \x7b\n\t\t\tif (!existsSync(join(this.rootDir, doc))) \x7b\n\t\t\t\tthis.errors.push(\x60Missing required document: $\x7bdoc\x7d\x60);\n\t\t\t\x7d\n\t\t\x7d\n\n\t\t// Validate AGENTS.md and CLAUDE.md are identical\n\t\tif (\n\t\t\texistsSync(join(this.rootDir, \x27AGENTS.md\x27)) &&\n\t\t\texistsSync(join(this.rootDir, \x27CLAUDE.md\x27))\n\t\t) \x7b\n\t\t\tconst agentsContent = readFileSync(\n\t\t\t\tjoin(this.rootDir, \x27AGENTS.md\x27),\n\t\t\t\t\x27utf-8\x27,\n\t\t\t);\n\t\t\tconst claudeContent = readFileSync(\n\t\t\t\tjoin(this.rootDir, \x27CLAUDE.md\x27),\n\t\t\t\t\x27utf-8\x27,\n\t\t\t);\n\n\t\t\tif (agentsContent !== claudeContent) \x7b\n\t\t\t\tthis.errors.push(\x27AGENTS.md and CLAUDE.md must be identical\x27);\n\t\t\t\x7d\n"

def vsTs3 : String := "\t\t\x7d\n\n\t\t// Validate AGENTS.md is roughly 100 lines (allow some variance)\n\t\tif (existsSync(join(this.rootDir, \x27AGENTS.md\x27))) \x7b\n\t\t\tconst agentsContent = readFileSync(\n\t\t\t\tjoin(this.rootDir, \x27AGENTS.md\x27),\n\t\t\t\t\x27utf-8\x27,\n\t\t\t);\n\t\t\tconst lineCount = agentsContent.split(\x27\\n\x27).length;\n\n\t\t\tif (lineCount > 150) \x7b\n\t\t\t\tthis.warnings.push(\n\t\t\t\t\t\x60AGENTS.md is $\x7blineCount\x7d lines (recommended: ~100 lines). Consider moving details to docs/\x60,\n\t\t\t\t);\n\t\t\t\x7d\n\t\t\x7d\n\t\x7d\n\n\tprivate validateDocsStructure(): void \x7b\n\t\tconst requiredDirs = [\n\t\t\t\x27docs/design-docs\x27,\n\t\t\t\x27docs/exec-plans/active\x27,\n\t\t\t\x27docs/exec-plans/completed\x27,\n\t\t\t\x27docs/product-specs\x27,\n\t\t\t\x27docs/references\x27,\n\t\t\t\x27docs/generated\x27,\n\t\t];\n\n\t\tfor (const dir of requiredDirs) \x7b\n\t\t\tif (!existsSync(join(this.rootDir, dir))) \x7b\n\t\t\t\tthis.errors.push(\x60Missing required directory: $\x7bdir\x7d\x60);\n\t\t\t\x7d\n"

def vsTs4 : String := "\t\t\x7d\n\n\t\t// Validate index files exist\n\t\tconst requiredIndexes = [\n\t\t\t\x27docs/design-docs/index.md\x27,\n\t\t\t\x27docs/product-specs/index.md\x27,\n\t\t];\n\n\t\tfor (const index of requiredIndexes) \x7b\n\t\t\tif (!existsSync(join(this.rootDir, index))) \x7b\n\t\t\t\tthis.warnings.push(\x60Missing index file: $\x7bindex\x7d\x60);\n\t\t\t\x7d\n\t\t\x7d\n\t\x7d\n\n\tprivate validateCrossLinks(): void \x7b\n\t\t// Basic validation: check that referenced files exist\n\t\tconst agentsPath = join(this.rootDir, \x27AGENTS.md\x27);\n\t\tif (!existsSync(agentsPath)) return;\n\n\t\tconst agentsContent = readFileSync(agentsPath, \x27utf-8\x27);\n\t\tconst linkRegex = /\\[([^\\]]+)\\]\\(([^)]+)\\)/g;\n\t\tlet match: RegExpExecArray | null;\n\n\t\twhile ((match = linkRegex.exec(agentsContent)) !== null) \x7b\n\t\t\tconst linkPath = match[2];\n\n\t\t\t// Skip external links\n\t\t\tif (linkPath.startsWith(\x27http\x27)) continue;\n\n"

def vsTs5 : String := "\t\t\tconst fullPath = join(this.rootDir, linkPath);\n\t\t\tif (!existsSync(fullPath)) \x7b\n\t\t\t\tthis.warnings.push(\n\t\t\t\t\t\x60Broken link in AGENTS.md: $\x7blinkPath\x7d\x60,\n\t\t\t\t);\n\t\t\t\x7d\n\t\t\x7d\n\t\x7d\n\n\tprivate validateDocFreshness(): void \x7b\n\t\t// Check that design docs have been updated recently\n\t\tconst designDocsDir = join(this.rootDir, \x27docs/design-docs\x27);\n\t\tif (!existsSync(designDocsDir)) return;\n\n\t\tconst files = readdirSync(designDocsDir).filter((f) =>\n\t\t\tf.endsWith(\x27.md\x27),\n\t\t);\n\n\t\tif (files.length === 0) \x7b\n\t\t\tthis.warnings.push(\n\t\t\t\t\x27No design documents found in docs/design-docs/\x27,\n\t\t\t);\n\t\t\treturn;\n\t\t\x7d\n\n\t\tconst now = Date.now();\n\t\tconst sixMonths = 6 * 30 * 24 * 60 * 60 * 1000;\n\n\t\tfor (const file of files) \x7b\n\t\t\tif (file === \x27index.md\x27 || file === \x27template.md\x27) continue;\n\n\t\t\tconst filePath = join(designDocsDir, file);\n"

def vsTs6 : String := "\t\t\tconst stats = statSync(filePath);\n\t\t\tconst age = now - stats.mtimeMs;\n\n\t\t\tif (age > sixMonths) \x7b\n\t\t\t\tthis.warnings.push(\n\t\t\t\t\t\x60Design doc hasn\x27t been updated in 6+ months: $\x7bfile\x7d\x60,\n\t\t\t\t);\n\t\t\t\x7d\n\t\t\x7d\n\t\x7d\n\n\tprivate printResults(): void \x7b\n\t\tconsole.log(\x27\\n\x27 + \x27=\x27.repeat(60));\n\n\t\tif (this.errors.length === 0 && this.warnings.length === 0) \x7b\n\t\t\tconsole.log(\x27✅ All validation checks passed!\x27);\n\t\t\x7d else \x7b\n\t\t\tif (this.errors.length > 0) \x7b\n\t\t\t\tconsole.log(\x60\\n❌ Errors ($\x7bthis.errors.length\x7d):\\n\x60);\n\t\t\t\tfor (const error of this.errors) \x7b\n\t\t\t\t\tconsole.log(\x60  - $\x7berror\x7d\x60);\n\t\t\t\t\x7d\n\t\t\t\x7d\n\n\t\t\tif (this.warnings.length > 0) \x7b\n\t\t\t\tconsole.log(\x60\\n⚠️  Warnings ($\x7bthis.warnings.length\x7d):\\n\x60);\n\t\t\t\tfor (const warning of this.warnings) \x7b\n\t\t\t\t\tconsole.log(\x60  - $\x7bwarning\x7d\x60);\n\t\t\t\t\x7d\n\t\t\t\x7d\n\t\t\x7d\n\n\t\tconsole.log(\x27\\n\x27 + \x27=\x27.repeat(60) + \x27\\n\x27);\n\t\x7d\n"

def vsTs7 : String := "\x7d\n\n// Run validation\nconst validator = new StructureValidator();\nconst success = validator.validate();\n\nprocess.exit(success ? 0 : 1);\n"

def vsJs1 : String := "#!/usr/bin/env node\n/**\n * Structure Validation Script\n * Validates the agent-first project structure and documentation\n */\n\nimport \x7b existsSync, readdirSync, readFileSync, statSync \x7d from \x27node:fs\x27;\nimport \x7b join \x7d from \x27node:path\x27;\n\nclass StructureValidator \x7b\n\tconstructor(rootDir = process.cwd()) \x7b\n\t\tthis.rootDir = rootDir;\n\t\tthis.errors = [];\n\t\tthis.warnings = [];\n\t\x7d\n\n\tvalidate() \x7b\n\t\tconsole.log(\x27🔍 Validating project structure...\\n\x27);\n\n\t\tthis.validateRootDocs();\n\t\tthis.validateDocsStructure();\n\t\tthis.validateCrossLinks();\n\t\tthis.validateDocFreshness();\n\n\t\tthis.printResults();\n\n\t\treturn this.errors.length === 0;\n\t\x7d\n\n\tvalidateRootDocs() \x7b\n\t\tconst requiredDocs = [\n\t\t\t\x27AGENTS.md\x27,\n\t\t\t\x27CLAUDE.md\x27,\n\t\t\t\x27ARCHITECTURE.md\x27,\n\t\t\t\x27DESIGN.md\x27,\n\t\t\t\x27PLANS.md\x27,\n\t\t\t\x27PRODUCT_SENSE.md\x27,\n\t\t\t\x27QUALITY_SCORE.md\x27,\n"

def vsJs2 : String := "\t\t\t\x27RELIABILITY.md\x27,\n\t\t\t\x27SECURITY.md\x27,\n\t\t];\n\n\t\tfor (const doc of requiredDocs) \x7b\n\t\t\tif (!existsSync(join(this.rootDir, doc))) \x7b\n\t\t\t\tthis.errors.push(\x60Missing required document: $\x7bdoc\x7d\x60);\n\t\t\t\x7d\n\t\t\x7d\n\n\t\t// Validate AGENTS.md and CLAUDE.md are identical\n\t\tif (\n\t\t\texistsSync(join(this.rootDir, \x27AGENTS.md\x27)) &&\n\t\t\texistsSync(join(this.rootDir, \x27CLAUDE.md\x27))\n\t\t) \x7b\n\t\t\tconst agentsContent = readFileSync(\n\t\t\t\tjoin(this.rootDir, \x27AGENTS.md\x27),\n\t\t\t\t\x27utf-8\x27,\n\t\t\t);\n\t\t\tconst claudeContent = readFileSync(\n\t\t\t\tjoin(this.rootDir, \x27CLAUDE.md\x27),\n\t\t\t\t\x27utf-8\x27,\n\t\t\t);\n\n\t\t\tif (agentsContent !== claudeContent) \x7b\n\t\t\t\tthis.errors.push(\x27AGENTS.md and CLAUDE.md must be identical\x27);\n\t\t\t\x7d\n\t\t\x7d\n\n\t\t// Validate AGENTS.md is roughly 100 lines (allow some variance)\n\t\tif (existsSync(join(this.rootDir, \x27AGENTS.md\x27))) \x7b\n"

def vsJs3 : String := "\t\t\tconst agentsContent = readFileSync(\n\t\t\t\tjoin(this.rootDir, \x27AGENTS.md\x27),\n\t\t\t\t\x27utf-8\x27,\n\t\t\t);\n\t\t\tconst lineCount = agentsContent.split(\x27\\n\x27).length;\n\n\t\t\tif (lineCount > 150) \x7b\n\t\t\t\tthis.warnings.push(\n\t\t\t\t\t\x60AGENTS.md is $\x7blineCount\x7d lines (recommended: ~100 lines). Consider moving details to docs/\x60,\n\t\t\t\t);\n\t\t\t\x7d\n\t\t\x7d\n\t\x7d\n\n\tvalidateDocsStructure() \x7b\n\t\tconst requiredDirs = [\n\t\t\t\x27docs/design-docs\x27,\n\t\t\t\x27docs/exec-plans/active\x27,\n\t\t\t\x27docs/exec-plans/completed\x27,\n\t\t\t\x27docs/product-specs\x27,\n\t\t\t\x27docs/references\x27,\n\t\t\t\x27docs/generated\x27,\n\t\t];\n\n\t\tfor (const dir of requiredDirs) \x7b\n\t\t\tif (!existsSync(join(this.rootDir, dir))) \x7b\n\t\t\t\tthis.errors.push(\x60Missing required directory: $\x7bdir\x7d\x60);\n\t\t\t\x7d\n\t\t\x7d\n\n\t\t// Validate index files exist\n\t\tconst requiredIndexes = [\n\t\t\t\x27docs/design-docs/index.md\x27,\n\t\t\t\x27docs/product-specs/index.md\x27,\n\t\t];\n\n"

def vsJs4 : String := "\t\tfor (const index of requiredIndexes) \x7b\n\t\t\tif (!existsSync(join(this.rootDir, index))) \x7b\n\t\t\t\tthis.warnings.push(\x60Missing index file: $\x7bindex\x7d\x60);\n\t\t\t\x7d\n\t\t\x7d\n\t\x7d\n\n\tvalidateCrossLinks() \x7b\n\t\t// Basic validation: check that referenced files exist\n\t\tconst agentsPath = join(this.rootDir, \x27AGENTS.md\x27);\n\t\tif (!existsSync(agentsPath)) return;\n\n\t\tconst agentsContent = readFileSync(agentsPath, \x27utf-8\x27);\n\t\tconst linkRegex = /\\[([^\\]]+)\\]\\(([^)]+)\\)/g;\n\t\tlet match;\n\n\t\twhile ((match = linkRegex.exec(agentsContent)) !== null) \x7b\n\t\t\tconst linkPath = match[2];\n\n\t\t\t// Skip external links\n\t\t\tif (linkPath.startsWith(\x27http\x27)) continue;\n\n\t\t\tconst fullPath = join(this.rootDir, linkPath);\n\t\t\tif (!existsSync(fullPath)) \x7b\n\t\t\t\tthis.warnings.push(\n\t\t\t\t\t\x60Broken link in AGENTS.md: $\x7blinkPath\x7d\x60,\n\t\t\t\t);\n\t\t\t\x7d\n\t\t\x7d\n\t\x7d\n\n\tvalidateDocFreshness() \x7b\n"

def vsJs5 : String := "\t\t// Check that design docs have been updated recently\n\t\tconst designDocsDir = join(this.rootDir, \x27docs/design-docs\x27);\n\t\tif (!existsSync(designDocsDir)) return;\n\n\t\tconst files = readdirSync(designDocsDir).filter((f) =>\n\t\t\tf.endsWith(\x27.md\x27),\n\t\t);\n\n\t\tif (files.length === 0) \x7b\n\t\t\tthis.warnings.push(\n\t\t\t\t\x27No design documents found in docs/design-docs/\x27,\n\t\t\t);\n\t\t\treturn;\n\t\t\x7d\n\n\t\tconst now = Date.now();\n\t\tconst sixMonths = 6 * 30 * 24 * 60 * 60 * 1000;\n\n\t\tfor (const file of files) \x7b\n\t\t\tif (file === \x27index.md\x27 || file === \x27template.md\x27) continue;\n\n\t\t\tconst filePath = join(designDocsDir, file);\n\t\t\tconst stats = statSync(filePath);\n\t\t\tconst age = now - stats.mtimeMs;\n\n\t\t\tif (age > sixMonths) \x7b\n\t\t\t\tthis.warnings.push(\n\t\t\t\t\t\x60Design doc hasn\x27t been updated in 6+ months: $\x7bfile\x7d\x60,\n\t\t\t\t);\n\t\t\t\x7d\n\t\t\x7d\n\t\x7d\n\n\tprintResults() \x7b\n"

def vsJs6 : String := "\t\tconsole.log(\x27\\n\x27 + \x27=\x27.repeat(60));\n\n\t\tif (this.errors.length === 0 && this.warnings.length === 0) \x7b\n\t\t\tconsole.log(\x27✅ All validation checks passed!\x27);\n\t\t\x7d else \x7b\n\t\t\tif (this.errors.length > 0) \x7b\n\t\t\t\tconsole.log(\x60\\n❌ Errors ($\x7bthis.errors.length\x7d):\\n\x60);\n\t\t\t\tfor (const error of this.errors) \x7b\n\t\t\t\t\tconsole.log(\x60  - $\x7berror\x7d\x60);\n\t\t\t\t\x7d\n\t\t\t\x7d\n\n\t\t\tif (this.warnings.length > 0) \x7b\n\t\t\t\tconsole.log(\x60\\n⚠️  Warnings ($\x7bthis.warnings.length\x7d):\\n\x60);\n\t\t\t\tfor (const warning of this.warnings) \x7b\n\t\t\t\t\tconsole.log(\x60  - $\x7bwarning\x7d\x60);\n\t\t\t\t\x7d\n\t\t\t\x7d\n\t\t\x7d\n\n\t\tconsole.log(\x27\\n\x27 + \x27=\x27.repeat(60) + \x27\\n\x27);\n\t\x7d\n\x7d\n\n// Run validation\nconst validator = new StructureValidator();\nconst success = validator.validate();\n\nprocess.exit(success ? 0 : 1);\n"

def wfA1 : String := "name: Validate Documentation Structure\n\non:\n  pull_request:\n    branches: [main, develop]\n    paths:\n      - \x27docs/**\x27\n      - \x27AGENTS.md\x27\n      - \x27CLAUDE.md\x27\n      - \x27ARCHITECTURE.md\x27\n      - \x27*.md\x27\n  push:\n    branches: [main, develop]\n  schedule:\n    # Run weekly to catch stale documentation\n    - cron: \x270 0 * * 0\x27\n\njobs:\n  validate-structure:\n    runs-on: ubuntu-latest\n\n    steps:\n      - name: Checkout code\n        uses: actions/checkout@v4\n\n      - name: Setup Node.js\n        uses: actions/setup-node@v4\n        with:\n          node-version: \x2720\x27\n\n      - name: Run structure validation\n        run: "

def wfB1 : String := "\n\n      - name: Check for broken links\n        uses: gaurav-nelson/github-action-markdown-link-check@v1\n        with:\n          use-quiet-mode: \x27yes\x27\n          config-file: \x27.github/markdown-link-check-config.json\x27\n\n  check-freshness:\n    runs-on: ubuntu-latest\n\n    steps:\n      - name: Checkout code\n        uses: actions/checkout@v4\n        with:\n          fetch-depth: 0  # Fetch full history for freshness checks\n\n      - name: Check AGENTS.md and CLAUDE.md are identical\n        run: |\n          if ! cmp -s AGENTS.md CLAUDE.md; then\n            echo \"❌ AGENTS.md and CLAUDE.md must be identical\"\n            exit 1\n          fi\n          echo \"✅ AGENTS.md and CLAUDE.md are identical\"\n\n      - name: Validate AGENTS.md size\n        run: |\n          lines=$(wc -l < AGENTS.md)\n"

def wfB2 : String := "          if [ $lines -gt 150 ]; then\n            echo \"⚠️  AGENTS.md has $lines lines (recommended: ~100)\"\n            echo \"Consider moving details to docs/ directory\"\n          else\n            echo \"✅ AGENTS.md size is appropriate ($lines lines)\"\n          fi\n"

def rmA1 : String := "# Project Name\n\n**Agent-first development structure for [project description]**\n\nThis project uses an agent-first development approach based on [OpenAI\x27s harness engineering principles](https://openai.com/index/harness-engineering/).\n\n## 🏗️ Project Structure\n\n\x60\x60\x60\n.\n├── AGENTS.md              # Agent development guide (table of contents)\n├── CLAUDE.md              # Identical to AGENTS.md (for Claude Code)\n├── ARCHITECTURE.md        # System architecture overview\n├── DESIGN.md              # Design principles\n├── FRONTEND.md            # Frontend guidelines"

def rmB1 : String := "\n├── PLANS.md               # Planning guidelines\n├── PRODUCT_SENSE.md       # Product principles\n├── QUALITY_SCORE.md       # Quality metrics tracker\n├── RELIABILITY.md         # Reliability standards\n├── SECURITY.md            # Security guidelines\n├── docs/\n│   ├── design-docs/       # Design documentation\n│   ├── exec-plans/        # Execution plans (active & completed)\n│   ├── product-specs/     # Product specifications\n│   ├── references/        # External library docs for LLMs\n│   └── generated/         # Auto-generated documentation\n└── scripts/\n    └── validate-structure."

def rmC1 : String := "  # Structure validation\n\n\x60\x60\x60\n\n## 🚀 Getting Started\n\n### 1. Initialize Your Application Framework\n\nThis structure is framework-agnostic. Choose and initialize your preferred framework:\n\n**Frontend:**\n\x60\x60\x60bash\n# React + Vite\nnpm create vite@latest\n\n# Next.js\nnpx create-next-app@latest\n\n# SvelteKit\nnpm create svelte@latest\n\x60\x60\x60\n\n**Backend:**\n\x60\x60\x60bash\n# Express\nnpm create express-app\n\n# Fastify\nnpm init fastify\n\n# NestJS\nnpm i -g @nestjs/cli && nest new project-name\n\x60\x60\x60\n\n### 2. Customize Documentation\n\n1. Review and customize [\x60AGENTS.md\x60](./AGENTS.md) and [\x60CLAUDE.md\x60](./CLAUDE.md)\n2. Update [\x60ARCHITECTURE.md\x60](./ARCHITECTURE.md) with your system domains\n3. Add your first design doc in [\x60docs/design-docs/\x60](./docs/design-docs/)\n4. Document your tech stack choices\n\n### 3. Validate Structure\n\n"

def rmC2 : String := "Run the validation script to ensure the structure is correct:\n\n\x60\x60\x60bash\n"

def rmD1 : String := "\n\x60\x60\x60\n\n## 🤖 Agent Development Workflow\n\n1. **Read Documentation** - Start with [\x60AGENTS.md\x60](./AGENTS.md) for context\n2. **Plan** - Create execution plans for complex work in [\x60docs/exec-plans/\x60](./docs/exec-plans/)\n3. **Design** - Document architectural decisions in [\x60docs/design-docs/\x60](./docs/design-docs/)\n4. **Implement** - Follow architectural constraints and quality standards\n5. **Validate** - Run tests and validation scripts\n6. **Review** - Get agent and human feedback\n7. **Document** - Update docs based on implementation learnings\n\n## 📚 Core Principles\n\n1. **Repository is the source of truth** - If it\x27s not in the repo, it doesn\x27t exist to agents\n2. **Progressive disclosure** - AGENTS.md is a map, detailed docs are in \x60docs/\x60\n3. **Enforce mechanically** - Use linters and tests, not just manual review\n"

def rmD2 : String := "4. **Agent legibility first** - Optimize for agent reasoning\n5. **Continuous cleanup** - Fix drift immediately, don\x27t let debt compound\n\nSee [\x60docs/design-docs/core-beliefs.md\x60](./docs/design-docs/core-beliefs.md) for detailed principles.\n\n## 🔍 Validation\n\n### Structure Validation\n\x60\x60\x60bash\n"

def rmE1 : String := "\n\x60\x60\x60\n\n### CI/CD\nGitHub Actions automatically validate:\n- Documentation structure\n- Broken links\n- AGENTS.md and CLAUDE.md are identical\n- Doc freshness\n\n## 📖 Documentation\n\n- **[\x60AGENTS.md\x60](./AGENTS.md)** - Start here for agent development\n- **[\x60ARCHITECTURE.md\x60](./ARCHITECTURE.md)** - System architecture\n- **[\x60SECURITY.md\x60](./SECURITY.md)** - Security guidelines\n- **[\x60QUALITY_SCORE.md\x60](./QUALITY_SCORE.md)** - Quality metrics\n- **[\x60docs/design-docs/\x60](./docs/design-docs/)** - Design decisions\n- **[\x60docs/exec-plans/\x60](./docs/exec-plans/)** - Execution plans\n\n## 🛠️ Development\n\n[Add your development instructions here]\n\n\x60\x60\x60bash\n# Install dependencies\nnpm install\n\n# Run development server\nnpm run dev\n\n# Run tests\nnpm test\n\n# Build\nnpm run build\n\x60\x60\x60\n\n## 🤝 Contributing\n\n"

def rmE2 : String := "This project is optimized for agent-first development:\n\n1. Review [\x60AGENTS.md\x60](./AGENTS.md) before contributing\n2. Follow architectural constraints in [\x60ARCHITECTURE.md\x60](./ARCHITECTURE.md)\n3. Adhere to security guidelines in [\x60SECURITY.md\x60](./SECURITY.md)\n4. Maintain quality standards in [\x60QUALITY_SCORE.md\x60](./QUALITY_SCORE.md)\n\n## 📝 License\n\n[Your License Here]\n\n---\n\n**Built with agent-first development principles inspired by [OpenAI\x27s harness engineering](https://openai.com/index/harness-engineering/)**\n"

/-- The `AGENTS.md` (and `CLAUDE.md`) template: the Frontend quick-reference line is present exactly for the fullstack and frontend project types. -/
def getAgentsTemplate (projectType : ProjectType) : String :=
  agA1 ++ agA2 ++ agA3 ++ agA4
  ++ (if projectType = ProjectType.fullstack ∨ projectType = ProjectType.frontend then "- **Frontend:** See [FRONTEND.md](./FRONTEND.md)\n" else "")
  ++ agB1 ++ agB2 ++ agB3 ++ agB4 ++ agB5 ++ agB6 ++ agB7 ++ agB8 ++ agB9 ++ agB10 ++ agB11 ++ agB12 ++ agB13 ++ agB14 ++ agB15 ++ agB16 ++ agB17 ++ agB18 ++ agB19 ++ agB20 ++ agB21 ++ agB22

/-- The `ARCHITECTURE.md` template with its project-type specific tech-stack section. -/
def getArchitectureTemplate (projectType : ProjectType) : String :=
  archA1 ++ archA2
  ++ (if projectType = ProjectType.fullstack then "### Frontend\n\n[To be determined - document your framework choice]\n\n### Backend\n\n[To be determined - document your framework choice]\n"
      else if projectType = ProjectType.frontend then "### Frontend\n\n[To be determined - document your framework choice]\n"
      else "### Backend\n\n[To be determined - document your framework choice]\n")
  ++ archB1

/-- The `DESIGN.md` template. -/
def getDesignTemplate : String := design1 ++ design2 ++ design3

/-- The `FRONTEND.md` template. -/
def getFrontendTemplate : String := fe1 ++ fe2 ++ fe3

/-- The `PLANS.md` template. -/
def getPlansTemplate : String := plans1 ++ plans2 ++ plans3

/-- The `PRODUCT_SENSE.md` template. -/
def getProductSenseTemplate : String := psense1 ++ psense2 ++ psense3

/-- The `QUALITY_SCORE.md` template. -/
def getQualityScoreTemplate : String := qscore1 ++ qscore2 ++ qscore3

/-- The `RELIABILITY.md` template. -/
def getReliabilityTemplate : String := rel1 ++ rel2 ++ rel3 ++ rel4

/-- The `SECURITY.md` template. -/
def getSecurityTemplate : String := sec1 ++ sec2 ++ sec3 ++ sec4 ++ sec5

/-- The `docs/design-docs/template.md` template. -/
def getDesignDocTemplate : String := ddoc1 ++ ddoc2 ++ ddoc3

/-- The `docs/exec-plans/template.md` template. -/
def getExecPlanTemplate : String := eplan1 ++ eplan2 ++ eplan3

/-- The `docs/product-specs/template.md` template. -/
def getProductSpecTemplate : String := pspec1 ++ pspec2 ++ pspec3

/-- The `docs/exec-plans/tech-debt-tracker.md` template. -/
def getTechDebtTrackerTemplate : String := tdebt1 ++ tdebt2 ++ tdebt3

/-- The `docs/design-docs/core-beliefs.md` template. -/
def getCoreBeliefsTemplate : String := cbel1 ++ cbel2 ++ cbel3 ++ cbel4 ++ cbel5 ++ cbel6

/-- The `.gitignore` template. -/
def getGitignoreTemplate : String := gi1

/-- The `biome.json` template. -/
def getBiomeConfigTemplate : String := biome1 ++ biome2 ++ biome3 ++ biome4

/-- The `.github/markdown-link-check-config.json` template. -/
def getMarkdownLinkCheckConfig : String := mlc1

/-- The generated validation script: the TypeScript variant when `language` is `typescript`, otherwise the JavaScript variant (identical logic, different annotations). -/
def getValidationScriptTemplate (language : ValidationLanguage) : String :=
  if language = ValidationLanguage.typescript then
    vsTs1 ++ vsTs2 ++ vsTs3 ++ vsTs4 ++ vsTs5 ++ vsTs6 ++ vsTs7
  else
    vsJs1 ++ vsJs2 ++ vsJs3 ++ vsJs4 ++ vsJs5 ++ vsJs6

/-- The `.github/workflows/validate-docs.yml` template; `runCommand` depends on the validation-language variant. -/
def getGithubWorkflowTemplate (validationLanguage : ValidationLanguage) : String :=
  let runCommand := if validationLanguage = ValidationLanguage.typescript then "cd scripts && npm install && npm run validate" else "node scripts/validate-structure.js"
  wfA1 ++ runCommand ++ wfB1 ++ wfB2

/-- The `README.md` template: the structure diagram always lists `FRONTEND.md`, annotated `" (if applicable)"` for backend projects; the validate command and script extension follow the validation-language variant. -/
def getReadmeTemplate (projectType : ProjectType) (validationLanguage : ValidationLanguage) : String :=
  let validateCommand := if validationLanguage = ValidationLanguage.typescript then "cd scripts && npm install && npm run validate" else "node scripts/validate-structure.js"
  rmA1
  ++ (if projectType = ProjectType.backend then " (if applicable)" else "")
  ++ rmB1
  ++ (if validationLanguage = ValidationLanguage.typescript then "ts" else "js")
  ++ rmC1 ++ rmC2
  ++ validateCommand
  ++ rmD1 ++ rmD2
  ++ validateCommand
  ++ rmE1 ++ rmE2
/-! ### The Scaffold Emitter (`main` in `src/index.js`)

`main` creates the root directory, then the subdirectory layout, then
writes each template with `writeFileSync`.  The file-system effects are
modelled as a pure transformation of an `FS` value; every write stamps
the written file with the (abstract, millisecond) time `t` at which the
scaffold runs. -/

/-- The inline `docs/design-docs/index.md` content written by `main`. -/
def designDocsIndexContent : String := "# Design Documentation\n\nThis directory contains all design documents and architectural decisions.\n\n## Active Designs\n\n- [Core Beliefs](./core-beliefs.md)\n\n## Template\n\nUse \x60template.md\x60 as a starting point for new design documents.\n"

/-- The inline `docs/product-specs/index.md` content written by `main`. -/
def productSpecsIndexContent : String := "# Product Specifications\n\nThis directory contains all product specifications and feature requirements.\n\n## Active Specs\n\n- None yet\n\n## Template\n\nUse \x60template.md\x60 as a starting point for new product specs.\n"

/-- The `devDependencies` of the `validationPackageJson` object in
`src/index.js`: the single tooling dependency of the TypeScript
validation script. -/
def validationPackageJsonDevDependencies : List (String × String) := [("tsx", "^4.19.2")]

/-- `JSON.stringify(validationPackageJson, null, 2)`: the exact text of
`scripts/package.json` as emitted for the TypeScript variant. -/
def validationPackageJsonText : String := "\x7b\n  \"name\": \"validation-scripts\",\n  \"version\": \"1.0.0\",\n  \"type\": \"module\",\n  \"scripts\": \x7b\n    \"validate\": \"tsx scripts/validate-structure.ts\"\n  \x7d,\n  \"devDependencies\": \x7b\n    \"tsx\": \"^4.19.2\"\n  \x7d\n\x7d"

/-- The fixed base subdirectories created for every configuration. -/
def baseDirectories : List String :=
  ["docs/design-docs", "docs/exec-plans/active", "docs/exec-plans/completed",
   "docs/product-specs", "docs/references", "docs/generated", "scripts"]

/-- The directories created by `main`: the fixed base set, plus
`.github/workflows` when CI is requested. -/
def directories (c : ProjectConfig) : List String :=
  baseDirectories ++ (if c.includeCI then [".github/workflows"] else [])

/-- The ordered (relative path, content) pairs written by `main`, in the
order of the `writeFileSync` calls in `src/index.js`. -/
def emittedFiles (c : ProjectConfig) : List (String × String) :=
  [("AGENTS.md", getAgentsTemplate c.projectType),
   ("CLAUDE.md", getAgentsTemplate c.projectType),
   ("ARCHITECTURE.md", getArchitectureTemplate c.projectType),
   ("DESIGN.md", getDesignTemplate),
   ("PLANS.md", getPlansTemplate),
   ("PRODUCT_SENSE.md", getProductSenseTemplate),
   ("QUALITY_SCORE.md", getQualityScoreTemplate),
   ("RELIABILITY.md", getReliabilityTemplate),
   ("SECURITY.md", getSecurityTemplate)]
  ++ (if c.projectType = ProjectType.fullstack ∨ c.projectType = ProjectType.frontend then
        [("FRONTEND.md", getFrontendTemplate)]
      else [])
  ++ [("docs/design-docs/index.md", designDocsIndexContent),
      ("docs/design-docs/core-beliefs.md", getCoreBeliefsTemplate),
      ("docs/design-docs/template.md", getDesignDocTemplate),
      ("docs/exec-plans/template.md", getExecPlanTemplate),
      ("docs/exec-plans/tech-debt-tracker.md", getTechDebtTrackerTemplate),
      ("docs/product-specs/index.md", productSpecsIndexContent),
      ("docs/product-specs/template.md", getProductSpecTemplate),
      ("scripts/validate-structure." ++ (if c.validationLanguage = ValidationLanguage.typescript then "ts" else "js"),
       getValidationScriptTemplate c.validationLanguage)]
  ++ (if c.validationLanguage = ValidationLanguage.typescript then
        [("scripts/package.json", validationPackageJsonText)]
      else [])
  ++ (if c.includeCI then
        [(".github/workflows/validate-docs.yml", getGithubWorkflowTemplate c.validationLanguage),
         (".github/markdown-link-check-config.json", getMarkdownLinkCheckConfig)]
      else [])
  ++ [(".gitignore", getGitignoreTemplate),
      ("biome.json", getBiomeConfigTemplate),
      ("README.md", getReadmeTemplate c.projectType c.validationLanguage)]

/-- The relative paths of all emitted files. -/
def emittedPaths (c : ProjectConfig) : List String := (emittedFiles c).map Prod.fst

/-- The content the scaffold writes at relative path `p` (the last write
wins, though no path is written twice). -/
def emittedContent (c : ProjectConfig) (p : String) : Option String :=
  ((emittedFiles c).find? (fun pc => beqStr pc.1 p)).map Prod.snd

/-! ### File-system model -/

/-- One regular file: root-relative path, byte content and
`mtimeMs` timestamp. -/
structure FSFile where
  path : String
  content : String
  mtimeMs : Int
deriving DecidableEq, Repr

/-- A file-system state: the directories and regular files below the
target root (the root itself is implicit). -/
structure FS where
  dirs : List String
  files : List FSFile
deriving DecidableEq, Repr

def emptyFS : FS := ⟨[], []⟩

/-- `mkdirSync(dir, { recursive: true })`: records the directory,
tolerating pre-existence.  Ancestor directories are implied by
`existsFS` below. -/
def mkdirp (fs : FS) (d : String) : FS :=
  if fs.dirs.any (fun e => beqStr e d) then fs else { fs with dirs := fs.dirs ++ [d] }

/-- `writeFileSync(p, content)` at time `t`: overwrite in place, or
append a new file record. -/
def writeFile (fs : FS) (p content : String) (t : Int) : FS :=
  if fs.files.any (fun f => beqStr f.path p) then
    { fs with files := fs.files.map (fun f => if beqStr f.path p then ⟨p, content, t⟩ else f) }
  else
    { fs with files := fs.files ++ [⟨p, content, t⟩] }

/-- Run the whole emission of `main` against `fs` at time `t`: create
every directory, then write every file. -/
def applyScaffold (fs : FS) (c : ProjectConfig) (t : Int) : FS :=
  (emittedFiles c).foldl (fun a pc => writeFile a pc.1 pc.2 t)
    ((directories c).foldl (fun a d => mkdirp a d) fs)

/-- The file system produced by scaffolding configuration `c` into an
empty target at time `t`. -/
def scaffoldFS (c : ProjectConfig) (t : Int) : FS := applyScaffold emptyFS c t

/-- The observable bytes of a file system: its directories and its
(path, content) pairs, without timestamps. -/
def fsShape (fs : FS) : List String × List (String × String) :=
  (fs.dirs, fs.files.map (fun f => (f.path, f.content)))

/-! ### The run outcome of `main`

The interactive session runs before any file-system call.  When the user
cancels, the `onCancel` handler prints `'Operation cancelled.'` via
`p.cancel` and calls `process.exit(0)`; otherwise `main` performs the
emission and finishes normally (exit code 0). -/

inductive RunOutcome
  /-- The session was cancelled: the process exits immediately with the
  given code and cancel message, leaving the file system as it was. -/
  | cancelled (exitCode : Nat) (message : String) (fs : FS)
  /-- The emission completed over the resulting file system. -/
  | completed (exitCode : Nat) (fs : FS)
deriving DecidableEq, Repr

/-- `main` in `src/index.js`, at the granularity the claims need:
whether the user cancels the prompt group, and the file-system effect. -/
def runMain (userCancels : Bool) (c : ProjectConfig) (fs0 : FS) (t : Int) : RunOutcome :=
  if userCancels then RunOutcome.cancelled 0 "Operation cancelled." fs0
  else RunOutcome.completed 0 (applyScaffold fs0 c t)

def RunOutcome.fs : RunOutcome → FS
  | RunOutcome.cancelled _ _ fs => fs
  | RunOutcome.completed _ fs => fs

def RunOutcome.exitCode : RunOutcome → Nat
  | RunOutcome.cancelled code _ _ => code
  | RunOutcome.completed code _ => code

/-! ### The generated Structure Validator

Embedded from the JavaScript variant of the generated
`scripts/validate-structure.js` (the TypeScript variant has identical
logic).  The validator runs against a project root; `existsSync`,
`readFileSync`, `readdirSync` and `statSync` are interpreted over the
`FS` model. -/

/-- `existsSync(join(rootDir, p))`: `p` names a file, a recorded
directory, or an ancestor directory of either. -/
def existsFS (fs : FS) (p : String) : Bool :=
  let q := normalizePath p
  fs.files.any (fun f => beqStr f.path q)
    || fs.dirs.any (fun d => beqStr d q)
    || fs.files.any (fun f => (q ++ "/").data.isPrefixOf f.path.data)
    || fs.dirs.any (fun d => (q ++ "/").data.isPrefixOf d.data)

/-- `readFileSync(join(rootDir, p), 'utf-8')` (on a present file). -/
def readFileFS (fs : FS) (p : String) : Option String :=
  (fs.files.find? (fun f => beqStr f.path (normalizePath p))).map (fun f => f.content)

/-- `statSync(join(rootDir, p)).mtimeMs` (on a present file). -/
def statMtimeMs (fs : FS) (p : String) : Option Int :=
  (fs.files.find? (fun f => beqStr f.path (normalizePath p))).map (fun f => f.mtimeMs)

/-- The characters of a path under `pre` up to the next `/`: the
directory-entry name contributed to `readdirSync`. -/
def firstSegment : List Char → List Char
  | [] => []
  | c :: cs => if c = '/' then [] else c :: firstSegment cs

/-- `readdirSync(join(rootDir, dir))`: the distinct names directly under
`dir`, in recording order. -/
def childNames (fs : FS) (dir : String) : List String :=
  let pre := (dir ++ "/").data
  let fromFiles := fs.files.filterMap (fun f =>
    if pre.isPrefixOf f.path.data then some (String.mk (firstSegment (f.path.data.drop pre.length))) else none)
  let fromDirs := fs.dirs.filterMap (fun d =>
    if pre.isPrefixOf d.data then some (String.mk (firstSegment (d.data.drop pre.length))) else none)
  (fromFiles ++ fromDirs).foldl (fun acc n => if acc.any (fun m => beqStr m n) then acc else acc ++ [n]) []

/-- The nine entries of `requiredDocs` in `validateRootDocs`. -/
def requiredDocs : List String :=
  ["AGENTS.md", "CLAUDE.md", "ARCHITECTURE.md", "DESIGN.md", "PLANS.md",
   "PRODUCT_SENSE.md", "QUALITY_SCORE.md", "RELIABILITY.md", "SECURITY.md"]

/-- The `Missing required document:` errors of `validateRootDocs`. -/
def missingDocErrors (fs : FS) : List String :=
  requiredDocs.foldl (fun acc doc =>
    if existsFS fs doc then acc else acc ++ ["Missing required document: " ++ doc]) []

/-- The `AGENTS.md and CLAUDE.md must be identical` error of
`validateRootDocs` (checked only when both files exist). -/
def identityErrors (fs : FS) : List String :=
  if existsFS fs "AGENTS.md" && existsFS fs "CLAUDE.md" then
    match readFileFS fs "AGENTS.md", readFileFS fs "CLAUDE.md" with
    | some agentsContent, some claudeContent =>
      if beqStr agentsContent claudeContent then [] else ["AGENTS.md and CLAUDE.md must be identical"]
    | _, _ => []
  else []

/-- The size-budget warning of `validateRootDocs`:
`content.split('\n').length > 150`. -/
def lineCountWarnings (fs : FS) : List String :=
  if existsFS fs "AGENTS.md" then
    match readFileFS fs "AGENTS.md" with
    | some agentsContent =>
      let lineCount := (splitNl agentsContent.data).length
      if lineCount > 150 then
        ["AGENTS.md is " ++ toString lineCount ++ " lines (recommended: ~100 lines). Consider moving details to docs/"]
      else []
    | none => []
  else []

/-- `validateRootDocs`: its pushes to `errors` and to `warnings`. -/
def validateRootDocs (fs : FS) : List String × List String :=
  (missingDocErrors fs ++ identityErrors fs, lineCountWarnings fs)

/-- The six entries of `requiredDirs` in `validateDocsStructure`. -/
def requiredDirs : List String :=
  ["docs/design-docs", "docs/exec-plans/active", "docs/exec-plans/completed",
   "docs/product-specs", "docs/references", "docs/generated"]

/-- The two entries of `requiredIndexes` in `validateDocsStructure`. -/
def requiredIndexes : List String := ["docs/design-docs/index.md", "docs/product-specs/index.md"]

/-- `validateDocsStructure`: missing-directory errors and
missing-index-file warnings. -/
def validateDocsStructure (fs : FS) : List String × List String :=
  (requiredDirs.foldl (fun acc dir =>
      if existsFS fs dir then acc else acc ++ ["Missing required directory: " ++ dir]) [],
   requiredIndexes.foldl (fun acc idx =>
      if existsFS fs idx then acc else acc ++ ["Missing index file: " ++ idx]) [])

def brokenLinkWarning (p : String) : String := "Broken link in AGENTS.md: " ++ p

/-- `validateCrossLinks`: for every regex match in AGENTS.md, skip paths
starting with the literal `http`, otherwise warn when the path does not
exist relative to the project root. -/
def validateCrossLinks (fs : FS) : List String :=
  if existsFS fs "AGENTS.md" then
    match readFileFS fs "AGENTS.md" with
    | some agentsContent =>
      (extractLinks agentsContent).foldl (fun acc linkPath =>
        if "http".data.isPrefixOf linkPath.data then acc
        else if existsFS fs linkPath then acc
        else acc ++ [brokenLinkWarning linkPath]) []
    | none => []
  else []

/-- `6 * 30 * 24 * 60 * 60 * 1000` milliseconds. -/
def sixMonthsMs : Int := 6 * 30 * 24 * 60 * 60 * 1000

/-- The staleness warning for one design doc file: emitted when
`now - mtimeMs > sixMonths`. -/
def staleWarning (now mtime : Int) (file : String) : List String :=
  if now - mtime > sixMonthsMs then
    ["Design doc hasn't been updated in 6+ months: " ++ file]
  else []

/-- The `.md` entries `readdirSync` finds in `docs/design-docs` (the
`files` constant of `validateDocFreshness`). -/
def designDocFiles (fs : FS) : List String :=
  (childNames fs "docs/design-docs").filter (fun f => endsWithStr ".md" f)

/-- `validateDocFreshness` at clock value `now` (`Date.now()`). -/
def validateDocFreshness (fs : FS) (now : Int) : List String :=
  if existsFS fs "docs/design-docs" then
    if (designDocFiles fs).length = 0 then ["No design documents found in docs/design-docs/"]
    else
      (designDocFiles fs).foldl (fun acc file =>
        if beqStr file "index.md" || beqStr file "template.md" then acc
        else
          match statMtimeMs fs ("docs/design-docs/" ++ file) with
          | some m => acc ++ staleWarning now m file
          | none => acc) []
  else []

/-- The outcome of one validator run: the two accumulated lists and the
boolean returned by `validate()` (`this.errors.length === 0`), which the
generated script turns into the process exit code. -/
structure ValidationResult where
  errors : List String
  warnings : List String
  success : Bool
deriving DecidableEq, Repr

/-- `validate()` of the generated `StructureValidator`, run against `fs`
at clock value `now`: the four checks accumulate into `errors` and
`warnings`, and the returned boolean is `this.errors.length === 0`. -/
def validate (fs : FS) (now : Int) : ValidationResult :=
  ⟨(validateRootDocs fs).1 ++ (validateDocsStructure fs).1,
   (validateRootDocs fs).2 ++ (validateDocsStructure fs).2
     ++ validateCrossLinks fs ++ validateDocFreshness fs now,
   ((validateRootDocs fs).1 ++ (validateDocsStructure fs).1).length == 0⟩

/-- The broken-link warnings recorded for the link list `links`: one per
link that neither starts with `http` nor resolves against the root. -/
def brokenOf (fs : FS) (links : List String) : List String :=
  (links.filter (fun p => !("http".data.isPrefixOf p.data) && !existsFS fs p)).map brokenLinkWarning

/-! ### The scaffolded file systems, one per effective configuration -/

/-- The text whose occurrence in an emitted document constitutes a reference to the frontend guide. -/
def frontendNeedle : String := "FRONTEND.md"

/-- The file system scaffolded at time `t` for the fullstack/typescript/CI configuration. -/
def fsFuTsCi (t : Int) : FS :=
  ⟨["docs/design-docs", "docs/exec-plans/active", "docs/exec-plans/completed", "docs/product-specs", "docs/references", "docs/generated", "scripts", ".github/workflows"],
   [⟨"AGENTS.md", getAgentsTemplate ProjectType.fullstack, t⟩,
   ⟨"CLAUDE.md", getAgentsTemplate ProjectType.fullstack, t⟩,
   ⟨"ARCHITECTURE.md", getArchitectureTemplate ProjectType.fullstack, t⟩,
   ⟨"DESIGN.md", getDesignTemplate, t⟩,
   ⟨"PLANS.md", getPlansTemplate, t⟩,
   ⟨"PRODUCT_SENSE.md", getProductSenseTemplate, t⟩,
   ⟨"QUALITY_SCORE.md", getQualityScoreTemplate, t⟩,
   ⟨"RELIABILITY.md", getReliabilityTemplate, t⟩,
   ⟨"SECURITY.md", getSecurityTemplate, t⟩,
   ⟨"FRONTEND.md", getFrontendTemplate, t⟩,
   ⟨"docs/design-docs/index.md", designDocsIndexContent, t⟩,
   ⟨"docs/design-docs/core-beliefs.md", getCoreBeliefsTemplate, t⟩,
   ⟨"docs/design-docs/template.md", getDesignDocTemplate, t⟩,
   ⟨"docs/exec-plans/template.md", getExecPlanTemplate, t⟩,
   ⟨"docs/exec-plans/tech-debt-tracker.md", getTechDebtTrackerTemplate, t⟩,
   ⟨"docs/product-specs/index.md", productSpecsIndexContent, t⟩,
   ⟨"docs/product-specs/template.md", getProductSpecTemplate, t⟩,
   ⟨"scripts/validate-structure.ts", getValidationScriptTemplate ValidationLanguage.typescript, t⟩,
   ⟨"scripts/package.json", validationPackageJsonText, t⟩,
   ⟨".github/workflows/validate-docs.yml", getGithubWorkflowTemplate ValidationLanguage.typescript, t⟩,
   ⟨".github/markdown-link-check-config.json", getMarkdownLinkCheckConfig, t⟩,
   ⟨".gitignore", getGitignoreTemplate, t⟩,
   ⟨"biome.json", getBiomeConfigTemplate, t⟩,
   ⟨"README.md", getReadmeTemplate ProjectType.fullstack ValidationLanguage.typescript, t⟩]⟩

/-- The file system scaffolded at time `t` for the fullstack/typescript/no-CI configuration. -/
def fsFuTsNc (t : Int) : FS :=
  ⟨["docs/design-docs", "docs/exec-plans/active", "docs/exec-plans/completed", "docs/product-specs", "docs/references", "docs/generated", "scripts"],
   [⟨"AGENTS.md", getAgentsTemplate ProjectType.fullstack, t⟩,
   ⟨"CLAUDE.md", getAgentsTemplate ProjectType.fullstack, t⟩,
   ⟨"ARCHITECTURE.md", getArchitectureTemplate ProjectType.fullstack, t⟩,
   ⟨"DESIGN.md", getDesignTemplate, t⟩,
   ⟨"PLANS.md", getPlansTemplate, t⟩,
   ⟨"PRODUCT_SENSE.md", getProductSenseTemplate, t⟩,
   ⟨"QUALITY_SCORE.md", getQualityScoreTemplate, t⟩,
   ⟨"RELIABILITY.md", getReliabilityTemplate, t⟩,
   ⟨"SECURITY.md", getSecurityTemplate, t⟩,
   ⟨"FRONTEND.md", getFrontendTemplate, t⟩,
   ⟨"docs/design-docs/index.md", designDocsIndexContent, t⟩,
   ⟨"docs/design-docs/core-beliefs.md", getCoreBeliefsTemplate, t⟩,
   ⟨"docs/design-docs/template.md", getDesignDocTemplate, t⟩,
   ⟨"docs/exec-plans/template.md", getExecPlanTemplate, t⟩,
   ⟨"docs/exec-plans/tech-debt-tracker.md", getTechDebtTrackerTemplate, t⟩,
   ⟨"docs/product-specs/index.md", productSpecsIndexContent, t⟩,
   ⟨"docs/product-specs/template.md", getProductSpecTemplate, t⟩,
   ⟨"scripts/validate-structure.ts", getValidationScriptTemplate ValidationLanguage.typescript, t⟩,
   ⟨"scripts/package.json", validationPackageJsonText, t⟩,
   ⟨".gitignore", getGitignoreTemplate, t⟩,
   ⟨"biome.json", getBiomeConfigTemplate, t⟩,
   ⟨"README.md", getReadmeTemplate ProjectType.fullstack ValidationLanguage.typescript, t⟩]⟩

/-- The file system scaffolded at time `t` for the fullstack/javascript/CI configuration. -/
def fsFuJsCi (t : Int) : FS :=
  ⟨["docs/design-docs", "docs/exec-plans/active", "docs/exec-plans/completed", "docs/product-specs", "docs/references", "docs/generated", "scripts", ".github/workflows"],
   [⟨"AGENTS.md", getAgentsTemplate ProjectType.fullstack, t⟩,
   ⟨"CLAUDE.md", getAgentsTemplate ProjectType.fullstack, t⟩,
   ⟨"ARCHITECTURE.md", getArchitectureTemplate ProjectType.fullstack, t⟩,
   ⟨"DESIGN.md", getDesignTemplate, t⟩,
   ⟨"PLANS.md", getPlansTemplate, t⟩,
   ⟨"PRODUCT_SENSE.md", getProductSenseTemplate, t⟩,
   ⟨"QUALITY_SCORE.md", getQualityScoreTemplate, t⟩,
   ⟨"RELIABILITY.md", getReliabilityTemplate, t⟩,
   ⟨"SECURITY.md", getSecurityTemplate, t⟩,
   ⟨"FRONTEND.md", getFrontendTemplate, t⟩,
   ⟨"docs/design-docs/index.md", designDocsIndexContent, t⟩,
   ⟨"docs/design-docs/core-beliefs.md", getCoreBeliefsTemplate, t⟩,
   ⟨"docs/design-docs/template.md", getDesignDocTemplate, t⟩,
   ⟨"docs/exec-plans/template.md", getExecPlanTemplate, t⟩,
   ⟨"docs/exec-plans/tech-debt-tracker.md", getTechDebtTrackerTemplate, t⟩,
   ⟨"docs/product-specs/index.md", productSpecsIndexContent, t⟩,
   ⟨"docs/product-specs/template.md", getProductSpecTemplate, t⟩,
   ⟨"scripts/validate-structure.js", getValidationScriptTemplate ValidationLanguage.javascript, t⟩,
   ⟨".github/workflows/validate-docs.yml", getGithubWorkflowTemplate ValidationLanguage.javascript, t⟩,
   ⟨".github/markdown-link-check-config.json", getMarkdownLinkCheckConfig, t⟩,
   ⟨".gitignore", getGitignoreTemplate, t⟩,
   ⟨"biome.json", getBiomeConfigTemplate, t⟩,
   ⟨"README.md", getReadmeTemplate ProjectType.fullstack ValidationLanguage.javascript, t⟩]⟩

/-- The file system scaffolded at time `t` for the fullstack/javascript/no-CI configuration. -/
def fsFuJsNc (t : Int) : FS :=
  ⟨["docs/design-docs", "docs/exec-plans/active", "docs/exec-plans/completed", "docs/product-specs", "docs/references", "docs/generated", "scripts"],
   [⟨"AGENTS.md", getAgentsTemplate ProjectType.fullstack, t⟩,
   ⟨"CLAUDE.md", getAgentsTemplate ProjectType.fullstack, t⟩,
   ⟨"ARCHITECTURE.md", getArchitectureTemplate ProjectType.fullstack, t⟩,
   ⟨"DESIGN.md", getDesignTemplate, t⟩,
   ⟨"PLANS.md", getPlansTemplate, t⟩,
   ⟨"PRODUCT_SENSE.md", getProductSenseTemplate, t⟩,
   ⟨"QUALITY_SCORE.md", getQualityScoreTemplate, t⟩,
   ⟨"RELIABILITY.md", getReliabilityTemplate, t⟩,
   ⟨"SECURITY.md", getSecurityTemplate, t⟩,
   ⟨"FRONTEND.md", getFrontendTemplate, t⟩,
   ⟨"docs/design-docs/index.md", designDocsIndexContent, t⟩,
   ⟨"docs/design-docs/core-beliefs.md", getCoreBeliefsTemplate, t⟩,
   ⟨"docs/design-docs/template.md", getDesignDocTemplate, t⟩,
   ⟨"docs/exec-plans/template.md", getExecPlanTemplate, t⟩,
   ⟨"docs/exec-plans/tech-debt-tracker.md", getTechDebtTrackerTemplate, t⟩,
   ⟨"docs/product-specs/index.md", productSpecsIndexContent, t⟩,
   ⟨"docs/product-specs/template.md", getProductSpecTemplate, t⟩,
   ⟨"scripts/validate-structure.js", getValidationScriptTemplate ValidationLanguage.javascript, t⟩,
   ⟨".gitignore", getGitignoreTemplate, t⟩,
   ⟨"biome.json", getBiomeConfigTemplate, t⟩,
   ⟨"README.md", getReadmeTemplate ProjectType.fullstack ValidationLanguage.javascript, t⟩]⟩

/-- The file system scaffolded at time `t` for the backend/typescript/CI configuration. -/
def fsBkTsCi (t : Int) : FS :=
  ⟨["docs/design-docs", "docs/exec-plans/active", "docs/exec-plans/completed", "docs/product-specs", "docs/references", "docs/generated", "scripts", ".github/workflows"],
   [⟨"AGENTS.md", getAgentsTemplate ProjectType.backend, t⟩,
   ⟨"CLAUDE.md", getAgentsTemplate ProjectType.backend, t⟩,
   ⟨"ARCHITECTURE.md", getArchitectureTemplate ProjectType.backend, t⟩,
   ⟨"DESIGN.md", getDesignTemplate, t⟩,
   ⟨"PLANS.md", getPlansTemplate, t⟩,
   ⟨"PRODUCT_SENSE.md", getProductSenseTemplate, t⟩,
   ⟨"QUALITY_SCORE.md", getQualityScoreTemplate, t⟩,
   ⟨"RELIABILITY.md", getReliabilityTemplate, t⟩,
   ⟨"SECURITY.md", getSecurityTemplate, t⟩,
   ⟨"docs/design-docs/index.md", designDocsIndexContent, t⟩,
   ⟨"docs/design-docs/core-beliefs.md", getCoreBeliefsTemplate, t⟩,
   ⟨"docs/design-docs/template.md", getDesignDocTemplate, t⟩,
   ⟨"docs/exec-plans/template.md", getExecPlanTemplate, t⟩,
   ⟨"docs/exec-plans/tech-debt-tracker.md", getTechDebtTrackerTemplate, t⟩,
   ⟨"docs/product-specs/index.md", productSpecsIndexContent, t⟩,
   ⟨"docs/product-specs/template.md", getProductSpecTemplate, t⟩,
   ⟨"scripts/validate-structure.ts", getValidationScriptTemplate ValidationLanguage.typescript, t⟩,
   ⟨"scripts/package.json", validationPackageJsonText, t⟩,
   ⟨".github/workflows/validate-docs.yml", getGithubWorkflowTemplate ValidationLanguage.typescript, t⟩,
   ⟨".github/markdown-link-check-config.json", getMarkdownLinkCheckConfig, t⟩,
   ⟨".gitignore", getGitignoreTemplate, t⟩,
   ⟨"biome.json", getBiomeConfigTemplate, t⟩,
   ⟨"README.md", getReadmeTemplate ProjectType.backend ValidationLanguage.typescript, t⟩]⟩

/-- The file system scaffolded at time `t` for the backend/typescript/no-CI configuration. -/
def fsBkTsNc (t : Int) : FS :=
  ⟨["docs/design-docs", "docs/exec-plans/active", "docs/exec-plans/completed", "docs/product-specs", "docs/references", "docs/generated", "scripts"],
   [⟨"AGENTS.md", getAgentsTemplate ProjectType.backend, t⟩,
   ⟨"CLAUDE.md", getAgentsTemplate ProjectType.backend, t⟩,
   ⟨"ARCHITECTURE.md", getArchitectureTemplate ProjectType.backend, t⟩,
   ⟨"DESIGN.md", getDesignTemplate, t⟩,
   ⟨"PLANS.md", getPlansTemplate, t⟩,
   ⟨"PRODUCT_SENSE.md", getProductSenseTemplate, t⟩,
   ⟨"QUALITY_SCORE.md", getQualityScoreTemplate, t⟩,
   ⟨"RELIABILITY.md", getReliabilityTemplate, t⟩,
   ⟨"SECURITY.md", getSecurityTemplate, t⟩,
   ⟨"docs/design-docs/index.md", designDocsIndexContent, t⟩,
   ⟨"docs/design-docs/core-beliefs.md", getCoreBeliefsTemplate, t⟩,
   ⟨"docs/design-docs/template.md", getDesignDocTemplate, t⟩,
   ⟨"docs/exec-plans/template.md", getExecPlanTemplate, t⟩,
   ⟨"docs/exec-plans/tech-debt-tracker.md", getTechDebtTrackerTemplate, t⟩,
   ⟨"docs/product-specs/index.md", productSpecsIndexContent, t⟩,
   ⟨"docs/product-specs/template.md", getProductSpecTemplate, t⟩,
   ⟨"scripts/validate-structure.ts", getValidationScriptTemplate ValidationLanguage.typescript, t⟩,
   ⟨"scripts/package.json", validationPackageJsonText, t⟩,
   ⟨".gitignore", getGitignoreTemplate, t⟩,
   ⟨"biome.json", getBiomeConfigTemplate, t⟩,
   ⟨"README.md", getReadmeTemplate ProjectType.backend ValidationLanguage.typescript, t⟩]⟩

/-- The file system scaffolded at time `t` for the backend/javascript/CI configuration. -/
def fsBkJsCi (t : Int) : FS :=
  ⟨["docs/design-docs", "docs/exec-plans/active", "docs/exec-plans/completed", "docs/product-specs", "docs/references", "docs/generated", "scripts", ".github/workflows"],
   [⟨"AGENTS.md", getAgentsTemplate ProjectType.backend, t⟩,
   ⟨"CLAUDE.md", getAgentsTemplate ProjectType.backend, t⟩,
   ⟨"ARCHITECTURE.md", getArchitectureTemplate ProjectType.backend, t⟩,
   ⟨"DESIGN.md", getDesignTemplate, t⟩,
   ⟨"PLANS.md", getPlansTemplate, t⟩,
   ⟨"PRODUCT_SENSE.md", getProductSenseTemplate, t⟩,
   ⟨"QUALITY_SCORE.md", getQualityScoreTemplate, t⟩,
   ⟨"RELIABILITY.md", getReliabilityTemplate, t⟩,
   ⟨"SECURITY.md", getSecurityTemplate, t⟩,
   ⟨"docs/design-docs/index.md", designDocsIndexContent, t⟩,
   ⟨"docs/design-docs/core-beliefs.md", getCoreBeliefsTemplate, t⟩,
   ⟨"docs/design-docs/template.md", getDesignDocTemplate, t⟩,
   ⟨"docs/exec-plans/template.md", getExecPlanTemplate, t⟩,
   ⟨"docs/exec-plans/tech-debt-tracker.md", getTechDebtTrackerTemplate, t⟩,
   ⟨"docs/product-specs/index.md", productSpecsIndexContent, t⟩,
   ⟨"docs/product-specs/template.md", getProductSpecTemplate, t⟩,
   ⟨"scripts/validate-structure.js", getValidationScriptTemplate ValidationLanguage.javascript, t⟩,
   ⟨".github/workflows/validate-docs.yml", getGithubWorkflowTemplate ValidationLanguage.javascript, t⟩,
   ⟨".github/markdown-link-check-config.json", getMarkdownLinkCheckConfig, t⟩,
   ⟨".gitignore", getGitignoreTemplate, t⟩,
   ⟨"biome.json", getBiomeConfigTemplate, t⟩,
   ⟨"README.md", getReadmeTemplate ProjectType.backend ValidationLanguage.javascript, t⟩]⟩

/-- The file system scaffolded at time `t` for the backend/javascript/no-CI configuration. -/
def fsBkJsNc (t : Int) : FS :=
  ⟨["docs/design-docs", "docs/exec-plans/active", "docs/exec-plans/completed", "docs/product-specs", "docs/references", "docs/generated", "scripts"],
   [⟨"AGENTS.md", getAgentsTemplate ProjectType.backend, t⟩,
   ⟨"CLAUDE.md", getAgentsTemplate ProjectType.backend, t⟩,
   ⟨"ARCHITECTURE.md", getArchitectureTemplate ProjectType.backend, t⟩,
   ⟨"DESIGN.md", getDesignTemplate, t⟩,
   ⟨"PLANS.md", getPlansTemplate, t⟩,
   ⟨"PRODUCT_SENSE.md", getProductSenseTemplate, t⟩,
   ⟨"QUALITY_SCORE.md", getQualityScoreTemplate, t⟩,
   ⟨"RELIABILITY.md", getReliabilityTemplate, t⟩,
   ⟨"SECURITY.md", getSecurityTemplate, t⟩,
   ⟨"docs/design-docs/index.md", designDocsIndexContent, t⟩,
   ⟨"docs/design-docs/core-beliefs.md", getCoreBeliefsTemplate, t⟩,
   ⟨"docs/design-docs/template.md", getDesignDocTemplate, t⟩,
   ⟨"docs/exec-plans/template.md", getExecPlanTemplate, t⟩,
   ⟨"docs/exec-plans/tech-debt-tracker.md", getTechDebtTrackerTemplate, t⟩,
   ⟨"docs/product-specs/index.md", productSpecsIndexContent, t⟩,
   ⟨"docs/product-specs/template.md", getProductSpecTemplate, t⟩,
   ⟨"scripts/validate-structure.js", getValidationScriptTemplate ValidationLanguage.javascript, t⟩,
   ⟨".gitignore", getGitignoreTemplate, t⟩,
   ⟨"biome.json", getBiomeConfigTemplate, t⟩,
   ⟨"README.md", getReadmeTemplate ProjectType.backend ValidationLanguage.javascript, t⟩]⟩

/-- The file system scaffolded at time `t` for the frontend/typescript/CI configuration. -/
def fsFrTsCi (t : Int) : FS :=
  ⟨["docs/design-docs", "docs/exec-plans/active", "docs/exec-plans/completed", "docs/product-specs", "docs/references", "docs/generated", "scripts", ".github/workflows"],
   [⟨"AGENTS.md", getAgentsTemplate ProjectType.frontend, t⟩,
   ⟨"CLAUDE.md", getAgentsTemplate ProjectType.frontend, t⟩,
   ⟨"ARCHITECTURE.md", getArchitectureTemplate ProjectType.frontend, t⟩,
   ⟨"DESIGN.md", getDesignTemplate, t⟩,
   ⟨"PLANS.md", getPlansTemplate, t⟩,
   ⟨"PRODUCT_SENSE.md", getProductSenseTemplate, t⟩,
   ⟨"QUALITY_SCORE.md", getQualityScoreTemplate, t⟩,
   ⟨"RELIABILITY.md", getReliabilityTemplate, t⟩,
   ⟨"SECURITY.md", getSecurityTemplate, t⟩,
   ⟨"FRONTEND.md", getFrontendTemplate, t⟩,
   ⟨"docs/design-docs/index.md", designDocsIndexContent, t⟩,
   ⟨"docs/design-docs/core-beliefs.md", getCoreBeliefsTemplate, t⟩,
   ⟨"docs/design-docs/template.md", getDesignDocTemplate, t⟩,
   ⟨"docs/exec-plans/template.md", getExecPlanTemplate, t⟩,
   ⟨"docs/exec-plans/tech-debt-tracker.md", getTechDebtTrackerTemplate, t⟩,
   ⟨"docs/product-specs/index.md", productSpecsIndexContent, t⟩,
   ⟨"docs/product-specs/template.md", getProductSpecTemplate, t⟩,
   ⟨"scripts/validate-structure.ts", getValidationScriptTemplate ValidationLanguage.typescript, t⟩,
   ⟨"scripts/package.json", validationPackageJsonText, t⟩,
   ⟨".github/workflows/validate-docs.yml", getGithubWorkflowTemplate ValidationLanguage.typescript, t⟩,
   ⟨".github/markdown-link-check-config.json", getMarkdownLinkCheckConfig, t⟩,
   ⟨".gitignore", getGitignoreTemplate, t⟩,
   ⟨"biome.json", getBiomeConfigTemplate, t⟩,
   ⟨"README.md", getReadmeTemplate ProjectType.frontend ValidationLanguage.typescript, t⟩]⟩

/-- The file system scaffolded at time `t` for the frontend/typescript/no-CI configuration. -/
def fsFrTsNc (t : Int) : FS :=
  ⟨["docs/design-docs", "docs/exec-plans/active", "docs/exec-plans/completed", "docs/product-specs", "docs/references", "docs/generated", "scripts"],
   [⟨"AGENTS.md", getAgentsTemplate ProjectType.frontend, t⟩,
   ⟨"CLAUDE.md", getAgentsTemplate ProjectType.frontend, t⟩,
   ⟨"ARCHITECTURE.md", getArchitectureTemplate ProjectType.frontend, t⟩,
   ⟨"DESIGN.md", getDesignTemplate, t⟩,
   ⟨"PLANS.md", getPlansTemplate, t⟩,
   ⟨"PRODUCT_SENSE.md", getProductSenseTemplate, t⟩,
   ⟨"QUALITY_SCORE.md", getQualityScoreTemplate, t⟩,
   ⟨"RELIABILITY.md", getReliabilityTemplate, t⟩,
   ⟨"SECURITY.md", getSecurityTemplate, t⟩,
   ⟨"FRONTEND.md", getFrontendTemplate, t⟩,
   ⟨"docs/design-docs/index.md", designDocsIndexContent, t⟩,
   ⟨"docs/design-docs/core-beliefs.md", getCoreBeliefsTemplate, t⟩,
   ⟨"docs/design-docs/template.md", getDesignDocTemplate, t⟩,
   ⟨"docs/exec-plans/template.md", getExecPlanTemplate, t⟩,
   ⟨"docs/exec-plans/tech-debt-tracker.md", getTechDebtTrackerTemplate, t⟩,
   ⟨"docs/product-specs/index.md", productSpecsIndexContent, t⟩,
   ⟨"docs/product-specs/template.md", getProductSpecTemplate, t⟩,
   ⟨"scripts/validate-structure.ts", getValidationScriptTemplate ValidationLanguage.typescript, t⟩,
   ⟨"scripts/package.json", validationPackageJsonText, t⟩,
   ⟨".gitignore", getGitignoreTemplate, t⟩,
   ⟨"biome.json", getBiomeConfigTemplate, t⟩,
   ⟨"README.md", getReadmeTemplate ProjectType.frontend ValidationLanguage.typescript, t⟩]⟩

/-- The file system scaffolded at time `t` for the frontend/javascript/CI configuration. -/
def fsFrJsCi (t : Int) : FS :=
  ⟨["docs/design-docs", "docs/exec-plans/active", "docs/exec-plans/completed", "docs/product-specs", "docs/references", "docs/generated", "scripts", ".github/workflows"],
   [⟨"AGENTS.md", getAgentsTemplate ProjectType.frontend, t⟩,
   ⟨"CLAUDE.md", getAgentsTemplate ProjectType.frontend, t⟩,
   ⟨"ARCHITECTURE.md", getArchitectureTemplate ProjectType.frontend, t⟩,
   ⟨"DESIGN.md", getDesignTemplate, t⟩,
   ⟨"PLANS.md", getPlansTemplate, t⟩,
   ⟨"PRODUCT_SENSE.md", getProductSenseTemplate, t⟩,
   ⟨"QUALITY_SCORE.md", getQualityScoreTemplate, t⟩,
   ⟨"RELIABILITY.md", getReliabilityTemplate, t⟩,
   ⟨"SECURITY.md", getSecurityTemplate, t⟩,
   ⟨"FRONTEND.md", getFrontendTemplate, t⟩,
   ⟨"docs/design-docs/index.md", designDocsIndexContent, t⟩,
   ⟨"docs/design-docs/core-beliefs.md", getCoreBeliefsTemplate, t⟩,
   ⟨"docs/design-docs/template.md", getDesignDocTemplate, t⟩,
   ⟨"docs/exec-plans/template.md", getExecPlanTemplate, t⟩,
   ⟨"docs/exec-plans/tech-debt-tracker.md", getTechDebtTrackerTemplate, t⟩,
   ⟨"docs/product-specs/index.md", productSpecsIndexContent, t⟩,
   ⟨"docs/product-specs/template.md", getProductSpecTemplate, t⟩,
   ⟨"scripts/validate-structure.js", getValidationScriptTemplate ValidationLanguage.javascript, t⟩,
   ⟨".github/workflows/validate-docs.yml", getGithubWorkflowTemplate ValidationLanguage.javascript, t⟩,
   ⟨".github/markdown-link-check-config.json", getMarkdownLinkCheckConfig, t⟩,
   ⟨".gitignore", getGitignoreTemplate, t⟩,
   ⟨"biome.json", getBiomeConfigTemplate, t⟩,
   ⟨"README.md", getReadmeTemplate ProjectType.frontend ValidationLanguage.javascript, t⟩]⟩

/-- The file system scaffolded at time `t` for the frontend/javascript/no-CI configuration. -/
def fsFrJsNc (t : Int) : FS :=
  ⟨["docs/design-docs", "docs/exec-plans/active", "docs/exec-plans/completed", "docs/product-specs", "docs/references", "docs/generated", "scripts"],
   [⟨"AGENTS.md", getAgentsTemplate ProjectType.frontend, t⟩,
   ⟨"CLAUDE.md", getAgentsTemplate ProjectType.frontend, t⟩,
   ⟨"ARCHITECTURE.md", getArchitectureTemplate ProjectType.frontend, t⟩,
   ⟨"DESIGN.md", getDesignTemplate, t⟩,
   ⟨"PLANS.md", getPlansTemplate, t⟩,
   ⟨"PRODUCT_SENSE.md", getProductSenseTemplate, t⟩,
   ⟨"QUALITY_SCORE.md", getQualityScoreTemplate, t⟩,
   ⟨"RELIABILITY.md", getReliabilityTemplate, t⟩,
   ⟨"SECURITY.md", getSecurityTemplate, t⟩,
   ⟨"FRONTEND.md", getFrontendTemplate, t⟩,
   ⟨"docs/design-docs/index.md", designDocsIndexContent, t⟩,
   ⟨"docs/design-docs/core-beliefs.md", getCoreBeliefsTemplate, t⟩,
   ⟨"docs/design-docs/template.md", getDesignDocTemplate, t⟩,
   ⟨"docs/exec-plans/template.md", getExecPlanTemplate, t⟩,
   ⟨"docs/exec-plans/tech-debt-tracker.md", getTechDebtTrackerTemplate, t⟩,
   ⟨"docs/product-specs/index.md", productSpecsIndexContent, t⟩,
   ⟨"docs/product-specs/template.md", getProductSpecTemplate, t⟩,
   ⟨"scripts/validate-structure.js", getValidationScriptTemplate ValidationLanguage.javascript, t⟩,
   ⟨".gitignore", getGitignoreTemplate, t⟩,
   ⟨"biome.json", getBiomeConfigTemplate, t⟩,
   ⟨"README.md", getReadmeTemplate ProjectType.frontend ValidationLanguage.javascript, t⟩]⟩
/-! ### Inputs used to settle the claims -/

/-- A URL scheme prefix in the sense of the specification sentence about
link checking: the path of an external link starts with the scheme of
HTTP or HTTPS.  This definition follows the wording of the specification
(not the code) and is compared against the embedded behaviour of
`validateCrossLinks`, which skips on the literal prefix `http`. -/
def hasUrlScheme (p : String) : Bool :=
  "http://".data.isPrefixOf p.data || "https://".data.isPrefixOf p.data

/-- A project root whose agent guide holds one markdown link with path
`httpx.md`: the path starts with the literal `http` without being
scheme-prefixed, and no such file exists. -/
def c5fs : FS := ⟨[], [⟨"AGENTS.md", "see [notes](httpx.md)", 0⟩]⟩

/-- A project root whose agent guide holds one markdown link with the
relative path `missing.md`, and no such file exists. -/
def c5wfs : FS := ⟨[], [⟨"AGENTS.md", "see [a](missing.md)", 0⟩]⟩
/-! ### Generic lemmas -/

theorem beqStr_iff {a b : String} : beqStr a b = true ↔ a = b := by
  constructor
  · intro h
    exact String.ext (by simpa [beqStr] using h)
  · intro h
    subst h
    simp [beqStr]

theorem beqStr_refl (a : String) : beqStr a a = true := beqStr_iff.mpr rfl

theorem strDataAppend (a b : String) : (a ++ b).data = a.data ++ b.data := by
  cases a; cases b; rfl

/-! #### Characterising the emission folds

`main` only ever creates directories that do not yet exist and writes
file paths that are pairwise distinct and absent from the empty target,
so the two folds of `applyScaffold` reduce to plain list appends. -/

theorem mkdirp_fresh {fs : FS} {d : String} (h : ∀ e ∈ fs.dirs, e ≠ d) :
    mkdirp fs d = { fs with dirs := fs.dirs ++ [d] } := by
  unfold mkdirp
  rw [if_neg ?_]
  intro hc
  obtain ⟨e, he, hbe⟩ := List.any_eq_true.mp hc
  exact h e he (beqStr_iff.mp hbe)

theorem mkdirp_mem {fs : FS} {d : String} (h : d ∈ fs.dirs) : mkdirp fs d = fs := by
  have hany : (fs.dirs.any fun e => beqStr e d) = true := List.any_eq_true.mpr ⟨d, h, beqStr_refl d⟩
  unfold mkdirp
  rw [hany, if_pos rfl]

theorem foldl_mkdirp_fresh :
    ∀ (ds : List String) (fs : FS), ds.Nodup → (∀ d ∈ ds, d ∉ fs.dirs) →
      ds.foldl (fun a d => mkdirp a d) fs = { fs with dirs := fs.dirs ++ ds }
  | [], fs, _, _ => by simp
  | d :: ds, fs, hnd, hfresh => by
    obtain ⟨hd_notin, hnd_rest⟩ := List.nodup_cons.mp hnd
    rw [List.foldl_cons,
      mkdirp_fresh (fun e he hed => hfresh d (by simp) (by rw [← hed]; exact he))]
    rw [foldl_mkdirp_fresh ds _ hnd_rest ?_]
    · simp
    · intro e he hmem
      rcases List.mem_append.mp hmem with h1 | h2
      · exact hfresh e (List.mem_cons_of_mem d he) h1
      · rw [List.mem_singleton.mp h2] at he
        exact hd_notin he

theorem foldl_mkdirp_mem :
    ∀ (ds : List String) (fs : FS), (∀ d ∈ ds, d ∈ fs.dirs) →
      ds.foldl (fun a d => mkdirp a d) fs = fs
  | [], _, _ => rfl
  | d :: ds, fs, h => by
    rw [List.foldl_cons, mkdirp_mem (h d (by simp))]
    exact foldl_mkdirp_mem ds fs (fun e he => h e (List.mem_cons_of_mem d he))

theorem writeFile_fresh {fs : FS} {p : String} (h : ∀ f ∈ fs.files, f.path ≠ p)
    (content : String) (t : Int) :
    writeFile fs p content t = { fs with files := fs.files ++ [⟨p, content, t⟩] } := by
  unfold writeFile
  rw [if_neg ?_]
  intro hc
  obtain ⟨f, hf, hbe⟩ := List.any_eq_true.mp hc
  exact h f hf (beqStr_iff.mp hbe)

theorem foldl_writeFile_fresh (t : Int) :
    ∀ (plan : List (String × String)) (fs : FS),
      (plan.map Prod.fst).Nodup →
      (∀ pc ∈ plan, ∀ f ∈ fs.files, f.path ≠ pc.1) →
      plan.foldl (fun a pc => writeFile a pc.1 pc.2 t) fs
        = { fs with files := fs.files ++ plan.map (fun pc => ⟨pc.1, pc.2, t⟩) }
  | [], fs, _, _ => by simp
  | pc :: plan, fs, hnd, hfresh => by
    have hnd' : (pc.1 :: plan.map Prod.fst).Nodup := by simpa using hnd
    obtain ⟨hp_notin, hnd_rest⟩ := List.nodup_cons.mp hnd'
    rw [List.foldl_cons, writeFile_fresh (hfresh pc (by simp)) pc.2 t]
    rw [foldl_writeFile_fresh t plan _ hnd_rest ?_]
    · simp
    · intro qc hq f hf
      rcases List.mem_append.mp hf with h1 | h2
      · exact hfresh qc (List.mem_cons_of_mem pc hq) f h1
      · rw [List.mem_singleton.mp h2]
        intro heq
        have heq1 : pc.1 = qc.1 := heq
        exact hp_notin (by rw [heq1]; exact List.mem_map_of_mem Prod.fst hq)

/-- Scaffolding into an empty target records exactly the planned
directories and writes exactly the planned files, all stamped `t`. -/
theorem scaffoldFS_eq (c : ProjectConfig) (t : Int)
    (h1 : (directories c).Nodup) (h2 : (emittedPaths c).Nodup) :
    scaffoldFS c t = ⟨directories c, (emittedFiles c).map (fun pc => ⟨pc.1, pc.2, t⟩)⟩ := by
  unfold scaffoldFS applyScaffold
  rw [foldl_mkdirp_fresh _ emptyFS h1 (by intro d _ hmem; simp [emptyFS] at hmem)]
  rw [foldl_writeFile_fresh t _ _ h2 (by intro pc _ f hf; simp [emptyFS] at hf)]
  simp [emptyFS]

/-! #### The overwriting second run -/

theorem writeFile_overwrite {fs : FS} {p content : String} (t' : Int)
    (hmem : (p, content) ∈ fs.files.map (fun f => (f.path, f.content)))
    (hnd : (fs.files.map FSFile.path).Nodup) :
    (writeFile fs p content t').files.map (fun f => (f.path, f.content))
      = fs.files.map (fun f => (f.path, f.content))
    ∧ (writeFile fs p content t').dirs = fs.dirs := by
  obtain ⟨f0, hf0, hpc⟩ := List.mem_map.mp hmem
  have hp0 : f0.path = p := congrArg Prod.fst hpc
  have hc0 : f0.content = content := congrArg Prod.snd hpc
  have hany : (fs.files.any fun f => beqStr f.path p) = true :=
    List.any_eq_true.mpr ⟨f0, hf0, beqStr_iff.mpr hp0⟩
  unfold writeFile
  rw [hany, if_pos rfl]
  refine ⟨?_, rfl⟩
  simp only [List.map_map]
  refine List.map_congr_left ?_
  intro f hf
  simp only [Function.comp]
  by_cases hfp : beqStr f.path p = true
  · have hfpeq : f.path = p := beqStr_iff.mp hfp
    have hff0 : f = f0 :=
      List.inj_on_of_nodup_map hnd hf hf0 (by rw [hfpeq, hp0])
    rw [if_pos hfp]
    rw [hff0] at hfpeq ⊢
    simp [hp0, hc0, hfpeq]
  · rw [Bool.not_eq_true] at hfp
    rw [if_neg (by simp [hfp])]

theorem foldl_writeFile_overwrite (t' : Int) :
    ∀ (plan : List (String × String)) (fs : FS),
      (∀ pc ∈ plan, (pc.1, pc.2) ∈ fs.files.map (fun f => (f.path, f.content))) →
      (fs.files.map FSFile.path).Nodup →
      ((plan.foldl (fun a pc => writeFile a pc.1 pc.2 t') fs).files.map (fun f => (f.path, f.content))
          = fs.files.map (fun f => (f.path, f.content))
        ∧ (plan.foldl (fun a pc => writeFile a pc.1 pc.2 t') fs).dirs = fs.dirs)
  | [], fs, _, _ => ⟨rfl, rfl⟩
  | pc :: plan, fs, hmem, hnd => by
    rw [List.foldl_cons]
    have hstep := writeFile_overwrite t' (hmem pc (by simp)) hnd
    have hpaths : (writeFile fs pc.1 pc.2 t').files.map FSFile.path = fs.files.map FSFile.path := by
      have h1 : ((writeFile fs pc.1 pc.2 t').files.map (fun f => (f.path, f.content))).map Prod.fst
          = (fs.files.map (fun f => (f.path, f.content))).map Prod.fst := by rw [hstep.1]
      simpa [List.map_map, Function.comp] using h1
    have hrest := foldl_writeFile_overwrite t' plan (writeFile fs pc.1 pc.2 t')
      (by intro qc hq; rw [hstep.1]; exact hmem qc (List.mem_cons_of_mem pc hq))
      (by rw [hpaths]; exact hnd)
    exact ⟨hrest.1.trans hstep.1, hrest.2.trans hstep.2⟩

/-! #### Fold-with-guard characterisation

Every accumulator loop of the validator has the shape
`acc := if pass x then acc else acc ++ [message x]`; it appends the
messages of precisely the failing entries, in order. -/

theorem foldl_guard_eq {α β : Type} (pass : α → Bool) (msg : α → β) :
    ∀ (xs : List α) (acc : List β),
      xs.foldl (fun a x => if pass x then a else a ++ [msg x]) acc
        = acc ++ (xs.filter (fun x => !pass x)).map msg
  | [], acc => by simp
  | x :: xs, acc => by
    rw [List.foldl_cons]
    by_cases h : pass x = true
    · rw [if_pos h, foldl_guard_eq pass msg xs acc]
      simp [List.filter_cons, h]
    · rw [Bool.not_eq_true] at h
      rw [if_neg (by simp [h]), foldl_guard_eq pass msg xs (acc ++ [msg x])]
      simp [List.filter_cons, h]

theorem missingDocErrors_eq (fs : FS) :
    missingDocErrors fs
      = (requiredDocs.filter (fun d => !existsFS fs d)).map
          (fun doc => "Missing required document: " ++ doc) :=
  foldl_guard_eq (fun doc => existsFS fs doc) _ requiredDocs []

theorem missingDocErrors_nil (fs : FS) (h : ∀ d ∈ requiredDocs, existsFS fs d = true) :
    missingDocErrors fs = [] := by
  rw [missingDocErrors_eq, List.filter_eq_nil_iff.mpr (by intro d hd; simp [h d hd])]
  rfl

theorem validateDocsStructure_nil (fs : FS)
    (h1 : ∀ d ∈ requiredDirs, existsFS fs d = true)
    (h2 : ∀ d ∈ requiredIndexes, existsFS fs d = true) :
    validateDocsStructure fs = ([], []) := by
  unfold validateDocsStructure
  rw [foldl_guard_eq (fun dir => existsFS fs dir) _ requiredDirs []]
  rw [foldl_guard_eq (fun idx => existsFS fs idx) _ requiredIndexes []]
  rw [List.filter_eq_nil_iff.mpr (by intro d hd; simp [h1 d hd])]
  rw [List.filter_eq_nil_iff.mpr (by intro d hd; simp [h2 d hd])]
  rfl

theorem identityErrors_nil (fs : FS) (s : String)
    (h1 : existsFS fs "AGENTS.md" = true) (h2 : existsFS fs "CLAUDE.md" = true)
    (h3 : readFileFS fs "AGENTS.md" = some s) (h4 : readFileFS fs "CLAUDE.md" = some s) :
    identityErrors fs = [] := by
  unfold identityErrors
  have hand : ((true : Bool) && true) = true := rfl
  rw [h1, h2, hand, if_pos rfl, h3, h4]
  simp only []
  rw [beqStr_refl s, if_pos rfl]

theorem lineCountWarnings_nil (fs : FS) (s : String)
    (h1 : existsFS fs "AGENTS.md" = true) (h3 : readFileFS fs "AGENTS.md" = some s)
    (hlen : (splitNl s.data).length ≤ 150) :
    lineCountWarnings fs = [] := by
  unfold lineCountWarnings
  rw [if_pos h1, h3]
  simp only []
  rw [if_neg (by omega)]

theorem validateRootDocs_nil (fs : FS) (s : String)
    (hdocs : ∀ d ∈ requiredDocs, existsFS fs d = true)
    (h3 : readFileFS fs "AGENTS.md" = some s) (h4 : readFileFS fs "CLAUDE.md" = some s)
    (hlen : (splitNl s.data).length ≤ 150) :
    validateRootDocs fs = ([], []) := by
  have hA : existsFS fs "AGENTS.md" = true := hdocs _ (by simp [requiredDocs])
  have hC : existsFS fs "CLAUDE.md" = true := hdocs _ (by simp [requiredDocs])
  unfold validateRootDocs
  rw [missingDocErrors_nil fs hdocs, identityErrors_nil fs s hA hC h3 h4,
    lineCountWarnings_nil fs s hA h3 hlen]
  rfl

/-! #### Cross-link characterisation -/

theorem crossLinks_foldl_eq (fs : FS) :
    ∀ (links : List String) (acc : List String),
      links.foldl (fun acc linkPath =>
          if "http".data.isPrefixOf linkPath.data then acc
          else if existsFS fs linkPath then acc
          else acc ++ [brokenLinkWarning linkPath]) acc
        = acc ++ brokenOf fs links
  | [], acc => by simp [brokenOf]
  | p :: links, acc => by
    rw [List.foldl_cons]
    by_cases h1 : "http".data.isPrefixOf p.data = true
    · rw [if_pos h1, crossLinks_foldl_eq fs links acc]
      simp [brokenOf, List.filter_cons, h1]
    · rw [Bool.not_eq_true] at h1
      rw [if_neg (by simp [h1])]
      by_cases h2 : existsFS fs p = true
      · rw [if_pos h2, crossLinks_foldl_eq fs links acc]
        simp [brokenOf, List.filter_cons, h1, h2]
      · rw [Bool.not_eq_true] at h2
        rw [if_neg (by simp [h2]), crossLinks_foldl_eq fs links (acc ++ [brokenLinkWarning p])]
        simp [brokenOf, List.filter_cons, h1, h2]

theorem validateCrossLinks_eq (fs : FS) (s : String)
    (h1 : existsFS fs "AGENTS.md" = true) (h2 : readFileFS fs "AGENTS.md" = some s) :
    validateCrossLinks fs = brokenOf fs (extractLinks s) := by
  unfold validateCrossLinks
  rw [if_pos h1, h2]
  simpa using crossLinks_foldl_eq fs (extractLinks s) []

theorem validateCrossLinks_nil (fs : FS) (s : String)
    (h1 : existsFS fs "AGENTS.md" = true) (h2 : readFileFS fs "AGENTS.md" = some s)
    (hall : ∀ p ∈ extractLinks s, "http".data.isPrefixOf p.data = true ∨ existsFS fs p = true) :
    validateCrossLinks fs = [] := by
  rw [validateCrossLinks_eq fs s h1 h2]
  unfold brokenOf
  rw [List.filter_eq_nil_iff.mpr ?_]
  · rfl
  · intro p hp
    rcases hall p hp with h | h <;> simp [h]

theorem brokenLinkWarning_inj {p q : String} (h : brokenLinkWarning p = brokenLinkWarning q) :
    p = q := by
  unfold brokenLinkWarning at h
  have hd := congrArg String.data h
  rw [strDataAppend, strDataAppend] at hd
  exact String.ext (List.append_cancel_left hd)

theorem mem_brokenOf_iff (fs : FS) (links : List String) (p : String) (hp : p ∈ links) :
    brokenLinkWarning p ∈ brokenOf fs links
      ↔ ("http".data.isPrefixOf p.data = false ∧ existsFS fs p = false) := by
  unfold brokenOf
  rw [List.mem_map]
  constructor
  · rintro ⟨q, hq, hqe⟩
    obtain ⟨_, hqcond⟩ := List.mem_filter.mp hq
    cases brokenLinkWarning_inj hqe
    simpa only [Bool.and_eq_true, Bool.not_eq_true'] using hqcond
  · rintro ⟨hhttp, hex⟩
    exact ⟨p, List.mem_filter.mpr ⟨hp, by simp [hhttp, hex]⟩, rfl⟩

/-! #### Freshness helper -/

theorem staleWarning_now (now : Int) (file : String) : staleWarning now now file = [] := by
  unfold staleWarning
  rw [if_neg ?_]
  simp [sixMonthsMs]

/-! #### Newline counting -/

theorem countNl_append : ∀ (a b : List Char), countNl (a ++ b) = countNl a + countNl b
  | [], b => by simp [countNl]
  | c :: a, b => by
    simp only [List.cons_append, countNl, List.append_eq]
    rw [countNl_append a b]
    omega

theorem splitNl_ne_nil : ∀ (l : List Char), splitNl l ≠ []
  | [] => by simp [splitNl]
  | c :: cs => by
    simp only [splitNl]
    by_cases h : c = '\n'
    · simp [h]
    · rw [if_neg h]
      rcases hm : splitNl cs with _ | ⟨h0, t0⟩
      · exact absurd hm (splitNl_ne_nil cs)
      · simp

theorem splitNl_length : ∀ (l : List Char), (splitNl l).length = countNl l + 1
  | [] => by simp [splitNl, countNl]
  | c :: cs => by
    simp only [splitNl, countNl]
    by_cases h : c = '\n'
    · simp only [if_pos h, List.length_cons, splitNl_length cs]
      omega
    · rw [if_neg h]
      rcases hm : splitNl cs with _ | ⟨h0, t0⟩
      · exact absurd hm (splitNl_ne_nil cs)
      · have hrec := splitNl_length cs
        rw [hm] at hrec
        simp only [List.length_cons] at hrec ⊢
        simp only [if_neg h]
        omega

/-! #### Substring machinery -/

theorem isPrefixOf_stable : ∀ (n s b : List Char), n.length ≤ s.length →
    n.isPrefixOf (s ++ b) = n.isPrefixOf s
  | [], s, b, _ => by simp [List.isPrefixOf]
  | a :: n, [], b, h => by simp at h
  | a :: n, c :: s, b, h => by
    simp only [List.cons_append, List.isPrefixOf, List.append_eq]
    rw [isPrefixOf_stable n s b (by simpa using h)]

theorem containsSub_extend_right : ∀ (n a b : List Char),
    containsSub n a = true → containsSub n (a ++ b) = true
  | n, [], b, h => by
    have hn : n = [] := by simpa [containsSub, List.isEmpty_iff] using h
    subst hn
    cases b <;> simp [containsSub, List.isPrefixOf]
  | n, c :: a, b, h => by
    simp only [containsSub, Bool.or_eq_true] at h
    simp only [List.cons_append, containsSub, Bool.or_eq_true]
    rcases h with h | h
    · left
      have hpre := List.isPrefixOf_iff_prefix.mp h
      exact List.isPrefixOf_iff_prefix.mpr (hpre.trans (List.prefix_append (c :: a) b))
    · right
      exact containsSub_extend_right n a b h

theorem containsSub_extend_left : ∀ (n a b : List Char),
    containsSub n b = true → containsSub n (a ++ b) = true
  | n, [], b, h => by simpa using h
  | n, c :: a, b, h => by
    simp only [List.cons_append, containsSub, Bool.or_eq_true]
    exact Or.inr (containsSub_extend_left n a b h)

theorem containsSub_chain : ∀ (a0 carry b n : List Char),
    n.length ≤ carry.length + 1 →
    containsSub n (a0 ++ (carry ++ b))
      = (containsSub n (a0 ++ carry) || containsSub n (carry ++ b))
  | [], carry, b, n, _ => by
    simp only [List.nil_append]
    rcases h : containsSub n carry with _ | _
    · simp
    · simp [containsSub_extend_right n carry b h]
  | c :: a0, carry, b, n, hlen => by
    simp only [List.cons_append, containsSub, Bool.or_eq_true, List.append_eq]
    rw [containsSub_chain a0 carry b n hlen]
    have hpre : n.isPrefixOf (c :: (a0 ++ (carry ++ b))) = n.isPrefixOf (c :: (a0 ++ carry)) := by
      have hs := isPrefixOf_stable n (c :: (a0 ++ carry)) b
        (by simp [List.length_append]; omega)
      simpa using hs
    rw [hpre, Bool.or_assoc]

/-- Propositional reading of `containsSub`: the needle occurs as a
contiguous segment. -/
theorem containsSub_true_iff : ∀ (n l : List Char), containsSub n l = true ↔ SubSeg n l
  | n, [] => by
    simp only [containsSub, List.isEmpty_iff, SubSeg]
    constructor
    · intro h
      exact ⟨[], [], by simp [h]⟩
    · intro ⟨s, t, h⟩
      have hlen := congrArg List.length h
      simp [List.length_append] at hlen
      exact List.eq_nil_of_length_eq_zero (by omega)
  | n, c :: cs => by
    simp only [containsSub, Bool.or_eq_true]
    constructor
    · intro h
      rcases h with h | h
      · obtain ⟨t, ht⟩ := List.isPrefixOf_iff_prefix.mp h
        exact ⟨[], t, by simp [← ht]⟩
      · obtain ⟨s, t, ht⟩ := (containsSub_true_iff n cs).mp h
        exact ⟨c :: s, t, by simp [ht]⟩
    · intro ⟨s, t, ht⟩
      rcases s with _ | ⟨c', s'⟩
      · left
        exact List.isPrefixOf_iff_prefix.mpr ⟨t, by simpa using ht.symm⟩
      · right
        refine (containsSub_true_iff n cs).mpr ⟨s', t, ?_⟩
        simp only [List.cons_append] at ht
        exact ((List.cons.injEq _ _ _ _).mp ht).2

theorem containsSub_false_iff (n l : List Char) : containsSub n l = false ↔ ¬ SubSeg n l := by
  rw [← containsSub_true_iff]
  exact ⟨fun h hc => by simp [h] at hc, fun h => Bool.eq_false_iff.mpr (fun hc => h hc)⟩

theorem validateDocFreshness_placeholders (fs : FS) (now : Int)
    (hex : existsFS fs "docs/design-docs" = true)
    (hchild : designDocFiles fs = ["index.md", "core-beliefs.md", "template.md"])
    (hstat : statMtimeMs fs "docs/design-docs/core-beliefs.md" = some now) :
    validateDocFreshness fs now = [] := by
  unfold validateDocFreshness
  rw [if_pos hex, hchild, if_neg (by simp)]
  simp only [List.foldl]
  have e1 : (beqStr "index.md" "index.md" || beqStr "index.md" "template.md") = true := rfl
  have e2 : (beqStr "core-beliefs.md" "index.md" || beqStr "core-beliefs.md" "template.md") = false := rfl
  have e3 : (beqStr "template.md" "index.md" || beqStr "template.md" "template.md") = true := rfl
  have hjoin : ("docs/design-docs/" ++ "core-beliefs.md") = "docs/design-docs/core-beliefs.md" := rfl
  rw [e1, e2, e3, hjoin, hstat]
  simp [staleWarning_now]

/-- Assembling one full validator run from its four checks. -/
theorem validate_result (fs : FS) (now : Int)
    (hroot : validateRootDocs fs = ([], []))
    (hstruct : validateDocsStructure fs = ([], []))
    (hcl : validateCrossLinks fs = [])
    (hfr : validateDocFreshness fs now = []) :
    validate fs now = ⟨[], [], true⟩ := by
  unfold validate
  rw [hroot, hstruct, hcl, hfr]
  rfl
/-! ### Per-configuration facts -/

theorem emittedFiles_FuTsCi (obs : Bool) :
    emittedFiles ⟨ProjectType.fullstack, ValidationLanguage.typescript, obs, true⟩ = (fsFuTsCi 0).files.map (fun f => (f.path, f.content)) := rfl

theorem emittedPaths_FuTsCi (obs : Bool) :
    emittedPaths ⟨ProjectType.fullstack, ValidationLanguage.typescript, obs, true⟩ = ["AGENTS.md", "CLAUDE.md", "ARCHITECTURE.md", "DESIGN.md", "PLANS.md", "PRODUCT_SENSE.md", "QUALITY_SCORE.md", "RELIABILITY.md", "SECURITY.md", "FRONTEND.md", "docs/design-docs/index.md", "docs/design-docs/core-beliefs.md", "docs/design-docs/template.md", "docs/exec-plans/template.md", "docs/exec-plans/tech-debt-tracker.md", "docs/product-specs/index.md", "docs/product-specs/template.md", "scripts/validate-structure.ts", "scripts/package.json", ".github/workflows/validate-docs.yml", ".github/markdown-link-check-config.json", ".gitignore", "biome.json", "README.md"] := rfl

theorem scaffold_FuTsCi (obs : Bool) (t : Int) :
    scaffoldFS ⟨ProjectType.fullstack, ValidationLanguage.typescript, obs, true⟩ t = fsFuTsCi t := by
  rw [scaffoldFS_eq ⟨ProjectType.fullstack, ValidationLanguage.typescript, obs, true⟩ t (show (["docs/design-docs", "docs/exec-plans/active", "docs/exec-plans/completed", "docs/product-specs", "docs/references", "docs/generated", "scripts", ".github/workflows"] : List String).Nodup by decide)
    (show (["AGENTS.md", "CLAUDE.md", "ARCHITECTURE.md", "DESIGN.md", "PLANS.md", "PRODUCT_SENSE.md", "QUALITY_SCORE.md", "RELIABILITY.md", "SECURITY.md", "FRONTEND.md", "docs/design-docs/index.md", "docs/design-docs/core-beliefs.md", "docs/design-docs/template.md", "docs/exec-plans/template.md", "docs/exec-plans/tech-debt-tracker.md", "docs/product-specs/index.md", "docs/product-specs/template.md", "scripts/validate-structure.ts", "scripts/package.json", ".github/workflows/validate-docs.yml", ".github/markdown-link-check-config.json", ".gitignore", "biome.json", "README.md"] : List String).Nodup by decide)]
  rfl

theorem docsExist_FuTsCi (t : Int) : ∀ d ∈ requiredDocs, existsFS (fsFuTsCi t) d = true := by
  intro d hd
  fin_cases hd <;> rfl

theorem dirsExist_FuTsCi (t : Int) : ∀ d ∈ requiredDirs, existsFS (fsFuTsCi t) d = true := by
  intro d hd
  fin_cases hd <;> rfl

theorem idxExist_FuTsCi (t : Int) : ∀ d ∈ requiredIndexes, existsFS (fsFuTsCi t) d = true := by
  intro d hd
  fin_cases hd <;> rfl

theorem readA_FuTsCi (t : Int) :
    readFileFS (fsFuTsCi t) "AGENTS.md" = some (getAgentsTemplate ProjectType.fullstack) := rfl

theorem readC_FuTsCi (t : Int) :
    readFileFS (fsFuTsCi t) "CLAUDE.md" = some (getAgentsTemplate ProjectType.fullstack) := rfl

theorem ddFiles_FuTsCi (t : Int) :
    designDocFiles (fsFuTsCi t) = ["index.md", "core-beliefs.md", "template.md"] := rfl

theorem statCB_FuTsCi (t : Int) :
    statMtimeMs (fsFuTsCi t) "docs/design-docs/core-beliefs.md" = some t := rfl

theorem linksOk_FuTsCi (t : Int) : ∀ p ∈ ["./ARCHITECTURE.md", "./DESIGN.md", "./SECURITY.md", "./QUALITY_SCORE.md", "./RELIABILITY.md", "./PRODUCT_SENSE.md", "./PLANS.md", "./FRONTEND.md", "./docs/design-docs/index.md", "./PLANS.md", "./docs/product-specs/index.md", "./docs/design-docs/core-beliefs.md", "./docs/exec-plans/tech-debt-tracker.md"], existsFS (fsFuTsCi t) p = true := by
  intro p hp
  fin_cases hp <;> rfl

theorem emittedFiles_FuTsNc (obs : Bool) :
    emittedFiles ⟨ProjectType.fullstack, ValidationLanguage.typescript, obs, false⟩ = (fsFuTsNc 0).files.map (fun f => (f.path, f.content)) := rfl

theorem emittedPaths_FuTsNc (obs : Bool) :
    emittedPaths ⟨ProjectType.fullstack, ValidationLanguage.typescript, obs, false⟩ = ["AGENTS.md", "CLAUDE.md", "ARCHITECTURE.md", "DESIGN.md", "PLANS.md", "PRODUCT_SENSE.md", "QUALITY_SCORE.md", "RELIABILITY.md", "SECURITY.md", "FRONTEND.md", "docs/design-docs/index.md", "docs/design-docs/core-beliefs.md", "docs/design-docs/template.md", "docs/exec-plans/template.md", "docs/exec-plans/tech-debt-tracker.md", "docs/product-specs/index.md", "docs/product-specs/template.md", "scripts/validate-structure.ts", "scripts/package.json", ".gitignore", "biome.json", "README.md"] := rfl

theorem scaffold_FuTsNc (obs : Bool) (t : Int) :
    scaffoldFS ⟨ProjectType.fullstack, ValidationLanguage.typescript, obs, false⟩ t = fsFuTsNc t := by
  rw [scaffoldFS_eq ⟨ProjectType.fullstack, ValidationLanguage.typescript, obs, false⟩ t (show (["docs/design-docs", "docs/exec-plans/active", "docs/exec-plans/completed", "docs/product-specs", "docs/references", "docs/generated", "scripts"] : List String).Nodup by decide)
    (show (["AGENTS.md", "CLAUDE.md", "ARCHITECTURE.md", "DESIGN.md", "PLANS.md", "PRODUCT_SENSE.md", "QUALITY_SCORE.md", "RELIABILITY.md", "SECURITY.md", "FRONTEND.md", "docs/design-docs/index.md", "docs/design-docs/core-beliefs.md", "docs/design-docs/template.md", "docs/exec-plans/template.md", "docs/exec-plans/tech-debt-tracker.md", "docs/product-specs/index.md", "docs/product-specs/template.md", "scripts/validate-structure.ts", "scripts/package.json", ".gitignore", "biome.json", "README.md"] : List String).Nodup by decide)]
  rfl

theorem docsExist_FuTsNc (t : Int) : ∀ d ∈ requiredDocs, existsFS (fsFuTsNc t) d = true := by
  intro d hd
  fin_cases hd <;> rfl

theorem dirsExist_FuTsNc (t : Int) : ∀ d ∈ requiredDirs, existsFS (fsFuTsNc t) d = true := by
  intro d hd
  fin_cases hd <;> rfl

theorem idxExist_FuTsNc (t : Int) : ∀ d ∈ requiredIndexes, existsFS (fsFuTsNc t) d = true := by
  intro d hd
  fin_cases hd <;> rfl

theorem readA_FuTsNc (t : Int) :
    readFileFS (fsFuTsNc t) "AGENTS.md" = some (getAgentsTemplate ProjectType.fullstack) := rfl

theorem readC_FuTsNc (t : Int) :
    readFileFS (fsFuTsNc t) "CLAUDE.md" = some (getAgentsTemplate ProjectType.fullstack) := rfl

theorem ddFiles_FuTsNc (t : Int) :
    designDocFiles (fsFuTsNc t) = ["index.md", "core-beliefs.md", "template.md"] := rfl

theorem statCB_FuTsNc (t : Int) :
    statMtimeMs (fsFuTsNc t) "docs/design-docs/core-beliefs.md" = some t := rfl

theorem linksOk_FuTsNc (t : Int) : ∀ p ∈ ["./ARCHITECTURE.md", "./DESIGN.md", "./SECURITY.md", "./QUALITY_SCORE.md", "./RELIABILITY.md", "./PRODUCT_SENSE.md", "./PLANS.md", "./FRONTEND.md", "./docs/design-docs/index.md", "./PLANS.md", "./docs/product-specs/index.md", "./docs/design-docs/core-beliefs.md", "./docs/exec-plans/tech-debt-tracker.md"], existsFS (fsFuTsNc t) p = true := by
  intro p hp
  fin_cases hp <;> rfl

theorem emittedFiles_FuJsCi (obs : Bool) :
    emittedFiles ⟨ProjectType.fullstack, ValidationLanguage.javascript, obs, true⟩ = (fsFuJsCi 0).files.map (fun f => (f.path, f.content)) := rfl

theorem emittedPaths_FuJsCi (obs : Bool) :
    emittedPaths ⟨ProjectType.fullstack, ValidationLanguage.javascript, obs, true⟩ = ["AGENTS.md", "CLAUDE.md", "ARCHITECTURE.md", "DESIGN.md", "PLANS.md", "PRODUCT_SENSE.md", "QUALITY_SCORE.md", "RELIABILITY.md", "SECURITY.md", "FRONTEND.md", "docs/design-docs/index.md", "docs/design-docs/core-beliefs.md", "docs/design-docs/template.md", "docs/exec-plans/template.md", "docs/exec-plans/tech-debt-tracker.md", "docs/product-specs/index.md", "docs/product-specs/template.md", "scripts/validate-structure.js", ".github/workflows/validate-docs.yml", ".github/markdown-link-check-config.json", ".gitignore", "biome.json", "README.md"] := rfl

theorem scaffold_FuJsCi (obs : Bool) (t : Int) :
    scaffoldFS ⟨ProjectType.fullstack, ValidationLanguage.javascript, obs, true⟩ t = fsFuJsCi t := by
  rw [scaffoldFS_eq ⟨ProjectType.fullstack, ValidationLanguage.javascript, obs, true⟩ t (show (["docs/design-docs", "docs/exec-plans/active", "docs/exec-plans/completed", "docs/product-specs", "docs/references", "docs/generated", "scripts", ".github/workflows"] : List String).Nodup by decide)
    (show (["AGENTS.md", "CLAUDE.md", "ARCHITECTURE.md", "DESIGN.md", "PLANS.md", "PRODUCT_SENSE.md", "QUALITY_SCORE.md", "RELIABILITY.md", "SECURITY.md", "FRONTEND.md", "docs/design-docs/index.md", "docs/design-docs/core-beliefs.md", "docs/design-docs/template.md", "docs/exec-plans/template.md", "docs/exec-plans/tech-debt-tracker.md", "docs/product-specs/index.md", "docs/product-specs/template.md", "scripts/validate-structure.js", ".github/workflows/validate-docs.yml", ".github/markdown-link-check-config.json", ".gitignore", "biome.json", "README.md"] : List String).Nodup by decide)]
  rfl

theorem docsExist_FuJsCi (t : Int) : ∀ d ∈ requiredDocs, existsFS (fsFuJsCi t) d = true := by
  intro d hd
  fin_cases hd <;> rfl

theorem dirsExist_FuJsCi (t : Int) : ∀ d ∈ requiredDirs, existsFS (fsFuJsCi t) d = true := by
  intro d hd
  fin_cases hd <;> rfl

theorem idxExist_FuJsCi (t : Int) : ∀ d ∈ requiredIndexes, existsFS (fsFuJsCi t) d = true := by
  intro d hd
  fin_cases hd <;> rfl

theorem readA_FuJsCi (t : Int) :
    readFileFS (fsFuJsCi t) "AGENTS.md" = some (getAgentsTemplate ProjectType.fullstack) := rfl

theorem readC_FuJsCi (t : Int) :
    readFileFS (fsFuJsCi t) "CLAUDE.md" = some (getAgentsTemplate ProjectType.fullstack) := rfl

theorem ddFiles_FuJsCi (t : Int) :
    designDocFiles (fsFuJsCi t) = ["index.md", "core-beliefs.md", "template.md"] := rfl

theorem statCB_FuJsCi (t : Int) :
    statMtimeMs (fsFuJsCi t) "docs/design-docs/core-beliefs.md" = some t := rfl

theorem linksOk_FuJsCi (t : Int) : ∀ p ∈ ["./ARCHITECTURE.md", "./DESIGN.md", "./SECURITY.md", "./QUALITY_SCORE.md", "./RELIABILITY.md", "./PRODUCT_SENSE.md", "./PLANS.md", "./FRONTEND.md", "./docs/design-docs/index.md", "./PLANS.md", "./docs/product-specs/index.md", "./docs/design-docs/core-beliefs.md", "./docs/exec-plans/tech-debt-tracker.md"], existsFS (fsFuJsCi t) p = true := by
  intro p hp
  fin_cases hp <;> rfl

theorem emittedFiles_FuJsNc (obs : Bool) :
    emittedFiles ⟨ProjectType.fullstack, ValidationLanguage.javascript, obs, false⟩ = (fsFuJsNc 0).files.map (fun f => (f.path, f.content)) := rfl

theorem emittedPaths_FuJsNc (obs : Bool) :
    emittedPaths ⟨ProjectType.fullstack, ValidationLanguage.javascript, obs, false⟩ = ["AGENTS.md", "CLAUDE.md", "ARCHITECTURE.md", "DESIGN.md", "PLANS.md", "PRODUCT_SENSE.md", "QUALITY_SCORE.md", "RELIABILITY.md", "SECURITY.md", "FRONTEND.md", "docs/design-docs/index.md", "docs/design-docs/core-beliefs.md", "docs/design-docs/template.md", "docs/exec-plans/template.md", "docs/exec-plans/tech-debt-tracker.md", "docs/product-specs/index.md", "docs/product-specs/template.md", "scripts/validate-structure.js", ".gitignore", "biome.json", "README.md"] := rfl

theorem scaffold_FuJsNc (obs : Bool) (t : Int) :
    scaffoldFS ⟨ProjectType.fullstack, ValidationLanguage.javascript, obs, false⟩ t = fsFuJsNc t := by
  rw [scaffoldFS_eq ⟨ProjectType.fullstack, ValidationLanguage.javascript, obs, false⟩ t (show (["docs/design-docs", "docs/exec-plans/active", "docs/exec-plans/completed", "docs/product-specs", "docs/references", "docs/generated", "scripts"] : List String).Nodup by decide)
    (show (["AGENTS.md", "CLAUDE.md", "ARCHITECTURE.md", "DESIGN.md", "PLANS.md", "PRODUCT_SENSE.md", "QUALITY_SCORE.md", "RELIABILITY.md", "SECURITY.md", "FRONTEND.md", "docs/design-docs/index.md", "docs/design-docs/core-beliefs.md", "docs/design-docs/template.md", "docs/exec-plans/template.md", "docs/exec-plans/tech-debt-tracker.md", "docs/product-specs/index.md", "docs/product-specs/template.md", "scripts/validate-structure.js", ".gitignore", "biome.json", "README.md"] : List String).Nodup by decide)]
  rfl

theorem docsExist_FuJsNc (t : Int) : ∀ d ∈ requiredDocs, existsFS (fsFuJsNc t) d = true := by
  intro d hd
  fin_cases hd <;> rfl

theorem dirsExist_FuJsNc (t : Int) : ∀ d ∈ requiredDirs, existsFS (fsFuJsNc t) d = true := by
  intro d hd
  fin_cases hd <;> rfl

theorem idxExist_FuJsNc (t : Int) : ∀ d ∈ requiredIndexes, existsFS (fsFuJsNc t) d = true := by
  intro d hd
  fin_cases hd <;> rfl

theorem readA_FuJsNc (t : Int) :
    readFileFS (fsFuJsNc t) "AGENTS.md" = some (getAgentsTemplate ProjectType.fullstack) := rfl

theorem readC_FuJsNc (t : Int) :
    readFileFS (fsFuJsNc t) "CLAUDE.md" = some (getAgentsTemplate ProjectType.fullstack) := rfl

theorem ddFiles_FuJsNc (t : Int) :
    designDocFiles (fsFuJsNc t) = ["index.md", "core-beliefs.md", "template.md"] := rfl

theorem statCB_FuJsNc (t : Int) :
    statMtimeMs (fsFuJsNc t) "docs/design-docs/core-beliefs.md" = some t := rfl

theorem linksOk_FuJsNc (t : Int) : ∀ p ∈ ["./ARCHITECTURE.md", "./DESIGN.md", "./SECURITY.md", "./QUALITY_SCORE.md", "./RELIABILITY.md", "./PRODUCT_SENSE.md", "./PLANS.md", "./FRONTEND.md", "./docs/design-docs/index.md", "./PLANS.md", "./docs/product-specs/index.md", "./docs/design-docs/core-beliefs.md", "./docs/exec-plans/tech-debt-tracker.md"], existsFS (fsFuJsNc t) p = true := by
  intro p hp
  fin_cases hp <;> rfl

theorem emittedFiles_BkTsCi (obs : Bool) :
    emittedFiles ⟨ProjectType.backend, ValidationLanguage.typescript, obs, true⟩ = (fsBkTsCi 0).files.map (fun f => (f.path, f.content)) := rfl

theorem emittedPaths_BkTsCi (obs : Bool) :
    emittedPaths ⟨ProjectType.backend, ValidationLanguage.typescript, obs, true⟩ = ["AGENTS.md", "CLAUDE.md", "ARCHITECTURE.md", "DESIGN.md", "PLANS.md", "PRODUCT_SENSE.md", "QUALITY_SCORE.md", "RELIABILITY.md", "SECURITY.md", "docs/design-docs/index.md", "docs/design-docs/core-beliefs.md", "docs/design-docs/template.md", "docs/exec-plans/template.md", "docs/exec-plans/tech-debt-tracker.md", "docs/product-specs/index.md", "docs/product-specs/template.md", "scripts/validate-structure.ts", "scripts/package.json", ".github/workflows/validate-docs.yml", ".github/markdown-link-check-config.json", ".gitignore", "biome.json", "README.md"] := rfl

theorem scaffold_BkTsCi (obs : Bool) (t : Int) :
    scaffoldFS ⟨ProjectType.backend, ValidationLanguage.typescript, obs, true⟩ t = fsBkTsCi t := by
  rw [scaffoldFS_eq ⟨ProjectType.backend, ValidationLanguage.typescript, obs, true⟩ t (show (["docs/design-docs", "docs/exec-plans/active", "docs/exec-plans/completed", "docs/product-specs", "docs/references", "docs/generated", "scripts", ".github/workflows"] : List String).Nodup by decide)
    (show (["AGENTS.md", "CLAUDE.md", "ARCHITECTURE.md", "DESIGN.md", "PLANS.md", "PRODUCT_SENSE.md", "QUALITY_SCORE.md", "RELIABILITY.md", "SECURITY.md", "docs/design-docs/index.md", "docs/design-docs/core-beliefs.md", "docs/design-docs/template.md", "docs/exec-plans/template.md", "docs/exec-plans/tech-debt-tracker.md", "docs/product-specs/index.md", "docs/product-specs/template.md", "scripts/validate-structure.ts", "scripts/package.json", ".github/workflows/validate-docs.yml", ".github/markdown-link-check-config.json", ".gitignore", "biome.json", "README.md"] : List String).Nodup by decide)]
  rfl

theorem docsExist_BkTsCi (t : Int) : ∀ d ∈ requiredDocs, existsFS (fsBkTsCi t) d = true := by
  intro d hd
  fin_cases hd <;> rfl

theorem dirsExist_BkTsCi (t : Int) : ∀ d ∈ requiredDirs, existsFS (fsBkTsCi t) d = true := by
  intro d hd
  fin_cases hd <;> rfl

theorem idxExist_BkTsCi (t : Int) : ∀ d ∈ requiredIndexes, existsFS (fsBkTsCi t) d = true := by
  intro d hd
  fin_cases hd <;> rfl

theorem readA_BkTsCi (t : Int) :
    readFileFS (fsBkTsCi t) "AGENTS.md" = some (getAgentsTemplate ProjectType.backend) := rfl

theorem readC_BkTsCi (t : Int) :
    readFileFS (fsBkTsCi t) "CLAUDE.md" = some (getAgentsTemplate ProjectType.backend) := rfl

theorem ddFiles_BkTsCi (t : Int) :
    designDocFiles (fsBkTsCi t) = ["index.md", "core-beliefs.md", "template.md"] := rfl

theorem statCB_BkTsCi (t : Int) :
    statMtimeMs (fsBkTsCi t) "docs/design-docs/core-beliefs.md" = some t := rfl

theorem linksOk_BkTsCi (t : Int) : ∀ p ∈ ["./ARCHITECTURE.md", "./DESIGN.md", "./SECURITY.md", "./QUALITY_SCORE.md", "./RELIABILITY.md", "./PRODUCT_SENSE.md", "./PLANS.md", "./docs/design-docs/index.md", "./PLANS.md", "./docs/product-specs/index.md", "./docs/design-docs/core-beliefs.md", "./docs/exec-plans/tech-debt-tracker.md"], existsFS (fsBkTsCi t) p = true := by
  intro p hp
  fin_cases hp <;> rfl

theorem emittedFiles_BkTsNc (obs : Bool) :
    emittedFiles ⟨ProjectType.backend, ValidationLanguage.typescript, obs, false⟩ = (fsBkTsNc 0).files.map (fun f => (f.path, f.content)) := rfl

theorem emittedPaths_BkTsNc (obs : Bool) :
    emittedPaths ⟨ProjectType.backend, ValidationLanguage.typescript, obs, false⟩ = ["AGENTS.md", "CLAUDE.md", "ARCHITECTURE.md", "DESIGN.md", "PLANS.md", "PRODUCT_SENSE.md", "QUALITY_SCORE.md", "RELIABILITY.md", "SECURITY.md", "docs/design-docs/index.md", "docs/design-docs/core-beliefs.md", "docs/design-docs/template.md", "docs/exec-plans/template.md", "docs/exec-plans/tech-debt-tracker.md", "docs/product-specs/index.md", "docs/product-specs/template.md", "scripts/validate-structure.ts", "scripts/package.json", ".gitignore", "biome.json", "README.md"] := rfl

theorem scaffold_BkTsNc (obs : Bool) (t : Int) :
    scaffoldFS ⟨ProjectType.backend, ValidationLanguage.typescript, obs, false⟩ t = fsBkTsNc t := by
  rw [scaffoldFS_eq ⟨ProjectType.backend, ValidationLanguage.typescript, obs, false⟩ t (show (["docs/design-docs", "docs/exec-plans/active", "docs/exec-plans/completed", "docs/product-specs", "docs/references", "docs/generated", "scripts"] : List String).Nodup by decide)
    (show (["AGENTS.md", "CLAUDE.md", "ARCHITECTURE.md", "DESIGN.md", "PLANS.md", "PRODUCT_SENSE.md", "QUALITY_SCORE.md", "RELIABILITY.md", "SECURITY.md", "docs/design-docs/index.md", "docs/design-docs/core-beliefs.md", "docs/design-docs/template.md", "docs/exec-plans/template.md", "docs/exec-plans/tech-debt-tracker.md", "docs/product-specs/index.md", "docs/product-specs/template.md", "scripts/validate-structure.ts", "scripts/package.json", ".gitignore", "biome.json", "README.md"] : List String).Nodup by decide)]
  rfl

theorem docsExist_BkTsNc (t : Int) : ∀ d ∈ requiredDocs, existsFS (fsBkTsNc t) d = true := by
  intro d hd
  fin_cases hd <;> rfl

theorem dirsExist_BkTsNc (t : Int) : ∀ d ∈ requiredDirs, existsFS (fsBkTsNc t) d = true := by
  intro d hd
  fin_cases hd <;> rfl

theorem idxExist_BkTsNc (t : Int) : ∀ d ∈ requiredIndexes, existsFS (fsBkTsNc t) d = true := by
  intro d hd
  fin_cases hd <;> rfl

theorem readA_BkTsNc (t : Int) :
    readFileFS (fsBkTsNc t) "AGENTS.md" = some (getAgentsTemplate ProjectType.backend) := rfl

theorem readC_BkTsNc (t : Int) :
    readFileFS (fsBkTsNc t) "CLAUDE.md" = some (getAgentsTemplate ProjectType.backend) := rfl

theorem ddFiles_BkTsNc (t : Int) :
    designDocFiles (fsBkTsNc t) = ["index.md", "core-beliefs.md", "template.md"] := rfl

theorem statCB_BkTsNc (t : Int) :
    statMtimeMs (fsBkTsNc t) "docs/design-docs/core-beliefs.md" = some t := rfl

theorem linksOk_BkTsNc (t : Int) : ∀ p ∈ ["./ARCHITECTURE.md", "./DESIGN.md", "./SECURITY.md", "./QUALITY_SCORE.md", "./RELIABILITY.md", "./PRODUCT_SENSE.md", "./PLANS.md", "./docs/design-docs/index.md", "./PLANS.md", "./docs/product-specs/index.md", "./docs/design-docs/core-beliefs.md", "./docs/exec-plans/tech-debt-tracker.md"], existsFS (fsBkTsNc t) p = true := by
  intro p hp
  fin_cases hp <;> rfl

theorem emittedFiles_BkJsCi (obs : Bool) :
    emittedFiles ⟨ProjectType.backend, ValidationLanguage.javascript, obs, true⟩ = (fsBkJsCi 0).files.map (fun f => (f.path, f.content)) := rfl

theorem emittedPaths_BkJsCi (obs : Bool) :
    emittedPaths ⟨ProjectType.backend, ValidationLanguage.javascript, obs, true⟩ = ["AGENTS.md", "CLAUDE.md", "ARCHITECTURE.md", "DESIGN.md", "PLANS.md", "PRODUCT_SENSE.md", "QUALITY_SCORE.md", "RELIABILITY.md", "SECURITY.md", "docs/design-docs/index.md", "docs/design-docs/core-beliefs.md", "docs/design-docs/template.md", "docs/exec-plans/template.md", "docs/exec-plans/tech-debt-tracker.md", "docs/product-specs/index.md", "docs/product-specs/template.md", "scripts/validate-structure.js", ".github/workflows/validate-docs.yml", ".github/markdown-link-check-config.json", ".gitignore", "biome.json", "README.md"] := rfl

theorem scaffold_BkJsCi (obs : Bool) (t : Int) :
    scaffoldFS ⟨ProjectType.backend, ValidationLanguage.javascript, obs, true⟩ t = fsBkJsCi t := by
  rw [scaffoldFS_eq ⟨ProjectType.backend, ValidationLanguage.javascript, obs, true⟩ t (show (["docs/design-docs", "docs/exec-plans/active", "docs/exec-plans/completed", "docs/product-specs", "docs/references", "docs/generated", "scripts", ".github/workflows"] : List String).Nodup by decide)
    (show (["AGENTS.md", "CLAUDE.md", "ARCHITECTURE.md", "DESIGN.md", "PLANS.md", "PRODUCT_SENSE.md", "QUALITY_SCORE.md", "RELIABILITY.md", "SECURITY.md", "docs/design-docs/index.md", "docs/design-docs/core-beliefs.md", "docs/design-docs/template.md", "docs/exec-plans/template.md", "docs/exec-plans/tech-debt-tracker.md", "docs/product-specs/index.md", "docs/product-specs/template.md", "scripts/validate-structure.js", ".github/workflows/validate-docs.yml", ".github/markdown-link-check-config.json", ".gitignore", "biome.json", "README.md"] : List String).Nodup by decide)]
  rfl

theorem docsExist_BkJsCi (t : Int) : ∀ d ∈ requiredDocs, existsFS (fsBkJsCi t) d = true := by
  intro d hd
  fin_cases hd <;> rfl

theorem dirsExist_BkJsCi (t : Int) : ∀ d ∈ requiredDirs, existsFS (fsBkJsCi t) d = true := by
  intro d hd
  fin_cases hd <;> rfl

theorem idxExist_BkJsCi (t : Int) : ∀ d ∈ requiredIndexes, existsFS (fsBkJsCi t) d = true := by
  intro d hd
  fin_cases hd <;> rfl

theorem readA_BkJsCi (t : Int) :
    readFileFS (fsBkJsCi t) "AGENTS.md" = some (getAgentsTemplate ProjectType.backend) := rfl

theorem readC_BkJsCi (t : Int) :
    readFileFS (fsBkJsCi t) "CLAUDE.md" = some (getAgentsTemplate ProjectType.backend) := rfl

theorem ddFiles_BkJsCi (t : Int) :
    designDocFiles (fsBkJsCi t) = ["index.md", "core-beliefs.md", "template.md"] := rfl

theorem statCB_BkJsCi (t : Int) :
    statMtimeMs (fsBkJsCi t) "docs/design-docs/core-beliefs.md" = some t := rfl

theorem linksOk_BkJsCi (t : Int) : ∀ p ∈ ["./ARCHITECTURE.md", "./DESIGN.md", "./SECURITY.md", "./QUALITY_SCORE.md", "./RELIABILITY.md", "./PRODUCT_SENSE.md", "./PLANS.md", "./docs/design-docs/index.md", "./PLANS.md", "./docs/product-specs/index.md", "./docs/design-docs/core-beliefs.md", "./docs/exec-plans/tech-debt-tracker.md"], existsFS (fsBkJsCi t) p = true := by
  intro p hp
  fin_cases hp <;> rfl

theorem emittedFiles_BkJsNc (obs : Bool) :
    emittedFiles ⟨ProjectType.backend, ValidationLanguage.javascript, obs, false⟩ = (fsBkJsNc 0).files.map (fun f => (f.path, f.content)) := rfl

theorem emittedPaths_BkJsNc (obs : Bool) :
    emittedPaths ⟨ProjectType.backend, ValidationLanguage.javascript, obs, false⟩ = ["AGENTS.md", "CLAUDE.md", "ARCHITECTURE.md", "DESIGN.md", "PLANS.md", "PRODUCT_SENSE.md", "QUALITY_SCORE.md", "RELIABILITY.md", "SECURITY.md", "docs/design-docs/index.md", "docs/design-docs/core-beliefs.md", "docs/design-docs/template.md", "docs/exec-plans/template.md", "docs/exec-plans/tech-debt-tracker.md", "docs/product-specs/index.md", "docs/product-specs/template.md", "scripts/validate-structure.js", ".gitignore", "biome.json", "README.md"] := rfl

theorem scaffold_BkJsNc (obs : Bool) (t : Int) :
    scaffoldFS ⟨ProjectType.backend, ValidationLanguage.javascript, obs, false⟩ t = fsBkJsNc t := by
  rw [scaffoldFS_eq ⟨ProjectType.backend, ValidationLanguage.javascript, obs, false⟩ t (show (["docs/design-docs", "docs/exec-plans/active", "docs/exec-plans/completed", "docs/product-specs", "docs/references", "docs/generated", "scripts"] : List String).Nodup by decide)
    (show (["AGENTS.md", "CLAUDE.md", "ARCHITECTURE.md", "DESIGN.md", "PLANS.md", "PRODUCT_SENSE.md", "QUALITY_SCORE.md", "RELIABILITY.md", "SECURITY.md", "docs/design-docs/index.md", "docs/design-docs/core-beliefs.md", "docs/design-docs/template.md", "docs/exec-plans/template.md", "docs/exec-plans/tech-debt-tracker.md", "docs/product-specs/index.md", "docs/product-specs/template.md", "scripts/validate-structure.js", ".gitignore", "biome.json", "README.md"] : List String).Nodup by decide)]
  rfl

theorem docsExist_BkJsNc (t : Int) : ∀ d ∈ requiredDocs, existsFS (fsBkJsNc t) d = true := by
  intro d hd
  fin_cases hd <;> rfl

theorem dirsExist_BkJsNc (t : Int) : ∀ d ∈ requiredDirs, existsFS (fsBkJsNc t) d = true := by
  intro d hd
  fin_cases hd <;> rfl

theorem idxExist_BkJsNc (t : Int) : ∀ d ∈ requiredIndexes, existsFS (fsBkJsNc t) d = true := by
  intro d hd
  fin_cases hd <;> rfl

theorem readA_BkJsNc (t : Int) :
    readFileFS (fsBkJsNc t) "AGENTS.md" = some (getAgentsTemplate ProjectType.backend) := rfl

theorem readC_BkJsNc (t : Int) :
    readFileFS (fsBkJsNc t) "CLAUDE.md" = some (getAgentsTemplate ProjectType.backend) := rfl

theorem ddFiles_BkJsNc (t : Int) :
    designDocFiles (fsBkJsNc t) = ["index.md", "core-beliefs.md", "template.md"] := rfl

theorem statCB_BkJsNc (t : Int) :
    statMtimeMs (fsBkJsNc t) "docs/design-docs/core-beliefs.md" = some t := rfl

theorem linksOk_BkJsNc (t : Int) : ∀ p ∈ ["./ARCHITECTURE.md", "./DESIGN.md", "./SECURITY.md", "./QUALITY_SCORE.md", "./RELIABILITY.md", "./PRODUCT_SENSE.md", "./PLANS.md", "./docs/design-docs/index.md", "./PLANS.md", "./docs/product-specs/index.md", "./docs/design-docs/core-beliefs.md", "./docs/exec-plans/tech-debt-tracker.md"], existsFS (fsBkJsNc t) p = true := by
  intro p hp
  fin_cases hp <;> rfl

theorem emittedFiles_FrTsCi (obs : Bool) :
    emittedFiles ⟨ProjectType.frontend, ValidationLanguage.typescript, obs, true⟩ = (fsFrTsCi 0).files.map (fun f => (f.path, f.content)) := rfl

theorem emittedPaths_FrTsCi (obs : Bool) :
    emittedPaths ⟨ProjectType.frontend, ValidationLanguage.typescript, obs, true⟩ = ["AGENTS.md", "CLAUDE.md", "ARCHITECTURE.md", "DESIGN.md", "PLANS.md", "PRODUCT_SENSE.md", "QUALITY_SCORE.md", "RELIABILITY.md", "SECURITY.md", "FRONTEND.md", "docs/design-docs/index.md", "docs/design-docs/core-beliefs.md", "docs/design-docs/template.md", "docs/exec-plans/template.md", "docs/exec-plans/tech-debt-tracker.md", "docs/product-specs/index.md", "docs/product-specs/template.md", "scripts/validate-structure.ts", "scripts/package.json", ".github/workflows/validate-docs.yml", ".github/markdown-link-check-config.json", ".gitignore", "biome.json", "README.md"] := rfl

theorem scaffold_FrTsCi (obs : Bool) (t : Int) :
    scaffoldFS ⟨ProjectType.frontend, ValidationLanguage.typescript, obs, true⟩ t = fsFrTsCi t := by
  rw [scaffoldFS_eq ⟨ProjectType.frontend, ValidationLanguage.typescript, obs, true⟩ t (show (["docs/design-docs", "docs/exec-plans/active", "docs/exec-plans/completed", "docs/product-specs", "docs/references", "docs/generated", "scripts", ".github/workflows"] : List String).Nodup by decide)
    (show (["AGENTS.md", "CLAUDE.md", "ARCHITECTURE.md", "DESIGN.md", "PLANS.md", "PRODUCT_SENSE.md", "QUALITY_SCORE.md", "RELIABILITY.md", "SECURITY.md", "FRONTEND.md", "docs/design-docs/index.md", "docs/design-docs/core-beliefs.md", "docs/design-docs/template.md", "docs/exec-plans/template.md", "docs/exec-plans/tech-debt-tracker.md", "docs/product-specs/index.md", "docs/product-specs/template.md", "scripts/validate-structure.ts", "scripts/package.json", ".github/workflows/validate-docs.yml", ".github/markdown-link-check-config.json", ".gitignore", "biome.json", "README.md"] : List String).Nodup by decide)]
  rfl

theorem docsExist_FrTsCi (t : Int) : ∀ d ∈ requiredDocs, existsFS (fsFrTsCi t) d = true := by
  intro d hd
  fin_cases hd <;> rfl

theorem dirsExist_FrTsCi (t : Int) : ∀ d ∈ requiredDirs, existsFS (fsFrTsCi t) d = true := by
  intro d hd
  fin_cases hd <;> rfl

theorem idxExist_FrTsCi (t : Int) : ∀ d ∈ requiredIndexes, existsFS (fsFrTsCi t) d = true := by
  intro d hd
  fin_cases hd <;> rfl

theorem readA_FrTsCi (t : Int) :
    readFileFS (fsFrTsCi t) "AGENTS.md" = some (getAgentsTemplate ProjectType.frontend) := rfl

theorem readC_FrTsCi (t : Int) :
    readFileFS (fsFrTsCi t) "CLAUDE.md" = some (getAgentsTemplate ProjectType.frontend) := rfl

theorem ddFiles_FrTsCi (t : Int) :
    designDocFiles (fsFrTsCi t) = ["index.md", "core-beliefs.md", "template.md"] := rfl

theorem statCB_FrTsCi (t : Int) :
    statMtimeMs (fsFrTsCi t) "docs/design-docs/core-beliefs.md" = some t := rfl

theorem linksOk_FrTsCi (t : Int) : ∀ p ∈ ["./ARCHITECTURE.md", "./DESIGN.md", "./SECURITY.md", "./QUALITY_SCORE.md", "./RELIABILITY.md", "./PRODUCT_SENSE.md", "./PLANS.md", "./FRONTEND.md", "./docs/design-docs/index.md", "./PLANS.md", "./docs/product-specs/index.md", "./docs/design-docs/core-beliefs.md", "./docs/exec-plans/tech-debt-tracker.md"], existsFS (fsFrTsCi t) p = true := by
  intro p hp
  fin_cases hp <;> rfl

theorem emittedFiles_FrTsNc (obs : Bool) :
    emittedFiles ⟨ProjectType.frontend, ValidationLanguage.typescript, obs, false⟩ = (fsFrTsNc 0).files.map (fun f => (f.path, f.content)) := rfl

theorem emittedPaths_FrTsNc (obs : Bool) :
    emittedPaths ⟨ProjectType.frontend, ValidationLanguage.typescript, obs, false⟩ = ["AGENTS.md", "CLAUDE.md", "ARCHITECTURE.md", "DESIGN.md", "PLANS.md", "PRODUCT_SENSE.md", "QUALITY_SCORE.md", "RELIABILITY.md", "SECURITY.md", "FRONTEND.md", "docs/design-docs/index.md", "docs/design-docs/core-beliefs.md", "docs/design-docs/template.md", "docs/exec-plans/template.md", "docs/exec-plans/tech-debt-tracker.md", "docs/product-specs/index.md", "docs/product-specs/template.md", "scripts/validate-structure.ts", "scripts/package.json", ".gitignore", "biome.json", "README.md"] := rfl

theorem scaffold_FrTsNc (obs : Bool) (t : Int) :
    scaffoldFS ⟨ProjectType.frontend, ValidationLanguage.typescript, obs, false⟩ t = fsFrTsNc t := by
  rw [scaffoldFS_eq ⟨ProjectType.frontend, ValidationLanguage.typescript, obs, false⟩ t (show (["docs/design-docs", "docs/exec-plans/active", "docs/exec-plans/completed", "docs/product-specs", "docs/references", "docs/generated", "scripts"] : List String).Nodup by decide)
    (show (["AGENTS.md", "CLAUDE.md", "ARCHITECTURE.md", "DESIGN.md", "PLANS.md", "PRODUCT_SENSE.md", "QUALITY_SCORE.md", "RELIABILITY.md", "SECURITY.md", "FRONTEND.md", "docs/design-docs/index.md", "docs/design-docs/core-beliefs.md", "docs/design-docs/template.md", "docs/exec-plans/template.md", "docs/exec-plans/tech-debt-tracker.md", "docs/product-specs/index.md", "docs/product-specs/template.md", "scripts/validate-structure.ts", "scripts/package.json", ".gitignore", "biome.json", "README.md"] : List String).Nodup by decide)]
  rfl

theorem docsExist_FrTsNc (t : Int) : ∀ d ∈ requiredDocs, existsFS (fsFrTsNc t) d = true := by
  intro d hd
  fin_cases hd <;> rfl

theorem dirsExist_FrTsNc (t : Int) : ∀ d ∈ requiredDirs, existsFS (fsFrTsNc t) d = true := by
  intro d hd
  fin_cases hd <;> rfl

theorem idxExist_FrTsNc (t : Int) : ∀ d ∈ requiredIndexes, existsFS (fsFrTsNc t) d = true := by
  intro d hd
  fin_cases hd <;> rfl

theorem readA_FrTsNc (t : Int) :
    readFileFS (fsFrTsNc t) "AGENTS.md" = some (getAgentsTemplate ProjectType.frontend) := rfl

theorem readC_FrTsNc (t : Int) :
    readFileFS (fsFrTsNc t) "CLAUDE.md" = some (getAgentsTemplate ProjectType.frontend) := rfl

theorem ddFiles_FrTsNc (t : Int) :
    designDocFiles (fsFrTsNc t) = ["index.md", "core-beliefs.md", "template.md"] := rfl

theorem statCB_FrTsNc (t : Int) :
    statMtimeMs (fsFrTsNc t) "docs/design-docs/core-beliefs.md" = some t := rfl

theorem linksOk_FrTsNc (t : Int) : ∀ p ∈ ["./ARCHITECTURE.md", "./DESIGN.md", "./SECURITY.md", "./QUALITY_SCORE.md", "./RELIABILITY.md", "./PRODUCT_SENSE.md", "./PLANS.md", "./FRONTEND.md", "./docs/design-docs/index.md", "./PLANS.md", "./docs/product-specs/index.md", "./docs/design-docs/core-beliefs.md", "./docs/exec-plans/tech-debt-tracker.md"], existsFS (fsFrTsNc t) p = true := by
  intro p hp
  fin_cases hp <;> rfl

theorem emittedFiles_FrJsCi (obs : Bool) :
    emittedFiles ⟨ProjectType.frontend, ValidationLanguage.javascript, obs, true⟩ = (fsFrJsCi 0).files.map (fun f => (f.path, f.content)) := rfl

theorem emittedPaths_FrJsCi (obs : Bool) :
    emittedPaths ⟨ProjectType.frontend, ValidationLanguage.javascript, obs, true⟩ = ["AGENTS.md", "CLAUDE.md", "ARCHITECTURE.md", "DESIGN.md", "PLANS.md", "PRODUCT_SENSE.md", "QUALITY_SCORE.md", "RELIABILITY.md", "SECURITY.md", "FRONTEND.md", "docs/design-docs/index.md", "docs/design-docs/core-beliefs.md", "docs/design-docs/template.md", "docs/exec-plans/template.md", "docs/exec-plans/tech-debt-tracker.md", "docs/product-specs/index.md", "docs/product-specs/template.md", "scripts/validate-structure.js", ".github/workflows/validate-docs.yml", ".github/markdown-link-check-config.json", ".gitignore", "biome.json", "README.md"] := rfl

theorem scaffold_FrJsCi (obs : Bool) (t : Int) :
    scaffoldFS ⟨ProjectType.frontend, ValidationLanguage.javascript, obs, true⟩ t = fsFrJsCi t := by
  rw [scaffoldFS_eq ⟨ProjectType.frontend, ValidationLanguage.javascript, obs, true⟩ t (show (["docs/design-docs", "docs/exec-plans/active", "docs/exec-plans/completed", "docs/product-specs", "docs/references", "docs/generated", "scripts", ".github/workflows"] : List String).Nodup by decide)
    (show (["AGENTS.md", "CLAUDE.md", "ARCHITECTURE.md", "DESIGN.md", "PLANS.md", "PRODUCT_SENSE.md", "QUALITY_SCORE.md", "RELIABILITY.md", "SECURITY.md", "FRONTEND.md", "docs/design-docs/index.md", "docs/design-docs/core-beliefs.md", "docs/design-docs/template.md", "docs/exec-plans/template.md", "docs/exec-plans/tech-debt-tracker.md", "docs/product-specs/index.md", "docs/product-specs/template.md", "scripts/validate-structure.js", ".github/workflows/validate-docs.yml", ".github/markdown-link-check-config.json", ".gitignore", "biome.json", "README.md"] : List String).Nodup by decide)]
  rfl

theorem docsExist_FrJsCi (t : Int) : ∀ d ∈ requiredDocs, existsFS (fsFrJsCi t) d = true := by
  intro d hd
  fin_cases hd <;> rfl

theorem dirsExist_FrJsCi (t : Int) : ∀ d ∈ requiredDirs, existsFS (fsFrJsCi t) d = true := by
  intro d hd
  fin_cases hd <;> rfl

theorem idxExist_FrJsCi (t : Int) : ∀ d ∈ requiredIndexes, existsFS (fsFrJsCi t) d = true := by
  intro d hd
  fin_cases hd <;> rfl

theorem readA_FrJsCi (t : Int) :
    readFileFS (fsFrJsCi t) "AGENTS.md" = some (getAgentsTemplate ProjectType.frontend) := rfl

theorem readC_FrJsCi (t : Int) :
    readFileFS (fsFrJsCi t) "CLAUDE.md" = some (getAgentsTemplate ProjectType.frontend) := rfl

theorem ddFiles_FrJsCi (t : Int) :
    designDocFiles (fsFrJsCi t) = ["index.md", "core-beliefs.md", "template.md"] := rfl

theorem statCB_FrJsCi (t : Int) :
    statMtimeMs (fsFrJsCi t) "docs/design-docs/core-beliefs.md" = some t := rfl

theorem linksOk_FrJsCi (t : Int) : ∀ p ∈ ["./ARCHITECTURE.md", "./DESIGN.md", "./SECURITY.md", "./QUALITY_SCORE.md", "./RELIABILITY.md", "./PRODUCT_SENSE.md", "./PLANS.md", "./FRONTEND.md", "./docs/design-docs/index.md", "./PLANS.md", "./docs/product-specs/index.md", "./docs/design-docs/core-beliefs.md", "./docs/exec-plans/tech-debt-tracker.md"], existsFS (fsFrJsCi t) p = true := by
  intro p hp
  fin_cases hp <;> rfl

theorem emittedFiles_FrJsNc (obs : Bool) :
    emittedFiles ⟨ProjectType.frontend, ValidationLanguage.javascript, obs, false⟩ = (fsFrJsNc 0).files.map (fun f => (f.path, f.content)) := rfl

theorem emittedPaths_FrJsNc (obs : Bool) :
    emittedPaths ⟨ProjectType.frontend, ValidationLanguage.javascript, obs, false⟩ = ["AGENTS.md", "CLAUDE.md", "ARCHITECTURE.md", "DESIGN.md", "PLANS.md", "PRODUCT_SENSE.md", "QUALITY_SCORE.md", "RELIABILITY.md", "SECURITY.md", "FRONTEND.md", "docs/design-docs/index.md", "docs/design-docs/core-beliefs.md", "docs/design-docs/template.md", "docs/exec-plans/template.md", "docs/exec-plans/tech-debt-tracker.md", "docs/product-specs/index.md", "docs/product-specs/template.md", "scripts/validate-structure.js", ".gitignore", "biome.json", "README.md"] := rfl

theorem scaffold_FrJsNc (obs : Bool) (t : Int) :
    scaffoldFS ⟨ProjectType.frontend, ValidationLanguage.javascript, obs, false⟩ t = fsFrJsNc t := by
  rw [scaffoldFS_eq ⟨ProjectType.frontend, ValidationLanguage.javascript, obs, false⟩ t (show (["docs/design-docs", "docs/exec-plans/active", "docs/exec-plans/completed", "docs/product-specs", "docs/references", "docs/generated", "scripts"] : List String).Nodup by decide)
    (show (["AGENTS.md", "CLAUDE.md", "ARCHITECTURE.md", "DESIGN.md", "PLANS.md", "PRODUCT_SENSE.md", "QUALITY_SCORE.md", "RELIABILITY.md", "SECURITY.md", "FRONTEND.md", "docs/design-docs/index.md", "docs/design-docs/core-beliefs.md", "docs/design-docs/template.md", "docs/exec-plans/template.md", "docs/exec-plans/tech-debt-tracker.md", "docs/product-specs/index.md", "docs/product-specs/template.md", "scripts/validate-structure.js", ".gitignore", "biome.json", "README.md"] : List String).Nodup by decide)]
  rfl

theorem docsExist_FrJsNc (t : Int) : ∀ d ∈ requiredDocs, existsFS (fsFrJsNc t) d = true := by
  intro d hd
  fin_cases hd <;> rfl

theorem dirsExist_FrJsNc (t : Int) : ∀ d ∈ requiredDirs, existsFS (fsFrJsNc t) d = true := by
  intro d hd
  fin_cases hd <;> rfl

theorem idxExist_FrJsNc (t : Int) : ∀ d ∈ requiredIndexes, existsFS (fsFrJsNc t) d = true := by
  intro d hd
  fin_cases hd <;> rfl

theorem readA_FrJsNc (t : Int) :
    readFileFS (fsFrJsNc t) "AGENTS.md" = some (getAgentsTemplate ProjectType.frontend) := rfl

theorem readC_FrJsNc (t : Int) :
    readFileFS (fsFrJsNc t) "CLAUDE.md" = some (getAgentsTemplate ProjectType.frontend) := rfl

theorem ddFiles_FrJsNc (t : Int) :
    designDocFiles (fsFrJsNc t) = ["index.md", "core-beliefs.md", "template.md"] := rfl

theorem statCB_FrJsNc (t : Int) :
    statMtimeMs (fsFrJsNc t) "docs/design-docs/core-beliefs.md" = some t := rfl

theorem linksOk_FrJsNc (t : Int) : ∀ p ∈ ["./ARCHITECTURE.md", "./DESIGN.md", "./SECURITY.md", "./QUALITY_SCORE.md", "./RELIABILITY.md", "./PRODUCT_SENSE.md", "./PLANS.md", "./FRONTEND.md", "./docs/design-docs/index.md", "./PLANS.md", "./docs/product-specs/index.md", "./docs/design-docs/core-beliefs.md", "./docs/exec-plans/tech-debt-tracker.md"], existsFS (fsFrJsNc t) p = true := by
  intro p hp
  fin_cases hp <;> rfl
/-! ### Content facts: link extraction, line counts, FRONTEND.md references -/

/-- The frontend and fullstack variants of the agent guide are the same text. -/
theorem agentsTemplate_frontend_variant :
    getAgentsTemplate ProjectType.frontend = getAgentsTemplate ProjectType.fullstack := rfl

theorem extractLinks_agents_backend :
    extractLinks (getAgentsTemplate ProjectType.backend) = ["./ARCHITECTURE.md", "./DESIGN.md", "./SECURITY.md", "./QUALITY_SCORE.md", "./RELIABILITY.md", "./PRODUCT_SENSE.md", "./PLANS.md", "./docs/design-docs/index.md", "./PLANS.md", "./docs/product-specs/index.md", "./docs/design-docs/core-beliefs.md", "./docs/exec-plans/tech-debt-tracker.md"] := by
  unfold extractLinks getAgentsTemplate
  rw [if_neg (by decide)]
  simp only [strDataAppend, List.foldl_append]
  have h0 : List.foldl scanStep (⟨ScanMode.outside, []⟩ : ScanState) (agA1).data = (⟨ScanMode.outside, []⟩ : ScanState) := rfl
  have h1 : List.foldl scanStep (⟨ScanMode.outside, []⟩ : ScanState) (agA2).data = (⟨ScanMode.outside, ["./SECURITY.md", "./DESIGN.md", "./ARCHITECTURE.md"]⟩ : ScanState) := rfl
  have h2 : List.foldl scanStep (⟨ScanMode.outside, ["./SECURITY.md", "./DESIGN.md", "./ARCHITECTURE.md"]⟩ : ScanState) (agA3).data = (⟨ScanMode.outside, ["./RELIABILITY.md", "./QUALITY_SCORE.md", "./SECURITY.md", "./DESIGN.md", "./ARCHITECTURE.md"]⟩ : ScanState) := rfl
  have h3 : List.foldl scanStep (⟨ScanMode.outside, ["./RELIABILITY.md", "./QUALITY_SCORE.md", "./SECURITY.md", "./DESIGN.md", "./ARCHITECTURE.md"]⟩ : ScanState) (agA4).data = (⟨ScanMode.outside, ["./PLANS.md", "./PRODUCT_SENSE.md", "./RELIABILITY.md", "./QUALITY_SCORE.md", "./SECURITY.md", "./DESIGN.md", "./ARCHITECTURE.md"]⟩ : ScanState) := rfl
  have h4 : List.foldl scanStep (⟨ScanMode.outside, ["./PLANS.md", "./PRODUCT_SENSE.md", "./RELIABILITY.md", "./QUALITY_SCORE.md", "./SECURITY.md", "./DESIGN.md", "./ARCHITECTURE.md"]⟩ : ScanState) (agB1).data = (⟨ScanMode.outside, ["./PLANS.md", "./PRODUCT_SENSE.md", "./RELIABILITY.md", "./QUALITY_SCORE.md", "./SECURITY.md", "./DESIGN.md", "./ARCHITECTURE.md"]⟩ : ScanState) := rfl
  have h5 : List.foldl scanStep (⟨ScanMode.outside, ["./PLANS.md", "./PRODUCT_SENSE.md", "./RELIABILITY.md", "./QUALITY_SCORE.md", "./SECURITY.md", "./DESIGN.md", "./ARCHITECTURE.md"]⟩ : ScanState) (agB2).data = (⟨ScanMode.outside, ["./PLANS.md", "./PRODUCT_SENSE.md", "./RELIABILITY.md", "./QUALITY_SCORE.md", "./SECURITY.md", "./DESIGN.md", "./ARCHITECTURE.md"]⟩ : ScanState) := rfl
  have h6 : List.foldl scanStep (⟨ScanMode.outside, ["./PLANS.md", "./PRODUCT_SENSE.md", "./RELIABILITY.md", "./QUALITY_SCORE.md", "./SECURITY.md", "./DESIGN.md", "./ARCHITECTURE.md"]⟩ : ScanState) (agB3).data = (⟨ScanMode.outside, ["./docs/design-docs/index.md", "./PLANS.md", "./PRODUCT_SENSE.md", "./RELIABILITY.md", "./QUALITY_SCORE.md", "./SECURITY.md", "./DESIGN.md", "./ARCHITECTURE.md"]⟩ : ScanState) := rfl
  have h7 : List.foldl scanStep (⟨ScanMode.outside, ["./docs/design-docs/index.md", "./PLANS.md", "./PRODUCT_SENSE.md", "./RELIABILITY.md", "./QUALITY_SCORE.md", "./SECURITY.md", "./DESIGN.md", "./ARCHITECTURE.md"]⟩ : ScanState) (agB4).data = (⟨ScanMode.outside, ["./docs/design-docs/index.md", "./PLANS.md", "./PRODUCT_SENSE.md", "./RELIABILITY.md", "./QUALITY_SCORE.md", "./SECURITY.md", "./DESIGN.md", "./ARCHITECTURE.md"]⟩ : ScanState) := rfl
  have h8 : List.foldl scanStep (⟨ScanMode.outside, ["./docs/design-docs/index.md", "./PLANS.md", "./PRODUCT_SENSE.md", "./RELIABILITY.md", "./QUALITY_SCORE.md", "./SECURITY.md", "./DESIGN.md", "./ARCHITECTURE.md"]⟩ : ScanState) (agB5).data = (⟨ScanMode.outside, ["./PLANS.md", "./docs/design-docs/index.md", "./PLANS.md", "./PRODUCT_SENSE.md", "./RELIABILITY.md", "./QUALITY_SCORE.md", "./SECURITY.md", "./DESIGN.md", "./ARCHITECTURE.md"]⟩ : ScanState) := rfl
  have h9 : List.foldl scanStep (⟨ScanMode.outside, ["./PLANS.md", "./docs/design-docs/index.md", "./PLANS.md", "./PRODUCT_SENSE.md", "./RELIABILITY.md", "./QUALITY_SCORE.md", "./SECURITY.md", "./DESIGN.md", "./ARCHITECTURE.md"]⟩ : ScanState) (agB6).data = (⟨ScanMode.outside, ["./PLANS.md", "./docs/design-docs/index.md", "./PLANS.md", "./PRODUCT_SENSE.md", "./RELIABILITY.md", "./QUALITY_SCORE.md", "./SECURITY.md", "./DESIGN.md", "./ARCHITECTURE.md"]⟩ : ScanState) := rfl
  have h10 : List.foldl scanStep (⟨ScanMode.outside, ["./PLANS.md", "./docs/design-docs/index.md", "./PLANS.md", "./PRODUCT_SENSE.md", "./RELIABILITY.md", "./QUALITY_SCORE.md", "./SECURITY.md", "./DESIGN.md", "./ARCHITECTURE.md"]⟩ : ScanState) (agB7).data = (⟨ScanMode.outside, ["./docs/product-specs/index.md", "./PLANS.md", "./docs/design-docs/index.md", "./PLANS.md", "./PRODUCT_SENSE.md", "./RELIABILITY.md", "./QUALITY_SCORE.md", "./SECURITY.md", "./DESIGN.md", "./ARCHITECTURE.md"]⟩ : ScanState) := rfl
  have h11 : List.foldl scanStep (⟨ScanMode.outside, ["./docs/product-specs/index.md", "./PLANS.md", "./docs/design-docs/index.md", "./PLANS.md", "./PRODUCT_SENSE.md", "./RELIABILITY.md", "./QUALITY_SCORE.md", "./SECURITY.md", "./DESIGN.md", "./ARCHITECTURE.md"]⟩ : ScanState) (agB8).data = (⟨ScanMode.outside, ["./docs/product-specs/index.md", "./PLANS.md", "./docs/design-docs/index.md", "./PLANS.md", "./PRODUCT_SENSE.md", "./RELIABILITY.md", "./QUALITY_SCORE.md", "./SECURITY.md", "./DESIGN.md", "./ARCHITECTURE.md"]⟩ : ScanState) := rfl
  have h12 : List.foldl scanStep (⟨ScanMode.outside, ["./docs/product-specs/index.md", "./PLANS.md", "./docs/design-docs/index.md", "./PLANS.md", "./PRODUCT_SENSE.md", "./RELIABILITY.md", "./QUALITY_SCORE.md", "./SECURITY.md", "./DESIGN.md", "./ARCHITECTURE.md"]⟩ : ScanState) (agB9).data = (⟨ScanMode.outside, ["./docs/product-specs/index.md", "./PLANS.md", "./docs/design-docs/index.md", "./PLANS.md", "./PRODUCT_SENSE.md", "./RELIABILITY.md", "./QUALITY_SCORE.md", "./SECURITY.md", "./DESIGN.md", "./ARCHITECTURE.md"]⟩ : ScanState) := rfl
  have h13 : List.foldl scanStep (⟨ScanMode.outside, ["./docs/product-specs/index.md", "./PLANS.md", "./docs/design-docs/index.md", "./PLANS.md", "./PRODUCT_SENSE.md", "./RELIABILITY.md", "./QUALITY_SCORE.md", "./SECURITY.md", "./DESIGN.md", "./ARCHITECTURE.md"]⟩ : ScanState) (agB10).data = (⟨ScanMode.outside, ["./docs/product-specs/index.md", "./PLANS.md", "./docs/design-docs/index.md", "./PLANS.md", "./PRODUCT_SENSE.md", "./RELIABILITY.md", "./QUALITY_SCORE.md", "./SECURITY.md", "./DESIGN.md", "./ARCHITECTURE.md"]⟩ : ScanState) := rfl
  have h14 : List.foldl scanStep (⟨ScanMode.outside, ["./docs/product-specs/index.md", "./PLANS.md", "./docs/design-docs/index.md", "./PLANS.md", "./PRODUCT_SENSE.md", "./RELIABILITY.md", "./QUALITY_SCORE.md", "./SECURITY.md", "./DESIGN.md", "./ARCHITECTURE.md"]⟩ : ScanState) (agB11).data = (⟨ScanMode.outside, ["./docs/product-specs/index.md", "./PLANS.md", "./docs/design-docs/index.md", "./PLANS.md", "./PRODUCT_SENSE.md", "./RELIABILITY.md", "./QUALITY_SCORE.md", "./SECURITY.md", "./DESIGN.md", "./ARCHITECTURE.md"]⟩ : ScanState) := rfl
  have h15 : List.foldl scanStep (⟨ScanMode.outside, ["./docs/product-specs/index.md", "./PLANS.md", "./docs/design-docs/index.md", "./PLANS.md", "./PRODUCT_SENSE.md", "./RELIABILITY.md", "./QUALITY_SCORE.md", "./SECURITY.md", "./DESIGN.md", "./ARCHITECTURE.md"]⟩ : ScanState) (agB12).data = (⟨ScanMode.outside, ["./docs/product-specs/index.md", "./PLANS.md", "./docs/design-docs/index.md", "./PLANS.md", "./PRODUCT_SENSE.md", "./RELIABILITY.md", "./QUALITY_SCORE.md", "./SECURITY.md", "./DESIGN.md", "./ARCHITECTURE.md"]⟩ : ScanState) := rfl
  have h16 : List.foldl scanStep (⟨ScanMode.outside, ["./docs/product-specs/index.md", "./PLANS.md", "./docs/design-docs/index.md", "./PLANS.md", "./PRODUCT_SENSE.md", "./RELIABILITY.md", "./QUALITY_SCORE.md", "./SECURITY.md", "./DESIGN.md", "./ARCHITECTURE.md"]⟩ : ScanState) (agB13).data = (⟨ScanMode.outside, ["./docs/product-specs/index.md", "./PLANS.md", "./docs/design-docs/index.md", "./PLANS.md", "./PRODUCT_SENSE.md", "./RELIABILITY.md", "./QUALITY_SCORE.md", "./SECURITY.md", "./DESIGN.md", "./ARCHITECTURE.md"]⟩ : ScanState) := rfl
  have h17 : List.foldl scanStep (⟨ScanMode.outside, ["./docs/product-specs/index.md", "./PLANS.md", "./docs/design-docs/index.md", "./PLANS.md", "./PRODUCT_SENSE.md", "./RELIABILITY.md", "./QUALITY_SCORE.md", "./SECURITY.md", "./DESIGN.md", "./ARCHITECTURE.md"]⟩ : ScanState) (agB14).data = (⟨ScanMode.outside, ["./docs/product-specs/index.md", "./PLANS.md", "./docs/design-docs/index.md", "./PLANS.md", "./PRODUCT_SENSE.md", "./RELIABILITY.md", "./QUALITY_SCORE.md", "./SECURITY.md", "./DESIGN.md", "./ARCHITECTURE.md"]⟩ : ScanState) := rfl
  have h18 : List.foldl scanStep (⟨ScanMode.outside, ["./docs/product-specs/index.md", "./PLANS.md", "./docs/design-docs/index.md", "./PLANS.md", "./PRODUCT_SENSE.md", "./RELIABILITY.md", "./QUALITY_SCORE.md", "./SECURITY.md", "./DESIGN.md", "./ARCHITECTURE.md"]⟩ : ScanState) (agB15).data = (⟨ScanMode.outside, ["./docs/product-specs/index.md", "./PLANS.md", "./docs/design-docs/index.md", "./PLANS.md", "./PRODUCT_SENSE.md", "./RELIABILITY.md", "./QUALITY_SCORE.md", "./SECURITY.md", "./DESIGN.md", "./ARCHITECTURE.md"]⟩ : ScanState) := rfl
  have h19 : List.foldl scanStep (⟨ScanMode.outside, ["./docs/product-specs/index.md", "./PLANS.md", "./docs/design-docs/index.md", "./PLANS.md", "./PRODUCT_SENSE.md", "./RELIABILITY.md", "./QUALITY_SCORE.md", "./SECURITY.md", "./DESIGN.md", "./ARCHITECTURE.md"]⟩ : ScanState) (agB16).data = (⟨ScanMode.outside, ["./docs/product-specs/index.md", "./PLANS.md", "./docs/design-docs/index.md", "./PLANS.md", "./PRODUCT_SENSE.md", "./RELIABILITY.md", "./QUALITY_SCORE.md", "./SECURITY.md", "./DESIGN.md", "./ARCHITECTURE.md"]⟩ : ScanState) := rfl
  have h20 : List.foldl scanStep (⟨ScanMode.outside, ["./docs/product-specs/index.md", "./PLANS.md", "./docs/design-docs/index.md", "./PLANS.md", "./PRODUCT_SENSE.md", "./RELIABILITY.md", "./QUALITY_SCORE.md", "./SECURITY.md", "./DESIGN.md", "./ARCHITECTURE.md"]⟩ : ScanState) (agB17).data = (⟨ScanMode.outside, ["./docs/product-specs/index.md", "./PLANS.md", "./docs/design-docs/index.md", "./PLANS.md", "./PRODUCT_SENSE.md", "./RELIABILITY.md", "./QUALITY_SCORE.md", "./SECURITY.md", "./DESIGN.md", "./ARCHITECTURE.md"]⟩ : ScanState) := rfl
  have h21 : List.foldl scanStep (⟨ScanMode.outside, ["./docs/product-specs/index.md", "./PLANS.md", "./docs/design-docs/index.md", "./PLANS.md", "./PRODUCT_SENSE.md", "./RELIABILITY.md", "./QUALITY_SCORE.md", "./SECURITY.md", "./DESIGN.md", "./ARCHITECTURE.md"]⟩ : ScanState) (agB18).data = (⟨ScanMode.outside, ["./docs/product-specs/index.md", "./PLANS.md", "./docs/design-docs/index.md", "./PLANS.md", "./PRODUCT_SENSE.md", "./RELIABILITY.md", "./QUALITY_SCORE.md", "./SECURITY.md", "./DESIGN.md", "./ARCHITECTURE.md"]⟩ : ScanState) := rfl
  have h22 : List.foldl scanStep (⟨ScanMode.outside, ["./docs/product-specs/index.md", "./PLANS.md", "./docs/design-docs/index.md", "./PLANS.md", "./PRODUCT_SENSE.md", "./RELIABILITY.md", "./QUALITY_SCORE.md", "./SECURITY.md", "./DESIGN.md", "./ARCHITECTURE.md"]⟩ : ScanState) (agB19).data = (⟨ScanMode.outside, ["./docs/product-specs/index.md", "./PLANS.md", "./docs/design-docs/index.md", "./PLANS.md", "./PRODUCT_SENSE.md", "./RELIABILITY.md", "./QUALITY_SCORE.md", "./SECURITY.md", "./DESIGN.md", "./ARCHITECTURE.md"]⟩ : ScanState) := rfl
  have h23 : List.foldl scanStep (⟨ScanMode.outside, ["./docs/product-specs/index.md", "./PLANS.md", "./docs/design-docs/index.md", "./PLANS.md", "./PRODUCT_SENSE.md", "./RELIABILITY.md", "./QUALITY_SCORE.md", "./SECURITY.md", "./DESIGN.md", "./ARCHITECTURE.md"]⟩ : ScanState) (agB20).data = (⟨ScanMode.outside, ["./docs/design-docs/core-beliefs.md", "./docs/product-specs/index.md", "./PLANS.md", "./docs/design-docs/index.md", "./PLANS.md", "./PRODUCT_SENSE.md", "./RELIABILITY.md", "./QUALITY_SCORE.md", "./SECURITY.md", "./DESIGN.md", "./ARCHITECTURE.md"]⟩ : ScanState) := rfl
  have h24 : List.foldl scanStep (⟨ScanMode.outside, ["./docs/design-docs/core-beliefs.md", "./docs/product-specs/index.md", "./PLANS.md", "./docs/design-docs/index.md", "./PLANS.md", "./PRODUCT_SENSE.md", "./RELIABILITY.md", "./QUALITY_SCORE.md", "./SECURITY.md", "./DESIGN.md", "./ARCHITECTURE.md"]⟩ : ScanState) (agB21).data = (⟨ScanMode.outside, ["./docs/exec-plans/tech-debt-tracker.md", "./docs/design-docs/core-beliefs.md", "./docs/product-specs/index.md", "./PLANS.md", "./docs/design-docs/index.md", "./PLANS.md", "./PRODUCT_SENSE.md", "./RELIABILITY.md", "./QUALITY_SCORE.md", "./SECURITY.md", "./DESIGN.md", "./ARCHITECTURE.md"]⟩ : ScanState) := rfl
  have h25 : List.foldl scanStep (⟨ScanMode.outside, ["./docs/exec-plans/tech-debt-tracker.md", "./docs/design-docs/core-beliefs.md", "./docs/product-specs/index.md", "./PLANS.md", "./docs/design-docs/index.md", "./PLANS.md", "./PRODUCT_SENSE.md", "./RELIABILITY.md", "./QUALITY_SCORE.md", "./SECURITY.md", "./DESIGN.md", "./ARCHITECTURE.md"]⟩ : ScanState) (agB22).data = (⟨ScanMode.outside, ["./docs/exec-plans/tech-debt-tracker.md", "./docs/design-docs/core-beliefs.md", "./docs/product-specs/index.md", "./PLANS.md", "./docs/design-docs/index.md", "./PLANS.md", "./PRODUCT_SENSE.md", "./RELIABILITY.md", "./QUALITY_SCORE.md", "./SECURITY.md", "./DESIGN.md", "./ARCHITECTURE.md"]⟩ : ScanState) := rfl
  simp only [List.foldl_nil, h0, h1, h2, h3, h4, h5, h6, h7, h8, h9, h10, h11, h12, h13, h14, h15, h16, h17, h18, h19, h20, h21, h22, h23, h24, h25]
  rfl

theorem extractLinks_agents_fullstack :
    extractLinks (getAgentsTemplate ProjectType.fullstack) = ["./ARCHITECTURE.md", "./DESIGN.md", "./SECURITY.md", "./QUALITY_SCORE.md", "./RELIABILITY.md", "./PRODUCT_SENSE.md", "./PLANS.md", "./FRONTEND.md", "./docs/design-docs/index.md", "./PLANS.md", "./docs/product-specs/index.md", "./docs/design-docs/core-beliefs.md", "./docs/exec-plans/tech-debt-tracker.md"] := by
  unfold extractLinks getAgentsTemplate
  rw [if_pos (Or.inl rfl)]
  simp only [strDataAppend, List.foldl_append]
  have h0 : List.foldl scanStep (⟨ScanMode.outside, []⟩ : ScanState) (agA1).data = (⟨ScanMode.outside, []⟩ : ScanState) := rfl
  have h1 : List.foldl scanStep (⟨ScanMode.outside, []⟩ : ScanState) (agA2).data = (⟨ScanMode.outside, ["./SECURITY.md", "./DESIGN.md", "./ARCHITECTURE.md"]⟩ : ScanState) := rfl
  have h2 : List.foldl scanStep (⟨ScanMode.outside, ["./SECURITY.md", "./DESIGN.md", "./ARCHITECTURE.md"]⟩ : ScanState) (agA3).data = (⟨ScanMode.outside, ["./RELIABILITY.md", "./QUALITY_SCORE.md", "./SECURITY.md", "./DESIGN.md", "./ARCHITECTURE.md"]⟩ : ScanState) := rfl
  have h3 : List.foldl scanStep (⟨ScanMode.outside, ["./RELIABILITY.md", "./QUALITY_SCORE.md", "./SECURITY.md", "./DESIGN.md", "./ARCHITECTURE.md"]⟩ : ScanState) (agA4).data = (⟨ScanMode.outside, ["./PLANS.md", "./PRODUCT_SENSE.md", "./RELIABILITY.md", "./QUALITY_SCORE.md", "./SECURITY.md", "./DESIGN.md", "./ARCHITECTURE.md"]⟩ : ScanState) := rfl
  have h4 : List.foldl scanStep (⟨ScanMode.outside, ["./PLANS.md", "./PRODUCT_SENSE.md", "./RELIABILITY.md", "./QUALITY_SCORE.md", "./SECURITY.md", "./DESIGN.md", "./ARCHITECTURE.md"]⟩ : ScanState) (("- **Frontend:** See [FRONTEND.md](./FRONTEND.md)\n" : String)).data = (⟨ScanMode.outside, ["./FRONTEND.md", "./PLANS.md", "./PRODUCT_SENSE.md", "./RELIABILITY.md", "./QUALITY_SCORE.md", "./SECURITY.md", "./DESIGN.md", "./ARCHITECTURE.md"]⟩ : ScanState) := rfl
  have h5 : List.foldl scanStep (⟨ScanMode.outside, ["./FRONTEND.md", "./PLANS.md", "./PRODUCT_SENSE.md", "./RELIABILITY.md", "./QUALITY_SCORE.md", "./SECURITY.md", "./DESIGN.md", "./ARCHITECTURE.md"]⟩ : ScanState) (agB1).data = (⟨ScanMode.outside, ["./FRONTEND.md", "./PLANS.md", "./PRODUCT_SENSE.md", "./RELIABILITY.md", "./QUALITY_SCORE.md", "./SECURITY.md", "./DESIGN.md", "./ARCHITECTURE.md"]⟩ : ScanState) := rfl
  have h6 : List.foldl scanStep (⟨ScanMode.outside, ["./FRONTEND.md", "./PLANS.md", "./PRODUCT_SENSE.md", "./RELIABILITY.md", "./QUALITY_SCORE.md", "./SECURITY.md", "./DESIGN.md", "./ARCHITECTURE.md"]⟩ : ScanState) (agB2).data = (⟨ScanMode.outside, ["./FRONTEND.md", "./PLANS.md", "./PRODUCT_SENSE.md", "./RELIABILITY.md", "./QUALITY_SCORE.md", "./SECURITY.md", "./DESIGN.md", "./ARCHITECTURE.md"]⟩ : ScanState) := rfl
  have h7 : List.foldl scanStep (⟨ScanMode.outside, ["./FRONTEND.md", "./PLANS.md", "./PRODUCT_SENSE.md", "./RELIABILITY.md", "./QUALITY_SCORE.md", "./SECURITY.md", "./DESIGN.md", "./ARCHITECTURE.md"]⟩ : ScanState) (agB3).data = (⟨ScanMode.outside, ["./docs/design-docs/index.md", "./FRONTEND.md", "./PLANS.md", "./PRODUCT_SENSE.md", "./RELIABILITY.md", "./QUALITY_SCORE.md", "./SECURITY.md", "./DESIGN.md", "./ARCHITECTURE.md"]⟩ : ScanState) := rfl
  have h8 : List.foldl scanStep (⟨ScanMode.outside, ["./docs/design-docs/index.md", "./FRONTEND.md", "./PLANS.md", "./PRODUCT_SENSE.md", "./RELIABILITY.md", "./QUALITY_SCORE.md", "./SECURITY.md", "./DESIGN.md", "./ARCHITECTURE.md"]⟩ : ScanState) (agB4).data = (⟨ScanMode.outside, ["./docs/design-docs/index.md", "./FRONTEND.md", "./PLANS.md", "./PRODUCT_SENSE.md", "./RELIABILITY.md", "./QUALITY_SCORE.md", "./SECURITY.md", "./DESIGN.md", "./ARCHITECTURE.md"]⟩ : ScanState) := rfl
  have h9 : List.foldl scanStep (⟨ScanMode.outside, ["./docs/design-docs/index.md", "./FRONTEND.md", "./PLANS.md", "./PRODUCT_SENSE.md", "./RELIABILITY.md", "./QUALITY_SCORE.md", "./SECURITY.md", "./DESIGN.md", "./ARCHITECTURE.md"]⟩ : ScanState) (agB5).data = (⟨ScanMode.outside, ["./PLANS.md", "./docs/design-docs/index.md", "./FRONTEND.md", "./PLANS.md", "./PRODUCT_SENSE.md", "./RELIABILITY.md", "./QUALITY_SCORE.md", "./SECURITY.md", "./DESIGN.md", "./ARCHITECTURE.md"]⟩ : ScanState) := rfl
  have h10 : List.foldl scanStep (⟨ScanMode.outside, ["./PLANS.md", "./docs/design-docs/index.md", "./FRONTEND.md", "./PLANS.md", "./PRODUCT_SENSE.md", "./RELIABILITY.md", "./QUALITY_SCORE.md", "./SECURITY.md", "./DESIGN.md", "./ARCHITECTURE.md"]⟩ : ScanState) (agB6).data = (⟨ScanMode.outside, ["./PLANS.md", "./docs/design-docs/index.md", "./FRONTEND.md", "./PLANS.md", "./PRODUCT_SENSE.md", "./RELIABILITY.md", "./QUALITY_SCORE.md", "./SECURITY.md", "./DESIGN.md", "./ARCHITECTURE.md"]⟩ : ScanState) := rfl
  have h11 : List.foldl scanStep (⟨ScanMode.outside, ["./PLANS.md", "./docs/design-docs/index.md", "./FRONTEND.md", "./PLANS.md", "./PRODUCT_SENSE.md", "./RELIABILITY.md", "./QUALITY_SCORE.md", "./SECURITY.md", "./DESIGN.md", "./ARCHITECTURE.md"]⟩ : ScanState) (agB7).data = (⟨ScanMode.outside, ["./docs/product-specs/index.md", "./PLANS.md", "./docs/design-docs/index.md", "./FRONTEND.md", "./PLANS.md", "./PRODUCT_SENSE.md", "./RELIABILITY.md", "./QUALITY_SCORE.md", "./SECURITY.md", "./DESIGN.md", "./ARCHITECTURE.md"]⟩ : ScanState) := rfl
  have h12 : List.foldl scanStep (⟨ScanMode.outside, ["./docs/product-specs/index.md", "./PLANS.md", "./docs/design-docs/index.md", "./FRONTEND.md", "./PLANS.md", "./PRODUCT_SENSE.md", "./RELIABILITY.md", "./QUALITY_SCORE.md", "./SECURITY.md", "./DESIGN.md", "./ARCHITECTURE.md"]⟩ : ScanState) (agB8).data = (⟨ScanMode.outside, ["./docs/product-specs/index.md", "./PLANS.md", "./docs/design-docs/index.md", "./FRONTEND.md", "./PLANS.md", "./PRODUCT_SENSE.md", "./RELIABILITY.md", "./QUALITY_SCORE.md", "./SECURITY.md", "./DESIGN.md", "./ARCHITECTURE.md"]⟩ : ScanState) := rfl
  have h13 : List.foldl scanStep (⟨ScanMode.outside, ["./docs/product-specs/index.md", "./PLANS.md", "./docs/design-docs/index.md", "./FRONTEND.md", "./PLANS.md", "./PRODUCT_SENSE.md", "./RELIABILITY.md", "./QUALITY_SCORE.md", "./SECURITY.md", "./DESIGN.md", "./ARCHITECTURE.md"]⟩ : ScanState) (agB9).data = (⟨ScanMode.outside, ["./docs/product-specs/index.md", "./PLANS.md", "./docs/design-docs/index.md", "./FRONTEND.md", "./PLANS.md", "./PRODUCT_SENSE.md", "./RELIABILITY.md", "./QUALITY_SCORE.md", "./SECURITY.md", "./DESIGN.md", "./ARCHITECTURE.md"]⟩ : ScanState) := rfl
  have h14 : List.foldl scanStep (⟨ScanMode.outside, ["./docs/product-specs/index.md", "./PLANS.md", "./docs/design-docs/index.md", "./FRONTEND.md", "./PLANS.md", "./PRODUCT_SENSE.md", "./RELIABILITY.md", "./QUALITY_SCORE.md", "./SECURITY.md", "./DESIGN.md", "./ARCHITECTURE.md"]⟩ : ScanState) (agB10).data = (⟨ScanMode.outside, ["./docs/product-specs/index.md", "./PLANS.md", "./docs/design-docs/index.md", "./FRONTEND.md", "./PLANS.md", "./PRODUCT_SENSE.md", "./RELIABILITY.md", "./QUALITY_SCORE.md", "./SECURITY.md", "./DESIGN.md", "./ARCHITECTURE.md"]⟩ : ScanState) := rfl
  have h15 : List.foldl scanStep (⟨ScanMode.outside, ["./docs/product-specs/index.md", "./PLANS.md", "./docs/design-docs/index.md", "./FRONTEND.md", "./PLANS.md", "./PRODUCT_SENSE.md", "./RELIABILITY.md", "./QUALITY_SCORE.md", "./SECURITY.md", "./DESIGN.md", "./ARCHITECTURE.md"]⟩ : ScanState) (agB11).data = (⟨ScanMode.outside, ["./docs/product-specs/index.md", "./PLANS.md", "./docs/design-docs/index.md", "./FRONTEND.md", "./PLANS.md", "./PRODUCT_SENSE.md", "./RELIABILITY.md", "./QUALITY_SCORE.md", "./SECURITY.md", "./DESIGN.md", "./ARCHITECTURE.md"]⟩ : ScanState) := rfl
  have h16 : List.foldl scanStep (⟨ScanMode.outside, ["./docs/product-specs/index.md", "./PLANS.md", "./docs/design-docs/index.md", "./FRONTEND.md", "./PLANS.md", "./PRODUCT_SENSE.md", "./RELIABILITY.md", "./QUALITY_SCORE.md", "./SECURITY.md", "./DESIGN.md", "./ARCHITECTURE.md"]⟩ : ScanState) (agB12).data = (⟨ScanMode.outside, ["./docs/product-specs/index.md", "./PLANS.md", "./docs/design-docs/index.md", "./FRONTEND.md", "./PLANS.md", "./PRODUCT_SENSE.md", "./RELIABILITY.md", "./QUALITY_SCORE.md", "./SECURITY.md", "./DESIGN.md", "./ARCHITECTURE.md"]⟩ : ScanState) := rfl
  have h17 : List.foldl scanStep (⟨ScanMode.outside, ["./docs/product-specs/index.md", "./PLANS.md", "./docs/design-docs/index.md", "./FRONTEND.md", "./PLANS.md", "./PRODUCT_SENSE.md", "./RELIABILITY.md", "./QUALITY_SCORE.md", "./SECURITY.md", "./DESIGN.md", "./ARCHITECTURE.md"]⟩ : ScanState) (agB13).data = (⟨ScanMode.outside, ["./docs/product-specs/index.md", "./PLANS.md", "./docs/design-docs/index.md", "./FRONTEND.md", "./PLANS.md", "./PRODUCT_SENSE.md", "./RELIABILITY.md", "./QUALITY_SCORE.md", "./SECURITY.md", "./DESIGN.md", "./ARCHITECTURE.md"]⟩ : ScanState) := rfl
  have h18 : List.foldl scanStep (⟨ScanMode.outside, ["./docs/product-specs/index.md", "./PLANS.md", "./docs/design-docs/index.md", "./FRONTEND.md", "./PLANS.md", "./PRODUCT_SENSE.md", "./RELIABILITY.md", "./QUALITY_SCORE.md", "./SECURITY.md", "./DESIGN.md", "./ARCHITECTURE.md"]⟩ : ScanState) (agB14).data = (⟨ScanMode.outside, ["./docs/product-specs/index.md", "./PLANS.md", "./docs/design-docs/index.md", "./FRONTEND.md", "./PLANS.md", "./PRODUCT_SENSE.md", "./RELIABILITY.md", "./QUALITY_SCORE.md", "./SECURITY.md", "./DESIGN.md", "./ARCHITECTURE.md"]⟩ : ScanState) := rfl
  have h19 : List.foldl scanStep (⟨ScanMode.outside, ["./docs/product-specs/index.md", "./PLANS.md", "./docs/design-docs/index.md", "./FRONTEND.md", "./PLANS.md", "./PRODUCT_SENSE.md", "./RELIABILITY.md", "./QUALITY_SCORE.md", "./SECURITY.md", "./DESIGN.md", "./ARCHITECTURE.md"]⟩ : ScanState) (agB15).data = (⟨ScanMode.outside, ["./docs/product-specs/index.md", "./PLANS.md", "./docs/design-docs/index.md", "./FRONTEND.md", "./PLANS.md", "./PRODUCT_SENSE.md", "./RELIABILITY.md", "./QUALITY_SCORE.md", "./SECURITY.md", "./DESIGN.md", "./ARCHITECTURE.md"]⟩ : ScanState) := rfl
  have h20 : List.foldl scanStep (⟨ScanMode.outside, ["./docs/product-specs/index.md", "./PLANS.md", "./docs/design-docs/index.md", "./FRONTEND.md", "./PLANS.md", "./PRODUCT_SENSE.md", "./RELIABILITY.md", "./QUALITY_SCORE.md", "./SECURITY.md", "./DESIGN.md", "./ARCHITECTURE.md"]⟩ : ScanState) (agB16).data = (⟨ScanMode.outside, ["./docs/product-specs/index.md", "./PLANS.md", "./docs/design-docs/index.md", "./FRONTEND.md", "./PLANS.md", "./PRODUCT_SENSE.md", "./RELIABILITY.md", "./QUALITY_SCORE.md", "./SECURITY.md", "./DESIGN.md", "./ARCHITECTURE.md"]⟩ : ScanState) := rfl
  have h21 : List.foldl scanStep (⟨ScanMode.outside, ["./docs/product-specs/index.md", "./PLANS.md", "./docs/design-docs/index.md", "./FRONTEND.md", "./PLANS.md", "./PRODUCT_SENSE.md", "./RELIABILITY.md", "./QUALITY_SCORE.md", "./SECURITY.md", "./DESIGN.md", "./ARCHITECTURE.md"]⟩ : ScanState) (agB17).data = (⟨ScanMode.outside, ["./docs/product-specs/index.md", "./PLANS.md", "./docs/design-docs/index.md", "./FRONTEND.md", "./PLANS.md", "./PRODUCT_SENSE.md", "./RELIABILITY.md", "./QUALITY_SCORE.md", "./SECURITY.md", "./DESIGN.md", "./ARCHITECTURE.md"]⟩ : ScanState) := rfl
  have h22 : List.foldl scanStep (⟨ScanMode.outside, ["./docs/product-specs/index.md", "./PLANS.md", "./docs/design-docs/index.md", "./FRONTEND.md", "./PLANS.md", "./PRODUCT_SENSE.md", "./RELIABILITY.md", "./QUALITY_SCORE.md", "./SECURITY.md", "./DESIGN.md", "./ARCHITECTURE.md"]⟩ : ScanState) (agB18).data = (⟨ScanMode.outside, ["./docs/product-specs/index.md", "./PLANS.md", "./docs/design-docs/index.md", "./FRONTEND.md", "./PLANS.md", "./PRODUCT_SENSE.md", "./RELIABILITY.md", "./QUALITY_SCORE.md", "./SECURITY.md", "./DESIGN.md", "./ARCHITECTURE.md"]⟩ : ScanState) := rfl
  have h23 : List.foldl scanStep (⟨ScanMode.outside, ["./docs/product-specs/index.md", "./PLANS.md", "./docs/design-docs/index.md", "./FRONTEND.md", "./PLANS.md", "./PRODUCT_SENSE.md", "./RELIABILITY.md", "./QUALITY_SCORE.md", "./SECURITY.md", "./DESIGN.md", "./ARCHITECTURE.md"]⟩ : ScanState) (agB19).data = (⟨ScanMode.outside, ["./docs/product-specs/index.md", "./PLANS.md", "./docs/design-docs/index.md", "./FRONTEND.md", "./PLANS.md", "./PRODUCT_SENSE.md", "./RELIABILITY.md", "./QUALITY_SCORE.md", "./SECURITY.md", "./DESIGN.md", "./ARCHITECTURE.md"]⟩ : ScanState) := rfl
  have h24 : List.foldl scanStep (⟨ScanMode.outside, ["./docs/product-specs/index.md", "./PLANS.md", "./docs/design-docs/index.md", "./FRONTEND.md", "./PLANS.md", "./PRODUCT_SENSE.md", "./RELIABILITY.md", "./QUALITY_SCORE.md", "./SECURITY.md", "./DESIGN.md", "./ARCHITECTURE.md"]⟩ : ScanState) (agB20).data = (⟨ScanMode.outside, ["./docs/design-docs/core-beliefs.md", "./docs/product-specs/index.md", "./PLANS.md", "./docs/design-docs/index.md", "./FRONTEND.md", "./PLANS.md", "./PRODUCT_SENSE.md", "./RELIABILITY.md", "./QUALITY_SCORE.md", "./SECURITY.md", "./DESIGN.md", "./ARCHITECTURE.md"]⟩ : ScanState) := rfl
  have h25 : List.foldl scanStep (⟨ScanMode.outside, ["./docs/design-docs/core-beliefs.md", "./docs/product-specs/index.md", "./PLANS.md", "./docs/design-docs/index.md", "./FRONTEND.md", "./PLANS.md", "./PRODUCT_SENSE.md", "./RELIABILITY.md", "./QUALITY_SCORE.md", "./SECURITY.md", "./DESIGN.md", "./ARCHITECTURE.md"]⟩ : ScanState) (agB21).data = (⟨ScanMode.outside, ["./docs/exec-plans/tech-debt-tracker.md", "./docs/design-docs/core-beliefs.md", "./docs/product-specs/index.md", "./PLANS.md", "./docs/design-docs/index.md", "./FRONTEND.md", "./PLANS.md", "./PRODUCT_SENSE.md", "./RELIABILITY.md", "./QUALITY_SCORE.md", "./SECURITY.md", "./DESIGN.md", "./ARCHITECTURE.md"]⟩ : ScanState) := rfl
  have h26 : List.foldl scanStep (⟨ScanMode.outside, ["./docs/exec-plans/tech-debt-tracker.md", "./docs/design-docs/core-beliefs.md", "./docs/product-specs/index.md", "./PLANS.md", "./docs/design-docs/index.md", "./FRONTEND.md", "./PLANS.md", "./PRODUCT_SENSE.md", "./RELIABILITY.md", "./QUALITY_SCORE.md", "./SECURITY.md", "./DESIGN.md", "./ARCHITECTURE.md"]⟩ : ScanState) (agB22).data = (⟨ScanMode.outside, ["./docs/exec-plans/tech-debt-tracker.md", "./docs/design-docs/core-beliefs.md", "./docs/product-specs/index.md", "./PLANS.md", "./docs/design-docs/index.md", "./FRONTEND.md", "./PLANS.md", "./PRODUCT_SENSE.md", "./RELIABILITY.md", "./QUALITY_SCORE.md", "./SECURITY.md", "./DESIGN.md", "./ARCHITECTURE.md"]⟩ : ScanState) := rfl
  simp only [List.foldl_nil, h0, h1, h2, h3, h4, h5, h6, h7, h8, h9, h10, h11, h12, h13, h14, h15, h16, h17, h18, h19, h20, h21, h22, h23, h24, h25, h26]
  rfl

theorem countNl_agents_backend : countNl (getAgentsTemplate ProjectType.backend).data = 102 := by
  unfold getAgentsTemplate
  rw [if_neg (by decide)]
  simp only [strDataAppend, countNl_append]
  have k0 : countNl (agA1).data = 8 := rfl
  have k1 : countNl (agA2).data = 3 := rfl
  have k2 : countNl (agA3).data = 2 := rfl
  have k3 : countNl (agA4).data = 2 := rfl
  have k4 : countNl (agB1).data = 7 := rfl
  have k5 : countNl (agB2).data = 2 := rfl
  have k6 : countNl (agB3).data = 5 := rfl
  have k7 : countNl (agB4).data = 5 := rfl
  have k8 : countNl (agB5).data = 4 := rfl
  have k9 : countNl (agB6).data = 6 := rfl
  have k10 : countNl (agB7).data = 5 := rfl
  have k11 : countNl (agB8).data = 4 := rfl
  have k12 : countNl (agB9).data = 5 := rfl
  have k13 : countNl (agB10).data = 6 := rfl
  have k14 : countNl (agB11).data = 1 := rfl
  have k15 : countNl (agB12).data = 2 := rfl
  have k16 : countNl (agB13).data = 1 := rfl
  have k17 : countNl (agB14).data = 5 := rfl
  have k18 : countNl (agB15).data = 2 := rfl
  have k19 : countNl (agB16).data = 3 := rfl
  have k20 : countNl (agB17).data = 7 := rfl
  have k21 : countNl (agB18).data = 4 := rfl
  have k22 : countNl (agB19).data = 5 := rfl
  have k23 : countNl (agB20).data = 2 := rfl
  have k24 : countNl (agB21).data = 5 := rfl
  have k25 : countNl (agB22).data = 1 := rfl
  have kE : countNl ("" : String).data = 0 := rfl
  simp only [kE, k0, k1, k2, k3, k4, k5, k6, k7, k8, k9, k10, k11, k12, k13, k14, k15, k16, k17, k18, k19, k20, k21, k22, k23, k24, k25]

theorem countNl_agents_fullstack : countNl (getAgentsTemplate ProjectType.fullstack).data = 103 := by
  unfold getAgentsTemplate
  rw [if_pos (Or.inl rfl)]
  simp only [strDataAppend, countNl_append]
  have k0 : countNl (agA1).data = 8 := rfl
  have k1 : countNl (agA2).data = 3 := rfl
  have k2 : countNl (agA3).data = 2 := rfl
  have k3 : countNl (agA4).data = 2 := rfl
  have k4 : countNl (("- **Frontend:** See [FRONTEND.md](./FRONTEND.md)\n" : String)).data = 1 := rfl
  have k5 : countNl (agB1).data = 7 := rfl
  have k6 : countNl (agB2).data = 2 := rfl
  have k7 : countNl (agB3).data = 5 := rfl
  have k8 : countNl (agB4).data = 5 := rfl
  have k9 : countNl (agB5).data = 4 := rfl
  have k10 : countNl (agB6).data = 6 := rfl
  have k11 : countNl (agB7).data = 5 := rfl
  have k12 : countNl (agB8).data = 4 := rfl
  have k13 : countNl (agB9).data = 5 := rfl
  have k14 : countNl (agB10).data = 6 := rfl
  have k15 : countNl (agB11).data = 1 := rfl
  have k16 : countNl (agB12).data = 2 := rfl
  have k17 : countNl (agB13).data = 1 := rfl
  have k18 : countNl (agB14).data = 5 := rfl
  have k19 : countNl (agB15).data = 2 := rfl
  have k20 : countNl (agB16).data = 3 := rfl
  have k21 : countNl (agB17).data = 7 := rfl
  have k22 : countNl (agB18).data = 4 := rfl
  have k23 : countNl (agB19).data = 5 := rfl
  have k24 : countNl (agB20).data = 2 := rfl
  have k25 : countNl (agB21).data = 5 := rfl
  have k26 : countNl (agB22).data = 1 := rfl
  have kE : countNl ("" : String).data = 0 := rfl
  simp only [kE, k0, k1, k2, k3, k4, k5, k6, k7, k8, k9, k10, k11, k12, k13, k14, k15, k16, k17, k18, k19, k20, k21, k22, k23, k24, k25, k26]

theorem agentsLineCount_backend :
    (splitNl (getAgentsTemplate ProjectType.backend).data).length = 103 := by
  rw [splitNl_length, countNl_agents_backend]

theorem agentsLineCount_fullstack :
    (splitNl (getAgentsTemplate ProjectType.fullstack).data).length = 104 := by
  rw [splitNl_length, countNl_agents_fullstack]

/-! ### The validator on freshly scaffolded projects -/

theorem validateScaffold_FuTsCi (t : Int) : validate (fsFuTsCi t) t = ⟨[], [], true⟩ := by
  have hexA : existsFS (fsFuTsCi t) "AGENTS.md" = true :=
    docsExist_FuTsCi t _ (by simp [requiredDocs])
  refine validate_result _ _ ?_ ?_ ?_ ?_
  · exact validateRootDocs_nil _ (getAgentsTemplate ProjectType.fullstack) (docsExist_FuTsCi t)
      (readA_FuTsCi t) (readC_FuTsCi t) (by rw [agentsLineCount_fullstack]; norm_num)
  · exact validateDocsStructure_nil _ (dirsExist_FuTsCi t) (idxExist_FuTsCi t)
  · refine validateCrossLinks_nil _ (getAgentsTemplate ProjectType.fullstack) hexA (readA_FuTsCi t) ?_
    intro p hp
    rw [extractLinks_agents_fullstack] at hp
    exact Or.inr (linksOk_FuTsCi t p hp)
  · exact validateDocFreshness_placeholders _ t (dirsExist_FuTsCi t _ (by simp [requiredDirs]))
      (ddFiles_FuTsCi t) (statCB_FuTsCi t)

theorem validateScaffold_FuTsNc (t : Int) : validate (fsFuTsNc t) t = ⟨[], [], true⟩ := by
  have hexA : existsFS (fsFuTsNc t) "AGENTS.md" = true :=
    docsExist_FuTsNc t _ (by simp [requiredDocs])
  refine validate_result _ _ ?_ ?_ ?_ ?_
  · exact validateRootDocs_nil _ (getAgentsTemplate ProjectType.fullstack) (docsExist_FuTsNc t)
      (readA_FuTsNc t) (readC_FuTsNc t) (by rw [agentsLineCount_fullstack]; norm_num)
  · exact validateDocsStructure_nil _ (dirsExist_FuTsNc t) (idxExist_FuTsNc t)
  · refine validateCrossLinks_nil _ (getAgentsTemplate ProjectType.fullstack) hexA (readA_FuTsNc t) ?_
    intro p hp
    rw [extractLinks_agents_fullstack] at hp
    exact Or.inr (linksOk_FuTsNc t p hp)
  · exact validateDocFreshness_placeholders _ t (dirsExist_FuTsNc t _ (by simp [requiredDirs]))
      (ddFiles_FuTsNc t) (statCB_FuTsNc t)

theorem validateScaffold_FuJsCi (t : Int) : validate (fsFuJsCi t) t = ⟨[], [], true⟩ := by
  have hexA : existsFS (fsFuJsCi t) "AGENTS.md" = true :=
    docsExist_FuJsCi t _ (by simp [requiredDocs])
  refine validate_result _ _ ?_ ?_ ?_ ?_
  · exact validateRootDocs_nil _ (getAgentsTemplate ProjectType.fullstack) (docsExist_FuJsCi t)
      (readA_FuJsCi t) (readC_FuJsCi t) (by rw [agentsLineCount_fullstack]; norm_num)
  · exact validateDocsStructure_nil _ (dirsExist_FuJsCi t) (idxExist_FuJsCi t)
  · refine validateCrossLinks_nil _ (getAgentsTemplate ProjectType.fullstack) hexA (readA_FuJsCi t) ?_
    intro p hp
    rw [extractLinks_agents_fullstack] at hp
    exact Or.inr (linksOk_FuJsCi t p hp)
  · exact validateDocFreshness_placeholders _ t (dirsExist_FuJsCi t _ (by simp [requiredDirs]))
      (ddFiles_FuJsCi t) (statCB_FuJsCi t)

theorem validateScaffold_FuJsNc (t : Int) : validate (fsFuJsNc t) t = ⟨[], [], true⟩ := by
  have hexA : existsFS (fsFuJsNc t) "AGENTS.md" = true :=
    docsExist_FuJsNc t _ (by simp [requiredDocs])
  refine validate_result _ _ ?_ ?_ ?_ ?_
  · exact validateRootDocs_nil _ (getAgentsTemplate ProjectType.fullstack) (docsExist_FuJsNc t)
      (readA_FuJsNc t) (readC_FuJsNc t) (by rw [agentsLineCount_fullstack]; norm_num)
  · exact validateDocsStructure_nil _ (dirsExist_FuJsNc t) (idxExist_FuJsNc t)
  · refine validateCrossLinks_nil _ (getAgentsTemplate ProjectType.fullstack) hexA (readA_FuJsNc t) ?_
    intro p hp
    rw [extractLinks_agents_fullstack] at hp
    exact Or.inr (linksOk_FuJsNc t p hp)
  · exact validateDocFreshness_placeholders _ t (dirsExist_FuJsNc t _ (by simp [requiredDirs]))
      (ddFiles_FuJsNc t) (statCB_FuJsNc t)

theorem validateScaffold_BkTsCi (t : Int) : validate (fsBkTsCi t) t = ⟨[], [], true⟩ := by
  have hexA : existsFS (fsBkTsCi t) "AGENTS.md" = true :=
    docsExist_BkTsCi t _ (by simp [requiredDocs])
  refine validate_result _ _ ?_ ?_ ?_ ?_
  · exact validateRootDocs_nil _ (getAgentsTemplate ProjectType.backend) (docsExist_BkTsCi t)
      (readA_BkTsCi t) (readC_BkTsCi t) (by rw [agentsLineCount_backend]; norm_num)
  · exact validateDocsStructure_nil _ (dirsExist_BkTsCi t) (idxExist_BkTsCi t)
  · refine validateCrossLinks_nil _ (getAgentsTemplate ProjectType.backend) hexA (readA_BkTsCi t) ?_
    intro p hp
    rw [extractLinks_agents_backend] at hp
    exact Or.inr (linksOk_BkTsCi t p hp)
  · exact validateDocFreshness_placeholders _ t (dirsExist_BkTsCi t _ (by simp [requiredDirs]))
      (ddFiles_BkTsCi t) (statCB_BkTsCi t)

theorem validateScaffold_BkTsNc (t : Int) : validate (fsBkTsNc t) t = ⟨[], [], true⟩ := by
  have hexA : existsFS (fsBkTsNc t) "AGENTS.md" = true :=
    docsExist_BkTsNc t _ (by simp [requiredDocs])
  refine validate_result _ _ ?_ ?_ ?_ ?_
  · exact validateRootDocs_nil _ (getAgentsTemplate ProjectType.backend) (docsExist_BkTsNc t)
      (readA_BkTsNc t) (readC_BkTsNc t) (by rw [agentsLineCount_backend]; norm_num)
  · exact validateDocsStructure_nil _ (dirsExist_BkTsNc t) (idxExist_BkTsNc t)
  · refine validateCrossLinks_nil _ (getAgentsTemplate ProjectType.backend) hexA (readA_BkTsNc t) ?_
    intro p hp
    rw [extractLinks_agents_backend] at hp
    exact Or.inr (linksOk_BkTsNc t p hp)
  · exact validateDocFreshness_placeholders _ t (dirsExist_BkTsNc t _ (by simp [requiredDirs]))
      (ddFiles_BkTsNc t) (statCB_BkTsNc t)

theorem validateScaffold_BkJsCi (t : Int) : validate (fsBkJsCi t) t = ⟨[], [], true⟩ := by
  have hexA : existsFS (fsBkJsCi t) "AGENTS.md" = true :=
    docsExist_BkJsCi t _ (by simp [requiredDocs])
  refine validate_result _ _ ?_ ?_ ?_ ?_
  · exact validateRootDocs_nil _ (getAgentsTemplate ProjectType.backend) (docsExist_BkJsCi t)
      (readA_BkJsCi t) (readC_BkJsCi t) (by rw [agentsLineCount_backend]; norm_num)
  · exact validateDocsStructure_nil _ (dirsExist_BkJsCi t) (idxExist_BkJsCi t)
  · refine validateCrossLinks_nil _ (getAgentsTemplate ProjectType.backend) hexA (readA_BkJsCi t) ?_
    intro p hp
    rw [extractLinks_agents_backend] at hp
    exact Or.inr (linksOk_BkJsCi t p hp)
  · exact validateDocFreshness_placeholders _ t (dirsExist_BkJsCi t _ (by simp [requiredDirs]))
      (ddFiles_BkJsCi t) (statCB_BkJsCi t)

theorem validateScaffold_BkJsNc (t : Int) : validate (fsBkJsNc t) t = ⟨[], [], true⟩ := by
  have hexA : existsFS (fsBkJsNc t) "AGENTS.md" = true :=
    docsExist_BkJsNc t _ (by simp [requiredDocs])
  refine validate_result _ _ ?_ ?_ ?_ ?_
  · exact validateRootDocs_nil _ (getAgentsTemplate ProjectType.backend) (docsExist_BkJsNc t)
      (readA_BkJsNc t) (readC_BkJsNc t) (by rw [agentsLineCount_backend]; norm_num)
  · exact validateDocsStructure_nil _ (dirsExist_BkJsNc t) (idxExist_BkJsNc t)
  · refine validateCrossLinks_nil _ (getAgentsTemplate ProjectType.backend) hexA (readA_BkJsNc t) ?_
    intro p hp
    rw [extractLinks_agents_backend] at hp
    exact Or.inr (linksOk_BkJsNc t p hp)
  · exact validateDocFreshness_placeholders _ t (dirsExist_BkJsNc t _ (by simp [requiredDirs]))
      (ddFiles_BkJsNc t) (statCB_BkJsNc t)

theorem validateScaffold_FrTsCi (t : Int) : validate (fsFrTsCi t) t = ⟨[], [], true⟩ := by
  have hexA : existsFS (fsFrTsCi t) "AGENTS.md" = true :=
    docsExist_FrTsCi t _ (by simp [requiredDocs])
  refine validate_result _ _ ?_ ?_ ?_ ?_
  · exact validateRootDocs_nil _ (getAgentsTemplate ProjectType.frontend) (docsExist_FrTsCi t)
      (readA_FrTsCi t) (readC_FrTsCi t) (by rw [agentsTemplate_frontend_variant, agentsLineCount_fullstack]; norm_num)
  · exact validateDocsStructure_nil _ (dirsExist_FrTsCi t) (idxExist_FrTsCi t)
  · refine validateCrossLinks_nil _ (getAgentsTemplate ProjectType.frontend) hexA (readA_FrTsCi t) ?_
    intro p hp
    rw [agentsTemplate_frontend_variant, extractLinks_agents_fullstack] at hp
    exact Or.inr (linksOk_FrTsCi t p hp)
  · exact validateDocFreshness_placeholders _ t (dirsExist_FrTsCi t _ (by simp [requiredDirs]))
      (ddFiles_FrTsCi t) (statCB_FrTsCi t)

theorem validateScaffold_FrTsNc (t : Int) : validate (fsFrTsNc t) t = ⟨[], [], true⟩ := by
  have hexA : existsFS (fsFrTsNc t) "AGENTS.md" = true :=
    docsExist_FrTsNc t _ (by simp [requiredDocs])
  refine validate_result _ _ ?_ ?_ ?_ ?_
  · exact validateRootDocs_nil _ (getAgentsTemplate ProjectType.frontend) (docsExist_FrTsNc t)
      (readA_FrTsNc t) (readC_FrTsNc t) (by rw [agentsTemplate_frontend_variant, agentsLineCount_fullstack]; norm_num)
  · exact validateDocsStructure_nil _ (dirsExist_FrTsNc t) (idxExist_FrTsNc t)
  · refine validateCrossLinks_nil _ (getAgentsTemplate ProjectType.frontend) hexA (readA_FrTsNc t) ?_
    intro p hp
    rw [agentsTemplate_frontend_variant, extractLinks_agents_fullstack] at hp
    exact Or.inr (linksOk_FrTsNc t p hp)
  · exact validateDocFreshness_placeholders _ t (dirsExist_FrTsNc t _ (by simp [requiredDirs]))
      (ddFiles_FrTsNc t) (statCB_FrTsNc t)

theorem validateScaffold_FrJsCi (t : Int) : validate (fsFrJsCi t) t = ⟨[], [], true⟩ := by
  have hexA : existsFS (fsFrJsCi t) "AGENTS.md" = true :=
    docsExist_FrJsCi t _ (by simp [requiredDocs])
  refine validate_result _ _ ?_ ?_ ?_ ?_
  · exact validateRootDocs_nil _ (getAgentsTemplate ProjectType.frontend) (docsExist_FrJsCi t)
      (readA_FrJsCi t) (readC_FrJsCi t) (by rw [agentsTemplate_frontend_variant, agentsLineCount_fullstack]; norm_num)
  · exact validateDocsStructure_nil _ (dirsExist_FrJsCi t) (idxExist_FrJsCi t)
  · refine validateCrossLinks_nil _ (getAgentsTemplate ProjectType.frontend) hexA (readA_FrJsCi t) ?_
    intro p hp
    rw [agentsTemplate_frontend_variant, extractLinks_agents_fullstack] at hp
    exact Or.inr (linksOk_FrJsCi t p hp)
  · exact validateDocFreshness_placeholders _ t (dirsExist_FrJsCi t _ (by simp [requiredDirs]))
      (ddFiles_FrJsCi t) (statCB_FrJsCi t)

theorem validateScaffold_FrJsNc (t : Int) : validate (fsFrJsNc t) t = ⟨[], [], true⟩ := by
  have hexA : existsFS (fsFrJsNc t) "AGENTS.md" = true :=
    docsExist_FrJsNc t _ (by simp [requiredDocs])
  refine validate_result _ _ ?_ ?_ ?_ ?_
  · exact validateRootDocs_nil _ (getAgentsTemplate ProjectType.frontend) (docsExist_FrJsNc t)
      (readA_FrJsNc t) (readC_FrJsNc t) (by rw [agentsTemplate_frontend_variant, agentsLineCount_fullstack]; norm_num)
  · exact validateDocsStructure_nil _ (dirsExist_FrJsNc t) (idxExist_FrJsNc t)
  · refine validateCrossLinks_nil _ (getAgentsTemplate ProjectType.frontend) hexA (readA_FrJsNc t) ?_
    intro p hp
    rw [agentsTemplate_frontend_variant, extractLinks_agents_fullstack] at hp
    exact Or.inr (linksOk_FrJsNc t p hp)
  · exact validateDocFreshness_placeholders _ t (dirsExist_FrJsNc t _ (by simp [requiredDirs]))
      (ddFiles_FrJsNc t) (statCB_FrJsNc t)

/-! ### FRONTEND.md references in emitted documents -/

theorem noFr_design : containsSub frontendNeedle.data (getDesignTemplate).data = false := by
  unfold getDesignTemplate
  rw [strDataAppend, strDataAppend]
  have h0 : containsSub frontendNeedle.data (design1).data = false := rfl
  have sp1 : (design1).data = ("# Design Principles\n\n**Core design beliefs and patterns for this codebase.**\n\n## Philosophy\n\n1. **Simple over clever** - Readable code beats optimized code\n2. **Explicit over implicit** - Make behavior obvious\n3. **Boring over exciting** - Prefer proven technologies\n4. **Strict boundaries** - Enforce constraints mechanically\n\n## Code Organization\n\n### File Structure\n- One primary export per file\n- Co-locate related code (tests next to implementation)\n- Group by domain, not by type\n\n### Naming Conventions\n- Verbose and descriptive: \x60calculateTotalRevenue()\x60 not \x60calcRev()\x60\n- Consistent patterns across domains\n- No abbreviations unless universally understood\n\n### Comments\n- Comment **why**, not **what**\n- Explain business logic and constraints\n- Document security-critical sections\n- Avoid obvious " : String).data ++ ("comments\n\n" : String).data := rfl
  have eq1 : (design1).data ++ (design2).data = ("# Design Principles\n\n**Core design beliefs and patterns for this codebase.**\n\n## Philosophy\n\n1. **Simple over clever** - Readable code beats optimized code\n2. **Explicit over implicit** - Make behavior obvious\n3. **Boring over exciting** - Prefer proven technologies\n4. **Strict boundaries** - Enforce constraints mechanically\n\n## Code Organization\n\n### File Structure\n- One primary export per file\n- Co-locate related code (tests next to implementation)\n- Group by domain, not by type\n\n### Naming Conventions\n- Verbose and descriptive: \x60calculateTotalRevenue()\x60 not \x60calcRev()\x60\n- Consistent patterns across domains\n- No abbreviations unless universally understood\n\n### Comments\n- Comment **why**, not **what**\n- Explain business logic and constraints\n- Document security-critical sections\n- Avoid obvious " : String).data ++ (("comments\n\n" : String).data ++ (design2).data) := by
    rw [sp1, List.append_assoc ("# Design Principles\n\n**Core design beliefs and patterns for this codebase.**\n\n## Philosophy\n\n1. **Simple over clever** - Readable code beats optimized code\n2. **Explicit over implicit** - Make behavior obvious\n3. **Boring over exciting** - Prefer proven technologies\n4. **Strict boundaries** - Enforce constraints mechanically\n\n## Code Organization\n\n### File Structure\n- One primary export per file\n- Co-locate related code (tests next to implementation)\n- Group by domain, not by type\n\n### Naming Conventions\n- Verbose and descriptive: \x60calculateTotalRevenue()\x60 not \x60calcRev()\x60\n- Consistent patterns across domains\n- No abbreviations unless universally understood\n\n### Comments\n- Comment **why**, not **what**\n- Explain business logic and constraints\n- Document security-critical sections\n- Avoid obvious " : String).data ("comments\n\n" : String).data (design2).data]
  have c1 : containsSub frontendNeedle.data (("comments\n\n" : String).data ++ (design2).data) = false := rfl
  have b1 : containsSub frontendNeedle.data (("# Design Principles\n\n**Core design beliefs and patterns for this codebase.**\n\n## Philosophy\n\n1. **Simple over clever** - Readable code beats optimized code\n2. **Explicit over implicit** - Make behavior obvious\n3. **Boring over exciting** - Prefer proven technologies\n4. **Strict boundaries** - Enforce constraints mechanically\n\n## Code Organization\n\n### File Structure\n- One primary export per file\n- Co-locate related code (tests next to implementation)\n- Group by domain, not by type\n\n### Naming Conventions\n- Verbose and descriptive: \x60calculateTotalRevenue()\x60 not \x60calcRev()\x60\n- Consistent patterns across domains\n- No abbreviations unless universally understood\n\n### Comments\n- Comment **why**, not **what**\n- Explain business logic and constraints\n- Document security-critical sections\n- Avoid obvious " : String).data ++ ("comments\n\n" : String).data) = false := by
    rw [← sp1]
    exact h0
  have h1 : containsSub frontendNeedle.data ((design1).data ++ (design2).data) = false := by
    rw [eq1, containsSub_chain ("# Design Principles\n\n**Core design beliefs and patterns for this codebase.**\n\n## Philosophy\n\n1. **Simple over clever** - Readable code beats optimized code\n2. **Explicit over implicit** - Make behavior obvious\n3. **Boring over exciting** - Prefer proven technologies\n4. **Strict boundaries** - Enforce constraints mechanically\n\n## Code Organization\n\n### File Structure\n- One primary export per file\n- Co-locate related code (tests next to implementation)\n- Group by domain, not by type\n\n### Naming Conventions\n- Verbose and descriptive: \x60calculateTotalRevenue()\x60 not \x60calcRev()\x60\n- Consistent patterns across domains\n- No abbreviations unless universally understood\n\n### Comments\n- Comment **why**, not **what**\n- Explain business logic and constraints\n- Document security-critical sections\n- Avoid obvious " : String).data ("comments\n\n" : String).data (design2).data frontendNeedle.data (by decide), b1, c1]
    rfl
  have sp2 : (design2).data = ("## Error Handling\n\n1. **Fail fast** - Validate inputs early\n2. **Explicit errors** - Use typed error objects\n3. **Graceful degradation** - Never fail silently\n4. **Comprehensive logging** - All errors are logged with context\n\n## Testing Philosophy\n\n1. **Real environments over mocks** - Use Docker for databases, Redis, etc.\n2. **Integration tests preferred** - Test real behavior, not mocked behavior\n3. **Test the contract** - Focus on behavior, not implementation\n4. **Fail meaningfully** - Tests should fail when logic breaks\n\n## Security Principles\n\n1. **Zero trust** - Sanitize all user inputs\n2. **Least privilege** - Minimal access rights\n3. **No secrets in code** - Use environment variables\n4. **Defense in depth** - Multiple layers of " : String).data ++ ("security\n\n" : String).data := rfl
  have eq2 : ((design1).data ++ (design2).data) ++ (design3).data = ((design1).data ++ ("## Error Handling\n\n1. **Fail fast** - Validate inputs early\n2. **Explicit errors** - Use typed error objects\n3. **Graceful degradation** - Never fail silently\n4. **Comprehensive logging** - All errors are logged with context\n\n## Testing Philosophy\n\n1. **Real environments over mocks** - Use Docker for databases, Redis, etc.\n2. **Integration tests preferred** - Test real behavior, not mocked behavior\n3. **Test the contract** - Focus on behavior, not implementation\n4. **Fail meaningfully** - Tests should fail when logic breaks\n\n## Security Principles\n\n1. **Zero trust** - Sanitize all user inputs\n2. **Least privilege** - Minimal access rights\n3. **No secrets in code** - Use environment variables\n4. **Defense in depth** - Multiple layers of " : String).data) ++ (("security\n\n" : String).data ++ (design3).data) := by
    rw [sp2, ← List.append_assoc (design1).data ("## Error Handling\n\n1. **Fail fast** - Validate inputs early\n2. **Explicit errors** - Use typed error objects\n3. **Graceful degradation** - Never fail silently\n4. **Comprehensive logging** - All errors are logged with context\n\n## Testing Philosophy\n\n1. **Real environments over mocks** - Use Docker for databases, Redis, etc.\n2. **Integration tests preferred** - Test real behavior, not mocked behavior\n3. **Test the contract** - Focus on behavior, not implementation\n4. **Fail meaningfully** - Tests should fail when logic breaks\n\n## Security Principles\n\n1. **Zero trust** - Sanitize all user inputs\n2. **Least privilege** - Minimal access rights\n3. **No secrets in code** - Use environment variables\n4. **Defense in depth** - Multiple layers of " : String).data ("security\n\n" : String).data, List.append_assoc ((design1).data ++ ("## Error Handling\n\n1. **Fail fast** - Validate inputs early\n2. **Explicit errors** - Use typed error objects\n3. **Graceful degradation** - Never fail silently\n4. **Comprehensive logging** - All errors are logged with context\n\n## Testing Philosophy\n\n1. **Real environments over mocks** - Use Docker for databases, Redis, etc.\n2. **Integration tests preferred** - Test real behavior, not mocked behavior\n3. **Test the contract** - Focus on behavior, not implementation\n4. **Fail meaningfully** - Tests should fail when logic breaks\n\n## Security Principles\n\n1. **Zero trust** - Sanitize all user inputs\n2. **Least privilege** - Minimal access rights\n3. **No secrets in code** - Use environment variables\n4. **Defense in depth** - Multiple layers of " : String).data) ("security\n\n" : String).data (design3).data]
  have c2 : containsSub frontendNeedle.data (("security\n\n" : String).data ++ (design3).data) = false := rfl
  have b2 : containsSub frontendNeedle.data (((design1).data ++ ("## Error Handling\n\n1. **Fail fast** - Validate inputs early\n2. **Explicit errors** - Use typed error objects\n3. **Graceful degradation** - Never fail silently\n4. **Comprehensive logging** - All errors are logged with context\n\n## Testing Philosophy\n\n1. **Real environments over mocks** - Use Docker for databases, Redis, etc.\n2. **Integration tests preferred** - Test real behavior, not mocked behavior\n3. **Test the contract** - Focus on behavior, not implementation\n4. **Fail meaningfully** - Tests should fail when logic breaks\n\n## Security Principles\n\n1. **Zero trust** - Sanitize all user inputs\n2. **Least privilege** - Minimal access rights\n3. **No secrets in code** - Use environment variables\n4. **Defense in depth** - Multiple layers of " : String).data) ++ ("security\n\n" : String).data) = false := by
    rw [List.append_assoc (design1).data ("## Error Handling\n\n1. **Fail fast** - Validate inputs early\n2. **Explicit errors** - Use typed error objects\n3. **Graceful degradation** - Never fail silently\n4. **Comprehensive logging** - All errors are logged with context\n\n## Testing Philosophy\n\n1. **Real environments over mocks** - Use Docker for databases, Redis, etc.\n2. **Integration tests preferred** - Test real behavior, not mocked behavior\n3. **Test the contract** - Focus on behavior, not implementation\n4. **Fail meaningfully** - Tests should fail when logic breaks\n\n## Security Principles\n\n1. **Zero trust** - Sanitize all user inputs\n2. **Least privilege** - Minimal access rights\n3. **No secrets in code** - Use environment variables\n4. **Defense in depth** - Multiple layers of " : String).data ("security\n\n" : String).data, ← sp2]
    exact h1
  have h2 : containsSub frontendNeedle.data (((design1).data ++ (design2).data) ++ (design3).data) = false := by
    rw [eq2, containsSub_chain ((design1).data ++ ("## Error Handling\n\n1. **Fail fast** - Validate inputs early\n2. **Explicit errors** - Use typed error objects\n3. **Graceful degradation** - Never fail silently\n4. **Comprehensive logging** - All errors are logged with context\n\n## Testing Philosophy\n\n1. **Real environments over mocks** - Use Docker for databases, Redis, etc.\n2. **Integration tests preferred** - Test real behavior, not mocked behavior\n3. **Test the contract** - Focus on behavior, not implementation\n4. **Fail meaningfully** - Tests should fail when logic breaks\n\n## Security Principles\n\n1. **Zero trust** - Sanitize all user inputs\n2. **Least privilege** - Minimal access rights\n3. **No secrets in code** - Use environment variables\n4. **Defense in depth** - Multiple layers of " : String).data) ("security\n\n" : String).data (design3).data frontendNeedle.data (by decide), b2, c2]
    rfl
  exact h2

theorem noFr_plans : containsSub frontendNeedle.data (getPlansTemplate).data = false := by
  unfold getPlansTemplate
  rw [strDataAppend, strDataAppend]
  have h0 : containsSub frontendNeedle.data (plans1).data = false := rfl
  have sp1 : (plans1).data = ("# Planning Guidelines\n\n**How to create and manage execution plans.**\n\n## When to Create a Plan\n\nCreate an execution plan when:\n1. Work will span multiple PRs\n2. Work involves multiple domains or systems\n3. Implementation approach needs alignment\n4. Work will take > 1 day\n5. Work has significant architectural impact\n\n## Plan Types\n\n### Lightweight Plans (< 1 day work)\n- Documented in PR description\n- No separate plan document needed\n- Focus on \"what\" and \"why\"\n\n### Execution Plans (> 1 day work)\n- Full plan document in \x60docs/exec-plans/active/\x60\n- Detailed implementation steps\n- Decision log\n- Progress tracking\n\n## Execution Plan Template\n\nSee [docs/exec-plans/template.md](./docs/exec-plans/template.md)\n\n## Plan Lifecycle\n\n1. **Draft** - Initial pla" : String).data ++ ("n created\n" : String).data := rfl
  have eq1 : (plans1).data ++ (plans2).data = ("# Planning Guidelines\n\n**How to create and manage execution plans.**\n\n## When to Create a Plan\n\nCreate an execution plan when:\n1. Work will span multiple PRs\n2. Work involves multiple domains or systems\n3. Implementation approach needs alignment\n4. Work will take > 1 day\n5. Work has significant architectural impact\n\n## Plan Types\n\n### Lightweight Plans (< 1 day work)\n- Documented in PR description\n- No separate plan document needed\n- Focus on \"what\" and \"why\"\n\n### Execution Plans (> 1 day work)\n- Full plan document in \x60docs/exec-plans/active/\x60\n- Detailed implementation steps\n- Decision log\n- Progress tracking\n\n## Execution Plan Template\n\nSee [docs/exec-plans/template.md](./docs/exec-plans/template.md)\n\n## Plan Lifecycle\n\n1. **Draft** - Initial pla" : String).data ++ (("n created\n" : String).data ++ (plans2).data) := by
    rw [sp1, List.append_assoc ("# Planning Guidelines\n\n**How to create and manage execution plans.**\n\n## When to Create a Plan\n\nCreate an execution plan when:\n1. Work will span multiple PRs\n2. Work involves multiple domains or systems\n3. Implementation approach needs alignment\n4. Work will take > 1 day\n5. Work has significant architectural impact\n\n## Plan Types\n\n### Lightweight Plans (< 1 day work)\n- Documented in PR description\n- No separate plan document needed\n- Focus on \"what\" and \"why\"\n\n### Execution Plans (> 1 day work)\n- Full plan document in \x60docs/exec-plans/active/\x60\n- Detailed implementation steps\n- Decision log\n- Progress tracking\n\n## Execution Plan Template\n\nSee [docs/exec-plans/template.md](./docs/exec-plans/template.md)\n\n## Plan Lifecycle\n\n1. **Draft** - Initial pla" : String).data ("n created\n" : String).data (plans2).data]
  have c1 : containsSub frontendNeedle.data (("n created\n" : String).data ++ (plans2).data) = false := rfl
  have b1 : containsSub frontendNeedle.data (("# Planning Guidelines\n\n**How to create and manage execution plans.**\n\n## When to Create a Plan\n\nCreate an execution plan when:\n1. Work will span multiple PRs\n2. Work involves multiple domains or systems\n3. Implementation approach needs alignment\n4. Work will take > 1 day\n5. Work has significant architectural impact\n\n## Plan Types\n\n### Lightweight Plans (< 1 day work)\n- Documented in PR description\n- No separate plan document needed\n- Focus on \"what\" and \"why\"\n\n### Execution Plans (> 1 day work)\n- Full plan document in \x60docs/exec-plans/active/\x60\n- Detailed implementation steps\n- Decision log\n- Progress tracking\n\n## Execution Plan Template\n\nSee [docs/exec-plans/template.md](./docs/exec-plans/template.md)\n\n## Plan Lifecycle\n\n1. **Draft** - Initial pla" : String).data ++ ("n created\n" : String).data) = false := by
    rw [← sp1]
    exact h0
  have h1 : containsSub frontendNeedle.data ((plans1).data ++ (plans2).data) = false := by
    rw [eq1, containsSub_chain ("# Planning Guidelines\n\n**How to create and manage execution plans.**\n\n## When to Create a Plan\n\nCreate an execution plan when:\n1. Work will span multiple PRs\n2. Work involves multiple domains or systems\n3. Implementation approach needs alignment\n4. Work will take > 1 day\n5. Work has significant architectural impact\n\n## Plan Types\n\n### Lightweight Plans (< 1 day work)\n- Documented in PR description\n- No separate plan document needed\n- Focus on \"what\" and \"why\"\n\n### Execution Plans (> 1 day work)\n- Full plan document in \x60docs/exec-plans/active/\x60\n- Detailed implementation steps\n- Decision log\n- Progress tracking\n\n## Execution Plan Template\n\nSee [docs/exec-plans/template.md](./docs/exec-plans/template.md)\n\n## Plan Lifecycle\n\n1. **Draft** - Initial pla" : String).data ("n created\n" : String).data (plans2).data frontendNeedle.data (by decide), b1, c1]
    rfl
  have sp2 : (plans2).data = ("2. **In Review** - Plan being reviewed by humans/agents\n3. **Approved** - Plan approved, ready to execute\n4. **In Progress** - Work is happening\n5. **Completed** - Work done, plan moved to \x60completed/\x60\n\n## Plan Structure\n\n### 1. Context\n- Why is this work needed?\n- What problem does it solve?\n- What is the current state?\n\n### 2. Goals\n- What are we trying to achieve?\n- What are non-goals?\n- How will we measure success?\n\n### 3. Approach\n- High-level implementation strategy\n- Key technical decisions\n- Tradeoffs considered\n\n### 4. Implementation Steps\n- Ordered list of tasks\n- Dependencies between tasks\n- Estimated complexity (S/M/L)\n\n### 5. Validation\n- How will we know it works?\n- What tests need to be written?\n- What edge cases to consider?\n\n### 6. Risks\n- What could go wrong?\n- Mitigation st" : String).data ++ ("rategies\n\n" : String).data := rfl
  have eq2 : ((plans1).data ++ (plans2).data) ++ (plans3).data = ((plans1).data ++ ("2. **In Review** - Plan being reviewed by humans/agents\n3. **Approved** - Plan approved, ready to execute\n4. **In Progress** - Work is happening\n5. **Completed** - Work done, plan moved to \x60completed/\x60\n\n## Plan Structure\n\n### 1. Context\n- Why is this work needed?\n- What problem does it solve?\n- What is the current state?\n\n### 2. Goals\n- What are we trying to achieve?\n- What are non-goals?\n- How will we measure success?\n\n### 3. Approach\n- High-level implementation strategy\n- Key technical decisions\n- Tradeoffs considered\n\n### 4. Implementation Steps\n- Ordered list of tasks\n- Dependencies between tasks\n- Estimated complexity (S/M/L)\n\n### 5. Validation\n- How will we know it works?\n- What tests need to be written?\n- What edge cases to consider?\n\n### 6. Risks\n- What could go wrong?\n- Mitigation st" : String).data) ++ (("rategies\n\n" : String).data ++ (plans3).data) := by
    rw [sp2, ← List.append_assoc (plans1).data ("2. **In Review** - Plan being reviewed by humans/agents\n3. **Approved** - Plan approved, ready to execute\n4. **In Progress** - Work is happening\n5. **Completed** - Work done, plan moved to \x60completed/\x60\n\n## Plan Structure\n\n### 1. Context\n- Why is this work needed?\n- What problem does it solve?\n- What is the current state?\n\n### 2. Goals\n- What are we trying to achieve?\n- What are non-goals?\n- How will we measure success?\n\n### 3. Approach\n- High-level implementation strategy\n- Key technical decisions\n- Tradeoffs considered\n\n### 4. Implementation Steps\n- Ordered list of tasks\n- Dependencies between tasks\n- Estimated complexity (S/M/L)\n\n### 5. Validation\n- How will we know it works?\n- What tests need to be written?\n- What edge cases to consider?\n\n### 6. Risks\n- What could go wrong?\n- Mitigation st" : String).data ("rategies\n\n" : String).data, List.append_assoc ((plans1).data ++ ("2. **In Review** - Plan being reviewed by humans/agents\n3. **Approved** - Plan approved, ready to execute\n4. **In Progress** - Work is happening\n5. **Completed** - Work done, plan moved to \x60completed/\x60\n\n## Plan Structure\n\n### 1. Context\n- Why is this work needed?\n- What problem does it solve?\n- What is the current state?\n\n### 2. Goals\n- What are we trying to achieve?\n- What are non-goals?\n- How will we measure success?\n\n### 3. Approach\n- High-level implementation strategy\n- Key technical decisions\n- Tradeoffs considered\n\n### 4. Implementation Steps\n- Ordered list of tasks\n- Dependencies between tasks\n- Estimated complexity (S/M/L)\n\n### 5. Validation\n- How will we know it works?\n- What tests need to be written?\n- What edge cases to consider?\n\n### 6. Risks\n- What could go wrong?\n- Mitigation st" : String).data) ("rategies\n\n" : String).data (plans3).data]
  have c2 : containsSub frontendNeedle.data (("rategies\n\n" : String).data ++ (plans3).data) = false := rfl
  have b2 : containsSub frontendNeedle.data (((plans1).data ++ ("2. **In Review** - Plan being reviewed by humans/agents\n3. **Approved** - Plan approved, ready to execute\n4. **In Progress** - Work is happening\n5. **Completed** - Work done, plan moved to \x60completed/\x60\n\n## Plan Structure\n\n### 1. Context\n- Why is this work needed?\n- What problem does it solve?\n- What is the current state?\n\n### 2. Goals\n- What are we trying to achieve?\n- What are non-goals?\n- How will we measure success?\n\n### 3. Approach\n- High-level implementation strategy\n- Key technical decisions\n- Tradeoffs considered\n\n### 4. Implementation Steps\n- Ordered list of tasks\n- Dependencies between tasks\n- Estimated complexity (S/M/L)\n\n### 5. Validation\n- How will we know it works?\n- What tests need to be written?\n- What edge cases to consider?\n\n### 6. Risks\n- What could go wrong?\n- Mitigation st" : String).data) ++ ("rategies\n\n" : String).data) = false := by
    rw [List.append_assoc (plans1).data ("2. **In Review** - Plan being reviewed by humans/agents\n3. **Approved** - Plan approved, ready to execute\n4. **In Progress** - Work is happening\n5. **Completed** - Work done, plan moved to \x60completed/\x60\n\n## Plan Structure\n\n### 1. Context\n- Why is this work needed?\n- What problem does it solve?\n- What is the current state?\n\n### 2. Goals\n- What are we trying to achieve?\n- What are non-goals?\n- How will we measure success?\n\n### 3. Approach\n- High-level implementation strategy\n- Key technical decisions\n- Tradeoffs considered\n\n### 4. Implementation Steps\n- Ordered list of tasks\n- Dependencies between tasks\n- Estimated complexity (S/M/L)\n\n### 5. Validation\n- How will we know it works?\n- What tests need to be written?\n- What edge cases to consider?\n\n### 6. Risks\n- What could go wrong?\n- Mitigation st" : String).data ("rategies\n\n" : String).data, ← sp2]
    exact h1
  have h2 : containsSub frontendNeedle.data (((plans1).data ++ (plans2).data) ++ (plans3).data) = false := by
    rw [eq2, containsSub_chain ((plans1).data ++ ("2. **In Review** - Plan being reviewed by humans/agents\n3. **Approved** - Plan approved, ready to execute\n4. **In Progress** - Work is happening\n5. **Completed** - Work done, plan moved to \x60completed/\x60\n\n## Plan Structure\n\n### 1. Context\n- Why is this work needed?\n- What problem does it solve?\n- What is the current state?\n\n### 2. Goals\n- What are we trying to achieve?\n- What are non-goals?\n- How will we measure success?\n\n### 3. Approach\n- High-level implementation strategy\n- Key technical decisions\n- Tradeoffs considered\n\n### 4. Implementation Steps\n- Ordered list of tasks\n- Dependencies between tasks\n- Estimated complexity (S/M/L)\n\n### 5. Validation\n- How will we know it works?\n- What tests need to be written?\n- What edge cases to consider?\n\n### 6. Risks\n- What could go wrong?\n- Mitigation st" : String).data) ("rategies\n\n" : String).data (plans3).data frontendNeedle.data (by decide), b2, c2]
    rfl
  exact h2

theorem noFr_psense : containsSub frontendNeedle.data (getProductSenseTemplate).data = false := by
  unfold getProductSenseTemplate
  rw [strDataAppend, strDataAppend]
  have h0 : containsSub frontendNeedle.data (psense1).data = false := rfl
  have sp1 : (psense1).data = ("# Product Sense\n\n**Product principles and user-facing guidelines.**\n\n## Product Principles\n\n1. **User value first** - Every feature must solve a real user problem\n2. **Simple by default** - Hide complexity, expose power\n3. **Fast and reliable** - Performance and reliability are features\n4. **Accessible to all** - Build for everyone\n\n## User Experience Guidelines\n\n### Core User Flows\n[Document your critical user journeys]\n\nExample:\n1. **New user onboarding**\n   - What do first-time users see?\n   - How do we guide them to value?\n\n2. **Core workflow**\n   - What is the main user action?\n   - How do we make it effortless?\n\n### UX Principles\n\n1. **Immediate feedback** - User actions get instant response\n2. **Forgiving** - Easy to undo, hard to break\n3. **Consistent** - Same patterns t" : String).data ++ ("hroughout\n" : String).data := rfl
  have eq1 : (psense1).data ++ (psense2).data = ("# Product Sense\n\n**Product principles and user-facing guidelines.**\n\n## Product Principles\n\n1. **User value first** - Every feature must solve a real user problem\n2. **Simple by default** - Hide complexity, expose power\n3. **Fast and reliable** - Performance and reliability are features\n4. **Accessible to all** - Build for everyone\n\n## User Experience Guidelines\n\n### Core User Flows\n[Document your critical user journeys]\n\nExample:\n1. **New user onboarding**\n   - What do first-time users see?\n   - How do we guide them to value?\n\n2. **Core workflow**\n   - What is the main user action?\n   - How do we make it effortless?\n\n### UX Principles\n\n1. **Immediate feedback** - User actions get instant response\n2. **Forgiving** - Easy to undo, hard to break\n3. **Consistent** - Same patterns t" : String).data ++ (("hroughout\n" : String).data ++ (psense2).data) := by
    rw [sp1, List.append_assoc ("# Product Sense\n\n**Product principles and user-facing guidelines.**\n\n## Product Principles\n\n1. **User value first** - Every feature must solve a real user problem\n2. **Simple by default** - Hide complexity, expose power\n3. **Fast and reliable** - Performance and reliability are features\n4. **Accessible to all** - Build for everyone\n\n## User Experience Guidelines\n\n### Core User Flows\n[Document your critical user journeys]\n\nExample:\n1. **New user onboarding**\n   - What do first-time users see?\n   - How do we guide them to value?\n\n2. **Core workflow**\n   - What is the main user action?\n   - How do we make it effortless?\n\n### UX Principles\n\n1. **Immediate feedback** - User actions get instant response\n2. **Forgiving** - Easy to undo, hard to break\n3. **Consistent** - Same patterns t" : String).data ("hroughout\n" : String).data (psense2).data]
  have c1 : containsSub frontendNeedle.data (("hroughout\n" : String).data ++ (psense2).data) = false := rfl
  have b1 : containsSub frontendNeedle.data (("# Product Sense\n\n**Product principles and user-facing guidelines.**\n\n## Product Principles\n\n1. **User value first** - Every feature must solve a real user problem\n2. **Simple by default** - Hide complexity, expose power\n3. **Fast and reliable** - Performance and reliability are features\n4. **Accessible to all** - Build for everyone\n\n## User Experience Guidelines\n\n### Core User Flows\n[Document your critical user journeys]\n\nExample:\n1. **New user onboarding**\n   - What do first-time users see?\n   - How do we guide them to value?\n\n2. **Core workflow**\n   - What is the main user action?\n   - How do we make it effortless?\n\n### UX Principles\n\n1. **Immediate feedback** - User actions get instant response\n2. **Forgiving** - Easy to undo, hard to break\n3. **Consistent** - Same patterns t" : String).data ++ ("hroughout\n" : String).data) = false := by
    rw [← sp1]
    exact h0
  have h1 : containsSub frontendNeedle.data ((psense1).data ++ (psense2).data) = false := by
    rw [eq1, containsSub_chain ("# Product Sense\n\n**Product principles and user-facing guidelines.**\n\n## Product Principles\n\n1. **User value first** - Every feature must solve a real user problem\n2. **Simple by default** - Hide complexity, expose power\n3. **Fast and reliable** - Performance and reliability are features\n4. **Accessible to all** - Build for everyone\n\n## User Experience Guidelines\n\n### Core User Flows\n[Document your critical user journeys]\n\nExample:\n1. **New user onboarding**\n   - What do first-time users see?\n   - How do we guide them to value?\n\n2. **Core workflow**\n   - What is the main user action?\n   - How do we make it effortless?\n\n### UX Principles\n\n1. **Immediate feedback** - User actions get instant response\n2. **Forgiving** - Easy to undo, hard to break\n3. **Consistent** - Same patterns t" : String).data ("hroughout\n" : String).data (psense2).data frontendNeedle.data (by decide), b1, c1]
    rfl
  have sp2 : (psense2).data = ("4. **Predictable** - Users can anticipate behavior\n\n## Feature Development\n\n### Feature Spec Requirements\n\nEvery feature needs:\n- [ ] User story (who, what, why)\n- [ ] Success metrics\n- [ ] Acceptance criteria\n- [ ] Edge cases identified\n- [ ] Failure modes considered\n\n### Product Quality Bar\n\nBefore shipping:\n- [ ] Works on happy path\n- [ ] Handles errors gracefully\n- [ ] Has loading states\n- [ ] Has empty states\n- [ ] Is accessible\n- [ ] Is performant\n- [ ] Is secure\n\n## Metrics & Analytics\n\n[Document what you measure and why]\n\n### Key Metrics\n- **Acquisition:** How users find the product\n- **Activation:** How users get to first value\n- **Retention:** How often users return\n- **Revenue:** How the business makes money (if applicable)\n\n## User Feedb" : String).data ++ ("ack Loop\n\n" : String).data := rfl
  have eq2 : ((psense1).data ++ (psense2).data) ++ (psense3).data = ((psense1).data ++ ("4. **Predictable** - Users can anticipate behavior\n\n## Feature Development\n\n### Feature Spec Requirements\n\nEvery feature needs:\n- [ ] User story (who, what, why)\n- [ ] Success metrics\n- [ ] Acceptance criteria\n- [ ] Edge cases identified\n- [ ] Failure modes considered\n\n### Product Quality Bar\n\nBefore shipping:\n- [ ] Works on happy path\n- [ ] Handles errors gracefully\n- [ ] Has loading states\n- [ ] Has empty states\n- [ ] Is accessible\n- [ ] Is performant\n- [ ] Is secure\n\n## Metrics & Analytics\n\n[Document what you measure and why]\n\n### Key Metrics\n- **Acquisition:** How users find the product\n- **Activation:** How users get to first value\n- **Retention:** How often users return\n- **Revenue:** How the business makes money (if applicable)\n\n## User Feedb" : String).data) ++ (("ack Loop\n\n" : String).data ++ (psense3).data) := by
    rw [sp2, ← List.append_assoc (psense1).data ("4. **Predictable** - Users can anticipate behavior\n\n## Feature Development\n\n### Feature Spec Requirements\n\nEvery feature needs:\n- [ ] User story (who, what, why)\n- [ ] Success metrics\n- [ ] Acceptance criteria\n- [ ] Edge cases identified\n- [ ] Failure modes considered\n\n### Product Quality Bar\n\nBefore shipping:\n- [ ] Works on happy path\n- [ ] Handles errors gracefully\n- [ ] Has loading states\n- [ ] Has empty states\n- [ ] Is accessible\n- [ ] Is performant\n- [ ] Is secure\n\n## Metrics & Analytics\n\n[Document what you measure and why]\n\n### Key Metrics\n- **Acquisition:** How users find the product\n- **Activation:** How users get to first value\n- **Retention:** How often users return\n- **Revenue:** How the business makes money (if applicable)\n\n## User Feedb" : String).data ("ack Loop\n\n" : String).data, List.append_assoc ((psense1).data ++ ("4. **Predictable** - Users can anticipate behavior\n\n## Feature Development\n\n### Feature Spec Requirements\n\nEvery feature needs:\n- [ ] User story (who, what, why)\n- [ ] Success metrics\n- [ ] Acceptance criteria\n- [ ] Edge cases identified\n- [ ] Failure modes considered\n\n### Product Quality Bar\n\nBefore shipping:\n- [ ] Works on happy path\n- [ ] Handles errors gracefully\n- [ ] Has loading states\n- [ ] Has empty states\n- [ ] Is accessible\n- [ ] Is performant\n- [ ] Is secure\n\n## Metrics & Analytics\n\n[Document what you measure and why]\n\n### Key Metrics\n- **Acquisition:** How users find the product\n- **Activation:** How users get to first value\n- **Retention:** How often users return\n- **Revenue:** How the business makes money (if applicable)\n\n## User Feedb" : String).data) ("ack Loop\n\n" : String).data (psense3).data]
  have c2 : containsSub frontendNeedle.data (("ack Loop\n\n" : String).data ++ (psense3).data) = false := rfl
  have b2 : containsSub frontendNeedle.data (((psense1).data ++ ("4. **Predictable** - Users can anticipate behavior\n\n## Feature Development\n\n### Feature Spec Requirements\n\nEvery feature needs:\n- [ ] User story (who, what, why)\n- [ ] Success metrics\n- [ ] Acceptance criteria\n- [ ] Edge cases identified\n- [ ] Failure modes considered\n\n### Product Quality Bar\n\nBefore shipping:\n- [ ] Works on happy path\n- [ ] Handles errors gracefully\n- [ ] Has loading states\n- [ ] Has empty states\n- [ ] Is accessible\n- [ ] Is performant\n- [ ] Is secure\n\n## Metrics & Analytics\n\n[Document what you measure and why]\n\n### Key Metrics\n- **Acquisition:** How users find the product\n- **Activation:** How users get to first value\n- **Retention:** How often users return\n- **Revenue:** How the business makes money (if applicable)\n\n## User Feedb" : String).data) ++ ("ack Loop\n\n" : String).data) = false := by
    rw [List.append_assoc (psense1).data ("4. **Predictable** - Users can anticipate behavior\n\n## Feature Development\n\n### Feature Spec Requirements\n\nEvery feature needs:\n- [ ] User story (who, what, why)\n- [ ] Success metrics\n- [ ] Acceptance criteria\n- [ ] Edge cases identified\n- [ ] Failure modes considered\n\n### Product Quality Bar\n\nBefore shipping:\n- [ ] Works on happy path\n- [ ] Handles errors gracefully\n- [ ] Has loading states\n- [ ] Has empty states\n- [ ] Is accessible\n- [ ] Is performant\n- [ ] Is secure\n\n## Metrics & Analytics\n\n[Document what you measure and why]\n\n### Key Metrics\n- **Acquisition:** How users find the product\n- **Activation:** How users get to first value\n- **Retention:** How often users return\n- **Revenue:** How the business makes money (if applicable)\n\n## User Feedb" : String).data ("ack Loop\n\n" : String).data, ← sp2]
    exact h1
  have h2 : containsSub frontendNeedle.data (((psense1).data ++ (psense2).data) ++ (psense3).data) = false := by
    rw [eq2, containsSub_chain ((psense1).data ++ ("4. **Predictable** - Users can anticipate behavior\n\n## Feature Development\n\n### Feature Spec Requirements\n\nEvery feature needs:\n- [ ] User story (who, what, why)\n- [ ] Success metrics\n- [ ] Acceptance criteria\n- [ ] Edge cases identified\n- [ ] Failure modes considered\n\n### Product Quality Bar\n\nBefore shipping:\n- [ ] Works on happy path\n- [ ] Handles errors gracefully\n- [ ] Has loading states\n- [ ] Has empty states\n- [ ] Is accessible\n- [ ] Is performant\n- [ ] Is secure\n\n## Metrics & Analytics\n\n[Document what you measure and why]\n\n### Key Metrics\n- **Acquisition:** How users find the product\n- **Activation:** How users get to first value\n- **Retention:** How often users return\n- **Revenue:** How the business makes money (if applicable)\n\n## User Feedb" : String).data) ("ack Loop\n\n" : String).data (psense3).data frontendNeedle.data (by decide), b2, c2]
    rfl
  exact h2

theorem noFr_qscore : containsSub frontendNeedle.data (getQualityScoreTemplate).data = false := by
  unfold getQualityScoreTemplate
  rw [strDataAppend, strDataAppend]
  have h0 : containsSub frontendNeedle.data (qscore1).data = false := rfl
  have sp1 : (qscore1).data = ("# Quality Score\n\n**Track quality metrics across domains and architectural layers.**\n\n## Scoring System\n\nEach domain and layer is graded on:\n- **Test Coverage:** % of code covered by tests\n- **Type Safety:** % of code that is type-checked\n- **Documentation:** Are interfaces and behaviors documented?\n- **Linting:** Are linting rules passing?\n- **Performance:** Meet performance budgets?\n\n### Grades\n\n- **A** - Excellent (90-100%)\n- **B** - Good (75-89%)\n- **C** - Acceptable (60-74%)\n- **D** - Needs Improvement (40-59%)\n- **F** - Unacceptable (< 40%)\n\n## Domain Quality\n\n| Domain | Test Coverage | Type Safety | Documentation | Linting | Performance | Overall |\n|--------|---------------|-------------|---------------|---------|-------------|-" : String).data ++ ("--------|\n" : String).data := rfl
  have eq1 : (qscore1).data ++ (qscore2).data = ("# Quality Score\n\n**Track quality metrics across domains and architectural layers.**\n\n## Scoring System\n\nEach domain and layer is graded on:\n- **Test Coverage:** % of code covered by tests\n- **Type Safety:** % of code that is type-checked\n- **Documentation:** Are interfaces and behaviors documented?\n- **Linting:** Are linting rules passing?\n- **Performance:** Meet performance budgets?\n\n### Grades\n\n- **A** - Excellent (90-100%)\n- **B** - Good (75-89%)\n- **C** - Acceptable (60-74%)\n- **D** - Needs Improvement (40-59%)\n- **F** - Unacceptable (< 40%)\n\n## Domain Quality\n\n| Domain | Test Coverage | Type Safety | Documentation | Linting | Performance | Overall |\n|--------|---------------|-------------|---------------|---------|-------------|-" : String).data ++ (("--------|\n" : String).data ++ (qscore2).data) := by
    rw [sp1, List.append_assoc ("# Quality Score\n\n**Track quality metrics across domains and architectural layers.**\n\n## Scoring System\n\nEach domain and layer is graded on:\n- **Test Coverage:** % of code covered by tests\n- **Type Safety:** % of code that is type-checked\n- **Documentation:** Are interfaces and behaviors documented?\n- **Linting:** Are linting rules passing?\n- **Performance:** Meet performance budgets?\n\n### Grades\n\n- **A** - Excellent (90-100%)\n- **B** - Good (75-89%)\n- **C** - Acceptable (60-74%)\n- **D** - Needs Improvement (40-59%)\n- **F** - Unacceptable (< 40%)\n\n## Domain Quality\n\n| Domain | Test Coverage | Type Safety | Documentation | Linting | Performance | Overall |\n|--------|---------------|-------------|---------------|---------|-------------|-" : String).data ("--------|\n" : String).data (qscore2).data]
  have c1 : containsSub frontendNeedle.data (("--------|\n" : String).data ++ (qscore2).data) = false := rfl
  have b1 : containsSub frontendNeedle.data (("# Quality Score\n\n**Track quality metrics across domains and architectural layers.**\n\n## Scoring System\n\nEach domain and layer is graded on:\n- **Test Coverage:** % of code covered by tests\n- **Type Safety:** % of code that is type-checked\n- **Documentation:** Are interfaces and behaviors documented?\n- **Linting:** Are linting rules passing?\n- **Performance:** Meet performance budgets?\n\n### Grades\n\n- **A** - Excellent (90-100%)\n- **B** - Good (75-89%)\n- **C** - Acceptable (60-74%)\n- **D** - Needs Improvement (40-59%)\n- **F** - Unacceptable (< 40%)\n\n## Domain Quality\n\n| Domain | Test Coverage | Type Safety | Documentation | Linting | Performance | Overall |\n|--------|---------------|-------------|---------------|---------|-------------|-" : String).data ++ ("--------|\n" : String).data) = false := by
    rw [← sp1]
    exact h0
  have h1 : containsSub frontendNeedle.data ((qscore1).data ++ (qscore2).data) = false := by
    rw [eq1, containsSub_chain ("# Quality Score\n\n**Track quality metrics across domains and architectural layers.**\n\n## Scoring System\n\nEach domain and layer is graded on:\n- **Test Coverage:** % of code covered by tests\n- **Type Safety:** % of code that is type-checked\n- **Documentation:** Are interfaces and behaviors documented?\n- **Linting:** Are linting rules passing?\n- **Performance:** Meet performance budgets?\n\n### Grades\n\n- **A** - Excellent (90-100%)\n- **B** - Good (75-89%)\n- **C** - Acceptable (60-74%)\n- **D** - Needs Improvement (40-59%)\n- **F** - Unacceptable (< 40%)\n\n## Domain Quality\n\n| Domain | Test Coverage | Type Safety | Documentation | Linting | Performance | Overall |\n|--------|---------------|-------------|---------------|---------|-------------|-" : String).data ("--------|\n" : String).data (qscore2).data frontendNeedle.data (by decide), b1, c1]
    rfl
  have sp2 : (qscore2).data = ("| TBD    | -             | -           | -             | -       | -           | -       |\n\n## Layer Quality\n\n| Layer      | Test Coverage | Type Safety | Documentation | Linting | Overall |\n|------------|---------------|-------------|---------------|---------|---------|\n| Types      | -             | -           | -             | -       | -       |\n| Config     | -             | -           | -             | -       | -       |\n| Repository | -             | -           | -             | -       | -       |\n| Service    | -             | -           | -             | -       | -       |\n| Runtime    | -             | -           | -             | -       | -       |\n| UI         | -             | -           | -             | -       | -       |\n\n## Quality Targets\n\n### Minimum Acceptable" : String).data ++ (" (Launch)\n" : String).data := rfl
  have eq2 : ((qscore1).data ++ (qscore2).data) ++ (qscore3).data = ((qscore1).data ++ ("| TBD    | -             | -           | -             | -       | -           | -       |\n\n## Layer Quality\n\n| Layer      | Test Coverage | Type Safety | Documentation | Linting | Overall |\n|------------|---------------|-------------|---------------|---------|---------|\n| Types      | -             | -           | -             | -       | -       |\n| Config     | -             | -           | -             | -       | -       |\n| Repository | -             | -           | -             | -       | -       |\n| Service    | -             | -           | -             | -       | -       |\n| Runtime    | -             | -           | -             | -       | -       |\n| UI         | -             | -           | -             | -       | -       |\n\n## Quality Targets\n\n### Minimum Acceptable" : String).data) ++ ((" (Launch)\n" : String).data ++ (qscore3).data) := by
    rw [sp2, ← List.append_assoc (qscore1).data ("| TBD    | -             | -           | -             | -       | -           | -       |\n\n## Layer Quality\n\n| Layer      | Test Coverage | Type Safety | Documentation | Linting | Overall |\n|------------|---------------|-------------|---------------|---------|---------|\n| Types      | -             | -           | -             | -       | -       |\n| Config     | -             | -           | -             | -       | -       |\n| Repository | -             | -           | -             | -       | -       |\n| Service    | -             | -           | -             | -       | -       |\n| Runtime    | -             | -           | -             | -       | -       |\n| UI         | -             | -           | -             | -       | -       |\n\n## Quality Targets\n\n### Minimum Acceptable" : String).data (" (Launch)\n" : String).data, List.append_assoc ((qscore1).data ++ ("| TBD    | -             | -           | -             | -       | -           | -       |\n\n## Layer Quality\n\n| Layer      | Test Coverage | Type Safety | Documentation | Linting | Overall |\n|------------|---------------|-------------|---------------|---------|---------|\n| Types      | -             | -           | -             | -       | -       |\n| Config     | -             | -           | -             | -       | -       |\n| Repository | -             | -           | -             | -       | -       |\n| Service    | -             | -           | -             | -       | -       |\n| Runtime    | -             | -           | -             | -       | -       |\n| UI         | -             | -           | -             | -       | -       |\n\n## Quality Targets\n\n### Minimum Acceptable" : String).data) (" (Launch)\n" : String).data (qscore3).data]
  have c2 : containsSub frontendNeedle.data ((" (Launch)\n" : String).data ++ (qscore3).data) = false := rfl
  have b2 : containsSub frontendNeedle.data (((qscore1).data ++ ("| TBD    | -             | -           | -             | -       | -           | -       |\n\n## Layer Quality\n\n| Layer      | Test Coverage | Type Safety | Documentation | Linting | Overall |\n|------------|---------------|-------------|---------------|---------|---------|\n| Types      | -             | -           | -             | -       | -       |\n| Config     | -             | -           | -             | -       | -       |\n| Repository | -             | -           | -             | -       | -       |\n| Service    | -             | -           | -             | -       | -       |\n| Runtime    | -             | -           | -             | -       | -       |\n| UI         | -             | -           | -             | -       | -       |\n\n## Quality Targets\n\n### Minimum Acceptable" : String).data) ++ (" (Launch)\n" : String).data) = false := by
    rw [List.append_assoc (qscore1).data ("| TBD    | -             | -           | -             | -       | -           | -       |\n\n## Layer Quality\n\n| Layer      | Test Coverage | Type Safety | Documentation | Linting | Overall |\n|------------|---------------|-------------|---------------|---------|---------|\n| Types      | -             | -           | -             | -       | -       |\n| Config     | -             | -           | -             | -       | -       |\n| Repository | -             | -           | -             | -       | -       |\n| Service    | -             | -           | -             | -       | -       |\n| Runtime    | -             | -           | -             | -       | -       |\n| UI         | -             | -           | -             | -       | -       |\n\n## Quality Targets\n\n### Minimum Acceptable" : String).data (" (Launch)\n" : String).data, ← sp2]
    exact h1
  have h2 : containsSub frontendNeedle.data (((qscore1).data ++ (qscore2).data) ++ (qscore3).data) = false := by
    rw [eq2, containsSub_chain ((qscore1).data ++ ("| TBD    | -             | -           | -             | -       | -           | -       |\n\n## Layer Quality\n\n| Layer      | Test Coverage | Type Safety | Documentation | Linting | Overall |\n|------------|---------------|-------------|---------------|---------|---------|\n| Types      | -             | -           | -             | -       | -       |\n| Config     | -             | -           | -             | -       | -       |\n| Repository | -             | -           | -             | -       | -       |\n| Service    | -             | -           | -             | -       | -       |\n| Runtime    | -             | -           | -             | -       | -       |\n| UI         | -             | -           | -             | -       | -       |\n\n## Quality Targets\n\n### Minimum Acceptable" : String).data) (" (Launch)\n" : String).data (qscore3).data frontendNeedle.data (by decide), b2, c2]
    rfl
  exact h2

theorem noFr_rel : containsSub frontendNeedle.data (getReliabilityTemplate).data = false := by
  unfold getReliabilityTemplate
  rw [strDataAppend, strDataAppend, strDataAppend]
  have h0 : containsSub frontendNeedle.data (rel1).data = false := rfl
  have sp1 : (rel1).data = ("# Reliability Standards\n\n**Guidelines for building reliable, production-ready systems.**\n\n## Reliability Principles\n\n1. **Fail gracefully** - Degrade functionality, never crash\n2. **Observable** - Emit logs, metrics, and traces for all critical paths\n3. **Recoverable** - Automatic retry with backoff\n4. **Tested** - Integration tests against real infrastructure\n\n## Error Handling\n\n### Error Categories\n\n1. **Expected errors** - User input validation, not found, etc.\n   - Return typed error objects\n   - Log at INFO level\n   - Show user-friendly messages\n\n2. **Unexpected errors** - System failures, network issues, etc.\n   - Log at ERROR level with full context\n   - Alert on-call if production\n   - Retry with exponential backoff\n\n### Error Response Format\n\nAll errors should" : String).data ++ (" include:\n" : String).data := rfl
  have eq1 : (rel1).data ++ (rel2).data = ("# Reliability Standards\n\n**Guidelines for building reliable, production-ready systems.**\n\n## Reliability Principles\n\n1. **Fail gracefully** - Degrade functionality, never crash\n2. **Observable** - Emit logs, metrics, and traces for all critical paths\n3. **Recoverable** - Automatic retry with backoff\n4. **Tested** - Integration tests against real infrastructure\n\n## Error Handling\n\n### Error Categories\n\n1. **Expected errors** - User input validation, not found, etc.\n   - Return typed error objects\n   - Log at INFO level\n   - Show user-friendly messages\n\n2. **Unexpected errors** - System failures, network issues, etc.\n   - Log at ERROR level with full context\n   - Alert on-call if production\n   - Retry with exponential backoff\n\n### Error Response Format\n\nAll errors should" : String).data ++ ((" include:\n" : String).data ++ (rel2).data) := by
    rw [sp1, List.append_assoc ("# Reliability Standards\n\n**Guidelines for building reliable, production-ready systems.**\n\n## Reliability Principles\n\n1. **Fail gracefully** - Degrade functionality, never crash\n2. **Observable** - Emit logs, metrics, and traces for all critical paths\n3. **Recoverable** - Automatic retry with backoff\n4. **Tested** - Integration tests against real infrastructure\n\n## Error Handling\n\n### Error Categories\n\n1. **Expected errors** - User input validation, not found, etc.\n   - Return typed error objects\n   - Log at INFO level\n   - Show user-friendly messages\n\n2. **Unexpected errors** - System failures, network issues, etc.\n   - Log at ERROR level with full context\n   - Alert on-call if production\n   - Retry with exponential backoff\n\n### Error Response Format\n\nAll errors should" : String).data (" include:\n" : String).data (rel2).data]
  have c1 : containsSub frontendNeedle.data ((" include:\n" : String).data ++ (rel2).data) = false := rfl
  have b1 : containsSub frontendNeedle.data (("# Reliability Standards\n\n**Guidelines for building reliable, production-ready systems.**\n\n## Reliability Principles\n\n1. **Fail gracefully** - Degrade functionality, never crash\n2. **Observable** - Emit logs, metrics, and traces for all critical paths\n3. **Recoverable** - Automatic retry with backoff\n4. **Tested** - Integration tests against real infrastructure\n\n## Error Handling\n\n### Error Categories\n\n1. **Expected errors** - User input validation, not found, etc.\n   - Return typed error objects\n   - Log at INFO level\n   - Show user-friendly messages\n\n2. **Unexpected errors** - System failures, network issues, etc.\n   - Log at ERROR level with full context\n   - Alert on-call if production\n   - Retry with exponential backoff\n\n### Error Response Format\n\nAll errors should" : String).data ++ (" include:\n" : String).data) = false := by
    rw [← sp1]
    exact h0
  have h1 : containsSub frontendNeedle.data ((rel1).data ++ (rel2).data) = false := by
    rw [eq1, containsSub_chain ("# Reliability Standards\n\n**Guidelines for building reliable, production-ready systems.**\n\n## Reliability Principles\n\n1. **Fail gracefully** - Degrade functionality, never crash\n2. **Observable** - Emit logs, metrics, and traces for all critical paths\n3. **Recoverable** - Automatic retry with backoff\n4. **Tested** - Integration tests against real infrastructure\n\n## Error Handling\n\n### Error Categories\n\n1. **Expected errors** - User input validation, not found, etc.\n   - Return typed error objects\n   - Log at INFO level\n   - Show user-friendly messages\n\n2. **Unexpected errors** - System failures, network issues, etc.\n   - Log at ERROR level with full context\n   - Alert on-call if production\n   - Retry with exponential backoff\n\n### Error Response Format\n\nAll errors should" : String).data (" include:\n" : String).data (rel2).data frontendNeedle.data (by decide), b1, c1]
    rfl
  have sp2 : (rel2).data = ("- \x60code\x60 - Machine-readable error code\n- \x60message\x60 - Human-readable message\n- \x60details\x60 - Additional context (safe for logging)\n- \x60requestId\x60 - Trace ID for debugging\n\n## Observability\n\n### Logging\n\nUse structured logging:\n\x60\x60\x60javascript\nlogger.info(\x7b\n  event: \x27user_login\x27,\n  userId: \x27123\x27,\n  duration: 45,\n  success: true\n\x7d);\n\x60\x60\x60\n\n**Log Levels:**\n- **DEBUG** - Detailed debugging (not in production)\n- **INFO** - Normal operations\n- **WARN** - Potential issues (rate limits, retries)\n- **ERROR** - Failures requiring attention\n\n### Metrics\n\nTrack:\n- **Request latency** (p50, p95, p99)\n- **Error rate** (% of failed requests)\n- **Throughput** (requests per second)\n- **Resource usage** (CPU, memory, database connections)\n\n### Tracing\n\n- Generate trace ID for every request\n- Propagate trace ID across" : String).data ++ (" services\n" : String).data := rfl
  have eq2 : ((rel1).data ++ (rel2).data) ++ (rel3).data = ((rel1).data ++ ("- \x60code\x60 - Machine-readable error code\n- \x60message\x60 - Human-readable message\n- \x60details\x60 - Additional context (safe for logging)\n- \x60requestId\x60 - Trace ID for debugging\n\n## Observability\n\n### Logging\n\nUse structured logging:\n\x60\x60\x60javascript\nlogger.info(\x7b\n  event: \x27user_login\x27,\n  userId: \x27123\x27,\n  duration: 45,\n  success: true\n\x7d);\n\x60\x60\x60\n\n**Log Levels:**\n- **DEBUG** - Detailed debugging (not in production)\n- **INFO** - Normal operations\n- **WARN** - Potential issues (rate limits, retries)\n- **ERROR** - Failures requiring attention\n\n### Metrics\n\nTrack:\n- **Request latency** (p50, p95, p99)\n- **Error rate** (% of failed requests)\n- **Throughput** (requests per second)\n- **Resource usage** (CPU, memory, database connections)\n\n### Tracing\n\n- Generate trace ID for every request\n- Propagate trace ID across" : String).data) ++ ((" services\n" : String).data ++ (rel3).data) := by
    rw [sp2, ← List.append_assoc (rel1).data ("- \x60code\x60 - Machine-readable error code\n- \x60message\x60 - Human-readable message\n- \x60details\x60 - Additional context (safe for logging)\n- \x60requestId\x60 - Trace ID for debugging\n\n## Observability\n\n### Logging\n\nUse structured logging:\n\x60\x60\x60javascript\nlogger.info(\x7b\n  event: \x27user_login\x27,\n  userId: \x27123\x27,\n  duration: 45,\n  success: true\n\x7d);\n\x60\x60\x60\n\n**Log Levels:**\n- **DEBUG** - Detailed debugging (not in production)\n- **INFO** - Normal operations\n- **WARN** - Potential issues (rate limits, retries)\n- **ERROR** - Failures requiring attention\n\n### Metrics\n\nTrack:\n- **Request latency** (p50, p95, p99)\n- **Error rate** (% of failed requests)\n- **Throughput** (requests per second)\n- **Resource usage** (CPU, memory, database connections)\n\n### Tracing\n\n- Generate trace ID for every request\n- Propagate trace ID across" : String).data (" services\n" : String).data, List.append_assoc ((rel1).data ++ ("- \x60code\x60 - Machine-readable error code\n- \x60message\x60 - Human-readable message\n- \x60details\x60 - Additional context (safe for logging)\n- \x60requestId\x60 - Trace ID for debugging\n\n## Observability\n\n### Logging\n\nUse structured logging:\n\x60\x60\x60javascript\nlogger.info(\x7b\n  event: \x27user_login\x27,\n  userId: \x27123\x27,\n  duration: 45,\n  success: true\n\x7d);\n\x60\x60\x60\n\n**Log Levels:**\n- **DEBUG** - Detailed debugging (not in production)\n- **INFO** - Normal operations\n- **WARN** - Potential issues (rate limits, retries)\n- **ERROR** - Failures requiring attention\n\n### Metrics\n\nTrack:\n- **Request latency** (p50, p95, p99)\n- **Error rate** (% of failed requests)\n- **Throughput** (requests per second)\n- **Resource usage** (CPU, memory, database connections)\n\n### Tracing\n\n- Generate trace ID for every request\n- Propagate trace ID across" : String).data) (" services\n" : String).data (rel3).data]
  have c2 : containsSub frontendNeedle.data ((" services\n" : String).data ++ (rel3).data) = false := rfl
  have b2 : containsSub frontendNeedle.data (((rel1).data ++ ("- \x60code\x60 - Machine-readable error code\n- \x60message\x60 - Human-readable message\n- \x60details\x60 - Additional context (safe for logging)\n- \x60requestId\x60 - Trace ID for debugging\n\n## Observability\n\n### Logging\n\nUse structured logging:\n\x60\x60\x60javascript\nlogger.info(\x7b\n  event: \x27user_login\x27,\n  userId: \x27123\x27,\n  duration: 45,\n  success: true\n\x7d);\n\x60\x60\x60\n\n**Log Levels:**\n- **DEBUG** - Detailed debugging (not in production)\n- **INFO** - Normal operations\n- **WARN** - Potential issues (rate limits, retries)\n- **ERROR** - Failures requiring attention\n\n### Metrics\n\nTrack:\n- **Request latency** (p50, p95, p99)\n- **Error rate** (% of failed requests)\n- **Throughput** (requests per second)\n- **Resource usage** (CPU, memory, database connections)\n\n### Tracing\n\n- Generate trace ID for every request\n- Propagate trace ID across" : String).data) ++ (" services\n" : String).data) = false := by
    rw [List.append_assoc (rel1).data ("- \x60code\x60 - Machine-readable error code\n- \x60message\x60 - Human-readable message\n- \x60details\x60 - Additional context (safe for logging)\n- \x60requestId\x60 - Trace ID for debugging\n\n## Observability\n\n### Logging\n\nUse structured logging:\n\x60\x60\x60javascript\nlogger.info(\x7b\n  event: \x27user_login\x27,\n  userId: \x27123\x27,\n  duration: 45,\n  success: true\n\x7d);\n\x60\x60\x60\n\n**Log Levels:**\n- **DEBUG** - Detailed debugging (not in production)\n- **INFO** - Normal operations\n- **WARN** - Potential issues (rate limits, retries)\n- **ERROR** - Failures requiring attention\n\n### Metrics\n\nTrack:\n- **Request latency** (p50, p95, p99)\n- **Error rate** (% of failed requests)\n- **Throughput** (requests per second)\n- **Resource usage** (CPU, memory, database connections)\n\n### Tracing\n\n- Generate trace ID for every request\n- Propagate trace ID across" : String).data (" services\n" : String).data, ← sp2]
    exact h1
  have h2 : containsSub frontendNeedle.data (((rel1).data ++ (rel2).data) ++ (rel3).data) = false := by
    rw [eq2, containsSub_chain ((rel1).data ++ ("- \x60code\x60 - Machine-readable error code\n- \x60message\x60 - Human-readable message\n- \x60details\x60 - Additional context (safe for logging)\n- \x60requestId\x60 - Trace ID for debugging\n\n## Observability\n\n### Logging\n\nUse structured logging:\n\x60\x60\x60javascript\nlogger.info(\x7b\n  event: \x27user_login\x27,\n  userId: \x27123\x27,\n  duration: 45,\n  success: true\n\x7d);\n\x60\x60\x60\n\n**Log Levels:**\n- **DEBUG** - Detailed debugging (not in production)\n- **INFO** - Normal operations\n- **WARN** - Potential issues (rate limits, retries)\n- **ERROR** - Failures requiring attention\n\n### Metrics\n\nTrack:\n- **Request latency** (p50, p95, p99)\n- **Error rate** (% of failed requests)\n- **Throughput** (requests per second)\n- **Resource usage** (CPU, memory, database connections)\n\n### Tracing\n\n- Generate trace ID for every request\n- Propagate trace ID across" : String).data) (" services\n" : String).data (rel3).data frontendNeedle.data (by decide), b2, c2]
    rfl
  have sp3 : (rel3).data = ("- Emit spans for all significant operations\n\n## Performance Requirements\n\n### Latency Budgets\n\n| Operation | p50 | p95 | p99 |\n|-----------|-----|-----|-----|\n| API requests | < 100ms | < 300ms | < 1s |\n| Database queries | < 50ms | < 150ms | < 500ms |\n| Background jobs | < 5s | < 30s | < 2m |\n\n### Resource Limits\n\n- **Memory** - Monitor heap usage, set max heap size\n- **CPU** - Alert on sustained > 70% usage\n- **Connections** - Pool and limit database/external connections\n\n## Retry & Circuit Breaker\n\n### Retry Strategy\n- Exponential backoff: 100ms, 200ms, 400ms, 800ms\n- Max retries: 3\n- Jitter: ±25% to prevent thundering herd\n\n### Circuit Breaker\n- **Closed** (normal): Requests flow through\n- **Open** (failing): Fast-fail without attemptin" : String).data ++ ("g request\n" : String).data := rfl
  have eq3 : (((rel1).data ++ (rel2).data) ++ (rel3).data) ++ (rel4).data = (((rel1).data ++ (rel2).data) ++ ("- Emit spans for all significant operations\n\n## Performance Requirements\n\n### Latency Budgets\n\n| Operation | p50 | p95 | p99 |\n|-----------|-----|-----|-----|\n| API requests | < 100ms | < 300ms | < 1s |\n| Database queries | < 50ms | < 150ms | < 500ms |\n| Background jobs | < 5s | < 30s | < 2m |\n\n### Resource Limits\n\n- **Memory** - Monitor heap usage, set max heap size\n- **CPU** - Alert on sustained > 70% usage\n- **Connections** - Pool and limit database/external connections\n\n## Retry & Circuit Breaker\n\n### Retry Strategy\n- Exponential backoff: 100ms, 200ms, 400ms, 800ms\n- Max retries: 3\n- Jitter: ±25% to prevent thundering herd\n\n### Circuit Breaker\n- **Closed** (normal): Requests flow through\n- **Open** (failing): Fast-fail without attemptin" : String).data) ++ (("g request\n" : String).data ++ (rel4).data) := by
    rw [sp3, ← List.append_assoc ((rel1).data ++ (rel2).data) ("- Emit spans for all significant operations\n\n## Performance Requirements\n\n### Latency Budgets\n\n| Operation | p50 | p95 | p99 |\n|-----------|-----|-----|-----|\n| API requests | < 100ms | < 300ms | < 1s |\n| Database queries | < 50ms | < 150ms | < 500ms |\n| Background jobs | < 5s | < 30s | < 2m |\n\n### Resource Limits\n\n- **Memory** - Monitor heap usage, set max heap size\n- **CPU** - Alert on sustained > 70% usage\n- **Connections** - Pool and limit database/external connections\n\n## Retry & Circuit Breaker\n\n### Retry Strategy\n- Exponential backoff: 100ms, 200ms, 400ms, 800ms\n- Max retries: 3\n- Jitter: ±25% to prevent thundering herd\n\n### Circuit Breaker\n- **Closed** (normal): Requests flow through\n- **Open** (failing): Fast-fail without attemptin" : String).data ("g request\n" : String).data, List.append_assoc (((rel1).data ++ (rel2).data) ++ ("- Emit spans for all significant operations\n\n## Performance Requirements\n\n### Latency Budgets\n\n| Operation | p50 | p95 | p99 |\n|-----------|-----|-----|-----|\n| API requests | < 100ms | < 300ms | < 1s |\n| Database queries | < 50ms | < 150ms | < 500ms |\n| Background jobs | < 5s | < 30s | < 2m |\n\n### Resource Limits\n\n- **Memory** - Monitor heap usage, set max heap size\n- **CPU** - Alert on sustained > 70% usage\n- **Connections** - Pool and limit database/external connections\n\n## Retry & Circuit Breaker\n\n### Retry Strategy\n- Exponential backoff: 100ms, 200ms, 400ms, 800ms\n- Max retries: 3\n- Jitter: ±25% to prevent thundering herd\n\n### Circuit Breaker\n- **Closed** (normal): Requests flow through\n- **Open** (failing): Fast-fail without attemptin" : String).data) ("g request\n" : String).data (rel4).data]
  have c3 : containsSub frontendNeedle.data (("g request\n" : String).data ++ (rel4).data) = false := rfl
  have b3 : containsSub frontendNeedle.data ((((rel1).data ++ (rel2).data) ++ ("- Emit spans for all significant operations\n\n## Performance Requirements\n\n### Latency Budgets\n\n| Operation | p50 | p95 | p99 |\n|-----------|-----|-----|-----|\n| API requests | < 100ms | < 300ms | < 1s |\n| Database queries | < 50ms | < 150ms | < 500ms |\n| Background jobs | < 5s | < 30s | < 2m |\n\n### Resource Limits\n\n- **Memory** - Monitor heap usage, set max heap size\n- **CPU** - Alert on sustained > 70% usage\n- **Connections** - Pool and limit database/external connections\n\n## Retry & Circuit Breaker\n\n### Retry Strategy\n- Exponential backoff: 100ms, 200ms, 400ms, 800ms\n- Max retries: 3\n- Jitter: ±25% to prevent thundering herd\n\n### Circuit Breaker\n- **Closed** (normal): Requests flow through\n- **Open** (failing): Fast-fail without attemptin" : String).data) ++ ("g request\n" : String).data) = false := by
    rw [List.append_assoc ((rel1).data ++ (rel2).data) ("- Emit spans for all significant operations\n\n## Performance Requirements\n\n### Latency Budgets\n\n| Operation | p50 | p95 | p99 |\n|-----------|-----|-----|-----|\n| API requests | < 100ms | < 300ms | < 1s |\n| Database queries | < 50ms | < 150ms | < 500ms |\n| Background jobs | < 5s | < 30s | < 2m |\n\n### Resource Limits\n\n- **Memory** - Monitor heap usage, set max heap size\n- **CPU** - Alert on sustained > 70% usage\n- **Connections** - Pool and limit database/external connections\n\n## Retry & Circuit Breaker\n\n### Retry Strategy\n- Exponential backoff: 100ms, 200ms, 400ms, 800ms\n- Max retries: 3\n- Jitter: ±25% to prevent thundering herd\n\n### Circuit Breaker\n- **Closed** (normal): Requests flow through\n- **Open** (failing): Fast-fail without attemptin" : String).data ("g request\n" : String).data, ← sp3]
    exact h2
  have h3 : containsSub frontendNeedle.data ((((rel1).data ++ (rel2).data) ++ (rel3).data) ++ (rel4).data) = false := by
    rw [eq3, containsSub_chain (((rel1).data ++ (rel2).data) ++ ("- Emit spans for all significant operations\n\n## Performance Requirements\n\n### Latency Budgets\n\n| Operation | p50 | p95 | p99 |\n|-----------|-----|-----|-----|\n| API requests | < 100ms | < 300ms | < 1s |\n| Database queries | < 50ms | < 150ms | < 500ms |\n| Background jobs | < 5s | < 30s | < 2m |\n\n### Resource Limits\n\n- **Memory** - Monitor heap usage, set max heap size\n- **CPU** - Alert on sustained > 70% usage\n- **Connections** - Pool and limit database/external connections\n\n## Retry & Circuit Breaker\n\n### Retry Strategy\n- Exponential backoff: 100ms, 200ms, 400ms, 800ms\n- Max retries: 3\n- Jitter: ±25% to prevent thundering herd\n\n### Circuit Breaker\n- **Closed** (normal): Requests flow through\n- **Open** (failing): Fast-fail without attemptin" : String).data) ("g request\n" : String).data (rel4).data frontendNeedle.data (by decide), b3, c3]
    rfl
  exact h3

theorem noFr_sec : containsSub frontendNeedle.data (getSecurityTemplate).data = false := by
  unfold getSecurityTemplate
  rw [strDataAppend, strDataAppend, strDataAppend, strDataAppend]
  have h0 : containsSub frontendNeedle.data (sec1).data = false := rfl
  have sp1 : (sec1).data = ("# Security Guidelines\n\n**Security principles and practices for this codebase.**\n\n## Security Posture\n\n1. **Zero trust** - Never trust user input\n2. **Least privilege** - Minimal access rights\n3. **Defense in depth** - Multiple security layers\n4. **Secure by default** - Safe defaults, opt-in to dangerous operations\n\n## Input Validation\n\n### Validation Rules\n\n1. **Validate all inputs** - User data, API requests, file uploads, etc.\n2. **Whitelist over blacklist** - Define what\x27s allowed, reject everything else\n3. **Parse at boundaries** - Validate external data at system entry points\n4. **Type safety** - Use schema validation (Zod, Yup, etc.)\n\n### Common Vulnerabilities to Prevent\n\n- **SQL Injection** - Use parameterized queries, never string interpolation\n- **XSS** - Escape all user content, use CS" : String).data ++ ("P headers\n" : String).data := rfl
  have eq1 : (sec1).data ++ (sec2).data = ("# Security Guidelines\n\n**Security principles and practices for this codebase.**\n\n## Security Posture\n\n1. **Zero trust** - Never trust user input\n2. **Least privilege** - Minimal access rights\n3. **Defense in depth** - Multiple security layers\n4. **Secure by default** - Safe defaults, opt-in to dangerous operations\n\n## Input Validation\n\n### Validation Rules\n\n1. **Validate all inputs** - User data, API requests, file uploads, etc.\n2. **Whitelist over blacklist** - Define what\x27s allowed, reject everything else\n3. **Parse at boundaries** - Validate external data at system entry points\n4. **Type safety** - Use schema validation (Zod, Yup, etc.)\n\n### Common Vulnerabilities to Prevent\n\n- **SQL Injection** - Use parameterized queries, never string interpolation\n- **XSS** - Escape all user content, use CS" : String).data ++ (("P headers\n" : String).data ++ (sec2).data) := by
    rw [sp1, List.append_assoc ("# Security Guidelines\n\n**Security principles and practices for this codebase.**\n\n## Security Posture\n\n1. **Zero trust** - Never trust user input\n2. **Least privilege** - Minimal access rights\n3. **Defense in depth** - Multiple security layers\n4. **Secure by default** - Safe defaults, opt-in to dangerous operations\n\n## Input Validation\n\n### Validation Rules\n\n1. **Validate all inputs** - User data, API requests, file uploads, etc.\n2. **Whitelist over blacklist** - Define what\x27s allowed, reject everything else\n3. **Parse at boundaries** - Validate external data at system entry points\n4. **Type safety** - Use schema validation (Zod, Yup, etc.)\n\n### Common Vulnerabilities to Prevent\n\n- **SQL Injection** - Use parameterized queries, never string interpolation\n- **XSS** - Escape all user content, use CS" : String).data ("P headers\n" : String).data (sec2).data]
  have c1 : containsSub frontendNeedle.data (("P headers\n" : String).data ++ (sec2).data) = false := rfl
  have b1 : containsSub frontendNeedle.data (("# Security Guidelines\n\n**Security principles and practices for this codebase.**\n\n## Security Posture\n\n1. **Zero trust** - Never trust user input\n2. **Least privilege** - Minimal access rights\n3. **Defense in depth** - Multiple security layers\n4. **Secure by default** - Safe defaults, opt-in to dangerous operations\n\n## Input Validation\n\n### Validation Rules\n\n1. **Validate all inputs** - User data, API requests, file uploads, etc.\n2. **Whitelist over blacklist** - Define what\x27s allowed, reject everything else\n3. **Parse at boundaries** - Validate external data at system entry points\n4. **Type safety** - Use schema validation (Zod, Yup, etc.)\n\n### Common Vulnerabilities to Prevent\n\n- **SQL Injection** - Use parameterized queries, never string interpolation\n- **XSS** - Escape all user content, use CS" : String).data ++ ("P headers\n" : String).data) = false := by
    rw [← sp1]
    exact h0
  have h1 : containsSub frontendNeedle.data ((sec1).data ++ (sec2).data) = false := by
    rw [eq1, containsSub_chain ("# Security Guidelines\n\n**Security principles and practices for this codebase.**\n\n## Security Posture\n\n1. **Zero trust** - Never trust user input\n2. **Least privilege** - Minimal access rights\n3. **Defense in depth** - Multiple security layers\n4. **Secure by default** - Safe defaults, opt-in to dangerous operations\n\n## Input Validation\n\n### Validation Rules\n\n1. **Validate all inputs** - User data, API requests, file uploads, etc.\n2. **Whitelist over blacklist** - Define what\x27s allowed, reject everything else\n3. **Parse at boundaries** - Validate external data at system entry points\n4. **Type safety** - Use schema validation (Zod, Yup, etc.)\n\n### Common Vulnerabilities to Prevent\n\n- **SQL Injection** - Use parameterized queries, never string interpolation\n- **XSS** - Escape all user content, use CS" : String).data ("P headers\n" : String).data (sec2).data frontendNeedle.data (by decide), b1, c1]
    rfl
  have sp2 : (sec2).data = ("- **CSRF** - Use CSRF tokens for state-changing operations\n- **Command Injection** - Never pass user input to shell commands\n- **Path Traversal** - Validate file paths, use allowlist for file access\n\n## Authentication & Authorization\n\n### Authentication\n- **Password storage** - bcrypt/argon2 with salt\n- **Session management** - Secure, httpOnly cookies\n- **Token expiry** - Short-lived access tokens, refresh tokens\n\n### Authorization\n- **Role-based access control (RBAC)** - Define roles and permissions\n- **Principle of least privilege** - Users/services get minimum necessary access\n- **Authorization checks** - Verify permissions on every request\n\n## Secrets Management\n\n### Rules\n1. **Never commit secrets** - No API keys, passwords, token" : String).data ++ ("s in code\n" : String).data := rfl
  have eq2 : ((sec1).data ++ (sec2).data) ++ (sec3).data = ((sec1).data ++ ("- **CSRF** - Use CSRF tokens for state-changing operations\n- **Command Injection** - Never pass user input to shell commands\n- **Path Traversal** - Validate file paths, use allowlist for file access\n\n## Authentication & Authorization\n\n### Authentication\n- **Password storage** - bcrypt/argon2 with salt\n- **Session management** - Secure, httpOnly cookies\n- **Token expiry** - Short-lived access tokens, refresh tokens\n\n### Authorization\n- **Role-based access control (RBAC)** - Define roles and permissions\n- **Principle of least privilege** - Users/services get minimum necessary access\n- **Authorization checks** - Verify permissions on every request\n\n## Secrets Management\n\n### Rules\n1. **Never commit secrets** - No API keys, passwords, token" : String).data) ++ (("s in code\n" : String).data ++ (sec3).data) := by
    rw [sp2, ← List.append_assoc (sec1).data ("- **CSRF** - Use CSRF tokens for state-changing operations\n- **Command Injection** - Never pass user input to shell commands\n- **Path Traversal** - Validate file paths, use allowlist for file access\n\n## Authentication & Authorization\n\n### Authentication\n- **Password storage** - bcrypt/argon2 with salt\n- **Session management** - Secure, httpOnly cookies\n- **Token expiry** - Short-lived access tokens, refresh tokens\n\n### Authorization\n- **Role-based access control (RBAC)** - Define roles and permissions\n- **Principle of least privilege** - Users/services get minimum necessary access\n- **Authorization checks** - Verify permissions on every request\n\n## Secrets Management\n\n### Rules\n1. **Never commit secrets** - No API keys, passwords, token" : String).data ("s in code\n" : String).data, List.append_assoc ((sec1).data ++ ("- **CSRF** - Use CSRF tokens for state-changing operations\n- **Command Injection** - Never pass user input to shell commands\n- **Path Traversal** - Validate file paths, use allowlist for file access\n\n## Authentication & Authorization\n\n### Authentication\n- **Password storage** - bcrypt/argon2 with salt\n- **Session management** - Secure, httpOnly cookies\n- **Token expiry** - Short-lived access tokens, refresh tokens\n\n### Authorization\n- **Role-based access control (RBAC)** - Define roles and permissions\n- **Principle of least privilege** - Users/services get minimum necessary access\n- **Authorization checks** - Verify permissions on every request\n\n## Secrets Management\n\n### Rules\n1. **Never commit secrets** - No API keys, passwords, token" : String).data) ("s in code\n" : String).data (sec3).data]
  have c2 : containsSub frontendNeedle.data (("s in code\n" : String).data ++ (sec3).data) = false := rfl
  have b2 : containsSub frontendNeedle.data (((sec1).data ++ ("- **CSRF** - Use CSRF tokens for state-changing operations\n- **Command Injection** - Never pass user input to shell commands\n- **Path Traversal** - Validate file paths, use allowlist for file access\n\n## Authentication & Authorization\n\n### Authentication\n- **Password storage** - bcrypt/argon2 with salt\n- **Session management** - Secure, httpOnly cookies\n- **Token expiry** - Short-lived access tokens, refresh tokens\n\n### Authorization\n- **Role-based access control (RBAC)** - Define roles and permissions\n- **Principle of least privilege** - Users/services get minimum necessary access\n- **Authorization checks** - Verify permissions on every request\n\n## Secrets Management\n\n### Rules\n1. **Never commit secrets** - No API keys, passwords, token" : String).data) ++ ("s in code\n" : String).data) = false := by
    rw [List.append_assoc (sec1).data ("- **CSRF** - Use CSRF tokens for state-changing operations\n- **Command Injection** - Never pass user input to shell commands\n- **Path Traversal** - Validate file paths, use allowlist for file access\n\n## Authentication & Authorization\n\n### Authentication\n- **Password storage** - bcrypt/argon2 with salt\n- **Session management** - Secure, httpOnly cookies\n- **Token expiry** - Short-lived access tokens, refresh tokens\n\n### Authorization\n- **Role-based access control (RBAC)** - Define roles and permissions\n- **Principle of least privilege** - Users/services get minimum necessary access\n- **Authorization checks** - Verify permissions on every request\n\n## Secrets Management\n\n### Rules\n1. **Never commit secrets** - No API keys, passwords, token" : String).data ("s in code\n" : String).data, ← sp2]
    exact h1
  have h2 : containsSub frontendNeedle.data (((sec1).data ++ (sec2).data) ++ (sec3).data) = false := by
    rw [eq2, containsSub_chain ((sec1).data ++ ("- **CSRF** - Use CSRF tokens for state-changing operations\n- **Command Injection** - Never pass user input to shell commands\n- **Path Traversal** - Validate file paths, use allowlist for file access\n\n## Authentication & Authorization\n\n### Authentication\n- **Password storage** - bcrypt/argon2 with salt\n- **Session management** - Secure, httpOnly cookies\n- **Token expiry** - Short-lived access tokens, refresh tokens\n\n### Authorization\n- **Role-based access control (RBAC)** - Define roles and permissions\n- **Principle of least privilege** - Users/services get minimum necessary access\n- **Authorization checks** - Verify permissions on every request\n\n## Secrets Management\n\n### Rules\n1. **Never commit secrets** - No API keys, passwords, token" : String).data) ("s in code\n" : String).data (sec3).data frontendNeedle.data (by decide), b2, c2]
    rfl
  have sp3 : (sec3).data = ("2. **Use environment variables** - Load secrets from env at runtime\n3. **Rotate secrets** - Regular rotation schedule\n4. **Limit secret scope** - Separate secrets per environment\n\n### .env Files\n- \x60.env\x60 - Never commit (add to .gitignore)\n- \x60.env.example\x60 - Template without real values (safe to commit)\n\n## Data Protection\n\n### Data Classification\n- **Public** - Anyone can see\n- **Internal** - Employees only\n- **Confidential** - Need-to-know basis\n- **Restricted** - Legal/compliance requirements\n\n### Encryption\n- **In transit** - TLS 1.3 for all network traffic\n- **At rest** - Encrypt sensitive data in database\n\n## API Security\n\n1. **Rate limiting** - Prevent abuse (e.g., 100 req/min per IP)\n2. **Input validation** - Validate request bodies, query params" : String).data ++ (", headers\n" : String).data := rfl
  have eq3 : (((sec1).data ++ (sec2).data) ++ (sec3).data) ++ (sec4).data = (((sec1).data ++ (sec2).data) ++ ("2. **Use environment variables** - Load secrets from env at runtime\n3. **Rotate secrets** - Regular rotation schedule\n4. **Limit secret scope** - Separate secrets per environment\n\n### .env Files\n- \x60.env\x60 - Never commit (add to .gitignore)\n- \x60.env.example\x60 - Template without real values (safe to commit)\n\n## Data Protection\n\n### Data Classification\n- **Public** - Anyone can see\n- **Internal** - Employees only\n- **Confidential** - Need-to-know basis\n- **Restricted** - Legal/compliance requirements\n\n### Encryption\n- **In transit** - TLS 1.3 for all network traffic\n- **At rest** - Encrypt sensitive data in database\n\n## API Security\n\n1. **Rate limiting** - Prevent abuse (e.g., 100 req/min per IP)\n2. **Input validation** - Validate request bodies, query params" : String).data) ++ ((", headers\n" : String).data ++ (sec4).data) := by
    rw [sp3, ← List.append_assoc ((sec1).data ++ (sec2).data) ("2. **Use environment variables** - Load secrets from env at runtime\n3. **Rotate secrets** - Regular rotation schedule\n4. **Limit secret scope** - Separate secrets per environment\n\n### .env Files\n- \x60.env\x60 - Never commit (add to .gitignore)\n- \x60.env.example\x60 - Template without real values (safe to commit)\n\n## Data Protection\n\n### Data Classification\n- **Public** - Anyone can see\n- **Internal** - Employees only\n- **Confidential** - Need-to-know basis\n- **Restricted** - Legal/compliance requirements\n\n### Encryption\n- **In transit** - TLS 1.3 for all network traffic\n- **At rest** - Encrypt sensitive data in database\n\n## API Security\n\n1. **Rate limiting** - Prevent abuse (e.g., 100 req/min per IP)\n2. **Input validation** - Validate request bodies, query params" : String).data (", headers\n" : String).data, List.append_assoc (((sec1).data ++ (sec2).data) ++ ("2. **Use environment variables** - Load secrets from env at runtime\n3. **Rotate secrets** - Regular rotation schedule\n4. **Limit secret scope** - Separate secrets per environment\n\n### .env Files\n- \x60.env\x60 - Never commit (add to .gitignore)\n- \x60.env.example\x60 - Template without real values (safe to commit)\n\n## Data Protection\n\n### Data Classification\n- **Public** - Anyone can see\n- **Internal** - Employees only\n- **Confidential** - Need-to-know basis\n- **Restricted** - Legal/compliance requirements\n\n### Encryption\n- **In transit** - TLS 1.3 for all network traffic\n- **At rest** - Encrypt sensitive data in database\n\n## API Security\n\n1. **Rate limiting** - Prevent abuse (e.g., 100 req/min per IP)\n2. **Input validation** - Validate request bodies, query params" : String).data) (", headers\n" : String).data (sec4).data]
  have c3 : containsSub frontendNeedle.data ((", headers\n" : String).data ++ (sec4).data) = false := rfl
  have b3 : containsSub frontendNeedle.data ((((sec1).data ++ (sec2).data) ++ ("2. **Use environment variables** - Load secrets from env at runtime\n3. **Rotate secrets** - Regular rotation schedule\n4. **Limit secret scope** - Separate secrets per environment\n\n### .env Files\n- \x60.env\x60 - Never commit (add to .gitignore)\n- \x60.env.example\x60 - Template without real values (safe to commit)\n\n## Data Protection\n\n### Data Classification\n- **Public** - Anyone can see\n- **Internal** - Employees only\n- **Confidential** - Need-to-know basis\n- **Restricted** - Legal/compliance requirements\n\n### Encryption\n- **In transit** - TLS 1.3 for all network traffic\n- **At rest** - Encrypt sensitive data in database\n\n## API Security\n\n1. **Rate limiting** - Prevent abuse (e.g., 100 req/min per IP)\n2. **Input validation** - Validate request bodies, query params" : String).data) ++ (", headers\n" : String).data) = false := by
    rw [List.append_assoc ((sec1).data ++ (sec2).data) ("2. **Use environment variables** - Load secrets from env at runtime\n3. **Rotate secrets** - Regular rotation schedule\n4. **Limit secret scope** - Separate secrets per environment\n\n### .env Files\n- \x60.env\x60 - Never commit (add to .gitignore)\n- \x60.env.example\x60 - Template without real values (safe to commit)\n\n## Data Protection\n\n### Data Classification\n- **Public** - Anyone can see\n- **Internal** - Employees only\n- **Confidential** - Need-to-know basis\n- **Restricted** - Legal/compliance requirements\n\n### Encryption\n- **In transit** - TLS 1.3 for all network traffic\n- **At rest** - Encrypt sensitive data in database\n\n## API Security\n\n1. **Rate limiting** - Prevent abuse (e.g., 100 req/min per IP)\n2. **Input validation** - Validate request bodies, query params" : String).data (", headers\n" : String).data, ← sp3]
    exact h2
  have h3 : containsSub frontendNeedle.data ((((sec1).data ++ (sec2).data) ++ (sec3).data) ++ (sec4).data) = false := by
    rw [eq3, containsSub_chain (((sec1).data ++ (sec2).data) ++ ("2. **Use environment variables** - Load secrets from env at runtime\n3. **Rotate secrets** - Regular rotation schedule\n4. **Limit secret scope** - Separate secrets per environment\n\n### .env Files\n- \x60.env\x60 - Never commit (add to .gitignore)\n- \x60.env.example\x60 - Template without real values (safe to commit)\n\n## Data Protection\n\n### Data Classification\n- **Public** - Anyone can see\n- **Internal** - Employees only\n- **Confidential** - Need-to-know basis\n- **Restricted** - Legal/compliance requirements\n\n### Encryption\n- **In transit** - TLS 1.3 for all network traffic\n- **At rest** - Encrypt sensitive data in database\n\n## API Security\n\n1. **Rate limiting** - Prevent abuse (e.g., 100 req/min per IP)\n2. **Input validation** - Validate request bodies, query params" : String).data) (", headers\n" : String).data (sec4).data frontendNeedle.data (by decide), b3, c3]
    rfl
  have sp4 : (sec4).data = ("3. **Output encoding** - Prevent XSS in API responses\n4. **CORS** - Restrict allowed origins\n\n## Dependency Security\n\n1. **Audit dependencies** - Run \x60npm audit\x60 / \x60bun audit\x60 regularly\n2. **Update regularly** - Keep dependencies up to date\n3. **Minimal dependencies** - Fewer dependencies = smaller attack surface\n4. **Verify integrity** - Use lock files, verify package signatures\n\n## Security Testing\n\n1. **Static analysis** - Linters catch common vulnerabilities\n2. **Dependency scanning** - Automated vulnerability scanning in CI\n3. **Manual review** - Security-critical code gets human review\n4. **Penetration testing** - Regular security audits\n\n## Security Incident Response\n\nIf you discover a security vulnerability:\n1. **Do not publish** - Keep it private\n2. **Assess impact** - How seve" : String).data ++ ("re is it?\n" : String).data := rfl
  have eq4 : ((((sec1).data ++ (sec2).data) ++ (sec3).data) ++ (sec4).data) ++ (sec5).data = ((((sec1).data ++ (sec2).data) ++ (sec3).data) ++ ("3. **Output encoding** - Prevent XSS in API responses\n4. **CORS** - Restrict allowed origins\n\n## Dependency Security\n\n1. **Audit dependencies** - Run \x60npm audit\x60 / \x60bun audit\x60 regularly\n2. **Update regularly** - Keep dependencies up to date\n3. **Minimal dependencies** - Fewer dependencies = smaller attack surface\n4. **Verify integrity** - Use lock files, verify package signatures\n\n## Security Testing\n\n1. **Static analysis** - Linters catch common vulnerabilities\n2. **Dependency scanning** - Automated vulnerability scanning in CI\n3. **Manual review** - Security-critical code gets human review\n4. **Penetration testing** - Regular security audits\n\n## Security Incident Response\n\nIf you discover a security vulnerability:\n1. **Do not publish** - Keep it private\n2. **Assess impact** - How seve" : String).data) ++ (("re is it?\n" : String).data ++ (sec5).data) := by
    rw [sp4, ← List.append_assoc (((sec1).data ++ (sec2).data) ++ (sec3).data) ("3. **Output encoding** - Prevent XSS in API responses\n4. **CORS** - Restrict allowed origins\n\n## Dependency Security\n\n1. **Audit dependencies** - Run \x60npm audit\x60 / \x60bun audit\x60 regularly\n2. **Update regularly** - Keep dependencies up to date\n3. **Minimal dependencies** - Fewer dependencies = smaller attack surface\n4. **Verify integrity** - Use lock files, verify package signatures\n\n## Security Testing\n\n1. **Static analysis** - Linters catch common vulnerabilities\n2. **Dependency scanning** - Automated vulnerability scanning in CI\n3. **Manual review** - Security-critical code gets human review\n4. **Penetration testing** - Regular security audits\n\n## Security Incident Response\n\nIf you discover a security vulnerability:\n1. **Do not publish** - Keep it private\n2. **Assess impact** - How seve" : String).data ("re is it?\n" : String).data, List.append_assoc ((((sec1).data ++ (sec2).data) ++ (sec3).data) ++ ("3. **Output encoding** - Prevent XSS in API responses\n4. **CORS** - Restrict allowed origins\n\n## Dependency Security\n\n1. **Audit dependencies** - Run \x60npm audit\x60 / \x60bun audit\x60 regularly\n2. **Update regularly** - Keep dependencies up to date\n3. **Minimal dependencies** - Fewer dependencies = smaller attack surface\n4. **Verify integrity** - Use lock files, verify package signatures\n\n## Security Testing\n\n1. **Static analysis** - Linters catch common vulnerabilities\n2. **Dependency scanning** - Automated vulnerability scanning in CI\n3. **Manual review** - Security-critical code gets human review\n4. **Penetration testing** - Regular security audits\n\n## Security Incident Response\n\nIf you discover a security vulnerability:\n1. **Do not publish** - Keep it private\n2. **Assess impact** - How seve" : String).data) ("re is it?\n" : String).data (sec5).data]
  have c4 : containsSub frontendNeedle.data (("re is it?\n" : String).data ++ (sec5).data) = false := rfl
  have b4 : containsSub frontendNeedle.data (((((sec1).data ++ (sec2).data) ++ (sec3).data) ++ ("3. **Output encoding** - Prevent XSS in API responses\n4. **CORS** - Restrict allowed origins\n\n## Dependency Security\n\n1. **Audit dependencies** - Run \x60npm audit\x60 / \x60bun audit\x60 regularly\n2. **Update regularly** - Keep dependencies up to date\n3. **Minimal dependencies** - Fewer dependencies = smaller attack surface\n4. **Verify integrity** - Use lock files, verify package signatures\n\n## Security Testing\n\n1. **Static analysis** - Linters catch common vulnerabilities\n2. **Dependency scanning** - Automated vulnerability scanning in CI\n3. **Manual review** - Security-critical code gets human review\n4. **Penetration testing** - Regular security audits\n\n## Security Incident Response\n\nIf you discover a security vulnerability:\n1. **Do not publish** - Keep it private\n2. **Assess impact** - How seve" : String).data) ++ ("re is it?\n" : String).data) = false := by
    rw [List.append_assoc (((sec1).data ++ (sec2).data) ++ (sec3).data) ("3. **Output encoding** - Prevent XSS in API responses\n4. **CORS** - Restrict allowed origins\n\n## Dependency Security\n\n1. **Audit dependencies** - Run \x60npm audit\x60 / \x60bun audit\x60 regularly\n2. **Update regularly** - Keep dependencies up to date\n3. **Minimal dependencies** - Fewer dependencies = smaller attack surface\n4. **Verify integrity** - Use lock files, verify package signatures\n\n## Security Testing\n\n1. **Static analysis** - Linters catch common vulnerabilities\n2. **Dependency scanning** - Automated vulnerability scanning in CI\n3. **Manual review** - Security-critical code gets human review\n4. **Penetration testing** - Regular security audits\n\n## Security Incident Response\n\nIf you discover a security vulnerability:\n1. **Do not publish** - Keep it private\n2. **Assess impact** - How seve" : String).data ("re is it?\n" : String).data, ← sp4]
    exact h3
  have h4 : containsSub frontendNeedle.data (((((sec1).data ++ (sec2).data) ++ (sec3).data) ++ (sec4).data) ++ (sec5).data) = false := by
    rw [eq4, containsSub_chain ((((sec1).data ++ (sec2).data) ++ (sec3).data) ++ ("3. **Output encoding** - Prevent XSS in API responses\n4. **CORS** - Restrict allowed origins\n\n## Dependency Security\n\n1. **Audit dependencies** - Run \x60npm audit\x60 / \x60bun audit\x60 regularly\n2. **Update regularly** - Keep dependencies up to date\n3. **Minimal dependencies** - Fewer dependencies = smaller attack surface\n4. **Verify integrity** - Use lock files, verify package signatures\n\n## Security Testing\n\n1. **Static analysis** - Linters catch common vulnerabilities\n2. **Dependency scanning** - Automated vulnerability scanning in CI\n3. **Manual review** - Security-critical code gets human review\n4. **Penetration testing** - Regular security audits\n\n## Security Incident Response\n\nIf you discover a security vulnerability:\n1. **Do not publish** - Keep it private\n2. **Assess impact** - How seve" : String).data) ("re is it?\n" : String).data (sec5).data frontendNeedle.data (by decide), b4, c4]
    rfl
  exact h4

theorem noFr_ddoc : containsSub frontendNeedle.data (getDesignDocTemplate).data = false := by
  unfold getDesignDocTemplate
  rw [strDataAppend, strDataAppend]
  have h0 : containsSub frontendNeedle.data (ddoc1).data = false := rfl
  have sp1 : (ddoc1).data = ("# [Feature/Component Name]\n\n**Status:** [Draft | In Review | Approved | Implemented | Deprecated]\n**Author:** [Agent/Human]\n**Created:** YYYY-MM-DD\n**Last Updated:** YYYY-MM-DD\n\n## Overview\n\nBrief 2-3 sentence summary of what this design document covers.\n\n## Context & Motivation\n\n### Problem Statement\nWhat problem are we solving? Why does it need to be solved?\n\n### Current State\nWhat exists today? What are the pain points?\n\n### Goals\n- What are we trying to achieve?\n- What does success look like?\n\n### Non-Goals\n- What are we explicitly not solving?\n- What\x27s out of scope?\n\n## Proposed Design\n\n### High-Level Approach\nDescribe the solution at a conceptual level.\n\n### Detailed Design\n\n#### Component/Module Structure\n\x60\x60\x60\n[Diagram or code structure]\n\x60\x60\x60\n\n#### Data Models\n\x60\x60\x60t" : String).data ++ ("ypescript\n" : String).data := rfl
  have eq1 : (ddoc1).data ++ (ddoc2).data = ("# [Feature/Component Name]\n\n**Status:** [Draft | In Review | Approved | Implemented | Deprecated]\n**Author:** [Agent/Human]\n**Created:** YYYY-MM-DD\n**Last Updated:** YYYY-MM-DD\n\n## Overview\n\nBrief 2-3 sentence summary of what this design document covers.\n\n## Context & Motivation\n\n### Problem Statement\nWhat problem are we solving? Why does it need to be solved?\n\n### Current State\nWhat exists today? What are the pain points?\n\n### Goals\n- What are we trying to achieve?\n- What does success look like?\n\n### Non-Goals\n- What are we explicitly not solving?\n- What\x27s out of scope?\n\n## Proposed Design\n\n### High-Level Approach\nDescribe the solution at a conceptual level.\n\n### Detailed Design\n\n#### Component/Module Structure\n\x60\x60\x60\n[Diagram or code structure]\n\x60\x60\x60\n\n#### Data Models\n\x60\x60\x60t" : String).data ++ (("ypescript\n" : String).data ++ (ddoc2).data) := by
    rw [sp1, List.append_assoc ("# [Feature/Component Name]\n\n**Status:** [Draft | In Review | Approved | Implemented | Deprecated]\n**Author:** [Agent/Human]\n**Created:** YYYY-MM-DD\n**Last Updated:** YYYY-MM-DD\n\n## Overview\n\nBrief 2-3 sentence summary of what this design document covers.\n\n## Context & Motivation\n\n### Problem Statement\nWhat problem are we solving? Why does it need to be solved?\n\n### Current State\nWhat exists today? What are the pain points?\n\n### Goals\n- What are we trying to achieve?\n- What does success look like?\n\n### Non-Goals\n- What are we explicitly not solving?\n- What\x27s out of scope?\n\n## Proposed Design\n\n### High-Level Approach\nDescribe the solution at a conceptual level.\n\n### Detailed Design\n\n#### Component/Module Structure\n\x60\x60\x60\n[Diagram or code structure]\n\x60\x60\x60\n\n#### Data Models\n\x60\x60\x60t" : String).data ("ypescript\n" : String).data (ddoc2).data]
  have c1 : containsSub frontendNeedle.data (("ypescript\n" : String).data ++ (ddoc2).data) = false := rfl
  have b1 : containsSub frontendNeedle.data (("# [Feature/Component Name]\n\n**Status:** [Draft | In Review | Approved | Implemented | Deprecated]\n**Author:** [Agent/Human]\n**Created:** YYYY-MM-DD\n**Last Updated:** YYYY-MM-DD\n\n## Overview\n\nBrief 2-3 sentence summary of what this design document covers.\n\n## Context & Motivation\n\n### Problem Statement\nWhat problem are we solving? Why does it need to be solved?\n\n### Current State\nWhat exists today? What are the pain points?\n\n### Goals\n- What are we trying to achieve?\n- What does success look like?\n\n### Non-Goals\n- What are we explicitly not solving?\n- What\x27s out of scope?\n\n## Proposed Design\n\n### High-Level Approach\nDescribe the solution at a conceptual level.\n\n### Detailed Design\n\n#### Component/Module Structure\n\x60\x60\x60\n[Diagram or code structure]\n\x60\x60\x60\n\n#### Data Models\n\x60\x60\x60t" : String).data ++ ("ypescript\n" : String).data) = false := by
    rw [← sp1]
    exact h0
  have h1 : containsSub frontendNeedle.data ((ddoc1).data ++ (ddoc2).data) = false := by
    rw [eq1, containsSub_chain ("# [Feature/Component Name]\n\n**Status:** [Draft | In Review | Approved | Implemented | Deprecated]\n**Author:** [Agent/Human]\n**Created:** YYYY-MM-DD\n**Last Updated:** YYYY-MM-DD\n\n## Overview\n\nBrief 2-3 sentence summary of what this design document covers.\n\n## Context & Motivation\n\n### Problem Statement\nWhat problem are we solving? Why does it need to be solved?\n\n### Current State\nWhat exists today? What are the pain points?\n\n### Goals\n- What are we trying to achieve?\n- What does success look like?\n\n### Non-Goals\n- What are we explicitly not solving?\n- What\x27s out of scope?\n\n## Proposed Design\n\n### High-Level Approach\nDescribe the solution at a conceptual level.\n\n### Detailed Design\n\n#### Component/Module Structure\n\x60\x60\x60\n[Diagram or code structure]\n\x60\x60\x60\n\n#### Data Models\n\x60\x60\x60t" : String).data ("ypescript\n" : String).data (ddoc2).data frontendNeedle.data (by decide), b1, c1]
    rfl
  have sp2 : (ddoc2).data = ("// Type definitions, schemas, etc.\n\x60\x60\x60\n\n#### API/Interface\n\x60\x60\x60typescript\n// Public interfaces\n\x60\x60\x60\n\n#### Implementation Details\nKey technical decisions and how things work internally.\n\n## Alternatives Considered\n\n### Alternative 1: [Name]\n**Pros:**\n- ...\n\n**Cons:**\n- ...\n\n**Why not chosen:** ...\n\n### Alternative 2: [Name]\n**Pros:**\n- ...\n\n**Cons:**\n- ...\n\n**Why not chosen:** ...\n\n## Tradeoffs & Decisions\n\n| Decision | Rationale | Tradeoffs |\n|----------|-----------|-----------|\n| Example  | Why       | What we gain vs lose |\n\n## Implementation Plan\n\n1. **Phase 1:** ...\n2. **Phase 2:** ...\n3. **Phase 3:** ...\n\n## Testing Strategy\n\n- **Unit tests:** What will be unit tested?\n- **Integration tests:** What will be integration tested?\n- **Edge cases:** What edge cases need coverage?\n\n## Security Consid" : String).data ++ ("erations\n\n" : String).data := rfl
  have eq2 : ((ddoc1).data ++ (ddoc2).data) ++ (ddoc3).data = ((ddoc1).data ++ ("// Type definitions, schemas, etc.\n\x60\x60\x60\n\n#### API/Interface\n\x60\x60\x60typescript\n// Public interfaces\n\x60\x60\x60\n\n#### Implementation Details\nKey technical decisions and how things work internally.\n\n## Alternatives Considered\n\n### Alternative 1: [Name]\n**Pros:**\n- ...\n\n**Cons:**\n- ...\n\n**Why not chosen:** ...\n\n### Alternative 2: [Name]\n**Pros:**\n- ...\n\n**Cons:**\n- ...\n\n**Why not chosen:** ...\n\n## Tradeoffs & Decisions\n\n| Decision | Rationale | Tradeoffs |\n|----------|-----------|-----------|\n| Example  | Why       | What we gain vs lose |\n\n## Implementation Plan\n\n1. **Phase 1:** ...\n2. **Phase 2:** ...\n3. **Phase 3:** ...\n\n## Testing Strategy\n\n- **Unit tests:** What will be unit tested?\n- **Integration tests:** What will be integration tested?\n- **Edge cases:** What edge cases need coverage?\n\n## Security Consid" : String).data) ++ (("erations\n\n" : String).data ++ (ddoc3).data) := by
    rw [sp2, ← List.append_assoc (ddoc1).data ("// Type definitions, schemas, etc.\n\x60\x60\x60\n\n#### API/Interface\n\x60\x60\x60typescript\n// Public interfaces\n\x60\x60\x60\n\n#### Implementation Details\nKey technical decisions and how things work internally.\n\n## Alternatives Considered\n\n### Alternative 1: [Name]\n**Pros:**\n- ...\n\n**Cons:**\n- ...\n\n**Why not chosen:** ...\n\n### Alternative 2: [Name]\n**Pros:**\n- ...\n\n**Cons:**\n- ...\n\n**Why not chosen:** ...\n\n## Tradeoffs & Decisions\n\n| Decision | Rationale | Tradeoffs |\n|----------|-----------|-----------|\n| Example  | Why       | What we gain vs lose |\n\n## Implementation Plan\n\n1. **Phase 1:** ...\n2. **Phase 2:** ...\n3. **Phase 3:** ...\n\n## Testing Strategy\n\n- **Unit tests:** What will be unit tested?\n- **Integration tests:** What will be integration tested?\n- **Edge cases:** What edge cases need coverage?\n\n## Security Consid" : String).data ("erations\n\n" : String).data, List.append_assoc ((ddoc1).data ++ ("// Type definitions, schemas, etc.\n\x60\x60\x60\n\n#### API/Interface\n\x60\x60\x60typescript\n// Public interfaces\n\x60\x60\x60\n\n#### Implementation Details\nKey technical decisions and how things work internally.\n\n## Alternatives Considered\n\n### Alternative 1: [Name]\n**Pros:**\n- ...\n\n**Cons:**\n- ...\n\n**Why not chosen:** ...\n\n### Alternative 2: [Name]\n**Pros:**\n- ...\n\n**Cons:**\n- ...\n\n**Why not chosen:** ...\n\n## Tradeoffs & Decisions\n\n| Decision | Rationale | Tradeoffs |\n|----------|-----------|-----------|\n| Example  | Why       | What we gain vs lose |\n\n## Implementation Plan\n\n1. **Phase 1:** ...\n2. **Phase 2:** ...\n3. **Phase 3:** ...\n\n## Testing Strategy\n\n- **Unit tests:** What will be unit tested?\n- **Integration tests:** What will be integration tested?\n- **Edge cases:** What edge cases need coverage?\n\n## Security Consid" : String).data) ("erations\n\n" : String).data (ddoc3).data]
  have c2 : containsSub frontendNeedle.data (("erations\n\n" : String).data ++ (ddoc3).data) = false := rfl
  have b2 : containsSub frontendNeedle.data (((ddoc1).data ++ ("// Type definitions, schemas, etc.\n\x60\x60\x60\n\n#### API/Interface\n\x60\x60\x60typescript\n// Public interfaces\n\x60\x60\x60\n\n#### Implementation Details\nKey technical decisions and how things work internally.\n\n## Alternatives Considered\n\n### Alternative 1: [Name]\n**Pros:**\n- ...\n\n**Cons:**\n- ...\n\n**Why not chosen:** ...\n\n### Alternative 2: [Name]\n**Pros:**\n- ...\n\n**Cons:**\n- ...\n\n**Why not chosen:** ...\n\n## Tradeoffs & Decisions\n\n| Decision | Rationale | Tradeoffs |\n|----------|-----------|-----------|\n| Example  | Why       | What we gain vs lose |\n\n## Implementation Plan\n\n1. **Phase 1:** ...\n2. **Phase 2:** ...\n3. **Phase 3:** ...\n\n## Testing Strategy\n\n- **Unit tests:** What will be unit tested?\n- **Integration tests:** What will be integration tested?\n- **Edge cases:** What edge cases need coverage?\n\n## Security Consid" : String).data) ++ ("erations\n\n" : String).data) = false := by
    rw [List.append_assoc (ddoc1).data ("// Type definitions, schemas, etc.\n\x60\x60\x60\n\n#### API/Interface\n\x60\x60\x60typescript\n// Public interfaces\n\x60\x60\x60\n\n#### Implementation Details\nKey technical decisions and how things work internally.\n\n## Alternatives Considered\n\n### Alternative 1: [Name]\n**Pros:**\n- ...\n\n**Cons:**\n- ...\n\n**Why not chosen:** ...\n\n### Alternative 2: [Name]\n**Pros:**\n- ...\n\n**Cons:**\n- ...\n\n**Why not chosen:** ...\n\n## Tradeoffs & Decisions\n\n| Decision | Rationale | Tradeoffs |\n|----------|-----------|-----------|\n| Example  | Why       | What we gain vs lose |\n\n## Implementation Plan\n\n1. **Phase 1:** ...\n2. **Phase 2:** ...\n3. **Phase 3:** ...\n\n## Testing Strategy\n\n- **Unit tests:** What will be unit tested?\n- **Integration tests:** What will be integration tested?\n- **Edge cases:** What edge cases need coverage?\n\n## Security Consid" : String).data ("erations\n\n" : String).data, ← sp2]
    exact h1
  have h2 : containsSub frontendNeedle.data (((ddoc1).data ++ (ddoc2).data) ++ (ddoc3).data) = false := by
    rw [eq2, containsSub_chain ((ddoc1).data ++ ("// Type definitions, schemas, etc.\n\x60\x60\x60\n\n#### API/Interface\n\x60\x60\x60typescript\n// Public interfaces\n\x60\x60\x60\n\n#### Implementation Details\nKey technical decisions and how things work internally.\n\n## Alternatives Considered\n\n### Alternative 1: [Name]\n**Pros:**\n- ...\n\n**Cons:**\n- ...\n\n**Why not chosen:** ...\n\n### Alternative 2: [Name]\n**Pros:**\n- ...\n\n**Cons:**\n- ...\n\n**Why not chosen:** ...\n\n## Tradeoffs & Decisions\n\n| Decision | Rationale | Tradeoffs |\n|----------|-----------|-----------|\n| Example  | Why       | What we gain vs lose |\n\n## Implementation Plan\n\n1. **Phase 1:** ...\n2. **Phase 2:** ...\n3. **Phase 3:** ...\n\n## Testing Strategy\n\n- **Unit tests:** What will be unit tested?\n- **Integration tests:** What will be integration tested?\n- **Edge cases:** What edge cases need coverage?\n\n## Security Consid" : String).data) ("erations\n\n" : String).data (ddoc3).data frontendNeedle.data (by decide), b2, c2]
    rfl
  exact h2

theorem noFr_eplan : containsSub frontendNeedle.data (getExecPlanTemplate).data = false := by
  unfold getExecPlanTemplate
  rw [strDataAppend, strDataAppend]
  have h0 : containsSub frontendNeedle.data (eplan1).data = false := rfl
  have sp1 : (eplan1).data = ("# [Feature/Task Name]\n\n**Status:** [Draft | In Review | Approved | In Progress | Completed]\n**Owner:** [Agent/Human]\n**Created:** YYYY-MM-DD\n**Target Completion:** YYYY-MM-DD\n**Actual Completion:** YYYY-MM-DD (if completed)\n\n## Context\n\n### What are we building?\nBrief description of the feature/task.\n\n### Why are we building it?\nUser need, business value, or technical requirement.\n\n### Success Criteria\n- [ ] Criterion 1\n- [ ] Criterion 2\n- [ ] Criterion 3\n\n## Approach\n\n### High-Level Strategy\nHow will we approach this work?\n\n### Key Decisions\n| Decision | Rationale | Alternatives Considered |\n|----------|-----------|-------------------------|\n| Example  | Why       | What else we could do   |\n\n### Dependencies\n- **Blocks:** What this work depends on\n- **Blocked by:** What depends on t" : String).data ++ ("his work\n\n" : String).data := rfl
  have eq1 : (eplan1).data ++ (eplan2).data = ("# [Feature/Task Name]\n\n**Status:** [Draft | In Review | Approved | In Progress | Completed]\n**Owner:** [Agent/Human]\n**Created:** YYYY-MM-DD\n**Target Completion:** YYYY-MM-DD\n**Actual Completion:** YYYY-MM-DD (if completed)\n\n## Context\n\n### What are we building?\nBrief description of the feature/task.\n\n### Why are we building it?\nUser need, business value, or technical requirement.\n\n### Success Criteria\n- [ ] Criterion 1\n- [ ] Criterion 2\n- [ ] Criterion 3\n\n## Approach\n\n### High-Level Strategy\nHow will we approach this work?\n\n### Key Decisions\n| Decision | Rationale | Alternatives Considered |\n|----------|-----------|-------------------------|\n| Example  | Why       | What else we could do   |\n\n### Dependencies\n- **Blocks:** What this work depends on\n- **Blocked by:** What depends on t" : String).data ++ (("his work\n\n" : String).data ++ (eplan2).data) := by
    rw [sp1, List.append_assoc ("# [Feature/Task Name]\n\n**Status:** [Draft | In Review | Approved | In Progress | Completed]\n**Owner:** [Agent/Human]\n**Created:** YYYY-MM-DD\n**Target Completion:** YYYY-MM-DD\n**Actual Completion:** YYYY-MM-DD (if completed)\n\n## Context\n\n### What are we building?\nBrief description of the feature/task.\n\n### Why are we building it?\nUser need, business value, or technical requirement.\n\n### Success Criteria\n- [ ] Criterion 1\n- [ ] Criterion 2\n- [ ] Criterion 3\n\n## Approach\n\n### High-Level Strategy\nHow will we approach this work?\n\n### Key Decisions\n| Decision | Rationale | Alternatives Considered |\n|----------|-----------|-------------------------|\n| Example  | Why       | What else we could do   |\n\n### Dependencies\n- **Blocks:** What this work depends on\n- **Blocked by:** What depends on t" : String).data ("his work\n\n" : String).data (eplan2).data]
  have c1 : containsSub frontendNeedle.data (("his work\n\n" : String).data ++ (eplan2).data) = false := rfl
  have b1 : containsSub frontendNeedle.data (("# [Feature/Task Name]\n\n**Status:** [Draft | In Review | Approved | In Progress | Completed]\n**Owner:** [Agent/Human]\n**Created:** YYYY-MM-DD\n**Target Completion:** YYYY-MM-DD\n**Actual Completion:** YYYY-MM-DD (if completed)\n\n## Context\n\n### What are we building?\nBrief description of the feature/task.\n\n### Why are we building it?\nUser need, business value, or technical requirement.\n\n### Success Criteria\n- [ ] Criterion 1\n- [ ] Criterion 2\n- [ ] Criterion 3\n\n## Approach\n\n### High-Level Strategy\nHow will we approach this work?\n\n### Key Decisions\n| Decision | Rationale | Alternatives Considered |\n|----------|-----------|-------------------------|\n| Example  | Why       | What else we could do   |\n\n### Dependencies\n- **Blocks:** What this work depends on\n- **Blocked by:** What depends on t" : String).data ++ ("his work\n\n" : String).data) = false := by
    rw [← sp1]
    exact h0
  have h1 : containsSub frontendNeedle.data ((eplan1).data ++ (eplan2).data) = false := by
    rw [eq1, containsSub_chain ("# [Feature/Task Name]\n\n**Status:** [Draft | In Review | Approved | In Progress | Completed]\n**Owner:** [Agent/Human]\n**Created:** YYYY-MM-DD\n**Target Completion:** YYYY-MM-DD\n**Actual Completion:** YYYY-MM-DD (if completed)\n\n## Context\n\n### What are we building?\nBrief description of the feature/task.\n\n### Why are we building it?\nUser need, business value, or technical requirement.\n\n### Success Criteria\n- [ ] Criterion 1\n- [ ] Criterion 2\n- [ ] Criterion 3\n\n## Approach\n\n### High-Level Strategy\nHow will we approach this work?\n\n### Key Decisions\n| Decision | Rationale | Alternatives Considered |\n|----------|-----------|-------------------------|\n| Example  | Why       | What else we could do   |\n\n### Dependencies\n- **Blocks:** What this work depends on\n- **Blocked by:** What depends on t" : String).data ("his work\n\n" : String).data (eplan2).data frontendNeedle.data (by decide), b1, c1]
    rfl
  have sp2 : (eplan2).data = ("## Implementation Tasks\n\n### Phase 1: [Phase Name]\n- [ ] Task 1 (Complexity: S/M/L)\n- [ ] Task 2 (Complexity: S/M/L)\n- [ ] Task 3 (Complexity: S/M/L)\n\n### Phase 2: [Phase Name]\n- [ ] Task 1 (Complexity: S/M/L)\n- [ ] Task 2 (Complexity: S/M/L)\n\n### Phase 3: [Phase Name]\n- [ ] Task 1 (Complexity: S/M/L)\n\n**Complexity Legend:**\n- S (Small): < 2 hours\n- M (Medium): 2-8 hours\n- L (Large): > 8 hours\n\n## Validation Plan\n\n### Testing\n- What tests will be written?\n- How will we validate correctness?\n\n### Quality Checks\n- [ ] Tests pass\n- [ ] Linters pass\n- [ ] Documentation updated\n- [ ] Performance benchmarks met\n\n### Acceptance Criteria\n- [ ] Feature works on happy path\n- [ ] Error cases handled\n- [ ] Edge cases covered\n- [ ] Performance meets requirements\n\n## Risks & Mit" : String).data ++ ("igations\n\n" : String).data := rfl
  have eq2 : ((eplan1).data ++ (eplan2).data) ++ (eplan3).data = ((eplan1).data ++ ("## Implementation Tasks\n\n### Phase 1: [Phase Name]\n- [ ] Task 1 (Complexity: S/M/L)\n- [ ] Task 2 (Complexity: S/M/L)\n- [ ] Task 3 (Complexity: S/M/L)\n\n### Phase 2: [Phase Name]\n- [ ] Task 1 (Complexity: S/M/L)\n- [ ] Task 2 (Complexity: S/M/L)\n\n### Phase 3: [Phase Name]\n- [ ] Task 1 (Complexity: S/M/L)\n\n**Complexity Legend:**\n- S (Small): < 2 hours\n- M (Medium): 2-8 hours\n- L (Large): > 8 hours\n\n## Validation Plan\n\n### Testing\n- What tests will be written?\n- How will we validate correctness?\n\n### Quality Checks\n- [ ] Tests pass\n- [ ] Linters pass\n- [ ] Documentation updated\n- [ ] Performance benchmarks met\n\n### Acceptance Criteria\n- [ ] Feature works on happy path\n- [ ] Error cases handled\n- [ ] Edge cases covered\n- [ ] Performance meets requirements\n\n## Risks & Mit" : String).data) ++ (("igations\n\n" : String).data ++ (eplan3).data) := by
    rw [sp2, ← List.append_assoc (eplan1).data ("## Implementation Tasks\n\n### Phase 1: [Phase Name]\n- [ ] Task 1 (Complexity: S/M/L)\n- [ ] Task 2 (Complexity: S/M/L)\n- [ ] Task 3 (Complexity: S/M/L)\n\n### Phase 2: [Phase Name]\n- [ ] Task 1 (Complexity: S/M/L)\n- [ ] Task 2 (Complexity: S/M/L)\n\n### Phase 3: [Phase Name]\n- [ ] Task 1 (Complexity: S/M/L)\n\n**Complexity Legend:**\n- S (Small): < 2 hours\n- M (Medium): 2-8 hours\n- L (Large): > 8 hours\n\n## Validation Plan\n\n### Testing\n- What tests will be written?\n- How will we validate correctness?\n\n### Quality Checks\n- [ ] Tests pass\n- [ ] Linters pass\n- [ ] Documentation updated\n- [ ] Performance benchmarks met\n\n### Acceptance Criteria\n- [ ] Feature works on happy path\n- [ ] Error cases handled\n- [ ] Edge cases covered\n- [ ] Performance meets requirements\n\n## Risks & Mit" : String).data ("igations\n\n" : String).data, List.append_assoc ((eplan1).data ++ ("## Implementation Tasks\n\n### Phase 1: [Phase Name]\n- [ ] Task 1 (Complexity: S/M/L)\n- [ ] Task 2 (Complexity: S/M/L)\n- [ ] Task 3 (Complexity: S/M/L)\n\n### Phase 2: [Phase Name]\n- [ ] Task 1 (Complexity: S/M/L)\n- [ ] Task 2 (Complexity: S/M/L)\n\n### Phase 3: [Phase Name]\n- [ ] Task 1 (Complexity: S/M/L)\n\n**Complexity Legend:**\n- S (Small): < 2 hours\n- M (Medium): 2-8 hours\n- L (Large): > 8 hours\n\n## Validation Plan\n\n### Testing\n- What tests will be written?\n- How will we validate correctness?\n\n### Quality Checks\n- [ ] Tests pass\n- [ ] Linters pass\n- [ ] Documentation updated\n- [ ] Performance benchmarks met\n\n### Acceptance Criteria\n- [ ] Feature works on happy path\n- [ ] Error cases handled\n- [ ] Edge cases covered\n- [ ] Performance meets requirements\n\n## Risks & Mit" : String).data) ("igations\n\n" : String).data (eplan3).data]
  have c2 : containsSub frontendNeedle.data (("igations\n\n" : String).data ++ (eplan3).data) = false := rfl
  have b2 : containsSub frontendNeedle.data (((eplan1).data ++ ("## Implementation Tasks\n\n### Phase 1: [Phase Name]\n- [ ] Task 1 (Complexity: S/M/L)\n- [ ] Task 2 (Complexity: S/M/L)\n- [ ] Task 3 (Complexity: S/M/L)\n\n### Phase 2: [Phase Name]\n- [ ] Task 1 (Complexity: S/M/L)\n- [ ] Task 2 (Complexity: S/M/L)\n\n### Phase 3: [Phase Name]\n- [ ] Task 1 (Complexity: S/M/L)\n\n**Complexity Legend:**\n- S (Small): < 2 hours\n- M (Medium): 2-8 hours\n- L (Large): > 8 hours\n\n## Validation Plan\n\n### Testing\n- What tests will be written?\n- How will we validate correctness?\n\n### Quality Checks\n- [ ] Tests pass\n- [ ] Linters pass\n- [ ] Documentation updated\n- [ ] Performance benchmarks met\n\n### Acceptance Criteria\n- [ ] Feature works on happy path\n- [ ] Error cases handled\n- [ ] Edge cases covered\n- [ ] Performance meets requirements\n\n## Risks & Mit" : String).data) ++ ("igations\n\n" : String).data) = false := by
    rw [List.append_assoc (eplan1).data ("## Implementation Tasks\n\n### Phase 1: [Phase Name]\n- [ ] Task 1 (Complexity: S/M/L)\n- [ ] Task 2 (Complexity: S/M/L)\n- [ ] Task 3 (Complexity: S/M/L)\n\n### Phase 2: [Phase Name]\n- [ ] Task 1 (Complexity: S/M/L)\n- [ ] Task 2 (Complexity: S/M/L)\n\n### Phase 3: [Phase Name]\n- [ ] Task 1 (Complexity: S/M/L)\n\n**Complexity Legend:**\n- S (Small): < 2 hours\n- M (Medium): 2-8 hours\n- L (Large): > 8 hours\n\n## Validation Plan\n\n### Testing\n- What tests will be written?\n- How will we validate correctness?\n\n### Quality Checks\n- [ ] Tests pass\n- [ ] Linters pass\n- [ ] Documentation updated\n- [ ] Performance benchmarks met\n\n### Acceptance Criteria\n- [ ] Feature works on happy path\n- [ ] Error cases handled\n- [ ] Edge cases covered\n- [ ] Performance meets requirements\n\n## Risks & Mit" : String).data ("igations\n\n" : String).data, ← sp2]
    exact h1
  have h2 : containsSub frontendNeedle.data (((eplan1).data ++ (eplan2).data) ++ (eplan3).data) = false := by
    rw [eq2, containsSub_chain ((eplan1).data ++ ("## Implementation Tasks\n\n### Phase 1: [Phase Name]\n- [ ] Task 1 (Complexity: S/M/L)\n- [ ] Task 2 (Complexity: S/M/L)\n- [ ] Task 3 (Complexity: S/M/L)\n\n### Phase 2: [Phase Name]\n- [ ] Task 1 (Complexity: S/M/L)\n- [ ] Task 2 (Complexity: S/M/L)\n\n### Phase 3: [Phase Name]\n- [ ] Task 1 (Complexity: S/M/L)\n\n**Complexity Legend:**\n- S (Small): < 2 hours\n- M (Medium): 2-8 hours\n- L (Large): > 8 hours\n\n## Validation Plan\n\n### Testing\n- What tests will be written?\n- How will we validate correctness?\n\n### Quality Checks\n- [ ] Tests pass\n- [ ] Linters pass\n- [ ] Documentation updated\n- [ ] Performance benchmarks met\n\n### Acceptance Criteria\n- [ ] Feature works on happy path\n- [ ] Error cases handled\n- [ ] Edge cases covered\n- [ ] Performance meets requirements\n\n## Risks & Mit" : String).data) ("igations\n\n" : String).data (eplan3).data frontendNeedle.data (by decide), b2, c2]
    rfl
  exact h2

theorem noFr_pspec : containsSub frontendNeedle.data (getProductSpecTemplate).data = false := by
  unfold getProductSpecTemplate
  rw [strDataAppend, strDataAppend]
  have h0 : containsSub frontendNeedle.data (pspec1).data = false := rfl
  have sp1 : (pspec1).data = ("# [Feature Name]\n\n**Status:** [Draft | In Review | Approved | In Development | Shipped]\n**Owner:** [Product/Human]\n**Created:** YYYY-MM-DD\n**Target Ship:** YYYY-MM-DD\n\n## Overview\n\nOne-paragraph summary of what this feature is and why it matters.\n\n## Problem Statement\n\n### User Pain Point\nWhat problem do users have today?\n\n### Evidence\nHow do we know this is a problem? (User feedback, data, support tickets, etc.)\n\n### Impact\nWho is affected? How many users?\n\n## Goals\n\n### User Goals\nWhat does the user want to accomplish?\n\n### Business Goals\nWhat business metric does this move?\n\n### Success Metrics\nHow will we measure success?\n- Metric 1: Target value\n- Metric 2: Target value\n\n## User Stories\n\n### Primary User Story\n**As a** [type of user]\n**I want** [goal]\n**So that** [benefit]\n\n### Additional Use" : String).data ++ ("r Stories\n" : String).data := rfl
  have eq1 : (pspec1).data ++ (pspec2).data = ("# [Feature Name]\n\n**Status:** [Draft | In Review | Approved | In Development | Shipped]\n**Owner:** [Product/Human]\n**Created:** YYYY-MM-DD\n**Target Ship:** YYYY-MM-DD\n\n## Overview\n\nOne-paragraph summary of what this feature is and why it matters.\n\n## Problem Statement\n\n### User Pain Point\nWhat problem do users have today?\n\n### Evidence\nHow do we know this is a problem? (User feedback, data, support tickets, etc.)\n\n### Impact\nWho is affected? How many users?\n\n## Goals\n\n### User Goals\nWhat does the user want to accomplish?\n\n### Business Goals\nWhat business metric does this move?\n\n### Success Metrics\nHow will we measure success?\n- Metric 1: Target value\n- Metric 2: Target value\n\n## User Stories\n\n### Primary User Story\n**As a** [type of user]\n**I want** [goal]\n**So that** [benefit]\n\n### Additional Use" : String).data ++ (("r Stories\n" : String).data ++ (pspec2).data) := by
    rw [sp1, List.append_assoc ("# [Feature Name]\n\n**Status:** [Draft | In Review | Approved | In Development | Shipped]\n**Owner:** [Product/Human]\n**Created:** YYYY-MM-DD\n**Target Ship:** YYYY-MM-DD\n\n## Overview\n\nOne-paragraph summary of what this feature is and why it matters.\n\n## Problem Statement\n\n### User Pain Point\nWhat problem do users have today?\n\n### Evidence\nHow do we know this is a problem? (User feedback, data, support tickets, etc.)\n\n### Impact\nWho is affected? How many users?\n\n## Goals\n\n### User Goals\nWhat does the user want to accomplish?\n\n### Business Goals\nWhat business metric does this move?\n\n### Success Metrics\nHow will we measure success?\n- Metric 1: Target value\n- Metric 2: Target value\n\n## User Stories\n\n### Primary User Story\n**As a** [type of user]\n**I want** [goal]\n**So that** [benefit]\n\n### Additional Use" : String).data ("r Stories\n" : String).data (pspec2).data]
  have c1 : containsSub frontendNeedle.data (("r Stories\n" : String).data ++ (pspec2).data) = false := rfl
  have b1 : containsSub frontendNeedle.data (("# [Feature Name]\n\n**Status:** [Draft | In Review | Approved | In Development | Shipped]\n**Owner:** [Product/Human]\n**Created:** YYYY-MM-DD\n**Target Ship:** YYYY-MM-DD\n\n## Overview\n\nOne-paragraph summary of what this feature is and why it matters.\n\n## Problem Statement\n\n### User Pain Point\nWhat problem do users have today?\n\n### Evidence\nHow do we know this is a problem? (User feedback, data, support tickets, etc.)\n\n### Impact\nWho is affected? How many users?\n\n## Goals\n\n### User Goals\nWhat does the user want to accomplish?\n\n### Business Goals\nWhat business metric does this move?\n\n### Success Metrics\nHow will we measure success?\n- Metric 1: Target value\n- Metric 2: Target value\n\n## User Stories\n\n### Primary User Story\n**As a** [type of user]\n**I want** [goal]\n**So that** [benefit]\n\n### Additional Use" : String).data ++ ("r Stories\n" : String).data) = false := by
    rw [← sp1]
    exact h0
  have h1 : containsSub frontendNeedle.data ((pspec1).data ++ (pspec2).data) = false := by
    rw [eq1, containsSub_chain ("# [Feature Name]\n\n**Status:** [Draft | In Review | Approved | In Development | Shipped]\n**Owner:** [Product/Human]\n**Created:** YYYY-MM-DD\n**Target Ship:** YYYY-MM-DD\n\n## Overview\n\nOne-paragraph summary of what this feature is and why it matters.\n\n## Problem Statement\n\n### User Pain Point\nWhat problem do users have today?\n\n### Evidence\nHow do we know this is a problem? (User feedback, data, support tickets, etc.)\n\n### Impact\nWho is affected? How many users?\n\n## Goals\n\n### User Goals\nWhat does the user want to accomplish?\n\n### Business Goals\nWhat business metric does this move?\n\n### Success Metrics\nHow will we measure success?\n- Metric 1: Target value\n- Metric 2: Target value\n\n## User Stories\n\n### Primary User Story\n**As a** [type of user]\n**I want** [goal]\n**So that** [benefit]\n\n### Additional Use" : String).data ("r Stories\n" : String).data (pspec2).data frontendNeedle.data (by decide), b1, c1]
    rfl
  have sp2 : (pspec2).data = ("- **As a** ... **I want** ... **So that** ...\n- **As a** ... **I want** ... **So that** ...\n\n## User Experience\n\n### User Flow\n1. User does X\n2. System responds with Y\n3. User sees Z\n\n### Mockups/Wireframes\n[Link to designs or embed images]\n\n### Edge Cases\n- What happens if X?\n- What if user does Y?\n\n## Requirements\n\n### Functional Requirements\n- [ ] Requirement 1\n- [ ] Requirement 2\n- [ ] Requirement 3\n\n### Non-Functional Requirements\n- [ ] Performance: < Xms response time\n- [ ] Accessibility: WCAG 2.1 AA compliant\n- [ ] Security: [Specific security requirements]\n\n### Out of Scope\n- Explicitly not included in this version\n\n## Technical Considerations\n\n### Technical Constraints\nAny technical limitations or requirements?\n\n### Dependencies\nWhat other systems/features does this depend on?\n\n### Data Req" : String).data ++ ("uirements\n" : String).data := rfl
  have eq2 : ((pspec1).data ++ (pspec2).data) ++ (pspec3).data = ((pspec1).data ++ ("- **As a** ... **I want** ... **So that** ...\n- **As a** ... **I want** ... **So that** ...\n\n## User Experience\n\n### User Flow\n1. User does X\n2. System responds with Y\n3. User sees Z\n\n### Mockups/Wireframes\n[Link to designs or embed images]\n\n### Edge Cases\n- What happens if X?\n- What if user does Y?\n\n## Requirements\n\n### Functional Requirements\n- [ ] Requirement 1\n- [ ] Requirement 2\n- [ ] Requirement 3\n\n### Non-Functional Requirements\n- [ ] Performance: < Xms response time\n- [ ] Accessibility: WCAG 2.1 AA compliant\n- [ ] Security: [Specific security requirements]\n\n### Out of Scope\n- Explicitly not included in this version\n\n## Technical Considerations\n\n### Technical Constraints\nAny technical limitations or requirements?\n\n### Dependencies\nWhat other systems/features does this depend on?\n\n### Data Req" : String).data) ++ (("uirements\n" : String).data ++ (pspec3).data) := by
    rw [sp2, ← List.append_assoc (pspec1).data ("- **As a** ... **I want** ... **So that** ...\n- **As a** ... **I want** ... **So that** ...\n\n## User Experience\n\n### User Flow\n1. User does X\n2. System responds with Y\n3. User sees Z\n\n### Mockups/Wireframes\n[Link to designs or embed images]\n\n### Edge Cases\n- What happens if X?\n- What if user does Y?\n\n## Requirements\n\n### Functional Requirements\n- [ ] Requirement 1\n- [ ] Requirement 2\n- [ ] Requirement 3\n\n### Non-Functional Requirements\n- [ ] Performance: < Xms response time\n- [ ] Accessibility: WCAG 2.1 AA compliant\n- [ ] Security: [Specific security requirements]\n\n### Out of Scope\n- Explicitly not included in this version\n\n## Technical Considerations\n\n### Technical Constraints\nAny technical limitations or requirements?\n\n### Dependencies\nWhat other systems/features does this depend on?\n\n### Data Req" : String).data ("uirements\n" : String).data, List.append_assoc ((pspec1).data ++ ("- **As a** ... **I want** ... **So that** ...\n- **As a** ... **I want** ... **So that** ...\n\n## User Experience\n\n### User Flow\n1. User does X\n2. System responds with Y\n3. User sees Z\n\n### Mockups/Wireframes\n[Link to designs or embed images]\n\n### Edge Cases\n- What happens if X?\n- What if user does Y?\n\n## Requirements\n\n### Functional Requirements\n- [ ] Requirement 1\n- [ ] Requirement 2\n- [ ] Requirement 3\n\n### Non-Functional Requirements\n- [ ] Performance: < Xms response time\n- [ ] Accessibility: WCAG 2.1 AA compliant\n- [ ] Security: [Specific security requirements]\n\n### Out of Scope\n- Explicitly not included in this version\n\n## Technical Considerations\n\n### Technical Constraints\nAny technical limitations or requirements?\n\n### Dependencies\nWhat other systems/features does this depend on?\n\n### Data Req" : String).data) ("uirements\n" : String).data (pspec3).data]
  have c2 : containsSub frontendNeedle.data (("uirements\n" : String).data ++ (pspec3).data) = false := rfl
  have b2 : containsSub frontendNeedle.data (((pspec1).data ++ ("- **As a** ... **I want** ... **So that** ...\n- **As a** ... **I want** ... **So that** ...\n\n## User Experience\n\n### User Flow\n1. User does X\n2. System responds with Y\n3. User sees Z\n\n### Mockups/Wireframes\n[Link to designs or embed images]\n\n### Edge Cases\n- What happens if X?\n- What if user does Y?\n\n## Requirements\n\n### Functional Requirements\n- [ ] Requirement 1\n- [ ] Requirement 2\n- [ ] Requirement 3\n\n### Non-Functional Requirements\n- [ ] Performance: < Xms response time\n- [ ] Accessibility: WCAG 2.1 AA compliant\n- [ ] Security: [Specific security requirements]\n\n### Out of Scope\n- Explicitly not included in this version\n\n## Technical Considerations\n\n### Technical Constraints\nAny technical limitations or requirements?\n\n### Dependencies\nWhat other systems/features does this depend on?\n\n### Data Req" : String).data) ++ ("uirements\n" : String).data) = false := by
    rw [List.append_assoc (pspec1).data ("- **As a** ... **I want** ... **So that** ...\n- **As a** ... **I want** ... **So that** ...\n\n## User Experience\n\n### User Flow\n1. User does X\n2. System responds with Y\n3. User sees Z\n\n### Mockups/Wireframes\n[Link to designs or embed images]\n\n### Edge Cases\n- What happens if X?\n- What if user does Y?\n\n## Requirements\n\n### Functional Requirements\n- [ ] Requirement 1\n- [ ] Requirement 2\n- [ ] Requirement 3\n\n### Non-Functional Requirements\n- [ ] Performance: < Xms response time\n- [ ] Accessibility: WCAG 2.1 AA compliant\n- [ ] Security: [Specific security requirements]\n\n### Out of Scope\n- Explicitly not included in this version\n\n## Technical Considerations\n\n### Technical Constraints\nAny technical limitations or requirements?\n\n### Dependencies\nWhat other systems/features does this depend on?\n\n### Data Req" : String).data ("uirements\n" : String).data, ← sp2]
    exact h1
  have h2 : containsSub frontendNeedle.data (((pspec1).data ++ (pspec2).data) ++ (pspec3).data) = false := by
    rw [eq2, containsSub_chain ((pspec1).data ++ ("- **As a** ... **I want** ... **So that** ...\n- **As a** ... **I want** ... **So that** ...\n\n## User Experience\n\n### User Flow\n1. User does X\n2. System responds with Y\n3. User sees Z\n\n### Mockups/Wireframes\n[Link to designs or embed images]\n\n### Edge Cases\n- What happens if X?\n- What if user does Y?\n\n## Requirements\n\n### Functional Requirements\n- [ ] Requirement 1\n- [ ] Requirement 2\n- [ ] Requirement 3\n\n### Non-Functional Requirements\n- [ ] Performance: < Xms response time\n- [ ] Accessibility: WCAG 2.1 AA compliant\n- [ ] Security: [Specific security requirements]\n\n### Out of Scope\n- Explicitly not included in this version\n\n## Technical Considerations\n\n### Technical Constraints\nAny technical limitations or requirements?\n\n### Dependencies\nWhat other systems/features does this depend on?\n\n### Data Req" : String).data) ("uirements\n" : String).data (pspec3).data frontendNeedle.data (by decide), b2, c2]
    rfl
  exact h2

theorem noFr_tdebt : containsSub frontendNeedle.data (getTechDebtTrackerTemplate).data = false := by
  unfold getTechDebtTrackerTemplate
  rw [strDataAppend, strDataAppend]
  have h0 : containsSub frontendNeedle.data (tdebt1).data = false := rfl
  have sp1 : (tdebt1).data = ("# Technical Debt Tracker\n\n**Last Updated:** YYYY-MM-DD\n\n## Active Technical Debt\n\n### P0 - Critical (Must Fix)\n| Item | Description | Impact | Created | Owner | Tracked In |\n|------|-------------|--------|---------|-------|------------|\n| TBD  | Description | High   | Date    | Agent/Human | Issue/PR |\n\n### P1 - High Priority (Fix Soon)\n| Item | Description | Impact | Created | Owner | Tracked In |\n|------|-------------|--------|---------|-------|------------|\n| TBD  | Description | Medium | Date    | Agent/Human | Issue/PR |\n\n### P2 - Medium Priority (Plan to Fix)\n| Item | Description | Impact | Created | Owner | Tracked In |\n|------|-------------|--------|---------|-------|------------|\n| TBD  | Description | Low-Medium | Date | Agent/Human | Issue/PR |\n\n### P3 - Low Priority (Nice" : String).data ++ (" to Have)\n" : String).data := rfl
  have eq1 : (tdebt1).data ++ (tdebt2).data = ("# Technical Debt Tracker\n\n**Last Updated:** YYYY-MM-DD\n\n## Active Technical Debt\n\n### P0 - Critical (Must Fix)\n| Item | Description | Impact | Created | Owner | Tracked In |\n|------|-------------|--------|---------|-------|------------|\n| TBD  | Description | High   | Date    | Agent/Human | Issue/PR |\n\n### P1 - High Priority (Fix Soon)\n| Item | Description | Impact | Created | Owner | Tracked In |\n|------|-------------|--------|---------|-------|------------|\n| TBD  | Description | Medium | Date    | Agent/Human | Issue/PR |\n\n### P2 - Medium Priority (Plan to Fix)\n| Item | Description | Impact | Created | Owner | Tracked In |\n|------|-------------|--------|---------|-------|------------|\n| TBD  | Description | Low-Medium | Date | Agent/Human | Issue/PR |\n\n### P3 - Low Priority (Nice" : String).data ++ ((" to Have)\n" : String).data ++ (tdebt2).data) := by
    rw [sp1, List.append_assoc ("# Technical Debt Tracker\n\n**Last Updated:** YYYY-MM-DD\n\n## Active Technical Debt\n\n### P0 - Critical (Must Fix)\n| Item | Description | Impact | Created | Owner | Tracked In |\n|------|-------------|--------|---------|-------|------------|\n| TBD  | Description | High   | Date    | Agent/Human | Issue/PR |\n\n### P1 - High Priority (Fix Soon)\n| Item | Description | Impact | Created | Owner | Tracked In |\n|------|-------------|--------|---------|-------|------------|\n| TBD  | Description | Medium | Date    | Agent/Human | Issue/PR |\n\n### P2 - Medium Priority (Plan to Fix)\n| Item | Description | Impact | Created | Owner | Tracked In |\n|------|-------------|--------|---------|-------|------------|\n| TBD  | Description | Low-Medium | Date | Agent/Human | Issue/PR |\n\n### P3 - Low Priority (Nice" : String).data (" to Have)\n" : String).data (tdebt2).data]
  have c1 : containsSub frontendNeedle.data ((" to Have)\n" : String).data ++ (tdebt2).data) = false := rfl
  have b1 : containsSub frontendNeedle.data (("# Technical Debt Tracker\n\n**Last Updated:** YYYY-MM-DD\n\n## Active Technical Debt\n\n### P0 - Critical (Must Fix)\n| Item | Description | Impact | Created | Owner | Tracked In |\n|------|-------------|--------|---------|-------|------------|\n| TBD  | Description | High   | Date    | Agent/Human | Issue/PR |\n\n### P1 - High Priority (Fix Soon)\n| Item | Description | Impact | Created | Owner | Tracked In |\n|------|-------------|--------|---------|-------|------------|\n| TBD  | Description | Medium | Date    | Agent/Human | Issue/PR |\n\n### P2 - Medium Priority (Plan to Fix)\n| Item | Description | Impact | Created | Owner | Tracked In |\n|------|-------------|--------|---------|-------|------------|\n| TBD  | Description | Low-Medium | Date | Agent/Human | Issue/PR |\n\n### P3 - Low Priority (Nice" : String).data ++ (" to Have)\n" : String).data) = false := by
    rw [← sp1]
    exact h0
  have h1 : containsSub frontendNeedle.data ((tdebt1).data ++ (tdebt2).data) = false := by
    rw [eq1, containsSub_chain ("# Technical Debt Tracker\n\n**Last Updated:** YYYY-MM-DD\n\n## Active Technical Debt\n\n### P0 - Critical (Must Fix)\n| Item | Description | Impact | Created | Owner | Tracked In |\n|------|-------------|--------|---------|-------|------------|\n| TBD  | Description | High   | Date    | Agent/Human | Issue/PR |\n\n### P1 - High Priority (Fix Soon)\n| Item | Description | Impact | Created | Owner | Tracked In |\n|------|-------------|--------|---------|-------|------------|\n| TBD  | Description | Medium | Date    | Agent/Human | Issue/PR |\n\n### P2 - Medium Priority (Plan to Fix)\n| Item | Description | Impact | Created | Owner | Tracked In |\n|------|-------------|--------|---------|-------|------------|\n| TBD  | Description | Low-Medium | Date | Agent/Human | Issue/PR |\n\n### P3 - Low Priority (Nice" : String).data (" to Have)\n" : String).data (tdebt2).data frontendNeedle.data (by decide), b1, c1]
    rfl
  have sp2 : (tdebt2).data = ("| Item | Description | Impact | Created | Owner | Tracked In |\n|------|-------------|--------|---------|-------|------------|\n| TBD  | Description | Low    | Date    | Agent/Human | Issue/PR |\n\n## Debt Categories\n\n### Code Quality\n- Duplicated code that should be abstracted\n- Complex functions that need refactoring\n- Missing error handling\n- Inconsistent patterns\n\n### Testing\n- Missing test coverage\n- Flaky tests\n- Test infrastructure improvements\n\n### Documentation\n- Outdated documentation\n- Missing API documentation\n- Unclear code comments\n\n### Performance\n- Known performance bottlenecks\n- Missing performance monitoring\n- Unoptimized queries\n\n### Security\n- Known security vulnerabilities\n- Missing security controls\n- Outdated dependencies\n\n### Infrastructure\n- Configuration manageme" : String).data ++ ("nt issues\n" : String).data := rfl
  have eq2 : ((tdebt1).data ++ (tdebt2).data) ++ (tdebt3).data = ((tdebt1).data ++ ("| Item | Description | Impact | Created | Owner | Tracked In |\n|------|-------------|--------|---------|-------|------------|\n| TBD  | Description | Low    | Date    | Agent/Human | Issue/PR |\n\n## Debt Categories\n\n### Code Quality\n- Duplicated code that should be abstracted\n- Complex functions that need refactoring\n- Missing error handling\n- Inconsistent patterns\n\n### Testing\n- Missing test coverage\n- Flaky tests\n- Test infrastructure improvements\n\n### Documentation\n- Outdated documentation\n- Missing API documentation\n- Unclear code comments\n\n### Performance\n- Known performance bottlenecks\n- Missing performance monitoring\n- Unoptimized queries\n\n### Security\n- Known security vulnerabilities\n- Missing security controls\n- Outdated dependencies\n\n### Infrastructure\n- Configuration manageme" : String).data) ++ (("nt issues\n" : String).data ++ (tdebt3).data) := by
    rw [sp2, ← List.append_assoc (tdebt1).data ("| Item | Description | Impact | Created | Owner | Tracked In |\n|------|-------------|--------|---------|-------|------------|\n| TBD  | Description | Low    | Date    | Agent/Human | Issue/PR |\n\n## Debt Categories\n\n### Code Quality\n- Duplicated code that should be abstracted\n- Complex functions that need refactoring\n- Missing error handling\n- Inconsistent patterns\n\n### Testing\n- Missing test coverage\n- Flaky tests\n- Test infrastructure improvements\n\n### Documentation\n- Outdated documentation\n- Missing API documentation\n- Unclear code comments\n\n### Performance\n- Known performance bottlenecks\n- Missing performance monitoring\n- Unoptimized queries\n\n### Security\n- Known security vulnerabilities\n- Missing security controls\n- Outdated dependencies\n\n### Infrastructure\n- Configuration manageme" : String).data ("nt issues\n" : String).data, List.append_assoc ((tdebt1).data ++ ("| Item | Description | Impact | Created | Owner | Tracked In |\n|------|-------------|--------|---------|-------|------------|\n| TBD  | Description | Low    | Date    | Agent/Human | Issue/PR |\n\n## Debt Categories\n\n### Code Quality\n- Duplicated code that should be abstracted\n- Complex functions that need refactoring\n- Missing error handling\n- Inconsistent patterns\n\n### Testing\n- Missing test coverage\n- Flaky tests\n- Test infrastructure improvements\n\n### Documentation\n- Outdated documentation\n- Missing API documentation\n- Unclear code comments\n\n### Performance\n- Known performance bottlenecks\n- Missing performance monitoring\n- Unoptimized queries\n\n### Security\n- Known security vulnerabilities\n- Missing security controls\n- Outdated dependencies\n\n### Infrastructure\n- Configuration manageme" : String).data) ("nt issues\n" : String).data (tdebt3).data]
  have c2 : containsSub frontendNeedle.data (("nt issues\n" : String).data ++ (tdebt3).data) = false := rfl
  have b2 : containsSub frontendNeedle.data (((tdebt1).data ++ ("| Item | Description | Impact | Created | Owner | Tracked In |\n|------|-------------|--------|---------|-------|------------|\n| TBD  | Description | Low    | Date    | Agent/Human | Issue/PR |\n\n## Debt Categories\n\n### Code Quality\n- Duplicated code that should be abstracted\n- Complex functions that need refactoring\n- Missing error handling\n- Inconsistent patterns\n\n### Testing\n- Missing test coverage\n- Flaky tests\n- Test infrastructure improvements\n\n### Documentation\n- Outdated documentation\n- Missing API documentation\n- Unclear code comments\n\n### Performance\n- Known performance bottlenecks\n- Missing performance monitoring\n- Unoptimized queries\n\n### Security\n- Known security vulnerabilities\n- Missing security controls\n- Outdated dependencies\n\n### Infrastructure\n- Configuration manageme" : String).data) ++ ("nt issues\n" : String).data) = false := by
    rw [List.append_assoc (tdebt1).data ("| Item | Description | Impact | Created | Owner | Tracked In |\n|------|-------------|--------|---------|-------|------------|\n| TBD  | Description | Low    | Date    | Agent/Human | Issue/PR |\n\n## Debt Categories\n\n### Code Quality\n- Duplicated code that should be abstracted\n- Complex functions that need refactoring\n- Missing error handling\n- Inconsistent patterns\n\n### Testing\n- Missing test coverage\n- Flaky tests\n- Test infrastructure improvements\n\n### Documentation\n- Outdated documentation\n- Missing API documentation\n- Unclear code comments\n\n### Performance\n- Known performance bottlenecks\n- Missing performance monitoring\n- Unoptimized queries\n\n### Security\n- Known security vulnerabilities\n- Missing security controls\n- Outdated dependencies\n\n### Infrastructure\n- Configuration manageme" : String).data ("nt issues\n" : String).data, ← sp2]
    exact h1
  have h2 : containsSub frontendNeedle.data (((tdebt1).data ++ (tdebt2).data) ++ (tdebt3).data) = false := by
    rw [eq2, containsSub_chain ((tdebt1).data ++ ("| Item | Description | Impact | Created | Owner | Tracked In |\n|------|-------------|--------|---------|-------|------------|\n| TBD  | Description | Low    | Date    | Agent/Human | Issue/PR |\n\n## Debt Categories\n\n### Code Quality\n- Duplicated code that should be abstracted\n- Complex functions that need refactoring\n- Missing error handling\n- Inconsistent patterns\n\n### Testing\n- Missing test coverage\n- Flaky tests\n- Test infrastructure improvements\n\n### Documentation\n- Outdated documentation\n- Missing API documentation\n- Unclear code comments\n\n### Performance\n- Known performance bottlenecks\n- Missing performance monitoring\n- Unoptimized queries\n\n### Security\n- Known security vulnerabilities\n- Missing security controls\n- Outdated dependencies\n\n### Infrastructure\n- Configuration manageme" : String).data) ("nt issues\n" : String).data (tdebt3).data frontendNeedle.data (by decide), b2, c2]
    rfl
  exact h2

theorem noFr_cbel : containsSub frontendNeedle.data (getCoreBeliefsTemplate).data = false := by
  unfold getCoreBeliefsTemplate
  rw [strDataAppend, strDataAppend, strDataAppend, strDataAppend, strDataAppend]
  have h0 : containsSub frontendNeedle.data (cbel1).data = false := rfl
  have sp1 : (cbel1).data = ("# Core Beliefs\n\n**Fundamental principles for agent-first development in this repository.**\n\nLast Updated: YYYY-MM-DD\n\n## Agent-First Operating Principles\n\n### 1. Repository is the Source of Truth\n**Belief:** If it\x27s not in the repository, it doesn\x27t exist to agents.\n\n**Implications:**\n- All knowledge must be versioned in the repository\n- Slack discussions must be captured in design docs\n- External docs must be extracted to \x60docs/references/\x60\n- Decisions must be documented, not just discussed\n\n### 2. Progressive Disclosure\n**Belief:** Give agents a map, not an encyclopedia.\n\n**Implications:**\n- AGENTS.md is a table of contents (~100 lines)\n- Detailed docs live in \x60docs/\x60 directory\n- Links provide navigation, not inline walls of text\n- Context grows as needed, not all up-front\n\n### 3. Enforce Mec" : String).data ++ ("hanically\n" : String).data := rfl
  have eq1 : (cbel1).data ++ (cbel2).data = ("# Core Beliefs\n\n**Fundamental principles for agent-first development in this repository.**\n\nLast Updated: YYYY-MM-DD\n\n## Agent-First Operating Principles\n\n### 1. Repository is the Source of Truth\n**Belief:** If it\x27s not in the repository, it doesn\x27t exist to agents.\n\n**Implications:**\n- All knowledge must be versioned in the repository\n- Slack discussions must be captured in design docs\n- External docs must be extracted to \x60docs/references/\x60\n- Decisions must be documented, not just discussed\n\n### 2. Progressive Disclosure\n**Belief:** Give agents a map, not an encyclopedia.\n\n**Implications:**\n- AGENTS.md is a table of contents (~100 lines)\n- Detailed docs live in \x60docs/\x60 directory\n- Links provide navigation, not inline walls of text\n- Context grows as needed, not all up-front\n\n### 3. Enforce Mec" : String).data ++ (("hanically\n" : String).data ++ (cbel2).data) := by
    rw [sp1, List.append_assoc ("# Core Beliefs\n\n**Fundamental principles for agent-first development in this repository.**\n\nLast Updated: YYYY-MM-DD\n\n## Agent-First Operating Principles\n\n### 1. Repository is the Source of Truth\n**Belief:** If it\x27s not in the repository, it doesn\x27t exist to agents.\n\n**Implications:**\n- All knowledge must be versioned in the repository\n- Slack discussions must be captured in design docs\n- External docs must be extracted to \x60docs/references/\x60\n- Decisions must be documented, not just discussed\n\n### 2. Progressive Disclosure\n**Belief:** Give agents a map, not an encyclopedia.\n\n**Implications:**\n- AGENTS.md is a table of contents (~100 lines)\n- Detailed docs live in \x60docs/\x60 directory\n- Links provide navigation, not inline walls of text\n- Context grows as needed, not all up-front\n\n### 3. Enforce Mec" : String).data ("hanically\n" : String).data (cbel2).data]
  have c1 : containsSub frontendNeedle.data (("hanically\n" : String).data ++ (cbel2).data) = false := rfl
  have b1 : containsSub frontendNeedle.data (("# Core Beliefs\n\n**Fundamental principles for agent-first development in this repository.**\n\nLast Updated: YYYY-MM-DD\n\n## Agent-First Operating Principles\n\n### 1. Repository is the Source of Truth\n**Belief:** If it\x27s not in the repository, it doesn\x27t exist to agents.\n\n**Implications:**\n- All knowledge must be versioned in the repository\n- Slack discussions must be captured in design docs\n- External docs must be extracted to \x60docs/references/\x60\n- Decisions must be documented, not just discussed\n\n### 2. Progressive Disclosure\n**Belief:** Give agents a map, not an encyclopedia.\n\n**Implications:**\n- AGENTS.md is a table of contents (~100 lines)\n- Detailed docs live in \x60docs/\x60 directory\n- Links provide navigation, not inline walls of text\n- Context grows as needed, not all up-front\n\n### 3. Enforce Mec" : String).data ++ ("hanically\n" : String).data) = false := by
    rw [← sp1]
    exact h0
  have h1 : containsSub frontendNeedle.data ((cbel1).data ++ (cbel2).data) = false := by
    rw [eq1, containsSub_chain ("# Core Beliefs\n\n**Fundamental principles for agent-first development in this repository.**\n\nLast Updated: YYYY-MM-DD\n\n## Agent-First Operating Principles\n\n### 1. Repository is the Source of Truth\n**Belief:** If it\x27s not in the repository, it doesn\x27t exist to agents.\n\n**Implications:**\n- All knowledge must be versioned in the repository\n- Slack discussions must be captured in design docs\n- External docs must be extracted to \x60docs/references/\x60\n- Decisions must be documented, not just discussed\n\n### 2. Progressive Disclosure\n**Belief:** Give agents a map, not an encyclopedia.\n\n**Implications:**\n- AGENTS.md is a table of contents (~100 lines)\n- Detailed docs live in \x60docs/\x60 directory\n- Links provide navigation, not inline walls of text\n- Context grows as needed, not all up-front\n\n### 3. Enforce Mec" : String).data ("hanically\n" : String).data (cbel2).data frontendNeedle.data (by decide), b1, c1]
    rfl
  have sp2 : (cbel2).data = ("**Belief:** Linters and tests are better than manual review.\n\n**Implications:**\n- Architectural constraints are enforced by custom linters\n- Documentation freshness is validated in CI\n- Code quality is measured automatically\n- Humans review judgment calls, not mechanical issues\n\n### 4. Agent Legibility First\n**Belief:** Optimize for agent reasoning, not just human aesthetics.\n\n**Implications:**\n- Structure and patterns matter more than style\n- Consistency enables pattern recognition\n- Explicit is better than implicit\n- Documentation explains \"why,\" not \"what\"\n\n### 5. Continuous Cleanup\n**Belief:** Technical debt is like interest—pay it down continuously.\n\n**Implications:**\n- Automated cleanup runs regularly\n- Bad patterns are fixed as soon as spotted\n- Quality scores track drift " : String).data ++ ("over time\n" : String).data := rfl
  have eq2 : ((cbel1).data ++ (cbel2).data) ++ (cbel3).data = ((cbel1).data ++ ("**Belief:** Linters and tests are better than manual review.\n\n**Implications:**\n- Architectural constraints are enforced by custom linters\n- Documentation freshness is validated in CI\n- Code quality is measured automatically\n- Humans review judgment calls, not mechanical issues\n\n### 4. Agent Legibility First\n**Belief:** Optimize for agent reasoning, not just human aesthetics.\n\n**Implications:**\n- Structure and patterns matter more than style\n- Consistency enables pattern recognition\n- Explicit is better than implicit\n- Documentation explains \"why,\" not \"what\"\n\n### 5. Continuous Cleanup\n**Belief:** Technical debt is like interest—pay it down continuously.\n\n**Implications:**\n- Automated cleanup runs regularly\n- Bad patterns are fixed as soon as spotted\n- Quality scores track drift " : String).data) ++ (("over time\n" : String).data ++ (cbel3).data) := by
    rw [sp2, ← List.append_assoc (cbel1).data ("**Belief:** Linters and tests are better than manual review.\n\n**Implications:**\n- Architectural constraints are enforced by custom linters\n- Documentation freshness is validated in CI\n- Code quality is measured automatically\n- Humans review judgment calls, not mechanical issues\n\n### 4. Agent Legibility First\n**Belief:** Optimize for agent reasoning, not just human aesthetics.\n\n**Implications:**\n- Structure and patterns matter more than style\n- Consistency enables pattern recognition\n- Explicit is better than implicit\n- Documentation explains \"why,\" not \"what\"\n\n### 5. Continuous Cleanup\n**Belief:** Technical debt is like interest—pay it down continuously.\n\n**Implications:**\n- Automated cleanup runs regularly\n- Bad patterns are fixed as soon as spotted\n- Quality scores track drift " : String).data ("over time\n" : String).data, List.append_assoc ((cbel1).data ++ ("**Belief:** Linters and tests are better than manual review.\n\n**Implications:**\n- Architectural constraints are enforced by custom linters\n- Documentation freshness is validated in CI\n- Code quality is measured automatically\n- Humans review judgment calls, not mechanical issues\n\n### 4. Agent Legibility First\n**Belief:** Optimize for agent reasoning, not just human aesthetics.\n\n**Implications:**\n- Structure and patterns matter more than style\n- Consistency enables pattern recognition\n- Explicit is better than implicit\n- Documentation explains \"why,\" not \"what\"\n\n### 5. Continuous Cleanup\n**Belief:** Technical debt is like interest—pay it down continuously.\n\n**Implications:**\n- Automated cleanup runs regularly\n- Bad patterns are fixed as soon as spotted\n- Quality scores track drift " : String).data) ("over time\n" : String).data (cbel3).data]
  have c2 : containsSub frontendNeedle.data (("over time\n" : String).data ++ (cbel3).data) = false := rfl
  have b2 : containsSub frontendNeedle.data (((cbel1).data ++ ("**Belief:** Linters and tests are better than manual review.\n\n**Implications:**\n- Architectural constraints are enforced by custom linters\n- Documentation freshness is validated in CI\n- Code quality is measured automatically\n- Humans review judgment calls, not mechanical issues\n\n### 4. Agent Legibility First\n**Belief:** Optimize for agent reasoning, not just human aesthetics.\n\n**Implications:**\n- Structure and patterns matter more than style\n- Consistency enables pattern recognition\n- Explicit is better than implicit\n- Documentation explains \"why,\" not \"what\"\n\n### 5. Continuous Cleanup\n**Belief:** Technical debt is like interest—pay it down continuously.\n\n**Implications:**\n- Automated cleanup runs regularly\n- Bad patterns are fixed as soon as spotted\n- Quality scores track drift " : String).data) ++ ("over time\n" : String).data) = false := by
    rw [List.append_assoc (cbel1).data ("**Belief:** Linters and tests are better than manual review.\n\n**Implications:**\n- Architectural constraints are enforced by custom linters\n- Documentation freshness is validated in CI\n- Code quality is measured automatically\n- Humans review judgment calls, not mechanical issues\n\n### 4. Agent Legibility First\n**Belief:** Optimize for agent reasoning, not just human aesthetics.\n\n**Implications:**\n- Structure and patterns matter more than style\n- Consistency enables pattern recognition\n- Explicit is better than implicit\n- Documentation explains \"why,\" not \"what\"\n\n### 5. Continuous Cleanup\n**Belief:** Technical debt is like interest—pay it down continuously.\n\n**Implications:**\n- Automated cleanup runs regularly\n- Bad patterns are fixed as soon as spotted\n- Quality scores track drift " : String).data ("over time\n" : String).data, ← sp2]
    exact h1
  have h2 : containsSub frontendNeedle.data (((cbel1).data ++ (cbel2).data) ++ (cbel3).data) = false := by
    rw [eq2, containsSub_chain ((cbel1).data ++ ("**Belief:** Linters and tests are better than manual review.\n\n**Implications:**\n- Architectural constraints are enforced by custom linters\n- Documentation freshness is validated in CI\n- Code quality is measured automatically\n- Humans review judgment calls, not mechanical issues\n\n### 4. Agent Legibility First\n**Belief:** Optimize for agent reasoning, not just human aesthetics.\n\n**Implications:**\n- Structure and patterns matter more than style\n- Consistency enables pattern recognition\n- Explicit is better than implicit\n- Documentation explains \"why,\" not \"what\"\n\n### 5. Continuous Cleanup\n**Belief:** Technical debt is like interest—pay it down continuously.\n\n**Implications:**\n- Automated cleanup runs regularly\n- Bad patterns are fixed as soon as spotted\n- Quality scores track drift " : String).data) ("over time\n" : String).data (cbel3).data frontendNeedle.data (by decide), b2, c2]
    rfl
  have sp3 : (cbel3).data = ("- \"Friday cleanup\" is automated, not manual\n\n### 6. Real Environments Over Mocks\n**Belief:** Tests should validate real behavior, not mocked behavior.\n\n**Implications:**\n- Use Docker for databases, Redis, external services\n- Integration tests over unit tests\n- Validate actual contracts, not assumptions\n- Local dev mirrors production\n\n### 7. Boring Technology Wins\n**Belief:** Predictable, well-documented tools are better than exciting new ones.\n\n**Implications:**\n- Prefer standard libraries over cutting-edge frameworks\n- Choose technologies agents can reason about\n- Stability and composability over novelty\n- Internalize when external is too opaque\n\n### 8. Strict Boundaries, Flexible Internals\n**Belief:** Enforce constraints at boundaries, allow autonomy within them.\n\n**Implic" : String).data ++ ("ations:**\n" : String).data := rfl
  have eq3 : (((cbel1).data ++ (cbel2).data) ++ (cbel3).data) ++ (cbel4).data = (((cbel1).data ++ (cbel2).data) ++ ("- \"Friday cleanup\" is automated, not manual\n\n### 6. Real Environments Over Mocks\n**Belief:** Tests should validate real behavior, not mocked behavior.\n\n**Implications:**\n- Use Docker for databases, Redis, external services\n- Integration tests over unit tests\n- Validate actual contracts, not assumptions\n- Local dev mirrors production\n\n### 7. Boring Technology Wins\n**Belief:** Predictable, well-documented tools are better than exciting new ones.\n\n**Implications:**\n- Prefer standard libraries over cutting-edge frameworks\n- Choose technologies agents can reason about\n- Stability and composability over novelty\n- Internalize when external is too opaque\n\n### 8. Strict Boundaries, Flexible Internals\n**Belief:** Enforce constraints at boundaries, allow autonomy within them.\n\n**Implic" : String).data) ++ (("ations:**\n" : String).data ++ (cbel4).data) := by
    rw [sp3, ← List.append_assoc ((cbel1).data ++ (cbel2).data) ("- \"Friday cleanup\" is automated, not manual\n\n### 6. Real Environments Over Mocks\n**Belief:** Tests should validate real behavior, not mocked behavior.\n\n**Implications:**\n- Use Docker for databases, Redis, external services\n- Integration tests over unit tests\n- Validate actual contracts, not assumptions\n- Local dev mirrors production\n\n### 7. Boring Technology Wins\n**Belief:** Predictable, well-documented tools are better than exciting new ones.\n\n**Implications:**\n- Prefer standard libraries over cutting-edge frameworks\n- Choose technologies agents can reason about\n- Stability and composability over novelty\n- Internalize when external is too opaque\n\n### 8. Strict Boundaries, Flexible Internals\n**Belief:** Enforce constraints at boundaries, allow autonomy within them.\n\n**Implic" : String).data ("ations:**\n" : String).data, List.append_assoc (((cbel1).data ++ (cbel2).data) ++ ("- \"Friday cleanup\" is automated, not manual\n\n### 6. Real Environments Over Mocks\n**Belief:** Tests should validate real behavior, not mocked behavior.\n\n**Implications:**\n- Use Docker for databases, Redis, external services\n- Integration tests over unit tests\n- Validate actual contracts, not assumptions\n- Local dev mirrors production\n\n### 7. Boring Technology Wins\n**Belief:** Predictable, well-documented tools are better than exciting new ones.\n\n**Implications:**\n- Prefer standard libraries over cutting-edge frameworks\n- Choose technologies agents can reason about\n- Stability and composability over novelty\n- Internalize when external is too opaque\n\n### 8. Strict Boundaries, Flexible Internals\n**Belief:** Enforce constraints at boundaries, allow autonomy within them.\n\n**Implic" : String).data) ("ations:**\n" : String).data (cbel4).data]
  have c3 : containsSub frontendNeedle.data (("ations:**\n" : String).data ++ (cbel4).data) = false := rfl
  have b3 : containsSub frontendNeedle.data ((((cbel1).data ++ (cbel2).data) ++ ("- \"Friday cleanup\" is automated, not manual\n\n### 6. Real Environments Over Mocks\n**Belief:** Tests should validate real behavior, not mocked behavior.\n\n**Implications:**\n- Use Docker for databases, Redis, external services\n- Integration tests over unit tests\n- Validate actual contracts, not assumptions\n- Local dev mirrors production\n\n### 7. Boring Technology Wins\n**Belief:** Predictable, well-documented tools are better than exciting new ones.\n\n**Implications:**\n- Prefer standard libraries over cutting-edge frameworks\n- Choose technologies agents can reason about\n- Stability and composability over novelty\n- Internalize when external is too opaque\n\n### 8. Strict Boundaries, Flexible Internals\n**Belief:** Enforce constraints at boundaries, allow autonomy within them.\n\n**Implic" : String).data) ++ ("ations:**\n" : String).data) = false := by
    rw [List.append_assoc ((cbel1).data ++ (cbel2).data) ("- \"Friday cleanup\" is automated, not manual\n\n### 6. Real Environments Over Mocks\n**Belief:** Tests should validate real behavior, not mocked behavior.\n\n**Implications:**\n- Use Docker for databases, Redis, external services\n- Integration tests over unit tests\n- Validate actual contracts, not assumptions\n- Local dev mirrors production\n\n### 7. Boring Technology Wins\n**Belief:** Predictable, well-documented tools are better than exciting new ones.\n\n**Implications:**\n- Prefer standard libraries over cutting-edge frameworks\n- Choose technologies agents can reason about\n- Stability and composability over novelty\n- Internalize when external is too opaque\n\n### 8. Strict Boundaries, Flexible Internals\n**Belief:** Enforce constraints at boundaries, allow autonomy within them.\n\n**Implic" : String).data ("ations:**\n" : String).data, ← sp3]
    exact h2
  have h3 : containsSub frontendNeedle.data ((((cbel1).data ++ (cbel2).data) ++ (cbel3).data) ++ (cbel4).data) = false := by
    rw [eq3, containsSub_chain (((cbel1).data ++ (cbel2).data) ++ ("- \"Friday cleanup\" is automated, not manual\n\n### 6. Real Environments Over Mocks\n**Belief:** Tests should validate real behavior, not mocked behavior.\n\n**Implications:**\n- Use Docker for databases, Redis, external services\n- Integration tests over unit tests\n- Validate actual contracts, not assumptions\n- Local dev mirrors production\n\n### 7. Boring Technology Wins\n**Belief:** Predictable, well-documented tools are better than exciting new ones.\n\n**Implications:**\n- Prefer standard libraries over cutting-edge frameworks\n- Choose technologies agents can reason about\n- Stability and composability over novelty\n- Internalize when external is too opaque\n\n### 8. Strict Boundaries, Flexible Internals\n**Belief:** Enforce constraints at boundaries, allow autonomy within them.\n\n**Implic" : String).data) ("ations:**\n" : String).data (cbel4).data frontendNeedle.data (by decide), b3, c3]
    rfl
  have sp4 : (cbel4).data = ("- Layered architecture is non-negotiable\n- Within layers, implementation details are flexible\n- Cross-cutting concerns go through explicit interfaces\n- Dependency directions are enforced, not suggested\n\n### 9. Feedback Loops are Multipliers\n**Belief:** Fast, automated feedback enables speed without chaos.\n\n**Implications:**\n- CI validates every PR\n- Agents can test their own changes\n- Chrome DevTools lets agents drive the UI\n- Observability stack makes behavior visible\n\n### 10. Documentation is Code\n**Belief:** Docs are not second-class citizens—they are part of the system.\n\n**Implications:**\n- Docs are versioned with code\n- Stale docs break CI\n- Documentation gaps are treated as bugs\n- Design docs are reviewed like code\n\n## Anti-Patterns to Avoid\n\n### ❌ The \"One Big A" : String).data ++ ("GENTS.md\"\n" : String).data := rfl
  have eq4 : ((((cbel1).data ++ (cbel2).data) ++ (cbel3).data) ++ (cbel4).data) ++ (cbel5).data = ((((cbel1).data ++ (cbel2).data) ++ (cbel3).data) ++ ("- Layered architecture is non-negotiable\n- Within layers, implementation details are flexible\n- Cross-cutting concerns go through explicit interfaces\n- Dependency directions are enforced, not suggested\n\n### 9. Feedback Loops are Multipliers\n**Belief:** Fast, automated feedback enables speed without chaos.\n\n**Implications:**\n- CI validates every PR\n- Agents can test their own changes\n- Chrome DevTools lets agents drive the UI\n- Observability stack makes behavior visible\n\n### 10. Documentation is Code\n**Belief:** Docs are not second-class citizens—they are part of the system.\n\n**Implications:**\n- Docs are versioned with code\n- Stale docs break CI\n- Documentation gaps are treated as bugs\n- Design docs are reviewed like code\n\n## Anti-Patterns to Avoid\n\n### ❌ The \"One Big A" : String).data) ++ (("GENTS.md\"\n" : String).data ++ (cbel5).data) := by
    rw [sp4, ← List.append_assoc (((cbel1).data ++ (cbel2).data) ++ (cbel3).data) ("- Layered architecture is non-negotiable\n- Within layers, implementation details are flexible\n- Cross-cutting concerns go through explicit interfaces\n- Dependency directions are enforced, not suggested\n\n### 9. Feedback Loops are Multipliers\n**Belief:** Fast, automated feedback enables speed without chaos.\n\n**Implications:**\n- CI validates every PR\n- Agents can test their own changes\n- Chrome DevTools lets agents drive the UI\n- Observability stack makes behavior visible\n\n### 10. Documentation is Code\n**Belief:** Docs are not second-class citizens—they are part of the system.\n\n**Implications:**\n- Docs are versioned with code\n- Stale docs break CI\n- Documentation gaps are treated as bugs\n- Design docs are reviewed like code\n\n## Anti-Patterns to Avoid\n\n### ❌ The \"One Big A" : String).data ("GENTS.md\"\n" : String).data, List.append_assoc ((((cbel1).data ++ (cbel2).data) ++ (cbel3).data) ++ ("- Layered architecture is non-negotiable\n- Within layers, implementation details are flexible\n- Cross-cutting concerns go through explicit interfaces\n- Dependency directions are enforced, not suggested\n\n### 9. Feedback Loops are Multipliers\n**Belief:** Fast, automated feedback enables speed without chaos.\n\n**Implications:**\n- CI validates every PR\n- Agents can test their own changes\n- Chrome DevTools lets agents drive the UI\n- Observability stack makes behavior visible\n\n### 10. Documentation is Code\n**Belief:** Docs are not second-class citizens—they are part of the system.\n\n**Implications:**\n- Docs are versioned with code\n- Stale docs break CI\n- Documentation gaps are treated as bugs\n- Design docs are reviewed like code\n\n## Anti-Patterns to Avoid\n\n### ❌ The \"One Big A" : String).data) ("GENTS.md\"\n" : String).data (cbel5).data]
  have c4 : containsSub frontendNeedle.data (("GENTS.md\"\n" : String).data ++ (cbel5).data) = false := rfl
  have b4 : containsSub frontendNeedle.data (((((cbel1).data ++ (cbel2).data) ++ (cbel3).data) ++ ("- Layered architecture is non-negotiable\n- Within layers, implementation details are flexible\n- Cross-cutting concerns go through explicit interfaces\n- Dependency directions are enforced, not suggested\n\n### 9. Feedback Loops are Multipliers\n**Belief:** Fast, automated feedback enables speed without chaos.\n\n**Implications:**\n- CI validates every PR\n- Agents can test their own changes\n- Chrome DevTools lets agents drive the UI\n- Observability stack makes behavior visible\n\n### 10. Documentation is Code\n**Belief:** Docs are not second-class citizens—they are part of the system.\n\n**Implications:**\n- Docs are versioned with code\n- Stale docs break CI\n- Documentation gaps are treated as bugs\n- Design docs are reviewed like code\n\n## Anti-Patterns to Avoid\n\n### ❌ The \"One Big A" : String).data) ++ ("GENTS.md\"\n" : String).data) = false := by
    rw [List.append_assoc (((cbel1).data ++ (cbel2).data) ++ (cbel3).data) ("- Layered architecture is non-negotiable\n- Within layers, implementation details are flexible\n- Cross-cutting concerns go through explicit interfaces\n- Dependency directions are enforced, not suggested\n\n### 9. Feedback Loops are Multipliers\n**Belief:** Fast, automated feedback enables speed without chaos.\n\n**Implications:**\n- CI validates every PR\n- Agents can test their own changes\n- Chrome DevTools lets agents drive the UI\n- Observability stack makes behavior visible\n\n### 10. Documentation is Code\n**Belief:** Docs are not second-class citizens—they are part of the system.\n\n**Implications:**\n- Docs are versioned with code\n- Stale docs break CI\n- Documentation gaps are treated as bugs\n- Design docs are reviewed like code\n\n## Anti-Patterns to Avoid\n\n### ❌ The \"One Big A" : String).data ("GENTS.md\"\n" : String).data, ← sp4]
    exact h3
  have h4 : containsSub frontendNeedle.data (((((cbel1).data ++ (cbel2).data) ++ (cbel3).data) ++ (cbel4).data) ++ (cbel5).data) = false := by
    rw [eq4, containsSub_chain ((((cbel1).data ++ (cbel2).data) ++ (cbel3).data) ++ ("- Layered architecture is non-negotiable\n- Within layers, implementation details are flexible\n- Cross-cutting concerns go through explicit interfaces\n- Dependency directions are enforced, not suggested\n\n### 9. Feedback Loops are Multipliers\n**Belief:** Fast, automated feedback enables speed without chaos.\n\n**Implications:**\n- CI validates every PR\n- Agents can test their own changes\n- Chrome DevTools lets agents drive the UI\n- Observability stack makes behavior visible\n\n### 10. Documentation is Code\n**Belief:** Docs are not second-class citizens—they are part of the system.\n\n**Implications:**\n- Docs are versioned with code\n- Stale docs break CI\n- Documentation gaps are treated as bugs\n- Design docs are reviewed like code\n\n## Anti-Patterns to Avoid\n\n### ❌ The \"One Big A" : String).data) ("GENTS.md\"\n" : String).data (cbel5).data frontendNeedle.data (by decide), b4, c4]
    rfl
  have sp5 : (cbel5).data = ("- **Problem:** Crowds out context, impossible to maintain\n- **Solution:** AGENTS.md as table of contents, detailed docs in \x60docs/\x60\n\n### ❌ Relying on External Knowledge\n- **Problem:** Agents can\x27t access Slack, Google Docs, or tribal knowledge\n- **Solution:** Everything must be in-repo and discoverable\n\n### ❌ Mocking Everything\n- **Problem:** Tests pass but real code breaks\n- **Solution:** Use Docker for real infrastructure in tests\n\n### ❌ Manual Quality Gates\n- **Problem:** Doesn\x27t scale, blocks throughput\n- **Solution:** Automate checks, make failures obvious\n\n### ❌ Letting Debt Compound\n- **Problem:** Becomes overwhelming, requires painful cleanup\n- **Solution:** Continuous automated cleanup, fix patterns early\n\n## Evolution of" : String).data ++ (" Beliefs\n\n" : String).data := rfl
  have eq5 : (((((cbel1).data ++ (cbel2).data) ++ (cbel3).data) ++ (cbel4).data) ++ (cbel5).data) ++ (cbel6).data = (((((cbel1).data ++ (cbel2).data) ++ (cbel3).data) ++ (cbel4).data) ++ ("- **Problem:** Crowds out context, impossible to maintain\n- **Solution:** AGENTS.md as table of contents, detailed docs in \x60docs/\x60\n\n### ❌ Relying on External Knowledge\n- **Problem:** Agents can\x27t access Slack, Google Docs, or tribal knowledge\n- **Solution:** Everything must be in-repo and discoverable\n\n### ❌ Mocking Everything\n- **Problem:** Tests pass but real code breaks\n- **Solution:** Use Docker for real infrastructure in tests\n\n### ❌ Manual Quality Gates\n- **Problem:** Doesn\x27t scale, blocks throughput\n- **Solution:** Automate checks, make failures obvious\n\n### ❌ Letting Debt Compound\n- **Problem:** Becomes overwhelming, requires painful cleanup\n- **Solution:** Continuous automated cleanup, fix patterns early\n\n## Evolution of" : String).data) ++ ((" Beliefs\n\n" : String).data ++ (cbel6).data) := by
    rw [sp5, ← List.append_assoc ((((cbel1).data ++ (cbel2).data) ++ (cbel3).data) ++ (cbel4).data) ("- **Problem:** Crowds out context, impossible to maintain\n- **Solution:** AGENTS.md as table of contents, detailed docs in \x60docs/\x60\n\n### ❌ Relying on External Knowledge\n- **Problem:** Agents can\x27t access Slack, Google Docs, or tribal knowledge\n- **Solution:** Everything must be in-repo and discoverable\n\n### ❌ Mocking Everything\n- **Problem:** Tests pass but real code breaks\n- **Solution:** Use Docker for real infrastructure in tests\n\n### ❌ Manual Quality Gates\n- **Problem:** Doesn\x27t scale, blocks throughput\n- **Solution:** Automate checks, make failures obvious\n\n### ❌ Letting Debt Compound\n- **Problem:** Becomes overwhelming, requires painful cleanup\n- **Solution:** Continuous automated cleanup, fix patterns early\n\n## Evolution of" : String).data (" Beliefs\n\n" : String).data, List.append_assoc (((((cbel1).data ++ (cbel2).data) ++ (cbel3).data) ++ (cbel4).data) ++ ("- **Problem:** Crowds out context, impossible to maintain\n- **Solution:** AGENTS.md as table of contents, detailed docs in \x60docs/\x60\n\n### ❌ Relying on External Knowledge\n- **Problem:** Agents can\x27t access Slack, Google Docs, or tribal knowledge\n- **Solution:** Everything must be in-repo and discoverable\n\n### ❌ Mocking Everything\n- **Problem:** Tests pass but real code breaks\n- **Solution:** Use Docker for real infrastructure in tests\n\n### ❌ Manual Quality Gates\n- **Problem:** Doesn\x27t scale, blocks throughput\n- **Solution:** Automate checks, make failures obvious\n\n### ❌ Letting Debt Compound\n- **Problem:** Becomes overwhelming, requires painful cleanup\n- **Solution:** Continuous automated cleanup, fix patterns early\n\n## Evolution of" : String).data) (" Beliefs\n\n" : String).data (cbel6).data]
  have c5 : containsSub frontendNeedle.data ((" Beliefs\n\n" : String).data ++ (cbel6).data) = false := rfl
  have b5 : containsSub frontendNeedle.data ((((((cbel1).data ++ (cbel2).data) ++ (cbel3).data) ++ (cbel4).data) ++ ("- **Problem:** Crowds out context, impossible to maintain\n- **Solution:** AGENTS.md as table of contents, detailed docs in \x60docs/\x60\n\n### ❌ Relying on External Knowledge\n- **Problem:** Agents can\x27t access Slack, Google Docs, or tribal knowledge\n- **Solution:** Everything must be in-repo and discoverable\n\n### ❌ Mocking Everything\n- **Problem:** Tests pass but real code breaks\n- **Solution:** Use Docker for real infrastructure in tests\n\n### ❌ Manual Quality Gates\n- **Problem:** Doesn\x27t scale, blocks throughput\n- **Solution:** Automate checks, make failures obvious\n\n### ❌ Letting Debt Compound\n- **Problem:** Becomes overwhelming, requires painful cleanup\n- **Solution:** Continuous automated cleanup, fix patterns early\n\n## Evolution of" : String).data) ++ (" Beliefs\n\n" : String).data) = false := by
    rw [List.append_assoc ((((cbel1).data ++ (cbel2).data) ++ (cbel3).data) ++ (cbel4).data) ("- **Problem:** Crowds out context, impossible to maintain\n- **Solution:** AGENTS.md as table of contents, detailed docs in \x60docs/\x60\n\n### ❌ Relying on External Knowledge\n- **Problem:** Agents can\x27t access Slack, Google Docs, or tribal knowledge\n- **Solution:** Everything must be in-repo and discoverable\n\n### ❌ Mocking Everything\n- **Problem:** Tests pass but real code breaks\n- **Solution:** Use Docker for real infrastructure in tests\n\n### ❌ Manual Quality Gates\n- **Problem:** Doesn\x27t scale, blocks throughput\n- **Solution:** Automate checks, make failures obvious\n\n### ❌ Letting Debt Compound\n- **Problem:** Becomes overwhelming, requires painful cleanup\n- **Solution:** Continuous automated cleanup, fix patterns early\n\n## Evolution of" : String).data (" Beliefs\n\n" : String).data, ← sp5]
    exact h4
  have h5 : containsSub frontendNeedle.data ((((((cbel1).data ++ (cbel2).data) ++ (cbel3).data) ++ (cbel4).data) ++ (cbel5).data) ++ (cbel6).data) = false := by
    rw [eq5, containsSub_chain (((((cbel1).data ++ (cbel2).data) ++ (cbel3).data) ++ (cbel4).data) ++ ("- **Problem:** Crowds out context, impossible to maintain\n- **Solution:** AGENTS.md as table of contents, detailed docs in \x60docs/\x60\n\n### ❌ Relying on External Knowledge\n- **Problem:** Agents can\x27t access Slack, Google Docs, or tribal knowledge\n- **Solution:** Everything must be in-repo and discoverable\n\n### ❌ Mocking Everything\n- **Problem:** Tests pass but real code breaks\n- **Solution:** Use Docker for real infrastructure in tests\n\n### ❌ Manual Quality Gates\n- **Problem:** Doesn\x27t scale, blocks throughput\n- **Solution:** Automate checks, make failures obvious\n\n### ❌ Letting Debt Compound\n- **Problem:** Becomes overwhelming, requires painful cleanup\n- **Solution:** Continuous automated cleanup, fix patterns early\n\n## Evolution of" : String).data) (" Beliefs\n\n" : String).data (cbel6).data frontendNeedle.data (by decide), b5, c5]
    rfl
  exact h5

theorem noFr_gi : containsSub frontendNeedle.data (getGitignoreTemplate).data = false := by
  unfold getGitignoreTemplate
  rfl

theorem noFr_biome : containsSub frontendNeedle.data (getBiomeConfigTemplate).data = false := by
  unfold getBiomeConfigTemplate
  rw [strDataAppend, strDataAppend, strDataAppend]
  have h0 : containsSub frontendNeedle.data (biome1).data = false := rfl
  have sp1 : (biome1).data = ("\x7b\n  \"$schema\": \"https://biomejs.dev/schemas/1.9.4/schema.json\",\n  \"vcs\": \x7b\n    \"enabled\": true,\n    \"clientKind\": \"git\",\n    \"useIgnoreFile\": true\n  \x7d,\n  \"files\": \x7b\n    \"ignoreUnknown\": false,\n    \"ignore\": [\"node_modules\", \"dist\", \"build\", \".next\", \"coverage\"]\n  \x7d,\n  \"formatter\": \x7b\n    \"enabled\": true,\n    \"indentStyle\": \"tab\",\n    \"indentWidth\": 2,\n    \"lineWidth\": 80\n  \x7d,\n  \"organizeImports\": \x7b\n    \"enabled\": true\n  \x7d,\n  \"linter\": \x7b\n    \"enabled\": true,\n    \"rules\": \x7b\n      \"recommended\": true,\n      \"complexity\": \x7b\n        \"noExtraBooleanCast\": \"error\",\n        \"noMultipleSpacesInRegularExpressionLiterals\": \"error\",\n        \"noUselessCatch\": \"error\",\n        \"noWith\": \"error\"\n      \x7d,\n      \"correctness\": \x7b\n        \"noConstAssign\": \"error\",\n        \"noConstantCondition\":" : String).data ++ (" \"error\",\n" : String).data := rfl
  have eq1 : (biome1).data ++ (biome2).data = ("\x7b\n  \"$schema\": \"https://biomejs.dev/schemas/1.9.4/schema.json\",\n  \"vcs\": \x7b\n    \"enabled\": true,\n    \"clientKind\": \"git\",\n    \"useIgnoreFile\": true\n  \x7d,\n  \"files\": \x7b\n    \"ignoreUnknown\": false,\n    \"ignore\": [\"node_modules\", \"dist\", \"build\", \".next\", \"coverage\"]\n  \x7d,\n  \"formatter\": \x7b\n    \"enabled\": true,\n    \"indentStyle\": \"tab\",\n    \"indentWidth\": 2,\n    \"lineWidth\": 80\n  \x7d,\n  \"organizeImports\": \x7b\n    \"enabled\": true\n  \x7d,\n  \"linter\": \x7b\n    \"enabled\": true,\n    \"rules\": \x7b\n      \"recommended\": true,\n      \"complexity\": \x7b\n        \"noExtraBooleanCast\": \"error\",\n        \"noMultipleSpacesInRegularExpressionLiterals\": \"error\",\n        \"noUselessCatch\": \"error\",\n        \"noWith\": \"error\"\n      \x7d,\n      \"correctness\": \x7b\n        \"noConstAssign\": \"error\",\n        \"noConstantCondition\":" : String).data ++ ((" \"error\",\n" : String).data ++ (biome2).data) := by
    rw [sp1, List.append_assoc ("\x7b\n  \"$schema\": \"https://biomejs.dev/schemas/1.9.4/schema.json\",\n  \"vcs\": \x7b\n    \"enabled\": true,\n    \"clientKind\": \"git\",\n    \"useIgnoreFile\": true\n  \x7d,\n  \"files\": \x7b\n    \"ignoreUnknown\": false,\n    \"ignore\": [\"node_modules\", \"dist\", \"build\", \".next\", \"coverage\"]\n  \x7d,\n  \"formatter\": \x7b\n    \"enabled\": true,\n    \"indentStyle\": \"tab\",\n    \"indentWidth\": 2,\n    \"lineWidth\": 80\n  \x7d,\n  \"organizeImports\": \x7b\n    \"enabled\": true\n  \x7d,\n  \"linter\": \x7b\n    \"enabled\": true,\n    \"rules\": \x7b\n      \"recommended\": true,\n      \"complexity\": \x7b\n        \"noExtraBooleanCast\": \"error\",\n        \"noMultipleSpacesInRegularExpressionLiterals\": \"error\",\n        \"noUselessCatch\": \"error\",\n        \"noWith\": \"error\"\n      \x7d,\n      \"correctness\": \x7b\n        \"noConstAssign\": \"error\",\n        \"noConstantCondition\":" : String).data (" \"error\",\n" : String).data (biome2).data]
  have c1 : containsSub frontendNeedle.data ((" \"error\",\n" : String).data ++ (biome2).data) = false := rfl
  have b1 : containsSub frontendNeedle.data (("\x7b\n  \"$schema\": \"https://biomejs.dev/schemas/1.9.4/schema.json\",\n  \"vcs\": \x7b\n    \"enabled\": true,\n    \"clientKind\": \"git\",\n    \"useIgnoreFile\": true\n  \x7d,\n  \"files\": \x7b\n    \"ignoreUnknown\": false,\n    \"ignore\": [\"node_modules\", \"dist\", \"build\", \".next\", \"coverage\"]\n  \x7d,\n  \"formatter\": \x7b\n    \"enabled\": true,\n    \"indentStyle\": \"tab\",\n    \"indentWidth\": 2,\n    \"lineWidth\": 80\n  \x7d,\n  \"organizeImports\": \x7b\n    \"enabled\": true\n  \x7d,\n  \"linter\": \x7b\n    \"enabled\": true,\n    \"rules\": \x7b\n      \"recommended\": true,\n      \"complexity\": \x7b\n        \"noExtraBooleanCast\": \"error\",\n        \"noMultipleSpacesInRegularExpressionLiterals\": \"error\",\n        \"noUselessCatch\": \"error\",\n        \"noWith\": \"error\"\n      \x7d,\n      \"correctness\": \x7b\n        \"noConstAssign\": \"error\",\n        \"noConstantCondition\":" : String).data ++ (" \"error\",\n" : String).data) = false := by
    rw [← sp1]
    exact h0
  have h1 : containsSub frontendNeedle.data ((biome1).data ++ (biome2).data) = false := by
    rw [eq1, containsSub_chain ("\x7b\n  \"$schema\": \"https://biomejs.dev/schemas/1.9.4/schema.json\",\n  \"vcs\": \x7b\n    \"enabled\": true,\n    \"clientKind\": \"git\",\n    \"useIgnoreFile\": true\n  \x7d,\n  \"files\": \x7b\n    \"ignoreUnknown\": false,\n    \"ignore\": [\"node_modules\", \"dist\", \"build\", \".next\", \"coverage\"]\n  \x7d,\n  \"formatter\": \x7b\n    \"enabled\": true,\n    \"indentStyle\": \"tab\",\n    \"indentWidth\": 2,\n    \"lineWidth\": 80\n  \x7d,\n  \"organizeImports\": \x7b\n    \"enabled\": true\n  \x7d,\n  \"linter\": \x7b\n    \"enabled\": true,\n    \"rules\": \x7b\n      \"recommended\": true,\n      \"complexity\": \x7b\n        \"noExtraBooleanCast\": \"error\",\n        \"noMultipleSpacesInRegularExpressionLiterals\": \"error\",\n        \"noUselessCatch\": \"error\",\n        \"noWith\": \"error\"\n      \x7d,\n      \"correctness\": \x7b\n        \"noConstAssign\": \"error\",\n        \"noConstantCondition\":" : String).data (" \"error\",\n" : String).data (biome2).data frontendNeedle.data (by decide), b1, c1]
    rfl
  have sp2 : (biome2).data = ("        \"noEmptyCharacterClassInRegex\": \"error\",\n        \"noEmptyPattern\": \"error\",\n        \"noGlobalObjectCalls\": \"error\",\n        \"noInvalidConstructorSuper\": \"error\",\n        \"noInvalidNewBuiltin\": \"error\",\n        \"noNonoctalDecimalEscape\": \"error\",\n        \"noPrecisionLoss\": \"error\",\n        \"noSelfAssign\": \"error\",\n        \"noSetterReturn\": \"error\",\n        \"noSwitchDeclarations\": \"error\",\n        \"noUndeclaredVariables\": \"error\",\n        \"noUnreachable\": \"error\",\n        \"noUnreachableSuper\": \"error\",\n        \"noUnsafeFinally\": \"error\",\n        \"noUnsafeOptionalChaining\": \"error\",\n        \"noUnusedLabels\": \"error\",\n        \"noUnusedVariables\": \"warn\",\n        \"useIsNan\": \"error\",\n        \"useValidForDirection\": \"error\",\n        \"useYield\": \"error\"\n      \x7d,\n      \"" : String).data ++ ("style\": \x7b\n" : String).data := rfl
  have eq2 : ((biome1).data ++ (biome2).data) ++ (biome3).data = ((biome1).data ++ ("        \"noEmptyCharacterClassInRegex\": \"error\",\n        \"noEmptyPattern\": \"error\",\n        \"noGlobalObjectCalls\": \"error\",\n        \"noInvalidConstructorSuper\": \"error\",\n        \"noInvalidNewBuiltin\": \"error\",\n        \"noNonoctalDecimalEscape\": \"error\",\n        \"noPrecisionLoss\": \"error\",\n        \"noSelfAssign\": \"error\",\n        \"noSetterReturn\": \"error\",\n        \"noSwitchDeclarations\": \"error\",\n        \"noUndeclaredVariables\": \"error\",\n        \"noUnreachable\": \"error\",\n        \"noUnreachableSuper\": \"error\",\n        \"noUnsafeFinally\": \"error\",\n        \"noUnsafeOptionalChaining\": \"error\",\n        \"noUnusedLabels\": \"error\",\n        \"noUnusedVariables\": \"warn\",\n        \"useIsNan\": \"error\",\n        \"useValidForDirection\": \"error\",\n        \"useYield\": \"error\"\n      \x7d,\n      \"" : String).data) ++ (("style\": \x7b\n" : String).data ++ (biome3).data) := by
    rw [sp2, ← List.append_assoc (biome1).data ("        \"noEmptyCharacterClassInRegex\": \"error\",\n        \"noEmptyPattern\": \"error\",\n        \"noGlobalObjectCalls\": \"error\",\n        \"noInvalidConstructorSuper\": \"error\",\n        \"noInvalidNewBuiltin\": \"error\",\n        \"noNonoctalDecimalEscape\": \"error\",\n        \"noPrecisionLoss\": \"error\",\n        \"noSelfAssign\": \"error\",\n        \"noSetterReturn\": \"error\",\n        \"noSwitchDeclarations\": \"error\",\n        \"noUndeclaredVariables\": \"error\",\n        \"noUnreachable\": \"error\",\n        \"noUnreachableSuper\": \"error\",\n        \"noUnsafeFinally\": \"error\",\n        \"noUnsafeOptionalChaining\": \"error\",\n        \"noUnusedLabels\": \"error\",\n        \"noUnusedVariables\": \"warn\",\n        \"useIsNan\": \"error\",\n        \"useValidForDirection\": \"error\",\n        \"useYield\": \"error\"\n      \x7d,\n      \"" : String).data ("style\": \x7b\n" : String).data, List.append_assoc ((biome1).data ++ ("        \"noEmptyCharacterClassInRegex\": \"error\",\n        \"noEmptyPattern\": \"error\",\n        \"noGlobalObjectCalls\": \"error\",\n        \"noInvalidConstructorSuper\": \"error\",\n        \"noInvalidNewBuiltin\": \"error\",\n        \"noNonoctalDecimalEscape\": \"error\",\n        \"noPrecisionLoss\": \"error\",\n        \"noSelfAssign\": \"error\",\n        \"noSetterReturn\": \"error\",\n        \"noSwitchDeclarations\": \"error\",\n        \"noUndeclaredVariables\": \"error\",\n        \"noUnreachable\": \"error\",\n        \"noUnreachableSuper\": \"error\",\n        \"noUnsafeFinally\": \"error\",\n        \"noUnsafeOptionalChaining\": \"error\",\n        \"noUnusedLabels\": \"error\",\n        \"noUnusedVariables\": \"warn\",\n        \"useIsNan\": \"error\",\n        \"useValidForDirection\": \"error\",\n        \"useYield\": \"error\"\n      \x7d,\n      \"" : String).data) ("style\": \x7b\n" : String).data (biome3).data]
  have c2 : containsSub frontendNeedle.data (("style\": \x7b\n" : String).data ++ (biome3).data) = false := rfl
  have b2 : containsSub frontendNeedle.data (((biome1).data ++ ("        \"noEmptyCharacterClassInRegex\": \"error\",\n        \"noEmptyPattern\": \"error\",\n        \"noGlobalObjectCalls\": \"error\",\n        \"noInvalidConstructorSuper\": \"error\",\n        \"noInvalidNewBuiltin\": \"error\",\n        \"noNonoctalDecimalEscape\": \"error\",\n        \"noPrecisionLoss\": \"error\",\n        \"noSelfAssign\": \"error\",\n        \"noSetterReturn\": \"error\",\n        \"noSwitchDeclarations\": \"error\",\n        \"noUndeclaredVariables\": \"error\",\n        \"noUnreachable\": \"error\",\n        \"noUnreachableSuper\": \"error\",\n        \"noUnsafeFinally\": \"error\",\n        \"noUnsafeOptionalChaining\": \"error\",\n        \"noUnusedLabels\": \"error\",\n        \"noUnusedVariables\": \"warn\",\n        \"useIsNan\": \"error\",\n        \"useValidForDirection\": \"error\",\n        \"useYield\": \"error\"\n      \x7d,\n      \"" : String).data) ++ ("style\": \x7b\n" : String).data) = false := by
    rw [List.append_assoc (biome1).data ("        \"noEmptyCharacterClassInRegex\": \"error\",\n        \"noEmptyPattern\": \"error\",\n        \"noGlobalObjectCalls\": \"error\",\n        \"noInvalidConstructorSuper\": \"error\",\n        \"noInvalidNewBuiltin\": \"error\",\n        \"noNonoctalDecimalEscape\": \"error\",\n        \"noPrecisionLoss\": \"error\",\n        \"noSelfAssign\": \"error\",\n        \"noSetterReturn\": \"error\",\n        \"noSwitchDeclarations\": \"error\",\n        \"noUndeclaredVariables\": \"error\",\n        \"noUnreachable\": \"error\",\n        \"noUnreachableSuper\": \"error\",\n        \"noUnsafeFinally\": \"error\",\n        \"noUnsafeOptionalChaining\": \"error\",\n        \"noUnusedLabels\": \"error\",\n        \"noUnusedVariables\": \"warn\",\n        \"useIsNan\": \"error\",\n        \"useValidForDirection\": \"error\",\n        \"useYield\": \"error\"\n      \x7d,\n      \"" : String).data ("style\": \x7b\n" : String).data, ← sp2]
    exact h1
  have h2 : containsSub frontendNeedle.data (((biome1).data ++ (biome2).data) ++ (biome3).data) = false := by
    rw [eq2, containsSub_chain ((biome1).data ++ ("        \"noEmptyCharacterClassInRegex\": \"error\",\n        \"noEmptyPattern\": \"error\",\n        \"noGlobalObjectCalls\": \"error\",\n        \"noInvalidConstructorSuper\": \"error\",\n        \"noInvalidNewBuiltin\": \"error\",\n        \"noNonoctalDecimalEscape\": \"error\",\n        \"noPrecisionLoss\": \"error\",\n        \"noSelfAssign\": \"error\",\n        \"noSetterReturn\": \"error\",\n        \"noSwitchDeclarations\": \"error\",\n        \"noUndeclaredVariables\": \"error\",\n        \"noUnreachable\": \"error\",\n        \"noUnreachableSuper\": \"error\",\n        \"noUnsafeFinally\": \"error\",\n        \"noUnsafeOptionalChaining\": \"error\",\n        \"noUnusedLabels\": \"error\",\n        \"noUnusedVariables\": \"warn\",\n        \"useIsNan\": \"error\",\n        \"useValidForDirection\": \"error\",\n        \"useYield\": \"error\"\n      \x7d,\n      \"" : String).data) ("style\": \x7b\n" : String).data (biome3).data frontendNeedle.data (by decide), b2, c2]
    rfl
  have sp3 : (biome3).data = ("        \"noNamespace\": \"error\",\n        \"useAsConstAssertion\": \"error\",\n        \"useBlockStatements\": \"off\",\n        \"useConsistentArrayType\": \"off\",\n        \"useForOf\": \"warn\",\n        \"useShorthandFunctionType\": \"error\"\n      \x7d,\n      \"suspicious\": \x7b\n        \"noAsyncPromiseExecutor\": \"error\",\n        \"noCatchAssign\": \"error\",\n        \"noClassAssign\": \"error\",\n        \"noCompareNegZero\": \"error\",\n        \"noControlCharactersInRegex\": \"error\",\n        \"noDebugger\": \"error\",\n        \"noDuplicateCase\": \"error\",\n        \"noDuplicateClassMembers\": \"error\",\n        \"noDuplicateObjectKeys\": \"error\",\n        \"noDuplicateParameters\": \"error\",\n        \"noEmptyBlockStatements\": \"error\",\n        \"noExplicitAny\": \"warn\",\n        \"noExtraNonNullAssertion\": \"error\",\n        \"noFallthroughSwitchClause\":" : String).data ++ (" \"error\",\n" : String).data := rfl
  have eq3 : (((biome1).data ++ (biome2).data) ++ (biome3).data) ++ (biome4).data = (((biome1).data ++ (biome2).data) ++ ("        \"noNamespace\": \"error\",\n        \"useAsConstAssertion\": \"error\",\n        \"useBlockStatements\": \"off\",\n        \"useConsistentArrayType\": \"off\",\n        \"useForOf\": \"warn\",\n        \"useShorthandFunctionType\": \"error\"\n      \x7d,\n      \"suspicious\": \x7b\n        \"noAsyncPromiseExecutor\": \"error\",\n        \"noCatchAssign\": \"error\",\n        \"noClassAssign\": \"error\",\n        \"noCompareNegZero\": \"error\",\n        \"noControlCharactersInRegex\": \"error\",\n        \"noDebugger\": \"error\",\n        \"noDuplicateCase\": \"error\",\n        \"noDuplicateClassMembers\": \"error\",\n        \"noDuplicateObjectKeys\": \"error\",\n        \"noDuplicateParameters\": \"error\",\n        \"noEmptyBlockStatements\": \"error\",\n        \"noExplicitAny\": \"warn\",\n        \"noExtraNonNullAssertion\": \"error\",\n        \"noFallthroughSwitchClause\":" : String).data) ++ ((" \"error\",\n" : String).data ++ (biome4).data) := by
    rw [sp3, ← List.append_assoc ((biome1).data ++ (biome2).data) ("        \"noNamespace\": \"error\",\n        \"useAsConstAssertion\": \"error\",\n        \"useBlockStatements\": \"off\",\n        \"useConsistentArrayType\": \"off\",\n        \"useForOf\": \"warn\",\n        \"useShorthandFunctionType\": \"error\"\n      \x7d,\n      \"suspicious\": \x7b\n        \"noAsyncPromiseExecutor\": \"error\",\n        \"noCatchAssign\": \"error\",\n        \"noClassAssign\": \"error\",\n        \"noCompareNegZero\": \"error\",\n        \"noControlCharactersInRegex\": \"error\",\n        \"noDebugger\": \"error\",\n        \"noDuplicateCase\": \"error\",\n        \"noDuplicateClassMembers\": \"error\",\n        \"noDuplicateObjectKeys\": \"error\",\n        \"noDuplicateParameters\": \"error\",\n        \"noEmptyBlockStatements\": \"error\",\n        \"noExplicitAny\": \"warn\",\n        \"noExtraNonNullAssertion\": \"error\",\n        \"noFallthroughSwitchClause\":" : String).data (" \"error\",\n" : String).data, List.append_assoc (((biome1).data ++ (biome2).data) ++ ("        \"noNamespace\": \"error\",\n        \"useAsConstAssertion\": \"error\",\n        \"useBlockStatements\": \"off\",\n        \"useConsistentArrayType\": \"off\",\n        \"useForOf\": \"warn\",\n        \"useShorthandFunctionType\": \"error\"\n      \x7d,\n      \"suspicious\": \x7b\n        \"noAsyncPromiseExecutor\": \"error\",\n        \"noCatchAssign\": \"error\",\n        \"noClassAssign\": \"error\",\n        \"noCompareNegZero\": \"error\",\n        \"noControlCharactersInRegex\": \"error\",\n        \"noDebugger\": \"error\",\n        \"noDuplicateCase\": \"error\",\n        \"noDuplicateClassMembers\": \"error\",\n        \"noDuplicateObjectKeys\": \"error\",\n        \"noDuplicateParameters\": \"error\",\n        \"noEmptyBlockStatements\": \"error\",\n        \"noExplicitAny\": \"warn\",\n        \"noExtraNonNullAssertion\": \"error\",\n        \"noFallthroughSwitchClause\":" : String).data) (" \"error\",\n" : String).data (biome4).data]
  have c3 : containsSub frontendNeedle.data ((" \"error\",\n" : String).data ++ (biome4).data) = false := rfl
  have b3 : containsSub frontendNeedle.data ((((biome1).data ++ (biome2).data) ++ ("        \"noNamespace\": \"error\",\n        \"useAsConstAssertion\": \"error\",\n        \"useBlockStatements\": \"off\",\n        \"useConsistentArrayType\": \"off\",\n        \"useForOf\": \"warn\",\n        \"useShorthandFunctionType\": \"error\"\n      \x7d,\n      \"suspicious\": \x7b\n        \"noAsyncPromiseExecutor\": \"error\",\n        \"noCatchAssign\": \"error\",\n        \"noClassAssign\": \"error\",\n        \"noCompareNegZero\": \"error\",\n        \"noControlCharactersInRegex\": \"error\",\n        \"noDebugger\": \"error\",\n        \"noDuplicateCase\": \"error\",\n        \"noDuplicateClassMembers\": \"error\",\n        \"noDuplicateObjectKeys\": \"error\",\n        \"noDuplicateParameters\": \"error\",\n        \"noEmptyBlockStatements\": \"error\",\n        \"noExplicitAny\": \"warn\",\n        \"noExtraNonNullAssertion\": \"error\",\n        \"noFallthroughSwitchClause\":" : String).data) ++ (" \"error\",\n" : String).data) = false := by
    rw [List.append_assoc ((biome1).data ++ (biome2).data) ("        \"noNamespace\": \"error\",\n        \"useAsConstAssertion\": \"error\",\n        \"useBlockStatements\": \"off\",\n        \"useConsistentArrayType\": \"off\",\n        \"useForOf\": \"warn\",\n        \"useShorthandFunctionType\": \"error\"\n      \x7d,\n      \"suspicious\": \x7b\n        \"noAsyncPromiseExecutor\": \"error\",\n        \"noCatchAssign\": \"error\",\n        \"noClassAssign\": \"error\",\n        \"noCompareNegZero\": \"error\",\n        \"noControlCharactersInRegex\": \"error\",\n        \"noDebugger\": \"error\",\n        \"noDuplicateCase\": \"error\",\n        \"noDuplicateClassMembers\": \"error\",\n        \"noDuplicateObjectKeys\": \"error\",\n        \"noDuplicateParameters\": \"error\",\n        \"noEmptyBlockStatements\": \"error\",\n        \"noExplicitAny\": \"warn\",\n        \"noExtraNonNullAssertion\": \"error\",\n        \"noFallthroughSwitchClause\":" : String).data (" \"error\",\n" : String).data, ← sp3]
    exact h2
  have h3 : containsSub frontendNeedle.data ((((biome1).data ++ (biome2).data) ++ (biome3).data) ++ (biome4).data) = false := by
    rw [eq3, containsSub_chain (((biome1).data ++ (biome2).data) ++ ("        \"noNamespace\": \"error\",\n        \"useAsConstAssertion\": \"error\",\n        \"useBlockStatements\": \"off\",\n        \"useConsistentArrayType\": \"off\",\n        \"useForOf\": \"warn\",\n        \"useShorthandFunctionType\": \"error\"\n      \x7d,\n      \"suspicious\": \x7b\n        \"noAsyncPromiseExecutor\": \"error\",\n        \"noCatchAssign\": \"error\",\n        \"noClassAssign\": \"error\",\n        \"noCompareNegZero\": \"error\",\n        \"noControlCharactersInRegex\": \"error\",\n        \"noDebugger\": \"error\",\n        \"noDuplicateCase\": \"error\",\n        \"noDuplicateClassMembers\": \"error\",\n        \"noDuplicateObjectKeys\": \"error\",\n        \"noDuplicateParameters\": \"error\",\n        \"noEmptyBlockStatements\": \"error\",\n        \"noExplicitAny\": \"warn\",\n        \"noExtraNonNullAssertion\": \"error\",\n        \"noFallthroughSwitchClause\":" : String).data) (" \"error\",\n" : String).data (biome4).data frontendNeedle.data (by decide), b3, c3]
    rfl
  exact h3

theorem noFr_mlc : containsSub frontendNeedle.data (getMarkdownLinkCheckConfig).data = false := by
  unfold getMarkdownLinkCheckConfig
  rfl

theorem noFr_agents_backend : containsSub frontendNeedle.data (getAgentsTemplate ProjectType.backend).data = false := by
  unfold getAgentsTemplate
  rw [if_neg (by decide)]
  rw [strDataAppend, strDataAppend, strDataAppend, strDataAppend, strDataAppend, strDataAppend, strDataAppend, strDataAppend, strDataAppend, strDataAppend, strDataAppend, strDataAppend, strDataAppend, strDataAppend, strDataAppend, strDataAppend, strDataAppend, strDataAppend, strDataAppend, strDataAppend, strDataAppend, strDataAppend, strDataAppend, strDataAppend, strDataAppend, strDataAppend]
  rw [show ("" : String).data = ([] : List Char) from rfl, List.append_nil]
  have h0 : containsSub frontendNeedle.data (agA1).data = false := rfl
  have sp1 : (agA1).data = ("# Agent Development Guide\n\n**This file serves as the table of contents for agent development in this repository.**\n\nHumans steer. Agents execute.\n\n## Quick R" : String).data ++ ("eference\n\n" : String).data := rfl
  have eq1 : (agA1).data ++ (agA2).data = ("# Agent Development Guide\n\n**This file serves as the table of contents for agent development in this repository.**\n\nHumans steer. Agents execute.\n\n## Quick R" : String).data ++ (("eference\n\n" : String).data ++ (agA2).data) := by
    rw [sp1, List.append_assoc ("# Agent Development Guide\n\n**This file serves as the table of contents for agent development in this repository.**\n\nHumans steer. Agents execute.\n\n## Quick R" : String).data ("eference\n\n" : String).data (agA2).data]
  have c1 : containsSub frontendNeedle.data (("eference\n\n" : String).data ++ (agA2).data) = false := rfl
  have b1 : containsSub frontendNeedle.data (("# Agent Development Guide\n\n**This file serves as the table of contents for agent development in this repository.**\n\nHumans steer. Agents execute.\n\n## Quick R" : String).data ++ ("eference\n\n" : String).data) = false := by
    rw [← sp1]
    exact h0
  have h1 : containsSub frontendNeedle.data ((agA1).data ++ (agA2).data) = false := by
    rw [eq1, containsSub_chain ("# Agent Development Guide\n\n**This file serves as the table of contents for agent development in this repository.**\n\nHumans steer. Agents execute.\n\n## Quick R" : String).data ("eference\n\n" : String).data (agA2).data frontendNeedle.data (by decide), b1, c1]
    rfl
  have sp2 : (agA2).data = ("- **Architecture:** See [ARCHITECTURE.md](./ARCHITECTURE.md)\n- **Design Principles:** See [DESIGN.md](./DESIGN.md)\n- **Security:** See [SECURITY.md](./SEC" : String).data ++ ("URITY.md)\n" : String).data := rfl
  have eq2 : ((agA1).data ++ (agA2).data) ++ (agA3).data = ((agA1).data ++ ("- **Architecture:** See [ARCHITECTURE.md](./ARCHITECTURE.md)\n- **Design Principles:** See [DESIGN.md](./DESIGN.md)\n- **Security:** See [SECURITY.md](./SEC" : String).data) ++ (("URITY.md)\n" : String).data ++ (agA3).data) := by
    rw [sp2, ← List.append_assoc (agA1).data ("- **Architecture:** See [ARCHITECTURE.md](./ARCHITECTURE.md)\n- **Design Principles:** See [DESIGN.md](./DESIGN.md)\n- **Security:** See [SECURITY.md](./SEC" : String).data ("URITY.md)\n" : String).data, List.append_assoc ((agA1).data ++ ("- **Architecture:** See [ARCHITECTURE.md](./ARCHITECTURE.md)\n- **Design Principles:** See [DESIGN.md](./DESIGN.md)\n- **Security:** See [SECURITY.md](./SEC" : String).data) ("URITY.md)\n" : String).data (agA3).data]
  have c2 : containsSub frontendNeedle.data (("URITY.md)\n" : String).data ++ (agA3).data) = false := rfl
  have b2 : containsSub frontendNeedle.data (((agA1).data ++ ("- **Architecture:** See [ARCHITECTURE.md](./ARCHITECTURE.md)\n- **Design Principles:** See [DESIGN.md](./DESIGN.md)\n- **Security:** See [SECURITY.md](./SEC" : String).data) ++ ("URITY.md)\n" : String).data) = false := by
    rw [List.append_assoc (agA1).data ("- **Architecture:** See [ARCHITECTURE.md](./ARCHITECTURE.md)\n- **Design Principles:** See [DESIGN.md](./DESIGN.md)\n- **Security:** See [SECURITY.md](./SEC" : String).data ("URITY.md)\n" : String).data, ← sp2]
    exact h1
  have h2 : containsSub frontendNeedle.data (((agA1).data ++ (agA2).data) ++ (agA3).data) = false := by
    rw [eq2, containsSub_chain ((agA1).data ++ ("- **Architecture:** See [ARCHITECTURE.md](./ARCHITECTURE.md)\n- **Design Principles:** See [DESIGN.md](./DESIGN.md)\n- **Security:** See [SECURITY.md](./SEC" : String).data) ("URITY.md)\n" : String).data (agA3).data frontendNeedle.data (by decide), b2, c2]
    rfl
  have sp3 : (agA3).data = ("- **Quality Standards:** See [QUALITY_SCORE.md](./QUALITY_SCORE.md)\n- **Reliability:** See [RELIABILITY.md](./RELIAB" : String).data ++ ("ILITY.md)\n" : String).data := rfl
  have eq3 : (((agA1).data ++ (agA2).data) ++ (agA3).data) ++ (agA4).data = (((agA1).data ++ (agA2).data) ++ ("- **Quality Standards:** See [QUALITY_SCORE.md](./QUALITY_SCORE.md)\n- **Reliability:** See [RELIABILITY.md](./RELIAB" : String).data) ++ (("ILITY.md)\n" : String).data ++ (agA4).data) := by
    rw [sp3, ← List.append_assoc ((agA1).data ++ (agA2).data) ("- **Quality Standards:** See [QUALITY_SCORE.md](./QUALITY_SCORE.md)\n- **Reliability:** See [RELIABILITY.md](./RELIAB" : String).data ("ILITY.md)\n" : String).data, List.append_assoc (((agA1).data ++ (agA2).data) ++ ("- **Quality Standards:** See [QUALITY_SCORE.md](./QUALITY_SCORE.md)\n- **Reliability:** See [RELIABILITY.md](./RELIAB" : String).data) ("ILITY.md)\n" : String).data (agA4).data]
  have c3 : containsSub frontendNeedle.data (("ILITY.md)\n" : String).data ++ (agA4).data) = false := rfl
  have b3 : containsSub frontendNeedle.data ((((agA1).data ++ (agA2).data) ++ ("- **Quality Standards:** See [QUALITY_SCORE.md](./QUALITY_SCORE.md)\n- **Reliability:** See [RELIABILITY.md](./RELIAB" : String).data) ++ ("ILITY.md)\n" : String).data) = false := by
    rw [List.append_assoc ((agA1).data ++ (agA2).data) ("- **Quality Standards:** See [QUALITY_SCORE.md](./QUALITY_SCORE.md)\n- **Reliability:** See [RELIABILITY.md](./RELIAB" : String).data ("ILITY.md)\n" : String).data, ← sp3]
    exact h2
  have h3 : containsSub frontendNeedle.data ((((agA1).data ++ (agA2).data) ++ (agA3).data) ++ (agA4).data) = false := by
    rw [eq3, containsSub_chain (((agA1).data ++ (agA2).data) ++ ("- **Quality Standards:** See [QUALITY_SCORE.md](./QUALITY_SCORE.md)\n- **Reliability:** See [RELIABILITY.md](./RELIAB" : String).data) ("ILITY.md)\n" : String).data (agA4).data frontendNeedle.data (by decide), b3, c3]
    rfl
  have sp4 : (agA4).data = ("- **Product Sense:** See [PRODUCT_SENSE.md](./PRODUCT_SENSE.md)\n- **Planning:** See [PLANS.md](./" : String).data ++ ("PLANS.md)\n" : String).data := rfl
  have eq4 : ((((agA1).data ++ (agA2).data) ++ (agA3).data) ++ (agA4).data) ++ (agB1).data = ((((agA1).data ++ (agA2).data) ++ (agA3).data) ++ ("- **Product Sense:** See [PRODUCT_SENSE.md](./PRODUCT_SENSE.md)\n- **Planning:** See [PLANS.md](./" : String).data) ++ (("PLANS.md)\n" : String).data ++ (agB1).data) := by
    rw [sp4, ← List.append_assoc (((agA1).data ++ (agA2).data) ++ (agA3).data) ("- **Product Sense:** See [PRODUCT_SENSE.md](./PRODUCT_SENSE.md)\n- **Planning:** See [PLANS.md](./" : String).data ("PLANS.md)\n" : String).data, List.append_assoc ((((agA1).data ++ (agA2).data) ++ (agA3).data) ++ ("- **Product Sense:** See [PRODUCT_SENSE.md](./PRODUCT_SENSE.md)\n- **Planning:** See [PLANS.md](./" : String).data) ("PLANS.md)\n" : String).data (agB1).data]
  have c4 : containsSub frontendNeedle.data (("PLANS.md)\n" : String).data ++ (agB1).data) = false := rfl
  have b4 : containsSub frontendNeedle.data (((((agA1).data ++ (agA2).data) ++ (agA3).data) ++ ("- **Product Sense:** See [PRODUCT_SENSE.md](./PRODUCT_SENSE.md)\n- **Planning:** See [PLANS.md](./" : String).data) ++ ("PLANS.md)\n" : String).data) = false := by
    rw [List.append_assoc (((agA1).data ++ (agA2).data) ++ (agA3).data) ("- **Product Sense:** See [PRODUCT_SENSE.md](./PRODUCT_SENSE.md)\n- **Planning:** See [PLANS.md](./" : String).data ("PLANS.md)\n" : String).data, ← sp4]
    exact h3
  have h4 : containsSub frontendNeedle.data (((((agA1).data ++ (agA2).data) ++ (agA3).data) ++ (agA4).data) ++ (agB1).data) = false := by
    rw [eq4, containsSub_chain ((((agA1).data ++ (agA2).data) ++ (agA3).data) ++ ("- **Product Sense:** See [PRODUCT_SENSE.md](./PRODUCT_SENSE.md)\n- **Planning:** See [PLANS.md](./" : String).data) ("PLANS.md)\n" : String).data (agB1).data frontendNeedle.data (by decide), b4, c4]
    rfl
  have sp5 : (agB1).data = ("\n\n## Documentation Structure\n\n### Design Documents\nLocation: \x60docs/desig" : String).data ++ ("n-docs/\x60\n\n" : String).data := rfl
  have eq5 : (((((agA1).data ++ (agA2).data) ++ (agA3).data) ++ (agA4).data) ++ (agB1).data) ++ (agB2).data = (((((agA1).data ++ (agA2).data) ++ (agA3).data) ++ (agA4).data) ++ ("\n\n## Documentation Structure\n\n### Design Documents\nLocation: \x60docs/desig" : String).data) ++ (("n-docs/\x60\n\n" : String).data ++ (agB2).data) := by
    rw [sp5, ← List.append_assoc ((((agA1).data ++ (agA2).data) ++ (agA3).data) ++ (agA4).data) ("\n\n## Documentation Structure\n\n### Design Documents\nLocation: \x60docs/desig" : String).data ("n-docs/\x60\n\n" : String).data, List.append_assoc (((((agA1).data ++ (agA2).data) ++ (agA3).data) ++ (agA4).data) ++ ("\n\n## Documentation Structure\n\n### Design Documents\nLocation: \x60docs/desig" : String).data) ("n-docs/\x60\n\n" : String).data (agB2).data]
  have c5 : containsSub frontendNeedle.data (("n-docs/\x60\n\n" : String).data ++ (agB2).data) = false := rfl
  have b5 : containsSub frontendNeedle.data ((((((agA1).data ++ (agA2).data) ++ (agA3).data) ++ (agA4).data) ++ ("\n\n## Documentation Structure\n\n### Design Documents\nLocation: \x60docs/desig" : String).data) ++ ("n-docs/\x60\n\n" : String).data) = false := by
    rw [List.append_assoc ((((agA1).data ++ (agA2).data) ++ (agA3).data) ++ (agA4).data) ("\n\n## Documentation Structure\n\n### Design Documents\nLocation: \x60docs/desig" : String).data ("n-docs/\x60\n\n" : String).data, ← sp5]
    exact h4
  have h5 : containsSub frontendNeedle.data ((((((agA1).data ++ (agA2).data) ++ (agA3).data) ++ (agA4).data) ++ (agB1).data) ++ (agB2).data) = false := by
    rw [eq5, containsSub_chain (((((agA1).data ++ (agA2).data) ++ (agA3).data) ++ (agA4).data) ++ ("\n\n## Documentation Structure\n\n### Design Documents\nLocation: \x60docs/desig" : String).data) ("n-docs/\x60\n\n" : String).data (agB2).data frontendNeedle.data (by decide), b5, c5]
    rfl
  have sp6 : (agB2).data = ("All design decisions and architectural choices are documented here. Before implementing features:\n1. Check for existing de" : String).data ++ ("sign docs\n" : String).data := rfl
  have eq6 : ((((((agA1).data ++ (agA2).data) ++ (agA3).data) ++ (agA4).data) ++ (agB1).data) ++ (agB2).data) ++ (agB3).data = ((((((agA1).data ++ (agA2).data) ++ (agA3).data) ++ (agA4).data) ++ (agB1).data) ++ ("All design decisions and architectural choices are documented here. Before implementing features:\n1. Check for existing de" : String).data) ++ (("sign docs\n" : String).data ++ (agB3).data) := by
    rw [sp6, ← List.append_assoc (((((agA1).data ++ (agA2).data) ++ (agA3).data) ++ (agA4).data) ++ (agB1).data) ("All design decisions and architectural choices are documented here. Before implementing features:\n1. Check for existing de" : String).data ("sign docs\n" : String).data, List.append_assoc ((((((agA1).data ++ (agA2).data) ++ (agA3).data) ++ (agA4).data) ++ (agB1).data) ++ ("All design decisions and architectural choices are documented here. Before implementing features:\n1. Check for existing de" : String).data) ("sign docs\n" : String).data (agB3).data]
  have c6 : containsSub frontendNeedle.data (("sign docs\n" : String).data ++ (agB3).data) = false := rfl
  have b6 : containsSub frontendNeedle.data (((((((agA1).data ++ (agA2).data) ++ (agA3).data) ++ (agA4).data) ++ (agB1).data) ++ ("All design decisions and architectural choices are documented here. Before implementing features:\n1. Check for existing de" : String).data) ++ ("sign docs\n" : String).data) = false := by
    rw [List.append_assoc (((((agA1).data ++ (agA2).data) ++ (agA3).data) ++ (agA4).data) ++ (agB1).data) ("All design decisions and architectural choices are documented here. Before implementing features:\n1. Check for existing de" : String).data ("sign docs\n" : String).data, ← sp6]
    exact h5
  have h6 : containsSub frontendNeedle.data (((((((agA1).data ++ (agA2).data) ++ (agA3).data) ++ (agA4).data) ++ (agB1).data) ++ (agB2).data) ++ (agB3).data) = false := by
    rw [eq6, containsSub_chain ((((((agA1).data ++ (agA2).data) ++ (agA3).data) ++ (agA4).data) ++ (agB1).data) ++ ("All design decisions and architectural choices are documented here. Before implementing features:\n1. Check for existing de" : String).data) ("sign docs\n" : String).data (agB3).data frontendNeedle.data (by decide), b6, c6]
    rfl
  have sp7 : (agB3).data = ("2. Create new design docs for significant changes\n3. Link to relevant designs in your PRs\n\nSee: [docs/design-docs/index.md](./docs/design-docs/i" : String).data ++ ("ndex.md)\n\n" : String).data := rfl
  have eq7 : (((((((agA1).data ++ (agA2).data) ++ (agA3).data) ++ (agA4).data) ++ (agB1).data) ++ (agB2).data) ++ (agB3).data) ++ (agB4).data = (((((((agA1).data ++ (agA2).data) ++ (agA3).data) ++ (agA4).data) ++ (agB1).data) ++ (agB2).data) ++ ("2. Create new design docs for significant changes\n3. Link to relevant designs in your PRs\n\nSee: [docs/design-docs/index.md](./docs/design-docs/i" : String).data) ++ (("ndex.md)\n\n" : String).data ++ (agB4).data) := by
    rw [sp7, ← List.append_assoc ((((((agA1).data ++ (agA2).data) ++ (agA3).data) ++ (agA4).data) ++ (agB1).data) ++ (agB2).data) ("2. Create new design docs for significant changes\n3. Link to relevant designs in your PRs\n\nSee: [docs/design-docs/index.md](./docs/design-docs/i" : String).data ("ndex.md)\n\n" : String).data, List.append_assoc (((((((agA1).data ++ (agA2).data) ++ (agA3).data) ++ (agA4).data) ++ (agB1).data) ++ (agB2).data) ++ ("2. Create new design docs for significant changes\n3. Link to relevant designs in your PRs\n\nSee: [docs/design-docs/index.md](./docs/design-docs/i" : String).data) ("ndex.md)\n\n" : String).data (agB4).data]
  have c7 : containsSub frontendNeedle.data (("ndex.md)\n\n" : String).data ++ (agB4).data) = false := rfl
  have b7 : containsSub frontendNeedle.data ((((((((agA1).data ++ (agA2).data) ++ (agA3).data) ++ (agA4).data) ++ (agB1).data) ++ (agB2).data) ++ ("2. Create new design docs for significant changes\n3. Link to relevant designs in your PRs\n\nSee: [docs/design-docs/index.md](./docs/design-docs/i" : String).data) ++ ("ndex.md)\n\n" : String).data) = false := by
    rw [List.append_assoc ((((((agA1).data ++ (agA2).data) ++ (agA3).data) ++ (agA4).data) ++ (agB1).data) ++ (agB2).data) ("2. Create new design docs for significant changes\n3. Link to relevant designs in your PRs\n\nSee: [docs/design-docs/index.md](./docs/design-docs/i" : String).data ("ndex.md)\n\n" : String).data, ← sp7]
    exact h6
  have h7 : containsSub frontendNeedle.data ((((((((agA1).data ++ (agA2).data) ++ (agA3).data) ++ (agA4).data) ++ (agB1).data) ++ (agB2).data) ++ (agB3).data) ++ (agB4).data) = false := by
    rw [eq7, containsSub_chain (((((((agA1).data ++ (agA2).data) ++ (agA3).data) ++ (agA4).data) ++ (agB1).data) ++ (agB2).data) ++ ("2. Create new design docs for significant changes\n3. Link to relevant designs in your PRs\n\nSee: [docs/design-docs/index.md](./docs/design-docs/i" : String).data) ("ndex.md)\n\n" : String).data (agB4).data frontendNeedle.data (by decide), b7, c7]
    rfl
  have sp8 : (agB4).data = ("### Execution Plans\nLocation: \x60docs/exec-plans/\x60\n\nComplex work is broken down into execution plans:\n- **Active plans:** \x60docs/exec-plans" : String).data ++ ("/active/\x60\n" : String).data := rfl
  have eq8 : ((((((((agA1).data ++ (agA2).data) ++ (agA3).data) ++ (agA4).data) ++ (agB1).data) ++ (agB2).data) ++ (agB3).data) ++ (agB4).data) ++ (agB5).data = ((((((((agA1).data ++ (agA2).data) ++ (agA3).data) ++ (agA4).data) ++ (agB1).data) ++ (agB2).data) ++ (agB3).data) ++ ("### Execution Plans\nLocation: \x60docs/exec-plans/\x60\n\nComplex work is broken down into execution plans:\n- **Active plans:** \x60docs/exec-plans" : String).data) ++ (("/active/\x60\n" : String).data ++ (agB5).data) := by
    rw [sp8, ← List.append_assoc (((((((agA1).data ++ (agA2).data) ++ (agA3).data) ++ (agA4).data) ++ (agB1).data) ++ (agB2).data) ++ (agB3).data) ("### Execution Plans\nLocation: \x60docs/exec-plans/\x60\n\nComplex work is broken down into execution plans:\n- **Active plans:** \x60docs/exec-plans" : String).data ("/active/\x60\n" : String).data, List.append_assoc ((((((((agA1).data ++ (agA2).data) ++ (agA3).data) ++ (agA4).data) ++ (agB1).data) ++ (agB2).data) ++ (agB3).data) ++ ("### Execution Plans\nLocation: \x60docs/exec-plans/\x60\n\nComplex work is broken down into execution plans:\n- **Active plans:** \x60docs/exec-plans" : String).data) ("/active/\x60\n" : String).data (agB5).data]
  have c8 : containsSub frontendNeedle.data (("/active/\x60\n" : String).data ++ (agB5).data) = false := rfl
  have b8 : containsSub frontendNeedle.data (((((((((agA1).data ++ (agA2).data) ++ (agA3).data) ++ (agA4).data) ++ (agB1).data) ++ (agB2).data) ++ (agB3).data) ++ ("### Execution Plans\nLocation: \x60docs/exec-plans/\x60\n\nComplex work is broken down into execution plans:\n- **Active plans:** \x60docs/exec-plans" : String).data) ++ ("/active/\x60\n" : String).data) = false := by
    rw [List.append_assoc (((((((agA1).data ++ (agA2).data) ++ (agA3).data) ++ (agA4).data) ++ (agB1).data) ++ (agB2).data) ++ (agB3).data) ("### Execution Plans\nLocation: \x60docs/exec-plans/\x60\n\nComplex work is broken down into execution plans:\n- **Active plans:** \x60docs/exec-plans" : String).data ("/active/\x60\n" : String).data, ← sp8]
    exact h7
  have h8 : containsSub frontendNeedle.data (((((((((agA1).data ++ (agA2).data) ++ (agA3).data) ++ (agA4).data) ++ (agB1).data) ++ (agB2).data) ++ (agB3).data) ++ (agB4).data) ++ (agB5).data) = false := by
    rw [eq8, containsSub_chain ((((((((agA1).data ++ (agA2).data) ++ (agA3).data) ++ (agA4).data) ++ (agB1).data) ++ (agB2).data) ++ (agB3).data) ++ ("### Execution Plans\nLocation: \x60docs/exec-plans/\x60\n\nComplex work is broken down into execution plans:\n- **Active plans:** \x60docs/exec-plans" : String).data) ("/active/\x60\n" : String).data (agB5).data frontendNeedle.data (by decide), b8, c8]
    rfl
  have sp9 : (agB5).data = ("- **Completed plans:** \x60docs/exec-plans/completed/\x60\n- **Tech debt tracker:** \x60docs/exec-plans/tech-debt-tracker.md\x60\n\nSee: [PLANS.md](./PLANS.md) for planning gu" : String).data ++ ("idelines.\n" : String).data := rfl
  have eq9 : (((((((((agA1).data ++ (agA2).data) ++ (agA3).data) ++ (agA4).data) ++ (agB1).data) ++ (agB2).data) ++ (agB3).data) ++ (agB4).data) ++ (agB5).data) ++ (agB6).data = (((((((((agA1).data ++ (agA2).data) ++ (agA3).data) ++ (agA4).data) ++ (agB1).data) ++ (agB2).data) ++ (agB3).data) ++ (agB4).data) ++ ("- **Completed plans:** \x60docs/exec-plans/completed/\x60\n- **Tech debt tracker:** \x60docs/exec-plans/tech-debt-tracker.md\x60\n\nSee: [PLANS.md](./PLANS.md) for planning gu" : String).data) ++ (("idelines.\n" : String).data ++ (agB6).data) := by
    rw [sp9, ← List.append_assoc ((((((((agA1).data ++ (agA2).data) ++ (agA3).data) ++ (agA4).data) ++ (agB1).data) ++ (agB2).data) ++ (agB3).data) ++ (agB4).data) ("- **Completed plans:** \x60docs/exec-plans/completed/\x60\n- **Tech debt tracker:** \x60docs/exec-plans/tech-debt-tracker.md\x60\n\nSee: [PLANS.md](./PLANS.md) for planning gu" : String).data ("idelines.\n" : String).data, List.append_assoc (((((((((agA1).data ++ (agA2).data) ++ (agA3).data) ++ (agA4).data) ++ (agB1).data) ++ (agB2).data) ++ (agB3).data) ++ (agB4).data) ++ ("- **Completed plans:** \x60docs/exec-plans/completed/\x60\n- **Tech debt tracker:** \x60docs/exec-plans/tech-debt-tracker.md\x60\n\nSee: [PLANS.md](./PLANS.md) for planning gu" : String).data) ("idelines.\n" : String).data (agB6).data]
  have c9 : containsSub frontendNeedle.data (("idelines.\n" : String).data ++ (agB6).data) = false := rfl
  have b9 : containsSub frontendNeedle.data ((((((((((agA1).data ++ (agA2).data) ++ (agA3).data) ++ (agA4).data) ++ (agB1).data) ++ (agB2).data) ++ (agB3).data) ++ (agB4).data) ++ ("- **Completed plans:** \x60docs/exec-plans/completed/\x60\n- **Tech debt tracker:** \x60docs/exec-plans/tech-debt-tracker.md\x60\n\nSee: [PLANS.md](./PLANS.md) for planning gu" : String).data) ++ ("idelines.\n" : String).data) = false := by
    rw [List.append_assoc ((((((((agA1).data ++ (agA2).data) ++ (agA3).data) ++ (agA4).data) ++ (agB1).data) ++ (agB2).data) ++ (agB3).data) ++ (agB4).data) ("- **Completed plans:** \x60docs/exec-plans/completed/\x60\n- **Tech debt tracker:** \x60docs/exec-plans/tech-debt-tracker.md\x60\n\nSee: [PLANS.md](./PLANS.md) for planning gu" : String).data ("idelines.\n" : String).data, ← sp9]
    exact h8
  have h9 : containsSub frontendNeedle.data ((((((((((agA1).data ++ (agA2).data) ++ (agA3).data) ++ (agA4).data) ++ (agB1).data) ++ (agB2).data) ++ (agB3).data) ++ (agB4).data) ++ (agB5).data) ++ (agB6).data) = false := by
    rw [eq9, containsSub_chain (((((((((agA1).data ++ (agA2).data) ++ (agA3).data) ++ (agA4).data) ++ (agB1).data) ++ (agB2).data) ++ (agB3).data) ++ (agB4).data) ++ ("- **Completed plans:** \x60docs/exec-plans/completed/\x60\n- **Tech debt tracker:** \x60docs/exec-plans/tech-debt-tracker.md\x60\n\nSee: [PLANS.md](./PLANS.md) for planning gu" : String).data) ("idelines.\n" : String).data (agB6).data frontendNeedle.data (by decide), b9, c9]
    rfl
  have sp10 : (agB6).data = ("\n### Product Specifications\nLocation: \x60docs/product-specs/\x60\n\nProduct requirements and feature specifications live here. Before building:\n1. Review relevant prod" : String).data ++ ("uct specs\n" : String).data := rfl
  have eq10 : ((((((((((agA1).data ++ (agA2).data) ++ (agA3).data) ++ (agA4).data) ++ (agB1).data) ++ (agB2).data) ++ (agB3).data) ++ (agB4).data) ++ (agB5).data) ++ (agB6).data) ++ (agB7).data = ((((((((((agA1).data ++ (agA2).data) ++ (agA3).data) ++ (agA4).data) ++ (agB1).data) ++ (agB2).data) ++ (agB3).data) ++ (agB4).data) ++ (agB5).data) ++ ("\n### Product Specifications\nLocation: \x60docs/product-specs/\x60\n\nProduct requirements and feature specifications live here. Before building:\n1. Review relevant prod" : String).data) ++ (("uct specs\n" : String).data ++ (agB7).data) := by
    rw [sp10, ← List.append_assoc (((((((((agA1).data ++ (agA2).data) ++ (agA3).data) ++ (agA4).data) ++ (agB1).data) ++ (agB2).data) ++ (agB3).data) ++ (agB4).data) ++ (agB5).data) ("\n### Product Specifications\nLocation: \x60docs/product-specs/\x60\n\nProduct requirements and feature specifications live here. Before building:\n1. Review relevant prod" : String).data ("uct specs\n" : String).data, List.append_assoc ((((((((((agA1).data ++ (agA2).data) ++ (agA3).data) ++ (agA4).data) ++ (agB1).data) ++ (agB2).data) ++ (agB3).data) ++ (agB4).data) ++ (agB5).data) ++ ("\n### Product Specifications\nLocation: \x60docs/product-specs/\x60\n\nProduct requirements and feature specifications live here. Before building:\n1. Review relevant prod" : String).data) ("uct specs\n" : String).data (agB7).data]
  have c10 : containsSub frontendNeedle.data (("uct specs\n" : String).data ++ (agB7).data) = false := rfl
  have b10 : containsSub frontendNeedle.data (((((((((((agA1).data ++ (agA2).data) ++ (agA3).data) ++ (agA4).data) ++ (agB1).data) ++ (agB2).data) ++ (agB3).data) ++ (agB4).data) ++ (agB5).data) ++ ("\n### Product Specifications\nLocation: \x60docs/product-specs/\x60\n\nProduct requirements and feature specifications live here. Before building:\n1. Review relevant prod" : String).data) ++ ("uct specs\n" : String).data) = false := by
    rw [List.append_assoc (((((((((agA1).data ++ (agA2).data) ++ (agA3).data) ++ (agA4).data) ++ (agB1).data) ++ (agB2).data) ++ (agB3).data) ++ (agB4).data) ++ (agB5).data) ("\n### Product Specifications\nLocation: \x60docs/product-specs/\x60\n\nProduct requirements and feature specifications live here. Before building:\n1. Review relevant prod" : String).data ("uct specs\n" : String).data, ← sp10]
    exact h9
  have h10 : containsSub frontendNeedle.data (((((((((((agA1).data ++ (agA2).data) ++ (agA3).data) ++ (agA4).data) ++ (agB1).data) ++ (agB2).data) ++ (agB3).data) ++ (agB4).data) ++ (agB5).data) ++ (agB6).data) ++ (agB7).data) = false := by
    rw [eq10, containsSub_chain ((((((((((agA1).data ++ (agA2).data) ++ (agA3).data) ++ (agA4).data) ++ (agB1).data) ++ (agB2).data) ++ (agB3).data) ++ (agB4).data) ++ (agB5).data) ++ ("\n### Product Specifications\nLocation: \x60docs/product-specs/\x60\n\nProduct requirements and feature specifications live here. Before building:\n1. Review relevant prod" : String).data) ("uct specs\n" : String).data (agB7).data frontendNeedle.data (by decide), b10, c10]
    rfl
  have sp11 : (agB7).data = ("2. Ask clarifying questions if specs are incomplete\n3. Update specs based on implementation learnings\n\nSee: [docs/product-specs/index.md](./docs/product-specs/i" : String).data ++ ("ndex.md)\n\n" : String).data := rfl
  have eq11 : (((((((((((agA1).data ++ (agA2).data) ++ (agA3).data) ++ (agA4).data) ++ (agB1).data) ++ (agB2).data) ++ (agB3).data) ++ (agB4).data) ++ (agB5).data) ++ (agB6).data) ++ (agB7).data) ++ (agB8).data = (((((((((((agA1).data ++ (agA2).data) ++ (agA3).data) ++ (agA4).data) ++ (agB1).data) ++ (agB2).data) ++ (agB3).data) ++ (agB4).data) ++ (agB5).data) ++ (agB6).data) ++ ("2. Ask clarifying questions if specs are incomplete\n3. Update specs based on implementation learnings\n\nSee: [docs/product-specs/index.md](./docs/product-specs/i" : String).data) ++ (("ndex.md)\n\n" : String).data ++ (agB8).data) := by
    rw [sp11, ← List.append_assoc ((((((((((agA1).data ++ (agA2).data) ++ (agA3).data) ++ (agA4).data) ++ (agB1).data) ++ (agB2).data) ++ (agB3).data) ++ (agB4).data) ++ (agB5).data) ++ (agB6).data) ("2. Ask clarifying questions if specs are incomplete\n3. Update specs based on implementation learnings\n\nSee: [docs/product-specs/index.md](./docs/product-specs/i" : String).data ("ndex.md)\n\n" : String).data, List.append_assoc (((((((((((agA1).data ++ (agA2).data) ++ (agA3).data) ++ (agA4).data) ++ (agB1).data) ++ (agB2).data) ++ (agB3).data) ++ (agB4).data) ++ (agB5).data) ++ (agB6).data) ++ ("2. Ask clarifying questions if specs are incomplete\n3. Update specs based on implementation learnings\n\nSee: [docs/product-specs/index.md](./docs/product-specs/i" : String).data) ("ndex.md)\n\n" : String).data (agB8).data]
  have c11 : containsSub frontendNeedle.data (("ndex.md)\n\n" : String).data ++ (agB8).data) = false := rfl
  have b11 : containsSub frontendNeedle.data ((((((((((((agA1).data ++ (agA2).data) ++ (agA3).data) ++ (agA4).data) ++ (agB1).data) ++ (agB2).data) ++ (agB3).data) ++ (agB4).data) ++ (agB5).data) ++ (agB6).data) ++ ("2. Ask clarifying questions if specs are incomplete\n3. Update specs based on implementation learnings\n\nSee: [docs/product-specs/index.md](./docs/product-specs/i" : String).data) ++ ("ndex.md)\n\n" : String).data) = false := by
    rw [List.append_assoc ((((((((((agA1).data ++ (agA2).data) ++ (agA3).data) ++ (agA4).data) ++ (agB1).data) ++ (agB2).data) ++ (agB3).data) ++ (agB4).data) ++ (agB5).data) ++ (agB6).data) ("2. Ask clarifying questions if specs are incomplete\n3. Update specs based on implementation learnings\n\nSee: [docs/product-specs/index.md](./docs/product-specs/i" : String).data ("ndex.md)\n\n" : String).data, ← sp11]
    exact h10
  have h11 : containsSub frontendNeedle.data ((((((((((((agA1).data ++ (agA2).data) ++ (agA3).data) ++ (agA4).data) ++ (agB1).data) ++ (agB2).data) ++ (agB3).data) ++ (agB4).data) ++ (agB5).data) ++ (agB6).data) ++ (agB7).data) ++ (agB8).data) = false := by
    rw [eq11, containsSub_chain (((((((((((agA1).data ++ (agA2).data) ++ (agA3).data) ++ (agA4).data) ++ (agB1).data) ++ (agB2).data) ++ (agB3).data) ++ (agB4).data) ++ (agB5).data) ++ (agB6).data) ++ ("2. Ask clarifying questions if specs are incomplete\n3. Update specs based on implementation learnings\n\nSee: [docs/product-specs/index.md](./docs/product-specs/i" : String).data) ("ndex.md)\n\n" : String).data (agB8).data frontendNeedle.data (by decide), b11, c11]
    rfl
  have sp12 : (agB8).data = ("### Reference Documentation\nLocation: \x60docs/references/\x60\n\nExternal library documentation optimized for LLM consumption. When integrating new l" : String).data ++ ("ibraries:\n" : String).data := rfl
  have eq12 : ((((((((((((agA1).data ++ (agA2).data) ++ (agA3).data) ++ (agA4).data) ++ (agB1).data) ++ (agB2).data) ++ (agB3).data) ++ (agB4).data) ++ (agB5).data) ++ (agB6).data) ++ (agB7).data) ++ (agB8).data) ++ (agB9).data = ((((((((((((agA1).data ++ (agA2).data) ++ (agA3).data) ++ (agA4).data) ++ (agB1).data) ++ (agB2).data) ++ (agB3).data) ++ (agB4).data) ++ (agB5).data) ++ (agB6).data) ++ (agB7).data) ++ ("### Reference Documentation\nLocation: \x60docs/references/\x60\n\nExternal library documentation optimized for LLM consumption. When integrating new l" : String).data) ++ (("ibraries:\n" : String).data ++ (agB9).data) := by
    rw [sp12, ← List.append_assoc (((((((((((agA1).data ++ (agA2).data) ++ (agA3).data) ++ (agA4).data) ++ (agB1).data) ++ (agB2).data) ++ (agB3).data) ++ (agB4).data) ++ (agB5).data) ++ (agB6).data) ++ (agB7).data) ("### Reference Documentation\nLocation: \x60docs/references/\x60\n\nExternal library documentation optimized for LLM consumption. When integrating new l" : String).data ("ibraries:\n" : String).data, List.append_assoc ((((((((((((agA1).data ++ (agA2).data) ++ (agA3).data) ++ (agA4).data) ++ (agB1).data) ++ (agB2).data) ++ (agB3).data) ++ (agB4).data) ++ (agB5).data) ++ (agB6).data) ++ (agB7).data) ++ ("### Reference Documentation\nLocation: \x60docs/references/\x60\n\nExternal library documentation optimized for LLM consumption. When integrating new l" : String).data) ("ibraries:\n" : String).data (agB9).data]
  have c12 : containsSub frontendNeedle.data (("ibraries:\n" : String).data ++ (agB9).data) = false := rfl
  have b12 : containsSub frontendNeedle.data (((((((((((((agA1).data ++ (agA2).data) ++ (agA3).data) ++ (agA4).data) ++ (agB1).data) ++ (agB2).data) ++ (agB3).data) ++ (agB4).data) ++ (agB5).data) ++ (agB6).data) ++ (agB7).data) ++ ("### Reference Documentation\nLocation: \x60docs/references/\x60\n\nExternal library documentation optimized for LLM consumption. When integrating new l" : String).data) ++ ("ibraries:\n" : String).data) = false := by
    rw [List.append_assoc (((((((((((agA1).data ++ (agA2).data) ++ (agA3).data) ++ (agA4).data) ++ (agB1).data) ++ (agB2).data) ++ (agB3).data) ++ (agB4).data) ++ (agB5).data) ++ (agB6).data) ++ (agB7).data) ("### Reference Documentation\nLocation: \x60docs/references/\x60\n\nExternal library documentation optimized for LLM consumption. When integrating new l" : String).data ("ibraries:\n" : String).data, ← sp12]
    exact h11
  have h12 : containsSub frontendNeedle.data (((((((((((((agA1).data ++ (agA2).data) ++ (agA3).data) ++ (agA4).data) ++ (agB1).data) ++ (agB2).data) ++ (agB3).data) ++ (agB4).data) ++ (agB5).data) ++ (agB6).data) ++ (agB7).data) ++ (agB8).data) ++ (agB9).data) = false := by
    rw [eq12, containsSub_chain ((((((((((((agA1).data ++ (agA2).data) ++ (agA3).data) ++ (agA4).data) ++ (agB1).data) ++ (agB2).data) ++ (agB3).data) ++ (agB4).data) ++ (agB5).data) ++ (agB6).data) ++ (agB7).data) ++ ("### Reference Documentation\nLocation: \x60docs/references/\x60\n\nExternal library documentation optimized for LLM consumption. When integrating new l" : String).data) ("ibraries:\n" : String).data (agB9).data frontendNeedle.data (by decide), b12, c12]
    rfl
  have sp13 : (agB9).data = ("1. Extract key documentation\n2. Format for agent readability\n3. Store in \x60docs/references/[library-name]-llms.txt\x60\n\n### Generated Docu" : String).data ++ ("mentation\n" : String).data := rfl
  have eq13 : (((((((((((((agA1).data ++ (agA2).data) ++ (agA3).data) ++ (agA4).data) ++ (agB1).data) ++ (agB2).data) ++ (agB3).data) ++ (agB4).data) ++ (agB5).data) ++ (agB6).data) ++ (agB7).data) ++ (agB8).data) ++ (agB9).data) ++ (agB10).data = (((((((((((((agA1).data ++ (agA2).data) ++ (agA3).data) ++ (agA4).data) ++ (agB1).data) ++ (agB2).data) ++ (agB3).data) ++ (agB4).data) ++ (agB5).data) ++ (agB6).data) ++ (agB7).data) ++ (agB8).data) ++ ("1. Extract key documentation\n2. Format for agent readability\n3. Store in \x60docs/references/[library-name]-llms.txt\x60\n\n### Generated Docu" : String).data) ++ (("mentation\n" : String).data ++ (agB10).data) := by
    rw [sp13, ← List.append_assoc ((((((((((((agA1).data ++ (agA2).data) ++ (agA3).data) ++ (agA4).data) ++ (agB1).data) ++ (agB2).data) ++ (agB3).data) ++ (agB4).data) ++ (agB5).data) ++ (agB6).data) ++ (agB7).data) ++ (agB8).data) ("1. Extract key documentation\n2. Format for agent readability\n3. Store in \x60docs/references/[library-name]-llms.txt\x60\n\n### Generated Docu" : String).data ("mentation\n" : String).data, List.append_assoc (((((((((((((agA1).data ++ (agA2).data) ++ (agA3).data) ++ (agA4).data) ++ (agB1).data) ++ (agB2).data) ++ (agB3).data) ++ (agB4).data) ++ (agB5).data) ++ (agB6).data) ++ (agB7).data) ++ (agB8).data) ++ ("1. Extract key documentation\n2. Format for agent readability\n3. Store in \x60docs/references/[library-name]-llms.txt\x60\n\n### Generated Docu" : String).data) ("mentation\n" : String).data (agB10).data]
  have c13 : containsSub frontendNeedle.data (("mentation\n" : String).data ++ (agB10).data) = false := rfl
  have b13 : containsSub frontendNeedle.data ((((((((((((((agA1).data ++ (agA2).data) ++ (agA3).data) ++ (agA4).data) ++ (agB1).data) ++ (agB2).data) ++ (agB3).data) ++ (agB4).data) ++ (agB5).data) ++ (agB6).data) ++ (agB7).data) ++ (agB8).data) ++ ("1. Extract key documentation\n2. Format for agent readability\n3. Store in \x60docs/references/[library-name]-llms.txt\x60\n\n### Generated Docu" : String).data) ++ ("mentation\n" : String).data) = false := by
    rw [List.append_assoc ((((((((((((agA1).data ++ (agA2).data) ++ (agA3).data) ++ (agA4).data) ++ (agB1).data) ++ (agB2).data) ++ (agB3).data) ++ (agB4).data) ++ (agB5).data) ++ (agB6).data) ++ (agB7).data) ++ (agB8).data) ("1. Extract key documentation\n2. Format for agent readability\n3. Store in \x60docs/references/[library-name]-llms.txt\x60\n\n### Generated Docu" : String).data ("mentation\n" : String).data, ← sp13]
    exact h12
  have h13 : containsSub frontendNeedle.data ((((((((((((((agA1).data ++ (agA2).data) ++ (agA3).data) ++ (agA4).data) ++ (agB1).data) ++ (agB2).data) ++ (agB3).data) ++ (agB4).data) ++ (agB5).data) ++ (agB6).data) ++ (agB7).data) ++ (agB8).data) ++ (agB9).data) ++ (agB10).data) = false := by
    rw [eq13, containsSub_chain (((((((((((((agA1).data ++ (agA2).data) ++ (agA3).data) ++ (agA4).data) ++ (agB1).data) ++ (agB2).data) ++ (agB3).data) ++ (agB4).data) ++ (agB5).data) ++ (agB6).data) ++ (agB7).data) ++ (agB8).data) ++ ("1. Extract key documentation\n2. Format for agent readability\n3. Store in \x60docs/references/[library-name]-llms.txt\x60\n\n### Generated Docu" : String).data) ("mentation\n" : String).data (agB10).data frontendNeedle.data (by decide), b13, c13]
    rfl
  have sp14 : (agB10).data = ("Location: \x60docs/generated/\x60\n\nAuto-generated documentation (schemas, API docs, etc.). This directory is maintained by automation.\n\n## Core Pr" : String).data ++ ("inciples\n\n" : String).data := rfl
  have eq14 : ((((((((((((((agA1).data ++ (agA2).data) ++ (agA3).data) ++ (agA4).data) ++ (agB1).data) ++ (agB2).data) ++ (agB3).data) ++ (agB4).data) ++ (agB5).data) ++ (agB6).data) ++ (agB7).data) ++ (agB8).data) ++ (agB9).data) ++ (agB10).data) ++ (agB11).data = ((((((((((((((agA1).data ++ (agA2).data) ++ (agA3).data) ++ (agA4).data) ++ (agB1).data) ++ (agB2).data) ++ (agB3).data) ++ (agB4).data) ++ (agB5).data) ++ (agB6).data) ++ (agB7).data) ++ (agB8).data) ++ (agB9).data) ++ ("Location: \x60docs/generated/\x60\n\nAuto-generated documentation (schemas, API docs, etc.). This directory is maintained by automation.\n\n## Core Pr" : String).data) ++ (("inciples\n\n" : String).data ++ (agB11).data) := by
    rw [sp14, ← List.append_assoc (((((((((((((agA1).data ++ (agA2).data) ++ (agA3).data) ++ (agA4).data) ++ (agB1).data) ++ (agB2).data) ++ (agB3).data) ++ (agB4).data) ++ (agB5).data) ++ (agB6).data) ++ (agB7).data) ++ (agB8).data) ++ (agB9).data) ("Location: \x60docs/generated/\x60\n\nAuto-generated documentation (schemas, API docs, etc.). This directory is maintained by automation.\n\n## Core Pr" : String).data ("inciples\n\n" : String).data, List.append_assoc ((((((((((((((agA1).data ++ (agA2).data) ++ (agA3).data) ++ (agA4).data) ++ (agB1).data) ++ (agB2).data) ++ (agB3).data) ++ (agB4).data) ++ (agB5).data) ++ (agB6).data) ++ (agB7).data) ++ (agB8).data) ++ (agB9).data) ++ ("Location: \x60docs/generated/\x60\n\nAuto-generated documentation (schemas, API docs, etc.). This directory is maintained by automation.\n\n## Core Pr" : String).data) ("inciples\n\n" : String).data (agB11).data]
  have c14 : containsSub frontendNeedle.data (("inciples\n\n" : String).data ++ (agB11).data) = false := rfl
  have b14 : containsSub frontendNeedle.data (((((((((((((((agA1).data ++ (agA2).data) ++ (agA3).data) ++ (agA4).data) ++ (agB1).data) ++ (agB2).data) ++ (agB3).data) ++ (agB4).data) ++ (agB5).data) ++ (agB6).data) ++ (agB7).data) ++ (agB8).data) ++ (agB9).data) ++ ("Location: \x60docs/generated/\x60\n\nAuto-generated documentation (schemas, API docs, etc.). This directory is maintained by automation.\n\n## Core Pr" : String).data) ++ ("inciples\n\n" : String).data) = false := by
    rw [List.append_assoc (((((((((((((agA1).data ++ (agA2).data) ++ (agA3).data) ++ (agA4).data) ++ (agB1).data) ++ (agB2).data) ++ (agB3).data) ++ (agB4).data) ++ (agB5).data) ++ (agB6).data) ++ (agB7).data) ++ (agB8).data) ++ (agB9).data) ("Location: \x60docs/generated/\x60\n\nAuto-generated documentation (schemas, API docs, etc.). This directory is maintained by automation.\n\n## Core Pr" : String).data ("inciples\n\n" : String).data, ← sp14]
    exact h13
  have h14 : containsSub frontendNeedle.data (((((((((((((((agA1).data ++ (agA2).data) ++ (agA3).data) ++ (agA4).data) ++ (agB1).data) ++ (agB2).data) ++ (agB3).data) ++ (agB4).data) ++ (agB5).data) ++ (agB6).data) ++ (agB7).data) ++ (agB8).data) ++ (agB9).data) ++ (agB10).data) ++ (agB11).data) = false := by
    rw [eq14, containsSub_chain ((((((((((((((agA1).data ++ (agA2).data) ++ (agA3).data) ++ (agA4).data) ++ (agB1).data) ++ (agB2).data) ++ (agB3).data) ++ (agB4).data) ++ (agB5).data) ++ (agB6).data) ++ (agB7).data) ++ (agB8).data) ++ (agB9).data) ++ ("Location: \x60docs/generated/\x60\n\nAuto-generated documentation (schemas, API docs, etc.). This directory is maintained by automation.\n\n## Core Pr" : String).data) ("inciples\n\n" : String).data (agB11).data frontendNeedle.data (by decide), b14, c14]
    rfl
  have sp15 : (agB11).data = ("1. **Repository is the source of truth** - If it\x27s not in the repo, it doesn\x27t exist " : String).data ++ ("to agents\n" : String).data := rfl
  have eq15 : (((((((((((((((agA1).data ++ (agA2).data) ++ (agA3).data) ++ (agA4).data) ++ (agB1).data) ++ (agB2).data) ++ (agB3).data) ++ (agB4).data) ++ (agB5).data) ++ (agB6).data) ++ (agB7).data) ++ (agB8).data) ++ (agB9).data) ++ (agB10).data) ++ (agB11).data) ++ (agB12).data = (((((((((((((((agA1).data ++ (agA2).data) ++ (agA3).data) ++ (agA4).data) ++ (agB1).data) ++ (agB2).data) ++ (agB3).data) ++ (agB4).data) ++ (agB5).data) ++ (agB6).data) ++ (agB7).data) ++ (agB8).data) ++ (agB9).data) ++ (agB10).data) ++ ("1. **Repository is the source of truth** - If it\x27s not in the repo, it doesn\x27t exist " : String).data) ++ (("to agents\n" : String).data ++ (agB12).data) := by
    rw [sp15, ← List.append_assoc ((((((((((((((agA1).data ++ (agA2).data) ++ (agA3).data) ++ (agA4).data) ++ (agB1).data) ++ (agB2).data) ++ (agB3).data) ++ (agB4).data) ++ (agB5).data) ++ (agB6).data) ++ (agB7).data) ++ (agB8).data) ++ (agB9).data) ++ (agB10).data) ("1. **Repository is the source of truth** - If it\x27s not in the repo, it doesn\x27t exist " : String).data ("to agents\n" : String).data, List.append_assoc (((((((((((((((agA1).data ++ (agA2).data) ++ (agA3).data) ++ (agA4).data) ++ (agB1).data) ++ (agB2).data) ++ (agB3).data) ++ (agB4).data) ++ (agB5).data) ++ (agB6).data) ++ (agB7).data) ++ (agB8).data) ++ (agB9).data) ++ (agB10).data) ++ ("1. **Repository is the source of truth** - If it\x27s not in the repo, it doesn\x27t exist " : String).data) ("to agents\n" : String).data (agB12).data]
  have c15 : containsSub frontendNeedle.data (("to agents\n" : String).data ++ (agB12).data) = false := rfl
  have b15 : containsSub frontendNeedle.data ((((((((((((((((agA1).data ++ (agA2).data) ++ (agA3).data) ++ (agA4).data) ++ (agB1).data) ++ (agB2).data) ++ (agB3).data) ++ (agB4).data) ++ (agB5).data) ++ (agB6).data) ++ (agB7).data) ++ (agB8).data) ++ (agB9).data) ++ (agB10).data) ++ ("1. **Repository is the source of truth** - If it\x27s not in the repo, it doesn\x27t exist " : String).data) ++ ("to agents\n" : String).data) = false := by
    rw [List.append_assoc ((((((((((((((agA1).data ++ (agA2).data) ++ (agA3).data) ++ (agA4).data) ++ (agB1).data) ++ (agB2).data) ++ (agB3).data) ++ (agB4).data) ++ (agB5).data) ++ (agB6).data) ++ (agB7).data) ++ (agB8).data) ++ (agB9).data) ++ (agB10).data) ("1. **Repository is the source of truth** - If it\x27s not in the repo, it doesn\x27t exist " : String).data ("to agents\n" : String).data, ← sp15]
    exact h14
  have h15 : containsSub frontendNeedle.data ((((((((((((((((agA1).data ++ (agA2).data) ++ (agA3).data) ++ (agA4).data) ++ (agB1).data) ++ (agB2).data) ++ (agB3).data) ++ (agB4).data) ++ (agB5).data) ++ (agB6).data) ++ (agB7).data) ++ (agB8).data) ++ (agB9).data) ++ (agB10).data) ++ (agB11).data) ++ (agB12).data) = false := by
    rw [eq15, containsSub_chain (((((((((((((((agA1).data ++ (agA2).data) ++ (agA3).data) ++ (agA4).data) ++ (agB1).data) ++ (agB2).data) ++ (agB3).data) ++ (agB4).data) ++ (agB5).data) ++ (agB6).data) ++ (agB7).data) ++ (agB8).data) ++ (agB9).data) ++ (agB10).data) ++ ("1. **Repository is the source of truth** - If it\x27s not in the repo, it doesn\x27t exist " : String).data) ("to agents\n" : String).data (agB12).data frontendNeedle.data (by decide), b15, c15]
    rfl
  have sp16 : (agB12).data = ("2. **Progressive disclosure** - Start with this file, navigate to deeper sources\n3. **Enforce mechanically** - Use linters and tests, not manu" : String).data ++ ("al review\n" : String).data := rfl
  have eq16 : ((((((((((((((((agA1).data ++ (agA2).data) ++ (agA3).data) ++ (agA4).data) ++ (agB1).data) ++ (agB2).data) ++ (agB3).data) ++ (agB4).data) ++ (agB5).data) ++ (agB6).data) ++ (agB7).data) ++ (agB8).data) ++ (agB9).data) ++ (agB10).data) ++ (agB11).data) ++ (agB12).data) ++ (agB13).data = ((((((((((((((((agA1).data ++ (agA2).data) ++ (agA3).data) ++ (agA4).data) ++ (agB1).data) ++ (agB2).data) ++ (agB3).data) ++ (agB4).data) ++ (agB5).data) ++ (agB6).data) ++ (agB7).data) ++ (agB8).data) ++ (agB9).data) ++ (agB10).data) ++ (agB11).data) ++ ("2. **Progressive disclosure** - Start with this file, navigate to deeper sources\n3. **Enforce mechanically** - Use linters and tests, not manu" : String).data) ++ (("al review\n" : String).data ++ (agB13).data) := by
    rw [sp16, ← List.append_assoc (((((((((((((((agA1).data ++ (agA2).data) ++ (agA3).data) ++ (agA4).data) ++ (agB1).data) ++ (agB2).data) ++ (agB3).data) ++ (agB4).data) ++ (agB5).data) ++ (agB6).data) ++ (agB7).data) ++ (agB8).data) ++ (agB9).data) ++ (agB10).data) ++ (agB11).data) ("2. **Progressive disclosure** - Start with this file, navigate to deeper sources\n3. **Enforce mechanically** - Use linters and tests, not manu" : String).data ("al review\n" : String).data, List.append_assoc ((((((((((((((((agA1).data ++ (agA2).data) ++ (agA3).data) ++ (agA4).data) ++ (agB1).data) ++ (agB2).data) ++ (agB3).data) ++ (agB4).data) ++ (agB5).data) ++ (agB6).data) ++ (agB7).data) ++ (agB8).data) ++ (agB9).data) ++ (agB10).data) ++ (agB11).data) ++ ("2. **Progressive disclosure** - Start with this file, navigate to deeper sources\n3. **Enforce mechanically** - Use linters and tests, not manu" : String).data) ("al review\n" : String).data (agB13).data]
  have c16 : containsSub frontendNeedle.data (("al review\n" : String).data ++ (agB13).data) = false := rfl
  have b16 : containsSub frontendNeedle.data (((((((((((((((((agA1).data ++ (agA2).data) ++ (agA3).data) ++ (agA4).data) ++ (agB1).data) ++ (agB2).data) ++ (agB3).data) ++ (agB4).data) ++ (agB5).data) ++ (agB6).data) ++ (agB7).data) ++ (agB8).data) ++ (agB9).data) ++ (agB10).data) ++ (agB11).data) ++ ("2. **Progressive disclosure** - Start with this file, navigate to deeper sources\n3. **Enforce mechanically** - Use linters and tests, not manu" : String).data) ++ ("al review\n" : String).data) = false := by
    rw [List.append_assoc (((((((((((((((agA1).data ++ (agA2).data) ++ (agA3).data) ++ (agA4).data) ++ (agB1).data) ++ (agB2).data) ++ (agB3).data) ++ (agB4).data) ++ (agB5).data) ++ (agB6).data) ++ (agB7).data) ++ (agB8).data) ++ (agB9).data) ++ (agB10).data) ++ (agB11).data) ("2. **Progressive disclosure** - Start with this file, navigate to deeper sources\n3. **Enforce mechanically** - Use linters and tests, not manu" : String).data ("al review\n" : String).data, ← sp16]
    exact h15
  have h16 : containsSub frontendNeedle.data (((((((((((((((((agA1).data ++ (agA2).data) ++ (agA3).data) ++ (agA4).data) ++ (agB1).data) ++ (agB2).data) ++ (agB3).data) ++ (agB4).data) ++ (agB5).data) ++ (agB6).data) ++ (agB7).data) ++ (agB8).data) ++ (agB9).data) ++ (agB10).data) ++ (agB11).data) ++ (agB12).data) ++ (agB13).data) = false := by
    rw [eq16, containsSub_chain ((((((((((((((((agA1).data ++ (agA2).data) ++ (agA3).data) ++ (agA4).data) ++ (agB1).data) ++ (agB2).data) ++ (agB3).data) ++ (agB4).data) ++ (agB5).data) ++ (agB6).data) ++ (agB7).data) ++ (agB8).data) ++ (agB9).data) ++ (agB10).data) ++ (agB11).data) ++ ("2. **Progressive disclosure** - Start with this file, navigate to deeper sources\n3. **Enforce mechanically** - Use linters and tests, not manu" : String).data) ("al review\n" : String).data (agB13).data frontendNeedle.data (by decide), b16, c16]
    rfl
  have sp17 : (agB13).data = ("4. **Agent legibility first** - Optimize for agent reasoning, not just human re" : String).data ++ ("adability\n" : String).data := rfl
  have eq17 : (((((((((((((((((agA1).data ++ (agA2).data) ++ (agA3).data) ++ (agA4).data) ++ (agB1).data) ++ (agB2).data) ++ (agB3).data) ++ (agB4).data) ++ (agB5).data) ++ (agB6).data) ++ (agB7).data) ++ (agB8).data) ++ (agB9).data) ++ (agB10).data) ++ (agB11).data) ++ (agB12).data) ++ (agB13).data) ++ (agB14).data = (((((((((((((((((agA1).data ++ (agA2).data) ++ (agA3).data) ++ (agA4).data) ++ (agB1).data) ++ (agB2).data) ++ (agB3).data) ++ (agB4).data) ++ (agB5).data) ++ (agB6).data) ++ (agB7).data) ++ (agB8).data) ++ (agB9).data) ++ (agB10).data) ++ (agB11).data) ++ (agB12).data) ++ ("4. **Agent legibility first** - Optimize for agent reasoning, not just human re" : String).data) ++ (("adability\n" : String).data ++ (agB14).data) := by
    rw [sp17, ← List.append_assoc ((((((((((((((((agA1).data ++ (agA2).data) ++ (agA3).data) ++ (agA4).data) ++ (agB1).data) ++ (agB2).data) ++ (agB3).data) ++ (agB4).data) ++ (agB5).data) ++ (agB6).data) ++ (agB7).data) ++ (agB8).data) ++ (agB9).data) ++ (agB10).data) ++ (agB11).data) ++ (agB12).data) ("4. **Agent legibility first** - Optimize for agent reasoning, not just human re" : String).data ("adability\n" : String).data, List.append_assoc (((((((((((((((((agA1).data ++ (agA2).data) ++ (agA3).data) ++ (agA4).data) ++ (agB1).data) ++ (agB2).data) ++ (agB3).data) ++ (agB4).data) ++ (agB5).data) ++ (agB6).data) ++ (agB7).data) ++ (agB8).data) ++ (agB9).data) ++ (agB10).data) ++ (agB11).data) ++ (agB12).data) ++ ("4. **Agent legibility first** - Optimize for agent reasoning, not just human re" : String).data) ("adability\n" : String).data (agB14).data]
  have c17 : containsSub frontendNeedle.data (("adability\n" : String).data ++ (agB14).data) = false := rfl
  have b17 : containsSub frontendNeedle.data ((((((((((((((((((agA1).data ++ (agA2).data) ++ (agA3).data) ++ (agA4).data) ++ (agB1).data) ++ (agB2).data) ++ (agB3).data) ++ (agB4).data) ++ (agB5).data) ++ (agB6).data) ++ (agB7).data) ++ (agB8).data) ++ (agB9).data) ++ (agB10).data) ++ (agB11).data) ++ (agB12).data) ++ ("4. **Agent legibility first** - Optimize for agent reasoning, not just human re" : String).data) ++ ("adability\n" : String).data) = false := by
    rw [List.append_assoc ((((((((((((((((agA1).data ++ (agA2).data) ++ (agA3).data) ++ (agA4).data) ++ (agB1).data) ++ (agB2).data) ++ (agB3).data) ++ (agB4).data) ++ (agB5).data) ++ (agB6).data) ++ (agB7).data) ++ (agB8).data) ++ (agB9).data) ++ (agB10).data) ++ (agB11).data) ++ (agB12).data) ("4. **Agent legibility first** - Optimize for agent reasoning, not just human re" : String).data ("adability\n" : String).data, ← sp17]
    exact h16
  have h17 : containsSub frontendNeedle.data ((((((((((((((((((agA1).data ++ (agA2).data) ++ (agA3).data) ++ (agA4).data) ++ (agB1).data) ++ (agB2).data) ++ (agB3).data) ++ (agB4).data) ++ (agB5).data) ++ (agB6).data) ++ (agB7).data) ++ (agB8).data) ++ (agB9).data) ++ (agB10).data) ++ (agB11).data) ++ (agB12).data) ++ (agB13).data) ++ (agB14).data) = false := by
    rw [eq17, containsSub_chain (((((((((((((((((agA1).data ++ (agA2).data) ++ (agA3).data) ++ (agA4).data) ++ (agB1).data) ++ (agB2).data) ++ (agB3).data) ++ (agB4).data) ++ (agB5).data) ++ (agB6).data) ++ (agB7).data) ++ (agB8).data) ++ (agB9).data) ++ (agB10).data) ++ (agB11).data) ++ (agB12).data) ++ ("4. **Agent legibility first** - Optimize for agent reasoning, not just human re" : String).data) ("adability\n" : String).data (agB14).data frontendNeedle.data (by decide), b17, c17]
    rfl
  have sp18 : (agB14).data = ("5. **Continuous cleanup** - Fix patterns as soon as they drift, don\x27t let debt compound\n\n## Workflow\n\n1. **Context gathering:** Read relevant docs befo" : String).data ++ ("re coding\n" : String).data := rfl
  have eq18 : ((((((((((((((((((agA1).data ++ (agA2).data) ++ (agA3).data) ++ (agA4).data) ++ (agB1).data) ++ (agB2).data) ++ (agB3).data) ++ (agB4).data) ++ (agB5).data) ++ (agB6).data) ++ (agB7).data) ++ (agB8).data) ++ (agB9).data) ++ (agB10).data) ++ (agB11).data) ++ (agB12).data) ++ (agB13).data) ++ (agB14).data) ++ (agB15).data = ((((((((((((((((((agA1).data ++ (agA2).data) ++ (agA3).data) ++ (agA4).data) ++ (agB1).data) ++ (agB2).data) ++ (agB3).data) ++ (agB4).data) ++ (agB5).data) ++ (agB6).data) ++ (agB7).data) ++ (agB8).data) ++ (agB9).data) ++ (agB10).data) ++ (agB11).data) ++ (agB12).data) ++ (agB13).data) ++ ("5. **Continuous cleanup** - Fix patterns as soon as they drift, don\x27t let debt compound\n\n## Workflow\n\n1. **Context gathering:** Read relevant docs befo" : String).data) ++ (("re coding\n" : String).data ++ (agB15).data) := by
    rw [sp18, ← List.append_assoc (((((((((((((((((agA1).data ++ (agA2).data) ++ (agA3).data) ++ (agA4).data) ++ (agB1).data) ++ (agB2).data) ++ (agB3).data) ++ (agB4).data) ++ (agB5).data) ++ (agB6).data) ++ (agB7).data) ++ (agB8).data) ++ (agB9).data) ++ (agB10).data) ++ (agB11).data) ++ (agB12).data) ++ (agB13).data) ("5. **Continuous cleanup** - Fix patterns as soon as they drift, don\x27t let debt compound\n\n## Workflow\n\n1. **Context gathering:** Read relevant docs befo" : String).data ("re coding\n" : String).data, List.append_assoc ((((((((((((((((((agA1).data ++ (agA2).data) ++ (agA3).data) ++ (agA4).data) ++ (agB1).data) ++ (agB2).data) ++ (agB3).data) ++ (agB4).data) ++ (agB5).data) ++ (agB6).data) ++ (agB7).data) ++ (agB8).data) ++ (agB9).data) ++ (agB10).data) ++ (agB11).data) ++ (agB12).data) ++ (agB13).data) ++ ("5. **Continuous cleanup** - Fix patterns as soon as they drift, don\x27t let debt compound\n\n## Workflow\n\n1. **Context gathering:** Read relevant docs befo" : String).data) ("re coding\n" : String).data (agB15).data]
  have c18 : containsSub frontendNeedle.data (("re coding\n" : String).data ++ (agB15).data) = false := rfl
  have b18 : containsSub frontendNeedle.data (((((((((((((((((((agA1).data ++ (agA2).data) ++ (agA3).data) ++ (agA4).data) ++ (agB1).data) ++ (agB2).data) ++ (agB3).data) ++ (agB4).data) ++ (agB5).data) ++ (agB6).data) ++ (agB7).data) ++ (agB8).data) ++ (agB9).data) ++ (agB10).data) ++ (agB11).data) ++ (agB12).data) ++ (agB13).data) ++ ("5. **Continuous cleanup** - Fix patterns as soon as they drift, don\x27t let debt compound\n\n## Workflow\n\n1. **Context gathering:** Read relevant docs befo" : String).data) ++ ("re coding\n" : String).data) = false := by
    rw [List.append_assoc (((((((((((((((((agA1).data ++ (agA2).data) ++ (agA3).data) ++ (agA4).data) ++ (agB1).data) ++ (agB2).data) ++ (agB3).data) ++ (agB4).data) ++ (agB5).data) ++ (agB6).data) ++ (agB7).data) ++ (agB8).data) ++ (agB9).data) ++ (agB10).data) ++ (agB11).data) ++ (agB12).data) ++ (agB13).data) ("5. **Continuous cleanup** - Fix patterns as soon as they drift, don\x27t let debt compound\n\n## Workflow\n\n1. **Context gathering:** Read relevant docs befo" : String).data ("re coding\n" : String).data, ← sp18]
    exact h17
  have h18 : containsSub frontendNeedle.data (((((((((((((((((((agA1).data ++ (agA2).data) ++ (agA3).data) ++ (agA4).data) ++ (agB1).data) ++ (agB2).data) ++ (agB3).data) ++ (agB4).data) ++ (agB5).data) ++ (agB6).data) ++ (agB7).data) ++ (agB8).data) ++ (agB9).data) ++ (agB10).data) ++ (agB11).data) ++ (agB12).data) ++ (agB13).data) ++ (agB14).data) ++ (agB15).data) = false := by
    rw [eq18, containsSub_chain ((((((((((((((((((agA1).data ++ (agA2).data) ++ (agA3).data) ++ (agA4).data) ++ (agB1).data) ++ (agB2).data) ++ (agB3).data) ++ (agB4).data) ++ (agB5).data) ++ (agB6).data) ++ (agB7).data) ++ (agB8).data) ++ (agB9).data) ++ (agB10).data) ++ (agB11).data) ++ (agB12).data) ++ (agB13).data) ++ ("5. **Continuous cleanup** - Fix patterns as soon as they drift, don\x27t let debt compound\n\n## Workflow\n\n1. **Context gathering:** Read relevant docs befo" : String).data) ("re coding\n" : String).data (agB15).data frontendNeedle.data (by decide), b18, c18]
    rfl
  have sp19 : (agB15).data = ("2. **Plan:** Create execution plans for complex work\n3. **Implement:** Follow architectural constraints and quality " : String).data ++ ("standards\n" : String).data := rfl
  have eq19 : (((((((((((((((((((agA1).data ++ (agA2).data) ++ (agA3).data) ++ (agA4).data) ++ (agB1).data) ++ (agB2).data) ++ (agB3).data) ++ (agB4).data) ++ (agB5).data) ++ (agB6).data) ++ (agB7).data) ++ (agB8).data) ++ (agB9).data) ++ (agB10).data) ++ (agB11).data) ++ (agB12).data) ++ (agB13).data) ++ (agB14).data) ++ (agB15).data) ++ (agB16).data = (((((((((((((((((((agA1).data ++ (agA2).data) ++ (agA3).data) ++ (agA4).data) ++ (agB1).data) ++ (agB2).data) ++ (agB3).data) ++ (agB4).data) ++ (agB5).data) ++ (agB6).data) ++ (agB7).data) ++ (agB8).data) ++ (agB9).data) ++ (agB10).data) ++ (agB11).data) ++ (agB12).data) ++ (agB13).data) ++ (agB14).data) ++ ("2. **Plan:** Create execution plans for complex work\n3. **Implement:** Follow architectural constraints and quality " : String).data) ++ (("standards\n" : String).data ++ (agB16).data) := by
    rw [sp19, ← List.append_assoc ((((((((((((((((((agA1).data ++ (agA2).data) ++ (agA3).data) ++ (agA4).data) ++ (agB1).data) ++ (agB2).data) ++ (agB3).data) ++ (agB4).data) ++ (agB5).data) ++ (agB6).data) ++ (agB7).data) ++ (agB8).data) ++ (agB9).data) ++ (agB10).data) ++ (agB11).data) ++ (agB12).data) ++ (agB13).data) ++ (agB14).data) ("2. **Plan:** Create execution plans for complex work\n3. **Implement:** Follow architectural constraints and quality " : String).data ("standards\n" : String).data, List.append_assoc (((((((((((((((((((agA1).data ++ (agA2).data) ++ (agA3).data) ++ (agA4).data) ++ (agB1).data) ++ (agB2).data) ++ (agB3).data) ++ (agB4).data) ++ (agB5).data) ++ (agB6).data) ++ (agB7).data) ++ (agB8).data) ++ (agB9).data) ++ (agB10).data) ++ (agB11).data) ++ (agB12).data) ++ (agB13).data) ++ (agB14).data) ++ ("2. **Plan:** Create execution plans for complex work\n3. **Implement:** Follow architectural constraints and quality " : String).data) ("standards\n" : String).data (agB16).data]
  have c19 : containsSub frontendNeedle.data (("standards\n" : String).data ++ (agB16).data) = false := rfl
  have b19 : containsSub frontendNeedle.data ((((((((((((((((((((agA1).data ++ (agA2).data) ++ (agA3).data) ++ (agA4).data) ++ (agB1).data) ++ (agB2).data) ++ (agB3).data) ++ (agB4).data) ++ (agB5).data) ++ (agB6).data) ++ (agB7).data) ++ (agB8).data) ++ (agB9).data) ++ (agB10).data) ++ (agB11).data) ++ (agB12).data) ++ (agB13).data) ++ (agB14).data) ++ ("2. **Plan:** Create execution plans for complex work\n3. **Implement:** Follow architectural constraints and quality " : String).data) ++ ("standards\n" : String).data) = false := by
    rw [List.append_assoc ((((((((((((((((((agA1).data ++ (agA2).data) ++ (agA3).data) ++ (agA4).data) ++ (agB1).data) ++ (agB2).data) ++ (agB3).data) ++ (agB4).data) ++ (agB5).data) ++ (agB6).data) ++ (agB7).data) ++ (agB8).data) ++ (agB9).data) ++ (agB10).data) ++ (agB11).data) ++ (agB12).data) ++ (agB13).data) ++ (agB14).data) ("2. **Plan:** Create execution plans for complex work\n3. **Implement:** Follow architectural constraints and quality " : String).data ("standards\n" : String).data, ← sp19]
    exact h18
  have h19 : containsSub frontendNeedle.data ((((((((((((((((((((agA1).data ++ (agA2).data) ++ (agA3).data) ++ (agA4).data) ++ (agB1).data) ++ (agB2).data) ++ (agB3).data) ++ (agB4).data) ++ (agB5).data) ++ (agB6).data) ++ (agB7).data) ++ (agB8).data) ++ (agB9).data) ++ (agB10).data) ++ (agB11).data) ++ (agB12).data) ++ (agB13).data) ++ (agB14).data) ++ (agB15).data) ++ (agB16).data) = false := by
    rw [eq19, containsSub_chain (((((((((((((((((((agA1).data ++ (agA2).data) ++ (agA3).data) ++ (agA4).data) ++ (agB1).data) ++ (agB2).data) ++ (agB3).data) ++ (agB4).data) ++ (agB5).data) ++ (agB6).data) ++ (agB7).data) ++ (agB8).data) ++ (agB9).data) ++ (agB10).data) ++ (agB11).data) ++ (agB12).data) ++ (agB13).data) ++ (agB14).data) ++ ("2. **Plan:** Create execution plans for complex work\n3. **Implement:** Follow architectural constraints and quality " : String).data) ("standards\n" : String).data (agB16).data frontendNeedle.data (by decide), b19, c19]
    rfl
  have sp20 : (agB16).data = ("4. **Validate:** Run tests, linters, and validation scripts\n5. **Review:** Get agent and human feedback\n6. **Iterate:** Respond to feedback, f" : String).data ++ ("ix issues\n" : String).data := rfl
  have eq20 : ((((((((((((((((((((agA1).data ++ (agA2).data) ++ (agA3).data) ++ (agA4).data) ++ (agB1).data) ++ (agB2).data) ++ (agB3).data) ++ (agB4).data) ++ (agB5).data) ++ (agB6).data) ++ (agB7).data) ++ (agB8).data) ++ (agB9).data) ++ (agB10).data) ++ (agB11).data) ++ (agB12).data) ++ (agB13).data) ++ (agB14).data) ++ (agB15).data) ++ (agB16).data) ++ (agB17).data = ((((((((((((((((((((agA1).data ++ (agA2).data) ++ (agA3).data) ++ (agA4).data) ++ (agB1).data) ++ (agB2).data) ++ (agB3).data) ++ (agB4).data) ++ (agB5).data) ++ (agB6).data) ++ (agB7).data) ++ (agB8).data) ++ (agB9).data) ++ (agB10).data) ++ (agB11).data) ++ (agB12).data) ++ (agB13).data) ++ (agB14).data) ++ (agB15).data) ++ ("4. **Validate:** Run tests, linters, and validation scripts\n5. **Review:** Get agent and human feedback\n6. **Iterate:** Respond to feedback, f" : String).data) ++ (("ix issues\n" : String).data ++ (agB17).data) := by
    rw [sp20, ← List.append_assoc (((((((((((((((((((agA1).data ++ (agA2).data) ++ (agA3).data) ++ (agA4).data) ++ (agB1).data) ++ (agB2).data) ++ (agB3).data) ++ (agB4).data) ++ (agB5).data) ++ (agB6).data) ++ (agB7).data) ++ (agB8).data) ++ (agB9).data) ++ (agB10).data) ++ (agB11).data) ++ (agB12).data) ++ (agB13).data) ++ (agB14).data) ++ (agB15).data) ("4. **Validate:** Run tests, linters, and validation scripts\n5. **Review:** Get agent and human feedback\n6. **Iterate:** Respond to feedback, f" : String).data ("ix issues\n" : String).data, List.append_assoc ((((((((((((((((((((agA1).data ++ (agA2).data) ++ (agA3).data) ++ (agA4).data) ++ (agB1).data) ++ (agB2).data) ++ (agB3).data) ++ (agB4).data) ++ (agB5).data) ++ (agB6).data) ++ (agB7).data) ++ (agB8).data) ++ (agB9).data) ++ (agB10).data) ++ (agB11).data) ++ (agB12).data) ++ (agB13).data) ++ (agB14).data) ++ (agB15).data) ++ ("4. **Validate:** Run tests, linters, and validation scripts\n5. **Review:** Get agent and human feedback\n6. **Iterate:** Respond to feedback, f" : String).data) ("ix issues\n" : String).data (agB17).data]
  have c20 : containsSub frontendNeedle.data (("ix issues\n" : String).data ++ (agB17).data) = false := rfl
  have b20 : containsSub frontendNeedle.data (((((((((((((((((((((agA1).data ++ (agA2).data) ++ (agA3).data) ++ (agA4).data) ++ (agB1).data) ++ (agB2).data) ++ (agB3).data) ++ (agB4).data) ++ (agB5).data) ++ (agB6).data) ++ (agB7).data) ++ (agB8).data) ++ (agB9).data) ++ (agB10).data) ++ (agB11).data) ++ (agB12).data) ++ (agB13).data) ++ (agB14).data) ++ (agB15).data) ++ ("4. **Validate:** Run tests, linters, and validation scripts\n5. **Review:** Get agent and human feedback\n6. **Iterate:** Respond to feedback, f" : String).data) ++ ("ix issues\n" : String).data) = false := by
    rw [List.append_assoc (((((((((((((((((((agA1).data ++ (agA2).data) ++ (agA3).data) ++ (agA4).data) ++ (agB1).data) ++ (agB2).data) ++ (agB3).data) ++ (agB4).data) ++ (agB5).data) ++ (agB6).data) ++ (agB7).data) ++ (agB8).data) ++ (agB9).data) ++ (agB10).data) ++ (agB11).data) ++ (agB12).data) ++ (agB13).data) ++ (agB14).data) ++ (agB15).data) ("4. **Validate:** Run tests, linters, and validation scripts\n5. **Review:** Get agent and human feedback\n6. **Iterate:** Respond to feedback, f" : String).data ("ix issues\n" : String).data, ← sp20]
    exact h19
  have h20 : containsSub frontendNeedle.data (((((((((((((((((((((agA1).data ++ (agA2).data) ++ (agA3).data) ++ (agA4).data) ++ (agB1).data) ++ (agB2).data) ++ (agB3).data) ++ (agB4).data) ++ (agB5).data) ++ (agB6).data) ++ (agB7).data) ++ (agB8).data) ++ (agB9).data) ++ (agB10).data) ++ (agB11).data) ++ (agB12).data) ++ (agB13).data) ++ (agB14).data) ++ (agB15).data) ++ (agB16).data) ++ (agB17).data) = false := by
    rw [eq20, containsSub_chain ((((((((((((((((((((agA1).data ++ (agA2).data) ++ (agA3).data) ++ (agA4).data) ++ (agB1).data) ++ (agB2).data) ++ (agB3).data) ++ (agB4).data) ++ (agB5).data) ++ (agB6).data) ++ (agB7).data) ++ (agB8).data) ++ (agB9).data) ++ (agB10).data) ++ (agB11).data) ++ (agB12).data) ++ (agB13).data) ++ (agB14).data) ++ (agB15).data) ++ ("4. **Validate:** Run tests, linters, and validation scripts\n5. **Review:** Get agent and human feedback\n6. **Iterate:** Respond to feedback, f" : String).data) ("ix issues\n" : String).data (agB17).data frontendNeedle.data (by decide), b20, c20]
    rfl
  have sp21 : (agB17).data = ("7. **Document:** Update design docs and specs based on learnings\n\n## Validation\n\nBefore opening PRs, ensure:\n- [ ] All tests pass\n- [ ] Lin" : String).data ++ ("ters pass\n" : String).data := rfl
  have eq21 : (((((((((((((((((((((agA1).data ++ (agA2).data) ++ (agA3).data) ++ (agA4).data) ++ (agB1).data) ++ (agB2).data) ++ (agB3).data) ++ (agB4).data) ++ (agB5).data) ++ (agB6).data) ++ (agB7).data) ++ (agB8).data) ++ (agB9).data) ++ (agB10).data) ++ (agB11).data) ++ (agB12).data) ++ (agB13).data) ++ (agB14).data) ++ (agB15).data) ++ (agB16).data) ++ (agB17).data) ++ (agB18).data = (((((((((((((((((((((agA1).data ++ (agA2).data) ++ (agA3).data) ++ (agA4).data) ++ (agB1).data) ++ (agB2).data) ++ (agB3).data) ++ (agB4).data) ++ (agB5).data) ++ (agB6).data) ++ (agB7).data) ++ (agB8).data) ++ (agB9).data) ++ (agB10).data) ++ (agB11).data) ++ (agB12).data) ++ (agB13).data) ++ (agB14).data) ++ (agB15).data) ++ (agB16).data) ++ ("7. **Document:** Update design docs and specs based on learnings\n\n## Validation\n\nBefore opening PRs, ensure:\n- [ ] All tests pass\n- [ ] Lin" : String).data) ++ (("ters pass\n" : String).data ++ (agB18).data) := by
    rw [sp21, ← List.append_assoc ((((((((((((((((((((agA1).data ++ (agA2).data) ++ (agA3).data) ++ (agA4).data) ++ (agB1).data) ++ (agB2).data) ++ (agB3).data) ++ (agB4).data) ++ (agB5).data) ++ (agB6).data) ++ (agB7).data) ++ (agB8).data) ++ (agB9).data) ++ (agB10).data) ++ (agB11).data) ++ (agB12).data) ++ (agB13).data) ++ (agB14).data) ++ (agB15).data) ++ (agB16).data) ("7. **Document:** Update design docs and specs based on learnings\n\n## Validation\n\nBefore opening PRs, ensure:\n- [ ] All tests pass\n- [ ] Lin" : String).data ("ters pass\n" : String).data, List.append_assoc (((((((((((((((((((((agA1).data ++ (agA2).data) ++ (agA3).data) ++ (agA4).data) ++ (agB1).data) ++ (agB2).data) ++ (agB3).data) ++ (agB4).data) ++ (agB5).data) ++ (agB6).data) ++ (agB7).data) ++ (agB8).data) ++ (agB9).data) ++ (agB10).data) ++ (agB11).data) ++ (agB12).data) ++ (agB13).data) ++ (agB14).data) ++ (agB15).data) ++ (agB16).data) ++ ("7. **Document:** Update design docs and specs based on learnings\n\n## Validation\n\nBefore opening PRs, ensure:\n- [ ] All tests pass\n- [ ] Lin" : String).data) ("ters pass\n" : String).data (agB18).data]
  have c21 : containsSub frontendNeedle.data (("ters pass\n" : String).data ++ (agB18).data) = false := rfl
  have b21 : containsSub frontendNeedle.data ((((((((((((((((((((((agA1).data ++ (agA2).data) ++ (agA3).data) ++ (agA4).data) ++ (agB1).data) ++ (agB2).data) ++ (agB3).data) ++ (agB4).data) ++ (agB5).data) ++ (agB6).data) ++ (agB7).data) ++ (agB8).data) ++ (agB9).data) ++ (agB10).data) ++ (agB11).data) ++ (agB12).data) ++ (agB13).data) ++ (agB14).data) ++ (agB15).data) ++ (agB16).data) ++ ("7. **Document:** Update design docs and specs based on learnings\n\n## Validation\n\nBefore opening PRs, ensure:\n- [ ] All tests pass\n- [ ] Lin" : String).data) ++ ("ters pass\n" : String).data) = false := by
    rw [List.append_assoc ((((((((((((((((((((agA1).data ++ (agA2).data) ++ (agA3).data) ++ (agA4).data) ++ (agB1).data) ++ (agB2).data) ++ (agB3).data) ++ (agB4).data) ++ (agB5).data) ++ (agB6).data) ++ (agB7).data) ++ (agB8).data) ++ (agB9).data) ++ (agB10).data) ++ (agB11).data) ++ (agB12).data) ++ (agB13).data) ++ (agB14).data) ++ (agB15).data) ++ (agB16).data) ("7. **Document:** Update design docs and specs based on learnings\n\n## Validation\n\nBefore opening PRs, ensure:\n- [ ] All tests pass\n- [ ] Lin" : String).data ("ters pass\n" : String).data, ← sp21]
    exact h20
  have h21 : containsSub frontendNeedle.data ((((((((((((((((((((((agA1).data ++ (agA2).data) ++ (agA3).data) ++ (agA4).data) ++ (agB1).data) ++ (agB2).data) ++ (agB3).data) ++ (agB4).data) ++ (agB5).data) ++ (agB6).data) ++ (agB7).data) ++ (agB8).data) ++ (agB9).data) ++ (agB10).data) ++ (agB11).data) ++ (agB12).data) ++ (agB13).data) ++ (agB14).data) ++ (agB15).data) ++ (agB16).data) ++ (agB17).data) ++ (agB18).data) = false := by
    rw [eq21, containsSub_chain (((((((((((((((((((((agA1).data ++ (agA2).data) ++ (agA3).data) ++ (agA4).data) ++ (agB1).data) ++ (agB2).data) ++ (agB3).data) ++ (agB4).data) ++ (agB5).data) ++ (agB6).data) ++ (agB7).data) ++ (agB8).data) ++ (agB9).data) ++ (agB10).data) ++ (agB11).data) ++ (agB12).data) ++ (agB13).data) ++ (agB14).data) ++ (agB15).data) ++ (agB16).data) ++ ("7. **Document:** Update design docs and specs based on learnings\n\n## Validation\n\nBefore opening PRs, ensure:\n- [ ] All tests pass\n- [ ] Lin" : String).data) ("ters pass\n" : String).data (agB18).data frontendNeedle.data (by decide), b21, c21]
    rfl
  have sp22 : (agB18).data = ("- [ ] Documentation is updated\n- [ ] Architectural constraints are satisfied\n- [ ] Security guidelines are " : String).data ++ ("followed\n\n" : String).data := rfl
  have eq22 : ((((((((((((((((((((((agA1).data ++ (agA2).data) ++ (agA3).data) ++ (agA4).data) ++ (agB1).data) ++ (agB2).data) ++ (agB3).data) ++ (agB4).data) ++ (agB5).data) ++ (agB6).data) ++ (agB7).data) ++ (agB8).data) ++ (agB9).data) ++ (agB10).data) ++ (agB11).data) ++ (agB12).data) ++ (agB13).data) ++ (agB14).data) ++ (agB15).data) ++ (agB16).data) ++ (agB17).data) ++ (agB18).data) ++ (agB19).data = ((((((((((((((((((((((agA1).data ++ (agA2).data) ++ (agA3).data) ++ (agA4).data) ++ (agB1).data) ++ (agB2).data) ++ (agB3).data) ++ (agB4).data) ++ (agB5).data) ++ (agB6).data) ++ (agB7).data) ++ (agB8).data) ++ (agB9).data) ++ (agB10).data) ++ (agB11).data) ++ (agB12).data) ++ (agB13).data) ++ (agB14).data) ++ (agB15).data) ++ (agB16).data) ++ (agB17).data) ++ ("- [ ] Documentation is updated\n- [ ] Architectural constraints are satisfied\n- [ ] Security guidelines are " : String).data) ++ (("followed\n\n" : String).data ++ (agB19).data) := by
    rw [sp22, ← List.append_assoc (((((((((((((((((((((agA1).data ++ (agA2).data) ++ (agA3).data) ++ (agA4).data) ++ (agB1).data) ++ (agB2).data) ++ (agB3).data) ++ (agB4).data) ++ (agB5).data) ++ (agB6).data) ++ (agB7).data) ++ (agB8).data) ++ (agB9).data) ++ (agB10).data) ++ (agB11).data) ++ (agB12).data) ++ (agB13).data) ++ (agB14).data) ++ (agB15).data) ++ (agB16).data) ++ (agB17).data) ("- [ ] Documentation is updated\n- [ ] Architectural constraints are satisfied\n- [ ] Security guidelines are " : String).data ("followed\n\n" : String).data, List.append_assoc ((((((((((((((((((((((agA1).data ++ (agA2).data) ++ (agA3).data) ++ (agA4).data) ++ (agB1).data) ++ (agB2).data) ++ (agB3).data) ++ (agB4).data) ++ (agB5).data) ++ (agB6).data) ++ (agB7).data) ++ (agB8).data) ++ (agB9).data) ++ (agB10).data) ++ (agB11).data) ++ (agB12).data) ++ (agB13).data) ++ (agB14).data) ++ (agB15).data) ++ (agB16).data) ++ (agB17).data) ++ ("- [ ] Documentation is updated\n- [ ] Architectural constraints are satisfied\n- [ ] Security guidelines are " : String).data) ("followed\n\n" : String).data (agB19).data]
  have c22 : containsSub frontendNeedle.data (("followed\n\n" : String).data ++ (agB19).data) = false := rfl
  have b22 : containsSub frontendNeedle.data (((((((((((((((((((((((agA1).data ++ (agA2).data) ++ (agA3).data) ++ (agA4).data) ++ (agB1).data) ++ (agB2).data) ++ (agB3).data) ++ (agB4).data) ++ (agB5).data) ++ (agB6).data) ++ (agB7).data) ++ (agB8).data) ++ (agB9).data) ++ (agB10).data) ++ (agB11).data) ++ (agB12).data) ++ (agB13).data) ++ (agB14).data) ++ (agB15).data) ++ (agB16).data) ++ (agB17).data) ++ ("- [ ] Documentation is updated\n- [ ] Architectural constraints are satisfied\n- [ ] Security guidelines are " : String).data) ++ ("followed\n\n" : String).data) = false := by
    rw [List.append_assoc (((((((((((((((((((((agA1).data ++ (agA2).data) ++ (agA3).data) ++ (agA4).data) ++ (agB1).data) ++ (agB2).data) ++ (agB3).data) ++ (agB4).data) ++ (agB5).data) ++ (agB6).data) ++ (agB7).data) ++ (agB8).data) ++ (agB9).data) ++ (agB10).data) ++ (agB11).data) ++ (agB12).data) ++ (agB13).data) ++ (agB14).data) ++ (agB15).data) ++ (agB16).data) ++ (agB17).data) ("- [ ] Documentation is updated\n- [ ] Architectural constraints are satisfied\n- [ ] Security guidelines are " : String).data ("followed\n\n" : String).data, ← sp22]
    exact h21
  have h22 : containsSub frontendNeedle.data (((((((((((((((((((((((agA1).data ++ (agA2).data) ++ (agA3).data) ++ (agA4).data) ++ (agB1).data) ++ (agB2).data) ++ (agB3).data) ++ (agB4).data) ++ (agB5).data) ++ (agB6).data) ++ (agB7).data) ++ (agB8).data) ++ (agB9).data) ++ (agB10).data) ++ (agB11).data) ++ (agB12).data) ++ (agB13).data) ++ (agB14).data) ++ (agB15).data) ++ (agB16).data) ++ (agB17).data) ++ (agB18).data) ++ (agB19).data) = false := by
    rw [eq22, containsSub_chain ((((((((((((((((((((((agA1).data ++ (agA2).data) ++ (agA3).data) ++ (agA4).data) ++ (agB1).data) ++ (agB2).data) ++ (agB3).data) ++ (agB4).data) ++ (agB5).data) ++ (agB6).data) ++ (agB7).data) ++ (agB8).data) ++ (agB9).data) ++ (agB10).data) ++ (agB11).data) ++ (agB12).data) ++ (agB13).data) ++ (agB14).data) ++ (agB15).data) ++ (agB16).data) ++ (agB17).data) ++ ("- [ ] Documentation is updated\n- [ ] Architectural constraints are satisfied\n- [ ] Security guidelines are " : String).data) ("followed\n\n" : String).data (agB19).data frontendNeedle.data (by decide), b22, c22]
    rfl
  have sp23 : (agB19).data = ("Run validation: \x60npm run validate\x60 or \x60node scripts/validate-structure.js\x60\n\n## Getting Help\n\nWh" : String).data ++ ("en stuck:\n" : String).data := rfl
  have eq23 : (((((((((((((((((((((((agA1).data ++ (agA2).data) ++ (agA3).data) ++ (agA4).data) ++ (agB1).data) ++ (agB2).data) ++ (agB3).data) ++ (agB4).data) ++ (agB5).data) ++ (agB6).data) ++ (agB7).data) ++ (agB8).data) ++ (agB9).data) ++ (agB10).data) ++ (agB11).data) ++ (agB12).data) ++ (agB13).data) ++ (agB14).data) ++ (agB15).data) ++ (agB16).data) ++ (agB17).data) ++ (agB18).data) ++ (agB19).data) ++ (agB20).data = (((((((((((((((((((((((agA1).data ++ (agA2).data) ++ (agA3).data) ++ (agA4).data) ++ (agB1).data) ++ (agB2).data) ++ (agB3).data) ++ (agB4).data) ++ (agB5).data) ++ (agB6).data) ++ (agB7).data) ++ (agB8).data) ++ (agB9).data) ++ (agB10).data) ++ (agB11).data) ++ (agB12).data) ++ (agB13).data) ++ (agB14).data) ++ (agB15).data) ++ (agB16).data) ++ (agB17).data) ++ (agB18).data) ++ ("Run validation: \x60npm run validate\x60 or \x60node scripts/validate-structure.js\x60\n\n## Getting Help\n\nWh" : String).data) ++ (("en stuck:\n" : String).data ++ (agB20).data) := by
    rw [sp23, ← List.append_assoc ((((((((((((((((((((((agA1).data ++ (agA2).data) ++ (agA3).data) ++ (agA4).data) ++ (agB1).data) ++ (agB2).data) ++ (agB3).data) ++ (agB4).data) ++ (agB5).data) ++ (agB6).data) ++ (agB7).data) ++ (agB8).data) ++ (agB9).data) ++ (agB10).data) ++ (agB11).data) ++ (agB12).data) ++ (agB13).data) ++ (agB14).data) ++ (agB15).data) ++ (agB16).data) ++ (agB17).data) ++ (agB18).data) ("Run validation: \x60npm run validate\x60 or \x60node scripts/validate-structure.js\x60\n\n## Getting Help\n\nWh" : String).data ("en stuck:\n" : String).data, List.append_assoc (((((((((((((((((((((((agA1).data ++ (agA2).data) ++ (agA3).data) ++ (agA4).data) ++ (agB1).data) ++ (agB2).data) ++ (agB3).data) ++ (agB4).data) ++ (agB5).data) ++ (agB6).data) ++ (agB7).data) ++ (agB8).data) ++ (agB9).data) ++ (agB10).data) ++ (agB11).data) ++ (agB12).data) ++ (agB13).data) ++ (agB14).data) ++ (agB15).data) ++ (agB16).data) ++ (agB17).data) ++ (agB18).data) ++ ("Run validation: \x60npm run validate\x60 or \x60node scripts/validate-structure.js\x60\n\n## Getting Help\n\nWh" : String).data) ("en stuck:\n" : String).data (agB20).data]
  have c23 : containsSub frontendNeedle.data (("en stuck:\n" : String).data ++ (agB20).data) = false := rfl
  have b23 : containsSub frontendNeedle.data ((((((((((((((((((((((((agA1).data ++ (agA2).data) ++ (agA3).data) ++ (agA4).data) ++ (agB1).data) ++ (agB2).data) ++ (agB3).data) ++ (agB4).data) ++ (agB5).data) ++ (agB6).data) ++ (agB7).data) ++ (agB8).data) ++ (agB9).data) ++ (agB10).data) ++ (agB11).data) ++ (agB12).data) ++ (agB13).data) ++ (agB14).data) ++ (agB15).data) ++ (agB16).data) ++ (agB17).data) ++ (agB18).data) ++ ("Run validation: \x60npm run validate\x60 or \x60node scripts/validate-structure.js\x60\n\n## Getting Help\n\nWh" : String).data) ++ ("en stuck:\n" : String).data) = false := by
    rw [List.append_assoc ((((((((((((((((((((((agA1).data ++ (agA2).data) ++ (agA3).data) ++ (agA4).data) ++ (agB1).data) ++ (agB2).data) ++ (agB3).data) ++ (agB4).data) ++ (agB5).data) ++ (agB6).data) ++ (agB7).data) ++ (agB8).data) ++ (agB9).data) ++ (agB10).data) ++ (agB11).data) ++ (agB12).data) ++ (agB13).data) ++ (agB14).data) ++ (agB15).data) ++ (agB16).data) ++ (agB17).data) ++ (agB18).data) ("Run validation: \x60npm run validate\x60 or \x60node scripts/validate-structure.js\x60\n\n## Getting Help\n\nWh" : String).data ("en stuck:\n" : String).data, ← sp23]
    exact h22
  have h23 : containsSub frontendNeedle.data ((((((((((((((((((((((((agA1).data ++ (agA2).data) ++ (agA3).data) ++ (agA4).data) ++ (agB1).data) ++ (agB2).data) ++ (agB3).data) ++ (agB4).data) ++ (agB5).data) ++ (agB6).data) ++ (agB7).data) ++ (agB8).data) ++ (agB9).data) ++ (agB10).data) ++ (agB11).data) ++ (agB12).data) ++ (agB13).data) ++ (agB14).data) ++ (agB15).data) ++ (agB16).data) ++ (agB17).data) ++ (agB18).data) ++ (agB19).data) ++ (agB20).data) = false := by
    rw [eq23, containsSub_chain (((((((((((((((((((((((agA1).data ++ (agA2).data) ++ (agA3).data) ++ (agA4).data) ++ (agB1).data) ++ (agB2).data) ++ (agB3).data) ++ (agB4).data) ++ (agB5).data) ++ (agB6).data) ++ (agB7).data) ++ (agB8).data) ++ (agB9).data) ++ (agB10).data) ++ (agB11).data) ++ (agB12).data) ++ (agB13).data) ++ (agB14).data) ++ (agB15).data) ++ (agB16).data) ++ (agB17).data) ++ (agB18).data) ++ ("Run validation: \x60npm run validate\x60 or \x60node scripts/validate-structure.js\x60\n\n## Getting Help\n\nWh" : String).data) ("en stuck:\n" : String).data (agB20).data frontendNeedle.data (by decide), b23, c23]
    rfl
  have sp24 : (agB20).data = ("1. Check [docs/design-docs/core-beliefs.md](./docs/design-docs/core-beliefs.md)\n2. Review similar implementations in the" : String).data ++ (" codebase\n" : String).data := rfl
  have eq24 : ((((((((((((((((((((((((agA1).data ++ (agA2).data) ++ (agA3).data) ++ (agA4).data) ++ (agB1).data) ++ (agB2).data) ++ (agB3).data) ++ (agB4).data) ++ (agB5).data) ++ (agB6).data) ++ (agB7).data) ++ (agB8).data) ++ (agB9).data) ++ (agB10).data) ++ (agB11).data) ++ (agB12).data) ++ (agB13).data) ++ (agB14).data) ++ (agB15).data) ++ (agB16).data) ++ (agB17).data) ++ (agB18).data) ++ (agB19).data) ++ (agB20).data) ++ (agB21).data = ((((((((((((((((((((((((agA1).data ++ (agA2).data) ++ (agA3).data) ++ (agA4).data) ++ (agB1).data) ++ (agB2).data) ++ (agB3).data) ++ (agB4).data) ++ (agB5).data) ++ (agB6).data) ++ (agB7).data) ++ (agB8).data) ++ (agB9).data) ++ (agB10).data) ++ (agB11).data) ++ (agB12).data) ++ (agB13).data) ++ (agB14).data) ++ (agB15).data) ++ (agB16).data) ++ (agB17).data) ++ (agB18).data) ++ (agB19).data) ++ ("1. Check [docs/design-docs/core-beliefs.md](./docs/design-docs/core-beliefs.md)\n2. Review similar implementations in the" : String).data) ++ ((" codebase\n" : String).data ++ (agB21).data) := by
    rw [sp24, ← List.append_assoc (((((((((((((((((((((((agA1).data ++ (agA2).data) ++ (agA3).data) ++ (agA4).data) ++ (agB1).data) ++ (agB2).data) ++ (agB3).data) ++ (agB4).data) ++ (agB5).data) ++ (agB6).data) ++ (agB7).data) ++ (agB8).data) ++ (agB9).data) ++ (agB10).data) ++ (agB11).data) ++ (agB12).data) ++ (agB13).data) ++ (agB14).data) ++ (agB15).data) ++ (agB16).data) ++ (agB17).data) ++ (agB18).data) ++ (agB19).data) ("1. Check [docs/design-docs/core-beliefs.md](./docs/design-docs/core-beliefs.md)\n2. Review similar implementations in the" : String).data (" codebase\n" : String).data, List.append_assoc ((((((((((((((((((((((((agA1).data ++ (agA2).data) ++ (agA3).data) ++ (agA4).data) ++ (agB1).data) ++ (agB2).data) ++ (agB3).data) ++ (agB4).data) ++ (agB5).data) ++ (agB6).data) ++ (agB7).data) ++ (agB8).data) ++ (agB9).data) ++ (agB10).data) ++ (agB11).data) ++ (agB12).data) ++ (agB13).data) ++ (agB14).data) ++ (agB15).data) ++ (agB16).data) ++ (agB17).data) ++ (agB18).data) ++ (agB19).data) ++ ("1. Check [docs/design-docs/core-beliefs.md](./docs/design-docs/core-beliefs.md)\n2. Review similar implementations in the" : String).data) (" codebase\n" : String).data (agB21).data]
  have c24 : containsSub frontendNeedle.data ((" codebase\n" : String).data ++ (agB21).data) = false := rfl
  have b24 : containsSub frontendNeedle.data (((((((((((((((((((((((((agA1).data ++ (agA2).data) ++ (agA3).data) ++ (agA4).data) ++ (agB1).data) ++ (agB2).data) ++ (agB3).data) ++ (agB4).data) ++ (agB5).data) ++ (agB6).data) ++ (agB7).data) ++ (agB8).data) ++ (agB9).data) ++ (agB10).data) ++ (agB11).data) ++ (agB12).data) ++ (agB13).data) ++ (agB14).data) ++ (agB15).data) ++ (agB16).data) ++ (agB17).data) ++ (agB18).data) ++ (agB19).data) ++ ("1. Check [docs/design-docs/core-beliefs.md](./docs/design-docs/core-beliefs.md)\n2. Review similar implementations in the" : String).data) ++ (" codebase\n" : String).data) = false := by
    rw [List.append_assoc (((((((((((((((((((((((agA1).data ++ (agA2).data) ++ (agA3).data) ++ (agA4).data) ++ (agB1).data) ++ (agB2).data) ++ (agB3).data) ++ (agB4).data) ++ (agB5).data) ++ (agB6).data) ++ (agB7).data) ++ (agB8).data) ++ (agB9).data) ++ (agB10).data) ++ (agB11).data) ++ (agB12).data) ++ (agB13).data) ++ (agB14).data) ++ (agB15).data) ++ (agB16).data) ++ (agB17).data) ++ (agB18).data) ++ (agB19).data) ("1. Check [docs/design-docs/core-beliefs.md](./docs/design-docs/core-beliefs.md)\n2. Review similar implementations in the" : String).data (" codebase\n" : String).data, ← sp24]
    exact h23
  have h24 : containsSub frontendNeedle.data (((((((((((((((((((((((((agA1).data ++ (agA2).data) ++ (agA3).data) ++ (agA4).data) ++ (agB1).data) ++ (agB2).data) ++ (agB3).data) ++ (agB4).data) ++ (agB5).data) ++ (agB6).data) ++ (agB7).data) ++ (agB8).data) ++ (agB9).data) ++ (agB10).data) ++ (agB11).data) ++ (agB12).data) ++ (agB13).data) ++ (agB14).data) ++ (agB15).data) ++ (agB16).data) ++ (agB17).data) ++ (agB18).data) ++ (agB19).data) ++ (agB20).data) ++ (agB21).data) = false := by
    rw [eq24, containsSub_chain ((((((((((((((((((((((((agA1).data ++ (agA2).data) ++ (agA3).data) ++ (agA4).data) ++ (agB1).data) ++ (agB2).data) ++ (agB3).data) ++ (agB4).data) ++ (agB5).data) ++ (agB6).data) ++ (agB7).data) ++ (agB8).data) ++ (agB9).data) ++ (agB10).data) ++ (agB11).data) ++ (agB12).data) ++ (agB13).data) ++ (agB14).data) ++ (agB15).data) ++ (agB16).data) ++ (agB17).data) ++ (agB18).data) ++ (agB19).data) ++ ("1. Check [docs/design-docs/core-beliefs.md](./docs/design-docs/core-beliefs.md)\n2. Review similar implementations in the" : String).data) (" codebase\n" : String).data (agB21).data frontendNeedle.data (by decide), b24, c24]
    rfl
  have sp25 : (agB21).data = ("3. Check [docs/exec-plans/tech-debt-tracker.md](./docs/exec-plans/tech-debt-tracker.md) for known issues\n4. Ask humans for clarification on requireme" : String).data ++ ("nts\n\n---\n\n" : String).data := rfl
  have eq25 : (((((((((((((((((((((((((agA1).data ++ (agA2).data) ++ (agA3).data) ++ (agA4).data) ++ (agB1).data) ++ (agB2).data) ++ (agB3).data) ++ (agB4).data) ++ (agB5).data) ++ (agB6).data) ++ (agB7).data) ++ (agB8).data) ++ (agB9).data) ++ (agB10).data) ++ (agB11).data) ++ (agB12).data) ++ (agB13).data) ++ (agB14).data) ++ (agB15).data) ++ (agB16).data) ++ (agB17).data) ++ (agB18).data) ++ (agB19).data) ++ (agB20).data) ++ (agB21).data) ++ (agB22).data = (((((((((((((((((((((((((agA1).data ++ (agA2).data) ++ (agA3).data) ++ (agA4).data) ++ (agB1).data) ++ (agB2).data) ++ (agB3).data) ++ (agB4).data) ++ (agB5).data) ++ (agB6).data) ++ (agB7).data) ++ (agB8).data) ++ (agB9).data) ++ (agB10).data) ++ (agB11).data) ++ (agB12).data) ++ (agB13).data) ++ (agB14).data) ++ (agB15).data) ++ (agB16).data) ++ (agB17).data) ++ (agB18).data) ++ (agB19).data) ++ (agB20).data) ++ ("3. Check [docs/exec-plans/tech-debt-tracker.md](./docs/exec-plans/tech-debt-tracker.md) for known issues\n4. Ask humans for clarification on requireme" : String).data) ++ (("nts\n\n---\n\n" : String).data ++ (agB22).data) := by
    rw [sp25, ← List.append_assoc ((((((((((((((((((((((((agA1).data ++ (agA2).data) ++ (agA3).data) ++ (agA4).data) ++ (agB1).data) ++ (agB2).data) ++ (agB3).data) ++ (agB4).data) ++ (agB5).data) ++ (agB6).data) ++ (agB7).data) ++ (agB8).data) ++ (agB9).data) ++ (agB10).data) ++ (agB11).data) ++ (agB12).data) ++ (agB13).data) ++ (agB14).data) ++ (agB15).data) ++ (agB16).data) ++ (agB17).data) ++ (agB18).data) ++ (agB19).data) ++ (agB20).data) ("3. Check [docs/exec-plans/tech-debt-tracker.md](./docs/exec-plans/tech-debt-tracker.md) for known issues\n4. Ask humans for clarification on requireme" : String).data ("nts\n\n---\n\n" : String).data, List.append_assoc (((((((((((((((((((((((((agA1).data ++ (agA2).data) ++ (agA3).data) ++ (agA4).data) ++ (agB1).data) ++ (agB2).data) ++ (agB3).data) ++ (agB4).data) ++ (agB5).data) ++ (agB6).data) ++ (agB7).data) ++ (agB8).data) ++ (agB9).data) ++ (agB10).data) ++ (agB11).data) ++ (agB12).data) ++ (agB13).data) ++ (agB14).data) ++ (agB15).data) ++ (agB16).data) ++ (agB17).data) ++ (agB18).data) ++ (agB19).data) ++ (agB20).data) ++ ("3. Check [docs/exec-plans/tech-debt-tracker.md](./docs/exec-plans/tech-debt-tracker.md) for known issues\n4. Ask humans for clarification on requireme" : String).data) ("nts\n\n---\n\n" : String).data (agB22).data]
  have c25 : containsSub frontendNeedle.data (("nts\n\n---\n\n" : String).data ++ (agB22).data) = false := rfl
  have b25 : containsSub frontendNeedle.data ((((((((((((((((((((((((((agA1).data ++ (agA2).data) ++ (agA3).data) ++ (agA4).data) ++ (agB1).data) ++ (agB2).data) ++ (agB3).data) ++ (agB4).data) ++ (agB5).data) ++ (agB6).data) ++ (agB7).data) ++ (agB8).data) ++ (agB9).data) ++ (agB10).data) ++ (agB11).data) ++ (agB12).data) ++ (agB13).data) ++ (agB14).data) ++ (agB15).data) ++ (agB16).data) ++ (agB17).data) ++ (agB18).data) ++ (agB19).data) ++ (agB20).data) ++ ("3. Check [docs/exec-plans/tech-debt-tracker.md](./docs/exec-plans/tech-debt-tracker.md) for known issues\n4. Ask humans for clarification on requireme" : String).data) ++ ("nts\n\n---\n\n" : String).data) = false := by
    rw [List.append_assoc ((((((((((((((((((((((((agA1).data ++ (agA2).data) ++ (agA3).data) ++ (agA4).data) ++ (agB1).data) ++ (agB2).data) ++ (agB3).data) ++ (agB4).data) ++ (agB5).data) ++ (agB6).data) ++ (agB7).data) ++ (agB8).data) ++ (agB9).data) ++ (agB10).data) ++ (agB11).data) ++ (agB12).data) ++ (agB13).data) ++ (agB14).data) ++ (agB15).data) ++ (agB16).data) ++ (agB17).data) ++ (agB18).data) ++ (agB19).data) ++ (agB20).data) ("3. Check [docs/exec-plans/tech-debt-tracker.md](./docs/exec-plans/tech-debt-tracker.md) for known issues\n4. Ask humans for clarification on requireme" : String).data ("nts\n\n---\n\n" : String).data, ← sp25]
    exact h24
  have h25 : containsSub frontendNeedle.data ((((((((((((((((((((((((((agA1).data ++ (agA2).data) ++ (agA3).data) ++ (agA4).data) ++ (agB1).data) ++ (agB2).data) ++ (agB3).data) ++ (agB4).data) ++ (agB5).data) ++ (agB6).data) ++ (agB7).data) ++ (agB8).data) ++ (agB9).data) ++ (agB10).data) ++ (agB11).data) ++ (agB12).data) ++ (agB13).data) ++ (agB14).data) ++ (agB15).data) ++ (agB16).data) ++ (agB17).data) ++ (agB18).data) ++ (agB19).data) ++ (agB20).data) ++ (agB21).data) ++ (agB22).data) = false := by
    rw [eq25, containsSub_chain (((((((((((((((((((((((((agA1).data ++ (agA2).data) ++ (agA3).data) ++ (agA4).data) ++ (agB1).data) ++ (agB2).data) ++ (agB3).data) ++ (agB4).data) ++ (agB5).data) ++ (agB6).data) ++ (agB7).data) ++ (agB8).data) ++ (agB9).data) ++ (agB10).data) ++ (agB11).data) ++ (agB12).data) ++ (agB13).data) ++ (agB14).data) ++ (agB15).data) ++ (agB16).data) ++ (agB17).data) ++ (agB18).data) ++ (agB19).data) ++ (agB20).data) ++ ("3. Check [docs/exec-plans/tech-debt-tracker.md](./docs/exec-plans/tech-debt-tracker.md) for known issues\n4. Ask humans for clarification on requireme" : String).data) ("nts\n\n---\n\n" : String).data (agB22).data frontendNeedle.data (by decide), b25, c25]
    rfl
  exact h25

theorem noFr_architecture_backend : containsSub frontendNeedle.data (getArchitectureTemplate ProjectType.backend).data = false := by
  unfold getArchitectureTemplate
  rw [if_neg (by decide), if_neg (by decide)]
  rw [strDataAppend, strDataAppend, strDataAppend]
  have h0 : containsSub frontendNeedle.data (archA1).data = false := rfl
  have sp1 : (archA1).data = ("# Architecture Overview\n\n**Top-level map of system domains and package layering.**\n\n## System Domains\n\nThis section will be populated as your application grows. Document major domains here (e.g., Auth, Users, Payments, etc.).\n\n### Example Domain: [Domain Name]\n\n**Purpose:** Brief description\n\n**Boundaries:**\n- Owns: What this domain is responsible for\n- Depends on: What other domains it uses\n- Used by: What domains depend on it\n\n**Key files:**\n- \x60src/[domain]/\x60 - Main implementation\n\n## Layered Architecture\n\nWithin each domain, code follows a strict layering model:\n\n\x60\x60\x60\nTypes → Config → Repository → Service → Runtime → UI\n         ↑\n    Providers (cross-cutting concerns)\n\x60\x60\x60\n\n### Layer Responsibilities\n\n1. **Types** - Data shapes, interfaces, domain models\n2. **Config** - Configuration schemas and" : String).data ++ (" defaults\n" : String).data := rfl
  have eq1 : (archA1).data ++ (archA2).data = ("# Architecture Overview\n\n**Top-level map of system domains and package layering.**\n\n## System Domains\n\nThis section will be populated as your application grows. Document major domains here (e.g., Auth, Users, Payments, etc.).\n\n### Example Domain: [Domain Name]\n\n**Purpose:** Brief description\n\n**Boundaries:**\n- Owns: What this domain is responsible for\n- Depends on: What other domains it uses\n- Used by: What domains depend on it\n\n**Key files:**\n- \x60src/[domain]/\x60 - Main implementation\n\n## Layered Architecture\n\nWithin each domain, code follows a strict layering model:\n\n\x60\x60\x60\nTypes → Config → Repository → Service → Runtime → UI\n         ↑\n    Providers (cross-cutting concerns)\n\x60\x60\x60\n\n### Layer Responsibilities\n\n1. **Types** - Data shapes, interfaces, domain models\n2. **Config** - Configuration schemas and" : String).data ++ ((" defaults\n" : String).data ++ (archA2).data) := by
    rw [sp1, List.append_assoc ("# Architecture Overview\n\n**Top-level map of system domains and package layering.**\n\n## System Domains\n\nThis section will be populated as your application grows. Document major domains here (e.g., Auth, Users, Payments, etc.).\n\n### Example Domain: [Domain Name]\n\n**Purpose:** Brief description\n\n**Boundaries:**\n- Owns: What this domain is responsible for\n- Depends on: What other domains it uses\n- Used by: What domains depend on it\n\n**Key files:**\n- \x60src/[domain]/\x60 - Main implementation\n\n## Layered Architecture\n\nWithin each domain, code follows a strict layering model:\n\n\x60\x60\x60\nTypes → Config → Repository → Service → Runtime → UI\n         ↑\n    Providers (cross-cutting concerns)\n\x60\x60\x60\n\n### Layer Responsibilities\n\n1. **Types** - Data shapes, interfaces, domain models\n2. **Config** - Configuration schemas and" : String).data (" defaults\n" : String).data (archA2).data]
  have c1 : containsSub frontendNeedle.data ((" defaults\n" : String).data ++ (archA2).data) = false := rfl
  have b1 : containsSub frontendNeedle.data (("# Architecture Overview\n\n**Top-level map of system domains and package layering.**\n\n## System Domains\n\nThis section will be populated as your application grows. Document major domains here (e.g., Auth, Users, Payments, etc.).\n\n### Example Domain: [Domain Name]\n\n**Purpose:** Brief description\n\n**Boundaries:**\n- Owns: What this domain is responsible for\n- Depends on: What other domains it uses\n- Used by: What domains depend on it\n\n**Key files:**\n- \x60src/[domain]/\x60 - Main implementation\n\n## Layered Architecture\n\nWithin each domain, code follows a strict layering model:\n\n\x60\x60\x60\nTypes → Config → Repository → Service → Runtime → UI\n         ↑\n    Providers (cross-cutting concerns)\n\x60\x60\x60\n\n### Layer Responsibilities\n\n1. **Types** - Data shapes, interfaces, domain models\n2. **Config** - Configuration schemas and" : String).data ++ (" defaults\n" : String).data) = false := by
    rw [← sp1]
    exact h0
  have h1 : containsSub frontendNeedle.data ((archA1).data ++ (archA2).data) = false := by
    rw [eq1, containsSub_chain ("# Architecture Overview\n\n**Top-level map of system domains and package layering.**\n\n## System Domains\n\nThis section will be populated as your application grows. Document major domains here (e.g., Auth, Users, Payments, etc.).\n\n### Example Domain: [Domain Name]\n\n**Purpose:** Brief description\n\n**Boundaries:**\n- Owns: What this domain is responsible for\n- Depends on: What other domains it uses\n- Used by: What domains depend on it\n\n**Key files:**\n- \x60src/[domain]/\x60 - Main implementation\n\n## Layered Architecture\n\nWithin each domain, code follows a strict layering model:\n\n\x60\x60\x60\nTypes → Config → Repository → Service → Runtime → UI\n         ↑\n    Providers (cross-cutting concerns)\n\x60\x60\x60\n\n### Layer Responsibilities\n\n1. **Types** - Data shapes, interfaces, domain models\n2. **Config** - Configuration schemas and" : String).data (" defaults\n" : String).data (archA2).data frontendNeedle.data (by decide), b1, c1]
    rfl
  have sp2 : (archA2).data = ("3. **Repository** - Data access layer (database, external APIs)\n4. **Service** - Business logic\n5. **Runtime** - Application runtime concerns (initialization, shutdown)\n6. **UI** - User interface components\n\n### Providers (Cross-cutting)\n\nCross-cutting concerns enter through explicit Provider interfaces:\n- Authentication\n- Logging/Telemetry\n- Feature flags\n- External connectors\n\n### Dependency Rules\n\n✅ **Allowed:** Forward dependencies (Types → Config → Repo → Service → Runtime → UI)\n❌ **Forbidden:** Backward dependencies (UI cannot import from Service directly without going through Runtime)\n\nThese rules are enforced mechanically via custom linters.\n\n## Technology" : String).data ++ (" Choices\n\n" : String).data := rfl
  have eq2 : ((archA1).data ++ (archA2).data) ++ (("### Backend\n\n[To be determined - document your framework choice]\n" : String)).data = ((archA1).data ++ ("3. **Repository** - Data access layer (database, external APIs)\n4. **Service** - Business logic\n5. **Runtime** - Application runtime concerns (initialization, shutdown)\n6. **UI** - User interface components\n\n### Providers (Cross-cutting)\n\nCross-cutting concerns enter through explicit Provider interfaces:\n- Authentication\n- Logging/Telemetry\n- Feature flags\n- External connectors\n\n### Dependency Rules\n\n✅ **Allowed:** Forward dependencies (Types → Config → Repo → Service → Runtime → UI)\n❌ **Forbidden:** Backward dependencies (UI cannot import from Service directly without going through Runtime)\n\nThese rules are enforced mechanically via custom linters.\n\n## Technology" : String).data) ++ ((" Choices\n\n" : String).data ++ (("### Backend\n\n[To be determined - document your framework choice]\n" : String)).data) := by
    rw [sp2, ← List.append_assoc (archA1).data ("3. **Repository** - Data access layer (database, external APIs)\n4. **Service** - Business logic\n5. **Runtime** - Application runtime concerns (initialization, shutdown)\n6. **UI** - User interface components\n\n### Providers (Cross-cutting)\n\nCross-cutting concerns enter through explicit Provider interfaces:\n- Authentication\n- Logging/Telemetry\n- Feature flags\n- External connectors\n\n### Dependency Rules\n\n✅ **Allowed:** Forward dependencies (Types → Config → Repo → Service → Runtime → UI)\n❌ **Forbidden:** Backward dependencies (UI cannot import from Service directly without going through Runtime)\n\nThese rules are enforced mechanically via custom linters.\n\n## Technology" : String).data (" Choices\n\n" : String).data, List.append_assoc ((archA1).data ++ ("3. **Repository** - Data access layer (database, external APIs)\n4. **Service** - Business logic\n5. **Runtime** - Application runtime concerns (initialization, shutdown)\n6. **UI** - User interface components\n\n### Providers (Cross-cutting)\n\nCross-cutting concerns enter through explicit Provider interfaces:\n- Authentication\n- Logging/Telemetry\n- Feature flags\n- External connectors\n\n### Dependency Rules\n\n✅ **Allowed:** Forward dependencies (Types → Config → Repo → Service → Runtime → UI)\n❌ **Forbidden:** Backward dependencies (UI cannot import from Service directly without going through Runtime)\n\nThese rules are enforced mechanically via custom linters.\n\n## Technology" : String).data) (" Choices\n\n" : String).data (("### Backend\n\n[To be determined - document your framework choice]\n" : String)).data]
  have c2 : containsSub frontendNeedle.data ((" Choices\n\n" : String).data ++ (("### Backend\n\n[To be determined - document your framework choice]\n" : String)).data) = false := rfl
  have b2 : containsSub frontendNeedle.data (((archA1).data ++ ("3. **Repository** - Data access layer (database, external APIs)\n4. **Service** - Business logic\n5. **Runtime** - Application runtime concerns (initialization, shutdown)\n6. **UI** - User interface components\n\n### Providers (Cross-cutting)\n\nCross-cutting concerns enter through explicit Provider interfaces:\n- Authentication\n- Logging/Telemetry\n- Feature flags\n- External connectors\n\n### Dependency Rules\n\n✅ **Allowed:** Forward dependencies (Types → Config → Repo → Service → Runtime → UI)\n❌ **Forbidden:** Backward dependencies (UI cannot import from Service directly without going through Runtime)\n\nThese rules are enforced mechanically via custom linters.\n\n## Technology" : String).data) ++ (" Choices\n\n" : String).data) = false := by
    rw [List.append_assoc (archA1).data ("3. **Repository** - Data access layer (database, external APIs)\n4. **Service** - Business logic\n5. **Runtime** - Application runtime concerns (initialization, shutdown)\n6. **UI** - User interface components\n\n### Providers (Cross-cutting)\n\nCross-cutting concerns enter through explicit Provider interfaces:\n- Authentication\n- Logging/Telemetry\n- Feature flags\n- External connectors\n\n### Dependency Rules\n\n✅ **Allowed:** Forward dependencies (Types → Config → Repo → Service → Runtime → UI)\n❌ **Forbidden:** Backward dependencies (UI cannot import from Service directly without going through Runtime)\n\nThese rules are enforced mechanically via custom linters.\n\n## Technology" : String).data (" Choices\n\n" : String).data, ← sp2]
    exact h1
  have h2 : containsSub frontendNeedle.data (((archA1).data ++ (archA2).data) ++ (("### Backend\n\n[To be determined - document your framework choice]\n" : String)).data) = false := by
    rw [eq2, containsSub_chain ((archA1).data ++ ("3. **Repository** - Data access layer (database, external APIs)\n4. **Service** - Business logic\n5. **Runtime** - Application runtime concerns (initialization, shutdown)\n6. **UI** - User interface components\n\n### Providers (Cross-cutting)\n\nCross-cutting concerns enter through explicit Provider interfaces:\n- Authentication\n- Logging/Telemetry\n- Feature flags\n- External connectors\n\n### Dependency Rules\n\n✅ **Allowed:** Forward dependencies (Types → Config → Repo → Service → Runtime → UI)\n❌ **Forbidden:** Backward dependencies (UI cannot import from Service directly without going through Runtime)\n\nThese rules are enforced mechanically via custom linters.\n\n## Technology" : String).data) (" Choices\n\n" : String).data (("### Backend\n\n[To be determined - document your framework choice]\n" : String)).data frontendNeedle.data (by decide), b2, c2]
    rfl
  have sp3 : (("### Backend\n\n[To be determined - document your framework choice]\n" : String)).data = ("### Backend\n\n[To be determined - document your framewor" : String).data ++ ("k choice]\n" : String).data := rfl
  have eq3 : (((archA1).data ++ (archA2).data) ++ (("### Backend\n\n[To be determined - document your framework choice]\n" : String)).data) ++ (archB1).data = (((archA1).data ++ (archA2).data) ++ ("### Backend\n\n[To be determined - document your framewor" : String).data) ++ (("k choice]\n" : String).data ++ (archB1).data) := by
    rw [sp3, ← List.append_assoc ((archA1).data ++ (archA2).data) ("### Backend\n\n[To be determined - document your framewor" : String).data ("k choice]\n" : String).data, List.append_assoc (((archA1).data ++ (archA2).data) ++ ("### Backend\n\n[To be determined - document your framewor" : String).data) ("k choice]\n" : String).data (archB1).data]
  have c3 : containsSub frontendNeedle.data (("k choice]\n" : String).data ++ (archB1).data) = false := rfl
  have b3 : containsSub frontendNeedle.data ((((archA1).data ++ (archA2).data) ++ ("### Backend\n\n[To be determined - document your framewor" : String).data) ++ ("k choice]\n" : String).data) = false := by
    rw [List.append_assoc ((archA1).data ++ (archA2).data) ("### Backend\n\n[To be determined - document your framewor" : String).data ("k choice]\n" : String).data, ← sp3]
    exact h2
  have h3 : containsSub frontendNeedle.data ((((archA1).data ++ (archA2).data) ++ (("### Backend\n\n[To be determined - document your framework choice]\n" : String)).data) ++ (archB1).data) = false := by
    rw [eq3, containsSub_chain (((archA1).data ++ (archA2).data) ++ ("### Backend\n\n[To be determined - document your framewor" : String).data) ("k choice]\n" : String).data (archB1).data frontendNeedle.data (by decide), b3, c3]
    rfl
  exact h3

theorem noFr_valscript_ts : containsSub frontendNeedle.data (getValidationScriptTemplate ValidationLanguage.typescript).data = false := by
  unfold getValidationScriptTemplate
  rw [if_pos rfl]
  rw [strDataAppend, strDataAppend, strDataAppend, strDataAppend, strDataAppend, strDataAppend]
  have h0 : containsSub frontendNeedle.data (vsTs1).data = false := rfl
  have sp1 : (vsTs1).data = ("#!/usr/bin/env tsx\n/**\n * Structure Validation Script\n * Validates the agent-first project structure and documentation\n */\n\nimport \x7b existsSync, readdirSync, readFileSync, statSync \x7d from \x27node:fs\x27;\nimport \x7b join \x7d from \x27node:path\x27;\n\ninterface ValidationResult \x7b\n\tpassed: boolean;\n\tmessage: string;\n\x7d\n\nclass StructureValidator \x7b\n\tprivate rootDir: string;\n\tprivate errors: string[] = [];\n\tprivate warnings: string[] = [];\n\n\tconstructor(rootDir: string = process.cwd()) \x7b\n\t\tthis.rootDir = rootDir;\n\t\x7d\n\n\tvalidate(): boolean \x7b\n\t\tconsole.log(\x27🔍 Validating project structure...\\n\x27);\n\n\t\tthis.validateRootDocs();\n\t\tthis.validateDocsStructure();\n\t\tthis.validateCrossLinks();\n\t\tthis.validateDocFreshness();\n\n\t\tthis.printResults();\n\n\t\treturn this.errors.length === 0;\n\t\x7d\n\n\tprivate validateRootDocs(" : String).data ++ ("): void \x7b\n" : String).data := rfl
  have eq1 : (vsTs1).data ++ (vsTs2).data = ("#!/usr/bin/env tsx\n/**\n * Structure Validation Script\n * Validates the agent-first project structure and documentation\n */\n\nimport \x7b existsSync, readdirSync, readFileSync, statSync \x7d from \x27node:fs\x27;\nimport \x7b join \x7d from \x27node:path\x27;\n\ninterface ValidationResult \x7b\n\tpassed: boolean;\n\tmessage: string;\n\x7d\n\nclass StructureValidator \x7b\n\tprivate rootDir: string;\n\tprivate errors: string[] = [];\n\tprivate warnings: string[] = [];\n\n\tconstructor(rootDir: string = process.cwd()) \x7b\n\t\tthis.rootDir = rootDir;\n\t\x7d\n\n\tvalidate(): boolean \x7b\n\t\tconsole.log(\x27🔍 Validating project structure...\\n\x27);\n\n\t\tthis.validateRootDocs();\n\t\tthis.validateDocsStructure();\n\t\tthis.validateCrossLinks();\n\t\tthis.validateDocFreshness();\n\n\t\tthis.printResults();\n\n\t\treturn this.errors.length === 0;\n\t\x7d\n\n\tprivate validateRootDocs(" : String).data ++ (("): void \x7b\n" : String).data ++ (vsTs2).data) := by
    rw [sp1, List.append_assoc ("#!/usr/bin/env tsx\n/**\n * Structure Validation Script\n * Validates the agent-first project structure and documentation\n */\n\nimport \x7b existsSync, readdirSync, readFileSync, statSync \x7d from \x27node:fs\x27;\nimport \x7b join \x7d from \x27node:path\x27;\n\ninterface ValidationResult \x7b\n\tpassed: boolean;\n\tmessage: string;\n\x7d\n\nclass StructureValidator \x7b\n\tprivate rootDir: string;\n\tprivate errors: string[] = [];\n\tprivate warnings: string[] = [];\n\n\tconstructor(rootDir: string = process.cwd()) \x7b\n\t\tthis.rootDir = rootDir;\n\t\x7d\n\n\tvalidate(): boolean \x7b\n\t\tconsole.log(\x27🔍 Validating project structure...\\n\x27);\n\n\t\tthis.validateRootDocs();\n\t\tthis.validateDocsStructure();\n\t\tthis.validateCrossLinks();\n\t\tthis.validateDocFreshness();\n\n\t\tthis.printResults();\n\n\t\treturn this.errors.length === 0;\n\t\x7d\n\n\tprivate validateRootDocs(" : String).data ("): void \x7b\n" : String).data (vsTs2).data]
  have c1 : containsSub frontendNeedle.data (("): void \x7b\n" : String).data ++ (vsTs2).data) = false := rfl
  have b1 : containsSub frontendNeedle.data (("#!/usr/bin/env tsx\n/**\n * Structure Validation Script\n * Validates the agent-first project structure and documentation\n */\n\nimport \x7b existsSync, readdirSync, readFileSync, statSync \x7d from \x27node:fs\x27;\nimport \x7b join \x7d from \x27node:path\x27;\n\ninterface ValidationResult \x7b\n\tpassed: boolean;\n\tmessage: string;\n\x7d\n\nclass StructureValidator \x7b\n\tprivate rootDir: string;\n\tprivate errors: string[] = [];\n\tprivate warnings: string[] = [];\n\n\tconstructor(rootDir: string = process.cwd()) \x7b\n\t\tthis.rootDir = rootDir;\n\t\x7d\n\n\tvalidate(): boolean \x7b\n\t\tconsole.log(\x27🔍 Validating project structure...\\n\x27);\n\n\t\tthis.validateRootDocs();\n\t\tthis.validateDocsStructure();\n\t\tthis.validateCrossLinks();\n\t\tthis.validateDocFreshness();\n\n\t\tthis.printResults();\n\n\t\treturn this.errors.length === 0;\n\t\x7d\n\n\tprivate validateRootDocs(" : String).data ++ ("): void \x7b\n" : String).data) = false := by
    rw [← sp1]
    exact h0
  have h1 : containsSub frontendNeedle.data ((vsTs1).data ++ (vsTs2).data) = false := by
    rw [eq1, containsSub_chain ("#!/usr/bin/env tsx\n/**\n * Structure Validation Script\n * Validates the agent-first project structure and documentation\n */\n\nimport \x7b existsSync, readdirSync, readFileSync, statSync \x7d from \x27node:fs\x27;\nimport \x7b join \x7d from \x27node:path\x27;\n\ninterface ValidationResult \x7b\n\tpassed: boolean;\n\tmessage: string;\n\x7d\n\nclass StructureValidator \x7b\n\tprivate rootDir: string;\n\tprivate errors: string[] = [];\n\tprivate warnings: string[] = [];\n\n\tconstructor(rootDir: string = process.cwd()) \x7b\n\t\tthis.rootDir = rootDir;\n\t\x7d\n\n\tvalidate(): boolean \x7b\n\t\tconsole.log(\x27🔍 Validating project structure...\\n\x27);\n\n\t\tthis.validateRootDocs();\n\t\tthis.validateDocsStructure();\n\t\tthis.validateCrossLinks();\n\t\tthis.validateDocFreshness();\n\n\t\tthis.printResults();\n\n\t\treturn this.errors.length === 0;\n\t\x7d\n\n\tprivate validateRootDocs(" : String).data ("): void \x7b\n" : String).data (vsTs2).data frontendNeedle.data (by decide), b1, c1]
    rfl
  have sp2 : (vsTs2).data = ("\t\tconst requiredDocs = [\n\t\t\t\x27AGENTS.md\x27,\n\t\t\t\x27CLAUDE.md\x27,\n\t\t\t\x27ARCHITECTURE.md\x27,\n\t\t\t\x27DESIGN.md\x27,\n\t\t\t\x27PLANS.md\x27,\n\t\t\t\x27PRODUCT_SENSE.md\x27,\n\t\t\t\x27QUALITY_SCORE.md\x27,\n\t\t\t\x27RELIABILITY.md\x27,\n\t\t\t\x27SECURITY.md\x27,\n\t\t];\n\n\t\tfor (const doc of requiredDocs) \x7b\n\t\t\tif (!existsSync(join(this.rootDir, doc))) \x7b\n\t\t\t\tthis.errors.push(\x60Missing required document: $\x7bdoc\x7d\x60);\n\t\t\t\x7d\n\t\t\x7d\n\n\t\t// Validate AGENTS.md and CLAUDE.md are identical\n\t\tif (\n\t\t\texistsSync(join(this.rootDir, \x27AGENTS.md\x27)) &&\n\t\t\texistsSync(join(this.rootDir, \x27CLAUDE.md\x27))\n\t\t) \x7b\n\t\t\tconst agentsContent = readFileSync(\n\t\t\t\tjoin(this.rootDir, \x27AGENTS.md\x27),\n\t\t\t\t\x27utf-8\x27,\n\t\t\t);\n\t\t\tconst claudeContent = readFileSync(\n\t\t\t\tjoin(this.rootDir, \x27CLAUDE.md\x27),\n\t\t\t\t\x27utf-8\x27,\n\t\t\t);\n\n\t\t\tif (agentsContent !== claudeContent) \x7b\n\t\t\t\tthis.errors.push(\x27AGENTS.md and CLAUDE.md must be identica" : String).data ++ ("l\x27);\n\t\t\t\x7d\n" : String).data := rfl
  have eq2 : ((vsTs1).data ++ (vsTs2).data) ++ (vsTs3).data = ((vsTs1).data ++ ("\t\tconst requiredDocs = [\n\t\t\t\x27AGENTS.md\x27,\n\t\t\t\x27CLAUDE.md\x27,\n\t\t\t\x27ARCHITECTURE.md\x27,\n\t\t\t\x27DESIGN.md\x27,\n\t\t\t\x27PLANS.md\x27,\n\t\t\t\x27PRODUCT_SENSE.md\x27,\n\t\t\t\x27QUALITY_SCORE.md\x27,\n\t\t\t\x27RELIABILITY.md\x27,\n\t\t\t\x27SECURITY.md\x27,\n\t\t];\n\n\t\tfor (const doc of requiredDocs) \x7b\n\t\t\tif (!existsSync(join(this.rootDir, doc))) \x7b\n\t\t\t\tthis.errors.push(\x60Missing required document: $\x7bdoc\x7d\x60);\n\t\t\t\x7d\n\t\t\x7d\n\n\t\t// Validate AGENTS.md and CLAUDE.md are identical\n\t\tif (\n\t\t\texistsSync(join(this.rootDir, \x27AGENTS.md\x27)) &&\n\t\t\texistsSync(join(this.rootDir, \x27CLAUDE.md\x27))\n\t\t) \x7b\n\t\t\tconst agentsContent = readFileSync(\n\t\t\t\tjoin(this.rootDir, \x27AGENTS.md\x27),\n\t\t\t\t\x27utf-8\x27,\n\t\t\t);\n\t\t\tconst claudeContent = readFileSync(\n\t\t\t\tjoin(this.rootDir, \x27CLAUDE.md\x27),\n\t\t\t\t\x27utf-8\x27,\n\t\t\t);\n\n\t\t\tif (agentsContent !== claudeContent) \x7b\n\t\t\t\tthis.errors.push(\x27AGENTS.md and CLAUDE.md must be identica" : String).data) ++ (("l\x27);\n\t\t\t\x7d\n" : String).data ++ (vsTs3).data) := by
    rw [sp2, ← List.append_assoc (vsTs1).data ("\t\tconst requiredDocs = [\n\t\t\t\x27AGENTS.md\x27,\n\t\t\t\x27CLAUDE.md\x27,\n\t\t\t\x27ARCHITECTURE.md\x27,\n\t\t\t\x27DESIGN.md\x27,\n\t\t\t\x27PLANS.md\x27,\n\t\t\t\x27PRODUCT_SENSE.md\x27,\n\t\t\t\x27QUALITY_SCORE.md\x27,\n\t\t\t\x27RELIABILITY.md\x27,\n\t\t\t\x27SECURITY.md\x27,\n\t\t];\n\n\t\tfor (const doc of requiredDocs) \x7b\n\t\t\tif (!existsSync(join(this.rootDir, doc))) \x7b\n\t\t\t\tthis.errors.push(\x60Missing required document: $\x7bdoc\x7d\x60);\n\t\t\t\x7d\n\t\t\x7d\n\n\t\t// Validate AGENTS.md and CLAUDE.md are identical\n\t\tif (\n\t\t\texistsSync(join(this.rootDir, \x27AGENTS.md\x27)) &&\n\t\t\texistsSync(join(this.rootDir, \x27CLAUDE.md\x27))\n\t\t) \x7b\n\t\t\tconst agentsContent = readFileSync(\n\t\t\t\tjoin(this.rootDir, \x27AGENTS.md\x27),\n\t\t\t\t\x27utf-8\x27,\n\t\t\t);\n\t\t\tconst claudeContent = readFileSync(\n\t\t\t\tjoin(this.rootDir, \x27CLAUDE.md\x27),\n\t\t\t\t\x27utf-8\x27,\n\t\t\t);\n\n\t\t\tif (agentsContent !== claudeContent) \x7b\n\t\t\t\tthis.errors.push(\x27AGENTS.md and CLAUDE.md must be identica" : String).data ("l\x27);\n\t\t\t\x7d\n" : String).data, List.append_assoc ((vsTs1).data ++ ("\t\tconst requiredDocs = [\n\t\t\t\x27AGENTS.md\x27,\n\t\t\t\x27CLAUDE.md\x27,\n\t\t\t\x27ARCHITECTURE.md\x27,\n\t\t\t\x27DESIGN.md\x27,\n\t\t\t\x27PLANS.md\x27,\n\t\t\t\x27PRODUCT_SENSE.md\x27,\n\t\t\t\x27QUALITY_SCORE.md\x27,\n\t\t\t\x27RELIABILITY.md\x27,\n\t\t\t\x27SECURITY.md\x27,\n\t\t];\n\n\t\tfor (const doc of requiredDocs) \x7b\n\t\t\tif (!existsSync(join(this.rootDir, doc))) \x7b\n\t\t\t\tthis.errors.push(\x60Missing required document: $\x7bdoc\x7d\x60);\n\t\t\t\x7d\n\t\t\x7d\n\n\t\t// Validate AGENTS.md and CLAUDE.md are identical\n\t\tif (\n\t\t\texistsSync(join(this.rootDir, \x27AGENTS.md\x27)) &&\n\t\t\texistsSync(join(this.rootDir, \x27CLAUDE.md\x27))\n\t\t) \x7b\n\t\t\tconst agentsContent = readFileSync(\n\t\t\t\tjoin(this.rootDir, \x27AGENTS.md\x27),\n\t\t\t\t\x27utf-8\x27,\n\t\t\t);\n\t\t\tconst claudeContent = readFileSync(\n\t\t\t\tjoin(this.rootDir, \x27CLAUDE.md\x27),\n\t\t\t\t\x27utf-8\x27,\n\t\t\t);\n\n\t\t\tif (agentsContent !== claudeContent) \x7b\n\t\t\t\tthis.errors.push(\x27AGENTS.md and CLAUDE.md must be identica" : String).data) ("l\x27);\n\t\t\t\x7d\n" : String).data (vsTs3).data]
  have c2 : containsSub frontendNeedle.data (("l\x27);\n\t\t\t\x7d\n" : String).data ++ (vsTs3).data) = false := rfl
  have b2 : containsSub frontendNeedle.data (((vsTs1).data ++ ("\t\tconst requiredDocs = [\n\t\t\t\x27AGENTS.md\x27,\n\t\t\t\x27CLAUDE.md\x27,\n\t\t\t\x27ARCHITECTURE.md\x27,\n\t\t\t\x27DESIGN.md\x27,\n\t\t\t\x27PLANS.md\x27,\n\t\t\t\x27PRODUCT_SENSE.md\x27,\n\t\t\t\x27QUALITY_SCORE.md\x27,\n\t\t\t\x27RELIABILITY.md\x27,\n\t\t\t\x27SECURITY.md\x27,\n\t\t];\n\n\t\tfor (const doc of requiredDocs) \x7b\n\t\t\tif (!existsSync(join(this.rootDir, doc))) \x7b\n\t\t\t\tthis.errors.push(\x60Missing required document: $\x7bdoc\x7d\x60);\n\t\t\t\x7d\n\t\t\x7d\n\n\t\t// Validate AGENTS.md and CLAUDE.md are identical\n\t\tif (\n\t\t\texistsSync(join(this.rootDir, \x27AGENTS.md\x27)) &&\n\t\t\texistsSync(join(this.rootDir, \x27CLAUDE.md\x27))\n\t\t) \x7b\n\t\t\tconst agentsContent = readFileSync(\n\t\t\t\tjoin(this.rootDir, \x27AGENTS.md\x27),\n\t\t\t\t\x27utf-8\x27,\n\t\t\t);\n\t\t\tconst claudeContent = readFileSync(\n\t\t\t\tjoin(this.rootDir, \x27CLAUDE.md\x27),\n\t\t\t\t\x27utf-8\x27,\n\t\t\t);\n\n\t\t\tif (agentsContent !== claudeContent) \x7b\n\t\t\t\tthis.errors.push(\x27AGENTS.md and CLAUDE.md must be identica" : String).data) ++ ("l\x27);\n\t\t\t\x7d\n" : String).data) = false := by
    rw [List.append_assoc (vsTs1).data ("\t\tconst requiredDocs = [\n\t\t\t\x27AGENTS.md\x27,\n\t\t\t\x27CLAUDE.md\x27,\n\t\t\t\x27ARCHITECTURE.md\x27,\n\t\t\t\x27DESIGN.md\x27,\n\t\t\t\x27PLANS.md\x27,\n\t\t\t\x27PRODUCT_SENSE.md\x27,\n\t\t\t\x27QUALITY_SCORE.md\x27,\n\t\t\t\x27RELIABILITY.md\x27,\n\t\t\t\x27SECURITY.md\x27,\n\t\t];\n\n\t\tfor (const doc of requiredDocs) \x7b\n\t\t\tif (!existsSync(join(this.rootDir, doc))) \x7b\n\t\t\t\tthis.errors.push(\x60Missing required document: $\x7bdoc\x7d\x60);\n\t\t\t\x7d\n\t\t\x7d\n\n\t\t// Validate AGENTS.md and CLAUDE.md are identical\n\t\tif (\n\t\t\texistsSync(join(this.rootDir, \x27AGENTS.md\x27)) &&\n\t\t\texistsSync(join(this.rootDir, \x27CLAUDE.md\x27))\n\t\t) \x7b\n\t\t\tconst agentsContent = readFileSync(\n\t\t\t\tjoin(this.rootDir, \x27AGENTS.md\x27),\n\t\t\t\t\x27utf-8\x27,\n\t\t\t);\n\t\t\tconst claudeContent = readFileSync(\n\t\t\t\tjoin(this.rootDir, \x27CLAUDE.md\x27),\n\t\t\t\t\x27utf-8\x27,\n\t\t\t);\n\n\t\t\tif (agentsContent !== claudeContent) \x7b\n\t\t\t\tthis.errors.push(\x27AGENTS.md and CLAUDE.md must be identica" : String).data ("l\x27);\n\t\t\t\x7d\n" : String).data, ← sp2]
    exact h1
  have h2 : containsSub frontendNeedle.data (((vsTs1).data ++ (vsTs2).data) ++ (vsTs3).data) = false := by
    rw [eq2, containsSub_chain ((vsTs1).data ++ ("\t\tconst requiredDocs = [\n\t\t\t\x27AGENTS.md\x27,\n\t\t\t\x27CLAUDE.md\x27,\n\t\t\t\x27ARCHITECTURE.md\x27,\n\t\t\t\x27DESIGN.md\x27,\n\t\t\t\x27PLANS.md\x27,\n\t\t\t\x27PRODUCT_SENSE.md\x27,\n\t\t\t\x27QUALITY_SCORE.md\x27,\n\t\t\t\x27RELIABILITY.md\x27,\n\t\t\t\x27SECURITY.md\x27,\n\t\t];\n\n\t\tfor (const doc of requiredDocs) \x7b\n\t\t\tif (!existsSync(join(this.rootDir, doc))) \x7b\n\t\t\t\tthis.errors.push(\x60Missing required document: $\x7bdoc\x7d\x60);\n\t\t\t\x7d\n\t\t\x7d\n\n\t\t// Validate AGENTS.md and CLAUDE.md are identical\n\t\tif (\n\t\t\texistsSync(join(this.rootDir, \x27AGENTS.md\x27)) &&\n\t\t\texistsSync(join(this.rootDir, \x27CLAUDE.md\x27))\n\t\t) \x7b\n\t\t\tconst agentsContent = readFileSync(\n\t\t\t\tjoin(this.rootDir, \x27AGENTS.md\x27),\n\t\t\t\t\x27utf-8\x27,\n\t\t\t);\n\t\t\tconst claudeContent = readFileSync(\n\t\t\t\tjoin(this.rootDir, \x27CLAUDE.md\x27),\n\t\t\t\t\x27utf-8\x27,\n\t\t\t);\n\n\t\t\tif (agentsContent !== claudeContent) \x7b\n\t\t\t\tthis.errors.push(\x27AGENTS.md and CLAUDE.md must be identica" : String).data) ("l\x27);\n\t\t\t\x7d\n" : String).data (vsTs3).data frontendNeedle.data (by decide), b2, c2]
    rfl
  have sp3 : (vsTs3).data = ("\t\t\x7d\n\n\t\t// Validate AGENTS.md is roughly 100 lines (allow some variance)\n\t\tif (existsSync(join(this.rootDir, \x27AGENTS.md\x27))) \x7b\n\t\t\tconst agentsContent = readFileSync(\n\t\t\t\tjoin(this.rootDir, \x27AGENTS.md\x27),\n\t\t\t\t\x27utf-8\x27,\n\t\t\t);\n\t\t\tconst lineCount = agentsContent.split(\x27\\n\x27).length;\n\n\t\t\tif (lineCount > 150) \x7b\n\t\t\t\tthis.warnings.push(\n\t\t\t\t\t\x60AGENTS.md is $\x7blineCount\x7d lines (recommended: ~100 lines). Consider moving details to docs/\x60,\n\t\t\t\t);\n\t\t\t\x7d\n\t\t\x7d\n\t\x7d\n\n\tprivate validateDocsStructure(): void \x7b\n\t\tconst requiredDirs = [\n\t\t\t\x27docs/design-docs\x27,\n\t\t\t\x27docs/exec-plans/active\x27,\n\t\t\t\x27docs/exec-plans/completed\x27,\n\t\t\t\x27docs/product-specs\x27,\n\t\t\t\x27docs/references\x27,\n\t\t\t\x27docs/generated\x27,\n\t\t];\n\n\t\tfor (const dir of requiredDirs) \x7b\n\t\t\tif (!existsSync(join(this.rootDir, dir))) \x7b\n\t\t\t\tthis.errors.push(\x60Missing required directory: $\x7bdir" : String).data ++ ("\x7d\x60);\n\t\t\t\x7d\n" : String).data := rfl
  have eq3 : (((vsTs1).data ++ (vsTs2).data) ++ (vsTs3).data) ++ (vsTs4).data = (((vsTs1).data ++ (vsTs2).data) ++ ("\t\t\x7d\n\n\t\t// Validate AGENTS.md is roughly 100 lines (allow some variance)\n\t\tif (existsSync(join(this.rootDir, \x27AGENTS.md\x27))) \x7b\n\t\t\tconst agentsContent = readFileSync(\n\t\t\t\tjoin(this.rootDir, \x27AGENTS.md\x27),\n\t\t\t\t\x27utf-8\x27,\n\t\t\t);\n\t\t\tconst lineCount = agentsContent.split(\x27\\n\x27).length;\n\n\t\t\tif (lineCount > 150) \x7b\n\t\t\t\tthis.warnings.push(\n\t\t\t\t\t\x60AGENTS.md is $\x7blineCount\x7d lines (recommended: ~100 lines). Consider moving details to docs/\x60,\n\t\t\t\t);\n\t\t\t\x7d\n\t\t\x7d\n\t\x7d\n\n\tprivate validateDocsStructure(): void \x7b\n\t\tconst requiredDirs = [\n\t\t\t\x27docs/design-docs\x27,\n\t\t\t\x27docs/exec-plans/active\x27,\n\t\t\t\x27docs/exec-plans/completed\x27,\n\t\t\t\x27docs/product-specs\x27,\n\t\t\t\x27docs/references\x27,\n\t\t\t\x27docs/generated\x27,\n\t\t];\n\n\t\tfor (const dir of requiredDirs) \x7b\n\t\t\tif (!existsSync(join(this.rootDir, dir))) \x7b\n\t\t\t\tthis.errors.push(\x60Missing required directory: $\x7bdir" : String).data) ++ (("\x7d\x60);\n\t\t\t\x7d\n" : String).data ++ (vsTs4).data) := by
    rw [sp3, ← List.append_assoc ((vsTs1).data ++ (vsTs2).data) ("\t\t\x7d\n\n\t\t// Validate AGENTS.md is roughly 100 lines (allow some variance)\n\t\tif (existsSync(join(this.rootDir, \x27AGENTS.md\x27))) \x7b\n\t\t\tconst agentsContent = readFileSync(\n\t\t\t\tjoin(this.rootDir, \x27AGENTS.md\x27),\n\t\t\t\t\x27utf-8\x27,\n\t\t\t);\n\t\t\tconst lineCount = agentsContent.split(\x27\\n\x27).length;\n\n\t\t\tif (lineCount > 150) \x7b\n\t\t\t\tthis.warnings.push(\n\t\t\t\t\t\x60AGENTS.md is $\x7blineCount\x7d lines (recommended: ~100 lines). Consider moving details to docs/\x60,\n\t\t\t\t);\n\t\t\t\x7d\n\t\t\x7d\n\t\x7d\n\n\tprivate validateDocsStructure(): void \x7b\n\t\tconst requiredDirs = [\n\t\t\t\x27docs/design-docs\x27,\n\t\t\t\x27docs/exec-plans/active\x27,\n\t\t\t\x27docs/exec-plans/completed\x27,\n\t\t\t\x27docs/product-specs\x27,\n\t\t\t\x27docs/references\x27,\n\t\t\t\x27docs/generated\x27,\n\t\t];\n\n\t\tfor (const dir of requiredDirs) \x7b\n\t\t\tif (!existsSync(join(this.rootDir, dir))) \x7b\n\t\t\t\tthis.errors.push(\x60Missing required directory: $\x7bdir" : String).data ("\x7d\x60);\n\t\t\t\x7d\n" : String).data, List.append_assoc (((vsTs1).data ++ (vsTs2).data) ++ ("\t\t\x7d\n\n\t\t// Validate AGENTS.md is roughly 100 lines (allow some variance)\n\t\tif (existsSync(join(this.rootDir, \x27AGENTS.md\x27))) \x7b\n\t\t\tconst agentsContent = readFileSync(\n\t\t\t\tjoin(this.rootDir, \x27AGENTS.md\x27),\n\t\t\t\t\x27utf-8\x27,\n\t\t\t);\n\t\t\tconst lineCount = agentsContent.split(\x27\\n\x27).length;\n\n\t\t\tif (lineCount > 150) \x7b\n\t\t\t\tthis.warnings.push(\n\t\t\t\t\t\x60AGENTS.md is $\x7blineCount\x7d lines (recommended: ~100 lines). Consider moving details to docs/\x60,\n\t\t\t\t);\n\t\t\t\x7d\n\t\t\x7d\n\t\x7d\n\n\tprivate validateDocsStructure(): void \x7b\n\t\tconst requiredDirs = [\n\t\t\t\x27docs/design-docs\x27,\n\t\t\t\x27docs/exec-plans/active\x27,\n\t\t\t\x27docs/exec-plans/completed\x27,\n\t\t\t\x27docs/product-specs\x27,\n\t\t\t\x27docs/references\x27,\n\t\t\t\x27docs/generated\x27,\n\t\t];\n\n\t\tfor (const dir of requiredDirs) \x7b\n\t\t\tif (!existsSync(join(this.rootDir, dir))) \x7b\n\t\t\t\tthis.errors.push(\x60Missing required directory: $\x7bdir" : String).data) ("\x7d\x60);\n\t\t\t\x7d\n" : String).data (vsTs4).data]
  have c3 : containsSub frontendNeedle.data (("\x7d\x60);\n\t\t\t\x7d\n" : String).data ++ (vsTs4).data) = false := rfl
  have b3 : containsSub frontendNeedle.data ((((vsTs1).data ++ (vsTs2).data) ++ ("\t\t\x7d\n\n\t\t// Validate AGENTS.md is roughly 100 lines (allow some variance)\n\t\tif (existsSync(join(this.rootDir, \x27AGENTS.md\x27))) \x7b\n\t\t\tconst agentsContent = readFileSync(\n\t\t\t\tjoin(this.rootDir, \x27AGENTS.md\x27),\n\t\t\t\t\x27utf-8\x27,\n\t\t\t);\n\t\t\tconst lineCount = agentsContent.split(\x27\\n\x27).length;\n\n\t\t\tif (lineCount > 150) \x7b\n\t\t\t\tthis.warnings.push(\n\t\t\t\t\t\x60AGENTS.md is $\x7blineCount\x7d lines (recommended: ~100 lines). Consider moving details to docs/\x60,\n\t\t\t\t);\n\t\t\t\x7d\n\t\t\x7d\n\t\x7d\n\n\tprivate validateDocsStructure(): void \x7b\n\t\tconst requiredDirs = [\n\t\t\t\x27docs/design-docs\x27,\n\t\t\t\x27docs/exec-plans/active\x27,\n\t\t\t\x27docs/exec-plans/completed\x27,\n\t\t\t\x27docs/product-specs\x27,\n\t\t\t\x27docs/references\x27,\n\t\t\t\x27docs/generated\x27,\n\t\t];\n\n\t\tfor (const dir of requiredDirs) \x7b\n\t\t\tif (!existsSync(join(this.rootDir, dir))) \x7b\n\t\t\t\tthis.errors.push(\x60Missing required directory: $\x7bdir" : String).data) ++ ("\x7d\x60);\n\t\t\t\x7d\n" : String).data) = false := by
    rw [List.append_assoc ((vsTs1).data ++ (vsTs2).data) ("\t\t\x7d\n\n\t\t// Validate AGENTS.md is roughly 100 lines (allow some variance)\n\t\tif (existsSync(join(this.rootDir, \x27AGENTS.md\x27))) \x7b\n\t\t\tconst agentsContent = readFileSync(\n\t\t\t\tjoin(this.rootDir, \x27AGENTS.md\x27),\n\t\t\t\t\x27utf-8\x27,\n\t\t\t);\n\t\t\tconst lineCount = agentsContent.split(\x27\\n\x27).length;\n\n\t\t\tif (lineCount > 150) \x7b\n\t\t\t\tthis.warnings.push(\n\t\t\t\t\t\x60AGENTS.md is $\x7blineCount\x7d lines (recommended: ~100 lines). Consider moving details to docs/\x60,\n\t\t\t\t);\n\t\t\t\x7d\n\t\t\x7d\n\t\x7d\n\n\tprivate validateDocsStructure(): void \x7b\n\t\tconst requiredDirs = [\n\t\t\t\x27docs/design-docs\x27,\n\t\t\t\x27docs/exec-plans/active\x27,\n\t\t\t\x27docs/exec-plans/completed\x27,\n\t\t\t\x27docs/product-specs\x27,\n\t\t\t\x27docs/references\x27,\n\t\t\t\x27docs/generated\x27,\n\t\t];\n\n\t\tfor (const dir of requiredDirs) \x7b\n\t\t\tif (!existsSync(join(this.rootDir, dir))) \x7b\n\t\t\t\tthis.errors.push(\x60Missing required directory: $\x7bdir" : String).data ("\x7d\x60);\n\t\t\t\x7d\n" : String).data, ← sp3]
    exact h2
  have h3 : containsSub frontendNeedle.data ((((vsTs1).data ++ (vsTs2).data) ++ (vsTs3).data) ++ (vsTs4).data) = false := by
    rw [eq3, containsSub_chain (((vsTs1).data ++ (vsTs2).data) ++ ("\t\t\x7d\n\n\t\t// Validate AGENTS.md is roughly 100 lines (allow some variance)\n\t\tif (existsSync(join(this.rootDir, \x27AGENTS.md\x27))) \x7b\n\t\t\tconst agentsContent = readFileSync(\n\t\t\t\tjoin(this.rootDir, \x27AGENTS.md\x27),\n\t\t\t\t\x27utf-8\x27,\n\t\t\t);\n\t\t\tconst lineCount = agentsContent.split(\x27\\n\x27).length;\n\n\t\t\tif (lineCount > 150) \x7b\n\t\t\t\tthis.warnings.push(\n\t\t\t\t\t\x60AGENTS.md is $\x7blineCount\x7d lines (recommended: ~100 lines). Consider moving details to docs/\x60,\n\t\t\t\t);\n\t\t\t\x7d\n\t\t\x7d\n\t\x7d\n\n\tprivate validateDocsStructure(): void \x7b\n\t\tconst requiredDirs = [\n\t\t\t\x27docs/design-docs\x27,\n\t\t\t\x27docs/exec-plans/active\x27,\n\t\t\t\x27docs/exec-plans/completed\x27,\n\t\t\t\x27docs/product-specs\x27,\n\t\t\t\x27docs/references\x27,\n\t\t\t\x27docs/generated\x27,\n\t\t];\n\n\t\tfor (const dir of requiredDirs) \x7b\n\t\t\tif (!existsSync(join(this.rootDir, dir))) \x7b\n\t\t\t\tthis.errors.push(\x60Missing required directory: $\x7bdir" : String).data) ("\x7d\x60);\n\t\t\t\x7d\n" : String).data (vsTs4).data frontendNeedle.data (by decide), b3, c3]
    rfl
  have sp4 : (vsTs4).data = ("\t\t\x7d\n\n\t\t// Validate index files exist\n\t\tconst requiredIndexes = [\n\t\t\t\x27docs/design-docs/index.md\x27,\n\t\t\t\x27docs/product-specs/index.md\x27,\n\t\t];\n\n\t\tfor (const index of requiredIndexes) \x7b\n\t\t\tif (!existsSync(join(this.rootDir, index))) \x7b\n\t\t\t\tthis.warnings.push(\x60Missing index file: $\x7bindex\x7d\x60);\n\t\t\t\x7d\n\t\t\x7d\n\t\x7d\n\n\tprivate validateCrossLinks(): void \x7b\n\t\t// Basic validation: check that referenced files exist\n\t\tconst agentsPath = join(this.rootDir, \x27AGENTS.md\x27);\n\t\tif (!existsSync(agentsPath)) return;\n\n\t\tconst agentsContent = readFileSync(agentsPath, \x27utf-8\x27);\n\t\tconst linkRegex = /\\[([^\\]]+)\\]\\(([^)]+)\\)/g;\n\t\tlet match: RegExpExecArray | null;\n\n\t\twhile ((match = linkRegex.exec(agentsContent)) !== null) \x7b\n\t\t\tconst linkPath = match[2];\n\n\t\t\t// Skip external links\n\t\t\tif (linkPath.startsWith(\x27http\x27)) c" : String).data ++ ("ontinue;\n\n" : String).data := rfl
  have eq4 : ((((vsTs1).data ++ (vsTs2).data) ++ (vsTs3).data) ++ (vsTs4).data) ++ (vsTs5).data = ((((vsTs1).data ++ (vsTs2).data) ++ (vsTs3).data) ++ ("\t\t\x7d\n\n\t\t// Validate index files exist\n\t\tconst requiredIndexes = [\n\t\t\t\x27docs/design-docs/index.md\x27,\n\t\t\t\x27docs/product-specs/index.md\x27,\n\t\t];\n\n\t\tfor (const index of requiredIndexes) \x7b\n\t\t\tif (!existsSync(join(this.rootDir, index))) \x7b\n\t\t\t\tthis.warnings.push(\x60Missing index file: $\x7bindex\x7d\x60);\n\t\t\t\x7d\n\t\t\x7d\n\t\x7d\n\n\tprivate validateCrossLinks(): void \x7b\n\t\t// Basic validation: check that referenced files exist\n\t\tconst agentsPath = join(this.rootDir, \x27AGENTS.md\x27);\n\t\tif (!existsSync(agentsPath)) return;\n\n\t\tconst agentsContent = readFileSync(agentsPath, \x27utf-8\x27);\n\t\tconst linkRegex = /\\[([^\\]]+)\\]\\(([^)]+)\\)/g;\n\t\tlet match: RegExpExecArray | null;\n\n\t\twhile ((match = linkRegex.exec(agentsContent)) !== null) \x7b\n\t\t\tconst linkPath = match[2];\n\n\t\t\t// Skip external links\n\t\t\tif (linkPath.startsWith(\x27http\x27)) c" : String).data) ++ (("ontinue;\n\n" : String).data ++ (vsTs5).data) := by
    rw [sp4, ← List.append_assoc (((vsTs1).data ++ (vsTs2).data) ++ (vsTs3).data) ("\t\t\x7d\n\n\t\t// Validate index files exist\n\t\tconst requiredIndexes = [\n\t\t\t\x27docs/design-docs/index.md\x27,\n\t\t\t\x27docs/product-specs/index.md\x27,\n\t\t];\n\n\t\tfor (const index of requiredIndexes) \x7b\n\t\t\tif (!existsSync(join(this.rootDir, index))) \x7b\n\t\t\t\tthis.warnings.push(\x60Missing index file: $\x7bindex\x7d\x60);\n\t\t\t\x7d\n\t\t\x7d\n\t\x7d\n\n\tprivate validateCrossLinks(): void \x7b\n\t\t// Basic validation: check that referenced files exist\n\t\tconst agentsPath = join(this.rootDir, \x27AGENTS.md\x27);\n\t\tif (!existsSync(agentsPath)) return;\n\n\t\tconst agentsContent = readFileSync(agentsPath, \x27utf-8\x27);\n\t\tconst linkRegex = /\\[([^\\]]+)\\]\\(([^)]+)\\)/g;\n\t\tlet match: RegExpExecArray | null;\n\n\t\twhile ((match = linkRegex.exec(agentsContent)) !== null) \x7b\n\t\t\tconst linkPath = match[2];\n\n\t\t\t// Skip external links\n\t\t\tif (linkPath.startsWith(\x27http\x27)) c" : String).data ("ontinue;\n\n" : String).data, List.append_assoc ((((vsTs1).data ++ (vsTs2).data) ++ (vsTs3).data) ++ ("\t\t\x7d\n\n\t\t// Validate index files exist\n\t\tconst requiredIndexes = [\n\t\t\t\x27docs/design-docs/index.md\x27,\n\t\t\t\x27docs/product-specs/index.md\x27,\n\t\t];\n\n\t\tfor (const index of requiredIndexes) \x7b\n\t\t\tif (!existsSync(join(this.rootDir, index))) \x7b\n\t\t\t\tthis.warnings.push(\x60Missing index file: $\x7bindex\x7d\x60);\n\t\t\t\x7d\n\t\t\x7d\n\t\x7d\n\n\tprivate validateCrossLinks(): void \x7b\n\t\t// Basic validation: check that referenced files exist\n\t\tconst agentsPath = join(this.rootDir, \x27AGENTS.md\x27);\n\t\tif (!existsSync(agentsPath)) return;\n\n\t\tconst agentsContent = readFileSync(agentsPath, \x27utf-8\x27);\n\t\tconst linkRegex = /\\[([^\\]]+)\\]\\(([^)]+)\\)/g;\n\t\tlet match: RegExpExecArray | null;\n\n\t\twhile ((match = linkRegex.exec(agentsContent)) !== null) \x7b\n\t\t\tconst linkPath = match[2];\n\n\t\t\t// Skip external links\n\t\t\tif (linkPath.startsWith(\x27http\x27)) c" : String).data) ("ontinue;\n\n" : String).data (vsTs5).data]
  have c4 : containsSub frontendNeedle.data (("ontinue;\n\n" : String).data ++ (vsTs5).data) = false := rfl
  have b4 : containsSub frontendNeedle.data (((((vsTs1).data ++ (vsTs2).data) ++ (vsTs3).data) ++ ("\t\t\x7d\n\n\t\t// Validate index files exist\n\t\tconst requiredIndexes = [\n\t\t\t\x27docs/design-docs/index.md\x27,\n\t\t\t\x27docs/product-specs/index.md\x27,\n\t\t];\n\n\t\tfor (const index of requiredIndexes) \x7b\n\t\t\tif (!existsSync(join(this.rootDir, index))) \x7b\n\t\t\t\tthis.warnings.push(\x60Missing index file: $\x7bindex\x7d\x60);\n\t\t\t\x7d\n\t\t\x7d\n\t\x7d\n\n\tprivate validateCrossLinks(): void \x7b\n\t\t// Basic validation: check that referenced files exist\n\t\tconst agentsPath = join(this.rootDir, \x27AGENTS.md\x27);\n\t\tif (!existsSync(agentsPath)) return;\n\n\t\tconst agentsContent = readFileSync(agentsPath, \x27utf-8\x27);\n\t\tconst linkRegex = /\\[([^\\]]+)\\]\\(([^)]+)\\)/g;\n\t\tlet match: RegExpExecArray | null;\n\n\t\twhile ((match = linkRegex.exec(agentsContent)) !== null) \x7b\n\t\t\tconst linkPath = match[2];\n\n\t\t\t// Skip external links\n\t\t\tif (linkPath.startsWith(\x27http\x27)) c" : String).data) ++ ("ontinue;\n\n" : String).data) = false := by
    rw [List.append_assoc (((vsTs1).data ++ (vsTs2).data) ++ (vsTs3).data) ("\t\t\x7d\n\n\t\t// Validate index files exist\n\t\tconst requiredIndexes = [\n\t\t\t\x27docs/design-docs/index.md\x27,\n\t\t\t\x27docs/product-specs/index.md\x27,\n\t\t];\n\n\t\tfor (const index of requiredIndexes) \x7b\n\t\t\tif (!existsSync(join(this.rootDir, index))) \x7b\n\t\t\t\tthis.warnings.push(\x60Missing index file: $\x7bindex\x7d\x60);\n\t\t\t\x7d\n\t\t\x7d\n\t\x7d\n\n\tprivate validateCrossLinks(): void \x7b\n\t\t// Basic validation: check that referenced files exist\n\t\tconst agentsPath = join(this.rootDir, \x27AGENTS.md\x27);\n\t\tif (!existsSync(agentsPath)) return;\n\n\t\tconst agentsContent = readFileSync(agentsPath, \x27utf-8\x27);\n\t\tconst linkRegex = /\\[([^\\]]+)\\]\\(([^)]+)\\)/g;\n\t\tlet match: RegExpExecArray | null;\n\n\t\twhile ((match = linkRegex.exec(agentsContent)) !== null) \x7b\n\t\t\tconst linkPath = match[2];\n\n\t\t\t// Skip external links\n\t\t\tif (linkPath.startsWith(\x27http\x27)) c" : String).data ("ontinue;\n\n" : String).data, ← sp4]
    exact h3
  have h4 : containsSub frontendNeedle.data (((((vsTs1).data ++ (vsTs2).data) ++ (vsTs3).data) ++ (vsTs4).data) ++ (vsTs5).data) = false := by
    rw [eq4, containsSub_chain ((((vsTs1).data ++ (vsTs2).data) ++ (vsTs3).data) ++ ("\t\t\x7d\n\n\t\t// Validate index files exist\n\t\tconst requiredIndexes = [\n\t\t\t\x27docs/design-docs/index.md\x27,\n\t\t\t\x27docs/product-specs/index.md\x27,\n\t\t];\n\n\t\tfor (const index of requiredIndexes) \x7b\n\t\t\tif (!existsSync(join(this.rootDir, index))) \x7b\n\t\t\t\tthis.warnings.push(\x60Missing index file: $\x7bindex\x7d\x60);\n\t\t\t\x7d\n\t\t\x7d\n\t\x7d\n\n\tprivate validateCrossLinks(): void \x7b\n\t\t// Basic validation: check that referenced files exist\n\t\tconst agentsPath = join(this.rootDir, \x27AGENTS.md\x27);\n\t\tif (!existsSync(agentsPath)) return;\n\n\t\tconst agentsContent = readFileSync(agentsPath, \x27utf-8\x27);\n\t\tconst linkRegex = /\\[([^\\]]+)\\]\\(([^)]+)\\)/g;\n\t\tlet match: RegExpExecArray | null;\n\n\t\twhile ((match = linkRegex.exec(agentsContent)) !== null) \x7b\n\t\t\tconst linkPath = match[2];\n\n\t\t\t// Skip external links\n\t\t\tif (linkPath.startsWith(\x27http\x27)) c" : String).data) ("ontinue;\n\n" : String).data (vsTs5).data frontendNeedle.data (by decide), b4, c4]
    rfl
  have sp5 : (vsTs5).data = ("\t\t\tconst fullPath = join(this.rootDir, linkPath);\n\t\t\tif (!existsSync(fullPath)) \x7b\n\t\t\t\tthis.warnings.push(\n\t\t\t\t\t\x60Broken link in AGENTS.md: $\x7blinkPath\x7d\x60,\n\t\t\t\t);\n\t\t\t\x7d\n\t\t\x7d\n\t\x7d\n\n\tprivate validateDocFreshness(): void \x7b\n\t\t// Check that design docs have been updated recently\n\t\tconst designDocsDir = join(this.rootDir, \x27docs/design-docs\x27);\n\t\tif (!existsSync(designDocsDir)) return;\n\n\t\tconst files = readdirSync(designDocsDir).filter((f) =>\n\t\t\tf.endsWith(\x27.md\x27),\n\t\t);\n\n\t\tif (files.length === 0) \x7b\n\t\t\tthis.warnings.push(\n\t\t\t\t\x27No design documents found in docs/design-docs/\x27,\n\t\t\t);\n\t\t\treturn;\n\t\t\x7d\n\n\t\tconst now = Date.now();\n\t\tconst sixMonths = 6 * 30 * 24 * 60 * 60 * 1000;\n\n\t\tfor (const file of files) \x7b\n\t\t\tif (file === \x27index.md\x27 || file === \x27template.md\x27) continue;\n\n\t\t\tconst filePath = join(designDocsDi" : String).data ++ ("r, file);\n" : String).data := rfl
  have eq5 : (((((vsTs1).data ++ (vsTs2).data) ++ (vsTs3).data) ++ (vsTs4).data) ++ (vsTs5).data) ++ (vsTs6).data = (((((vsTs1).data ++ (vsTs2).data) ++ (vsTs3).data) ++ (vsTs4).data) ++ ("\t\t\tconst fullPath = join(this.rootDir, linkPath);\n\t\t\tif (!existsSync(fullPath)) \x7b\n\t\t\t\tthis.warnings.push(\n\t\t\t\t\t\x60Broken link in AGENTS.md: $\x7blinkPath\x7d\x60,\n\t\t\t\t);\n\t\t\t\x7d\n\t\t\x7d\n\t\x7d\n\n\tprivate validateDocFreshness(): void \x7b\n\t\t// Check that design docs have been updated recently\n\t\tconst designDocsDir = join(this.rootDir, \x27docs/design-docs\x27);\n\t\tif (!existsSync(designDocsDir)) return;\n\n\t\tconst files = readdirSync(designDocsDir).filter((f) =>\n\t\t\tf.endsWith(\x27.md\x27),\n\t\t);\n\n\t\tif (files.length === 0) \x7b\n\t\t\tthis.warnings.push(\n\t\t\t\t\x27No design documents found in docs/design-docs/\x27,\n\t\t\t);\n\t\t\treturn;\n\t\t\x7d\n\n\t\tconst now = Date.now();\n\t\tconst sixMonths = 6 * 30 * 24 * 60 * 60 * 1000;\n\n\t\tfor (const file of files) \x7b\n\t\t\tif (file === \x27index.md\x27 || file === \x27template.md\x27) continue;\n\n\t\t\tconst filePath = join(designDocsDi" : String).data) ++ (("r, file);\n" : String).data ++ (vsTs6).data) := by
    rw [sp5, ← List.append_assoc ((((vsTs1).data ++ (vsTs2).data) ++ (vsTs3).data) ++ (vsTs4).data) ("\t\t\tconst fullPath = join(this.rootDir, linkPath);\n\t\t\tif (!existsSync(fullPath)) \x7b\n\t\t\t\tthis.warnings.push(\n\t\t\t\t\t\x60Broken link in AGENTS.md: $\x7blinkPath\x7d\x60,\n\t\t\t\t);\n\t\t\t\x7d\n\t\t\x7d\n\t\x7d\n\n\tprivate validateDocFreshness(): void \x7b\n\t\t// Check that design docs have been updated recently\n\t\tconst designDocsDir = join(this.rootDir, \x27docs/design-docs\x27);\n\t\tif (!existsSync(designDocsDir)) return;\n\n\t\tconst files = readdirSync(designDocsDir).filter((f) =>\n\t\t\tf.endsWith(\x27.md\x27),\n\t\t);\n\n\t\tif (files.length === 0) \x7b\n\t\t\tthis.warnings.push(\n\t\t\t\t\x27No design documents found in docs/design-docs/\x27,\n\t\t\t);\n\t\t\treturn;\n\t\t\x7d\n\n\t\tconst now = Date.now();\n\t\tconst sixMonths = 6 * 30 * 24 * 60 * 60 * 1000;\n\n\t\tfor (const file of files) \x7b\n\t\t\tif (file === \x27index.md\x27 || file === \x27template.md\x27) continue;\n\n\t\t\tconst filePath = join(designDocsDi" : String).data ("r, file);\n" : String).data, List.append_assoc (((((vsTs1).data ++ (vsTs2).data) ++ (vsTs3).data) ++ (vsTs4).data) ++ ("\t\t\tconst fullPath = join(this.rootDir, linkPath);\n\t\t\tif (!existsSync(fullPath)) \x7b\n\t\t\t\tthis.warnings.push(\n\t\t\t\t\t\x60Broken link in AGENTS.md: $\x7blinkPath\x7d\x60,\n\t\t\t\t);\n\t\t\t\x7d\n\t\t\x7d\n\t\x7d\n\n\tprivate validateDocFreshness(): void \x7b\n\t\t// Check that design docs have been updated recently\n\t\tconst designDocsDir = join(this.rootDir, \x27docs/design-docs\x27);\n\t\tif (!existsSync(designDocsDir)) return;\n\n\t\tconst files = readdirSync(designDocsDir).filter((f) =>\n\t\t\tf.endsWith(\x27.md\x27),\n\t\t);\n\n\t\tif (files.length === 0) \x7b\n\t\t\tthis.warnings.push(\n\t\t\t\t\x27No design documents found in docs/design-docs/\x27,\n\t\t\t);\n\t\t\treturn;\n\t\t\x7d\n\n\t\tconst now = Date.now();\n\t\tconst sixMonths = 6 * 30 * 24 * 60 * 60 * 1000;\n\n\t\tfor (const file of files) \x7b\n\t\t\tif (file === \x27index.md\x27 || file === \x27template.md\x27) continue;\n\n\t\t\tconst filePath = join(designDocsDi" : String).data) ("r, file);\n" : String).data (vsTs6).data]
  have c5 : containsSub frontendNeedle.data (("r, file);\n" : String).data ++ (vsTs6).data) = false := rfl
  have b5 : containsSub frontendNeedle.data ((((((vsTs1).data ++ (vsTs2).data) ++ (vsTs3).data) ++ (vsTs4).data) ++ ("\t\t\tconst fullPath = join(this.rootDir, linkPath);\n\t\t\tif (!existsSync(fullPath)) \x7b\n\t\t\t\tthis.warnings.push(\n\t\t\t\t\t\x60Broken link in AGENTS.md: $\x7blinkPath\x7d\x60,\n\t\t\t\t);\n\t\t\t\x7d\n\t\t\x7d\n\t\x7d\n\n\tprivate validateDocFreshness(): void \x7b\n\t\t// Check that design docs have been updated recently\n\t\tconst designDocsDir = join(this.rootDir, \x27docs/design-docs\x27);\n\t\tif (!existsSync(designDocsDir)) return;\n\n\t\tconst files = readdirSync(designDocsDir).filter((f) =>\n\t\t\tf.endsWith(\x27.md\x27),\n\t\t);\n\n\t\tif (files.length === 0) \x7b\n\t\t\tthis.warnings.push(\n\t\t\t\t\x27No design documents found in docs/design-docs/\x27,\n\t\t\t);\n\t\t\treturn;\n\t\t\x7d\n\n\t\tconst now = Date.now();\n\t\tconst sixMonths = 6 * 30 * 24 * 60 * 60 * 1000;\n\n\t\tfor (const file of files) \x7b\n\t\t\tif (file === \x27index.md\x27 || file === \x27template.md\x27) continue;\n\n\t\t\tconst filePath = join(designDocsDi" : String).data) ++ ("r, file);\n" : String).data) = false := by
    rw [List.append_assoc ((((vsTs1).data ++ (vsTs2).data) ++ (vsTs3).data) ++ (vsTs4).data) ("\t\t\tconst fullPath = join(this.rootDir, linkPath);\n\t\t\tif (!existsSync(fullPath)) \x7b\n\t\t\t\tthis.warnings.push(\n\t\t\t\t\t\x60Broken link in AGENTS.md: $\x7blinkPath\x7d\x60,\n\t\t\t\t);\n\t\t\t\x7d\n\t\t\x7d\n\t\x7d\n\n\tprivate validateDocFreshness(): void \x7b\n\t\t// Check that design docs have been updated recently\n\t\tconst designDocsDir = join(this.rootDir, \x27docs/design-docs\x27);\n\t\tif (!existsSync(designDocsDir)) return;\n\n\t\tconst files = readdirSync(designDocsDir).filter((f) =>\n\t\t\tf.endsWith(\x27.md\x27),\n\t\t);\n\n\t\tif (files.length === 0) \x7b\n\t\t\tthis.warnings.push(\n\t\t\t\t\x27No design documents found in docs/design-docs/\x27,\n\t\t\t);\n\t\t\treturn;\n\t\t\x7d\n\n\t\tconst now = Date.now();\n\t\tconst sixMonths = 6 * 30 * 24 * 60 * 60 * 1000;\n\n\t\tfor (const file of files) \x7b\n\t\t\tif (file === \x27index.md\x27 || file === \x27template.md\x27) continue;\n\n\t\t\tconst filePath = join(designDocsDi" : String).data ("r, file);\n" : String).data, ← sp5]
    exact h4
  have h5 : containsSub frontendNeedle.data ((((((vsTs1).data ++ (vsTs2).data) ++ (vsTs3).data) ++ (vsTs4).data) ++ (vsTs5).data) ++ (vsTs6).data) = false := by
    rw [eq5, containsSub_chain (((((vsTs1).data ++ (vsTs2).data) ++ (vsTs3).data) ++ (vsTs4).data) ++ ("\t\t\tconst fullPath = join(this.rootDir, linkPath);\n\t\t\tif (!existsSync(fullPath)) \x7b\n\t\t\t\tthis.warnings.push(\n\t\t\t\t\t\x60Broken link in AGENTS.md: $\x7blinkPath\x7d\x60,\n\t\t\t\t);\n\t\t\t\x7d\n\t\t\x7d\n\t\x7d\n\n\tprivate validateDocFreshness(): void \x7b\n\t\t// Check that design docs have been updated recently\n\t\tconst designDocsDir = join(this.rootDir, \x27docs/design-docs\x27);\n\t\tif (!existsSync(designDocsDir)) return;\n\n\t\tconst files = readdirSync(designDocsDir).filter((f) =>\n\t\t\tf.endsWith(\x27.md\x27),\n\t\t);\n\n\t\tif (files.length === 0) \x7b\n\t\t\tthis.warnings.push(\n\t\t\t\t\x27No design documents found in docs/design-docs/\x27,\n\t\t\t);\n\t\t\treturn;\n\t\t\x7d\n\n\t\tconst now = Date.now();\n\t\tconst sixMonths = 6 * 30 * 24 * 60 * 60 * 1000;\n\n\t\tfor (const file of files) \x7b\n\t\t\tif (file === \x27index.md\x27 || file === \x27template.md\x27) continue;\n\n\t\t\tconst filePath = join(designDocsDi" : String).data) ("r, file);\n" : String).data (vsTs6).data frontendNeedle.data (by decide), b5, c5]
    rfl
  have sp6 : (vsTs6).data = ("\t\t\tconst stats = statSync(filePath);\n\t\t\tconst age = now - stats.mtimeMs;\n\n\t\t\tif (age > sixMonths) \x7b\n\t\t\t\tthis.warnings.push(\n\t\t\t\t\t\x60Design doc hasn\x27t been updated in 6+ months: $\x7bfile\x7d\x60,\n\t\t\t\t);\n\t\t\t\x7d\n\t\t\x7d\n\t\x7d\n\n\tprivate printResults(): void \x7b\n\t\tconsole.log(\x27\\n\x27 + \x27=\x27.repeat(60));\n\n\t\tif (this.errors.length === 0 && this.warnings.length === 0) \x7b\n\t\t\tconsole.log(\x27✅ All validation checks passed!\x27);\n\t\t\x7d else \x7b\n\t\t\tif (this.errors.length > 0) \x7b\n\t\t\t\tconsole.log(\x60\\n❌ Errors ($\x7bthis.errors.length\x7d):\\n\x60);\n\t\t\t\tfor (const error of this.errors) \x7b\n\t\t\t\t\tconsole.log(\x60  - $\x7berror\x7d\x60);\n\t\t\t\t\x7d\n\t\t\t\x7d\n\n\t\t\tif (this.warnings.length > 0) \x7b\n\t\t\t\tconsole.log(\x60\\n⚠️  Warnings ($\x7bthis.warnings.length\x7d):\\n\x60);\n\t\t\t\tfor (const warning of this.warnings) \x7b\n\t\t\t\t\tconsole.log(\x60  - $\x7bwarning\x7d\x60);\n\t\t\t\t\x7d\n\t\t\t\x7d\n\t\t\x7d\n\n\t\tconsole.log(\x27\\n\x27 + \x27=\x27.repeat(60) + " : String).data ++ ("\x27\\n\x27);\n\t\x7d\n" : String).data := rfl
  have eq6 : ((((((vsTs1).data ++ (vsTs2).data) ++ (vsTs3).data) ++ (vsTs4).data) ++ (vsTs5).data) ++ (vsTs6).data) ++ (vsTs7).data = ((((((vsTs1).data ++ (vsTs2).data) ++ (vsTs3).data) ++ (vsTs4).data) ++ (vsTs5).data) ++ ("\t\t\tconst stats = statSync(filePath);\n\t\t\tconst age = now - stats.mtimeMs;\n\n\t\t\tif (age > sixMonths) \x7b\n\t\t\t\tthis.warnings.push(\n\t\t\t\t\t\x60Design doc hasn\x27t been updated in 6+ months: $\x7bfile\x7d\x60,\n\t\t\t\t);\n\t\t\t\x7d\n\t\t\x7d\n\t\x7d\n\n\tprivate printResults(): void \x7b\n\t\tconsole.log(\x27\\n\x27 + \x27=\x27.repeat(60));\n\n\t\tif (this.errors.length === 0 && this.warnings.length === 0) \x7b\n\t\t\tconsole.log(\x27✅ All validation checks passed!\x27);\n\t\t\x7d else \x7b\n\t\t\tif (this.errors.length > 0) \x7b\n\t\t\t\tconsole.log(\x60\\n❌ Errors ($\x7bthis.errors.length\x7d):\\n\x60);\n\t\t\t\tfor (const error of this.errors) \x7b\n\t\t\t\t\tconsole.log(\x60  - $\x7berror\x7d\x60);\n\t\t\t\t\x7d\n\t\t\t\x7d\n\n\t\t\tif (this.warnings.length > 0) \x7b\n\t\t\t\tconsole.log(\x60\\n⚠️  Warnings ($\x7bthis.warnings.length\x7d):\\n\x60);\n\t\t\t\tfor (const warning of this.warnings) \x7b\n\t\t\t\t\tconsole.log(\x60  - $\x7bwarning\x7d\x60);\n\t\t\t\t\x7d\n\t\t\t\x7d\n\t\t\x7d\n\n\t\tconsole.log(\x27\\n\x27 + \x27=\x27.repeat(60) + " : String).data) ++ (("\x27\\n\x27);\n\t\x7d\n" : String).data ++ (vsTs7).data) := by
    rw [sp6, ← List.append_assoc (((((vsTs1).data ++ (vsTs2).data) ++ (vsTs3).data) ++ (vsTs4).data) ++ (vsTs5).data) ("\t\t\tconst stats = statSync(filePath);\n\t\t\tconst age = now - stats.mtimeMs;\n\n\t\t\tif (age > sixMonths) \x7b\n\t\t\t\tthis.warnings.push(\n\t\t\t\t\t\x60Design doc hasn\x27t been updated in 6+ months: $\x7bfile\x7d\x60,\n\t\t\t\t);\n\t\t\t\x7d\n\t\t\x7d\n\t\x7d\n\n\tprivate printResults(): void \x7b\n\t\tconsole.log(\x27\\n\x27 + \x27=\x27.repeat(60));\n\n\t\tif (this.errors.length === 0 && this.warnings.length === 0) \x7b\n\t\t\tconsole.log(\x27✅ All validation checks passed!\x27);\n\t\t\x7d else \x7b\n\t\t\tif (this.errors.length > 0) \x7b\n\t\t\t\tconsole.log(\x60\\n❌ Errors ($\x7bthis.errors.length\x7d):\\n\x60);\n\t\t\t\tfor (const error of this.errors) \x7b\n\t\t\t\t\tconsole.log(\x60  - $\x7berror\x7d\x60);\n\t\t\t\t\x7d\n\t\t\t\x7d\n\n\t\t\tif (this.warnings.length > 0) \x7b\n\t\t\t\tconsole.log(\x60\\n⚠️  Warnings ($\x7bthis.warnings.length\x7d):\\n\x60);\n\t\t\t\tfor (const warning of this.warnings) \x7b\n\t\t\t\t\tconsole.log(\x60  - $\x7bwarning\x7d\x60);\n\t\t\t\t\x7d\n\t\t\t\x7d\n\t\t\x7d\n\n\t\tconsole.log(\x27\\n\x27 + \x27=\x27.repeat(60) + " : String).data ("\x27\\n\x27);\n\t\x7d\n" : String).data, List.append_assoc ((((((vsTs1).data ++ (vsTs2).data) ++ (vsTs3).data) ++ (vsTs4).data) ++ (vsTs5).data) ++ ("\t\t\tconst stats = statSync(filePath);\n\t\t\tconst age = now - stats.mtimeMs;\n\n\t\t\tif (age > sixMonths) \x7b\n\t\t\t\tthis.warnings.push(\n\t\t\t\t\t\x60Design doc hasn\x27t been updated in 6+ months: $\x7bfile\x7d\x60,\n\t\t\t\t);\n\t\t\t\x7d\n\t\t\x7d\n\t\x7d\n\n\tprivate printResults(): void \x7b\n\t\tconsole.log(\x27\\n\x27 + \x27=\x27.repeat(60));\n\n\t\tif (this.errors.length === 0 && this.warnings.length === 0) \x7b\n\t\t\tconsole.log(\x27✅ All validation checks passed!\x27);\n\t\t\x7d else \x7b\n\t\t\tif (this.errors.length > 0) \x7b\n\t\t\t\tconsole.log(\x60\\n❌ Errors ($\x7bthis.errors.length\x7d):\\n\x60);\n\t\t\t\tfor (const error of this.errors) \x7b\n\t\t\t\t\tconsole.log(\x60  - $\x7berror\x7d\x60);\n\t\t\t\t\x7d\n\t\t\t\x7d\n\n\t\t\tif (this.warnings.length > 0) \x7b\n\t\t\t\tconsole.log(\x60\\n⚠️  Warnings ($\x7bthis.warnings.length\x7d):\\n\x60);\n\t\t\t\tfor (const warning of this.warnings) \x7b\n\t\t\t\t\tconsole.log(\x60  - $\x7bwarning\x7d\x60);\n\t\t\t\t\x7d\n\t\t\t\x7d\n\t\t\x7d\n\n\t\tconsole.log(\x27\\n\x27 + \x27=\x27.repeat(60) + " : String).data) ("\x27\\n\x27);\n\t\x7d\n" : String).data (vsTs7).data]
  have c6 : containsSub frontendNeedle.data (("\x27\\n\x27);\n\t\x7d\n" : String).data ++ (vsTs7).data) = false := rfl
  have b6 : containsSub frontendNeedle.data (((((((vsTs1).data ++ (vsTs2).data) ++ (vsTs3).data) ++ (vsTs4).data) ++ (vsTs5).data) ++ ("\t\t\tconst stats = statSync(filePath);\n\t\t\tconst age = now - stats.mtimeMs;\n\n\t\t\tif (age > sixMonths) \x7b\n\t\t\t\tthis.warnings.push(\n\t\t\t\t\t\x60Design doc hasn\x27t been updated in 6+ months: $\x7bfile\x7d\x60,\n\t\t\t\t);\n\t\t\t\x7d\n\t\t\x7d\n\t\x7d\n\n\tprivate printResults(): void \x7b\n\t\tconsole.log(\x27\\n\x27 + \x27=\x27.repeat(60));\n\n\t\tif (this.errors.length === 0 && this.warnings.length === 0) \x7b\n\t\t\tconsole.log(\x27✅ All validation checks passed!\x27);\n\t\t\x7d else \x7b\n\t\t\tif (this.errors.length > 0) \x7b\n\t\t\t\tconsole.log(\x60\\n❌ Errors ($\x7bthis.errors.length\x7d):\\n\x60);\n\t\t\t\tfor (const error of this.errors) \x7b\n\t\t\t\t\tconsole.log(\x60  - $\x7berror\x7d\x60);\n\t\t\t\t\x7d\n\t\t\t\x7d\n\n\t\t\tif (this.warnings.length > 0) \x7b\n\t\t\t\tconsole.log(\x60\\n⚠️  Warnings ($\x7bthis.warnings.length\x7d):\\n\x60);\n\t\t\t\tfor (const warning of this.warnings) \x7b\n\t\t\t\t\tconsole.log(\x60  - $\x7bwarning\x7d\x60);\n\t\t\t\t\x7d\n\t\t\t\x7d\n\t\t\x7d\n\n\t\tconsole.log(\x27\\n\x27 + \x27=\x27.repeat(60) + " : String).data) ++ ("\x27\\n\x27);\n\t\x7d\n" : String).data) = false := by
    rw [List.append_assoc (((((vsTs1).data ++ (vsTs2).data) ++ (vsTs3).data) ++ (vsTs4).data) ++ (vsTs5).data) ("\t\t\tconst stats = statSync(filePath);\n\t\t\tconst age = now - stats.mtimeMs;\n\n\t\t\tif (age > sixMonths) \x7b\n\t\t\t\tthis.warnings.push(\n\t\t\t\t\t\x60Design doc hasn\x27t been updated in 6+ months: $\x7bfile\x7d\x60,\n\t\t\t\t);\n\t\t\t\x7d\n\t\t\x7d\n\t\x7d\n\n\tprivate printResults(): void \x7b\n\t\tconsole.log(\x27\\n\x27 + \x27=\x27.repeat(60));\n\n\t\tif (this.errors.length === 0 && this.warnings.length === 0) \x7b\n\t\t\tconsole.log(\x27✅ All validation checks passed!\x27);\n\t\t\x7d else \x7b\n\t\t\tif (this.errors.length > 0) \x7b\n\t\t\t\tconsole.log(\x60\\n❌ Errors ($\x7bthis.errors.length\x7d):\\n\x60);\n\t\t\t\tfor (const error of this.errors) \x7b\n\t\t\t\t\tconsole.log(\x60  - $\x7berror\x7d\x60);\n\t\t\t\t\x7d\n\t\t\t\x7d\n\n\t\t\tif (this.warnings.length > 0) \x7b\n\t\t\t\tconsole.log(\x60\\n⚠️  Warnings ($\x7bthis.warnings.length\x7d):\\n\x60);\n\t\t\t\tfor (const warning of this.warnings) \x7b\n\t\t\t\t\tconsole.log(\x60  - $\x7bwarning\x7d\x60);\n\t\t\t\t\x7d\n\t\t\t\x7d\n\t\t\x7d\n\n\t\tconsole.log(\x27\\n\x27 + \x27=\x27.repeat(60) + " : String).data ("\x27\\n\x27);\n\t\x7d\n" : String).data, ← sp6]
    exact h5
  have h6 : containsSub frontendNeedle.data (((((((vsTs1).data ++ (vsTs2).data) ++ (vsTs3).data) ++ (vsTs4).data) ++ (vsTs5).data) ++ (vsTs6).data) ++ (vsTs7).data) = false := by
    rw [eq6, containsSub_chain ((((((vsTs1).data ++ (vsTs2).data) ++ (vsTs3).data) ++ (vsTs4).data) ++ (vsTs5).data) ++ ("\t\t\tconst stats = statSync(filePath);\n\t\t\tconst age = now - stats.mtimeMs;\n\n\t\t\tif (age > sixMonths) \x7b\n\t\t\t\tthis.warnings.push(\n\t\t\t\t\t\x60Design doc hasn\x27t been updated in 6+ months: $\x7bfile\x7d\x60,\n\t\t\t\t);\n\t\t\t\x7d\n\t\t\x7d\n\t\x7d\n\n\tprivate printResults(): void \x7b\n\t\tconsole.log(\x27\\n\x27 + \x27=\x27.repeat(60));\n\n\t\tif (this.errors.length === 0 && this.warnings.length === 0) \x7b\n\t\t\tconsole.log(\x27✅ All validation checks passed!\x27);\n\t\t\x7d else \x7b\n\t\t\tif (this.errors.length > 0) \x7b\n\t\t\t\tconsole.log(\x60\\n❌ Errors ($\x7bthis.errors.length\x7d):\\n\x60);\n\t\t\t\tfor (const error of this.errors) \x7b\n\t\t\t\t\tconsole.log(\x60  - $\x7berror\x7d\x60);\n\t\t\t\t\x7d\n\t\t\t\x7d\n\n\t\t\tif (this.warnings.length > 0) \x7b\n\t\t\t\tconsole.log(\x60\\n⚠️  Warnings ($\x7bthis.warnings.length\x7d):\\n\x60);\n\t\t\t\tfor (const warning of this.warnings) \x7b\n\t\t\t\t\tconsole.log(\x60  - $\x7bwarning\x7d\x60);\n\t\t\t\t\x7d\n\t\t\t\x7d\n\t\t\x7d\n\n\t\tconsole.log(\x27\\n\x27 + \x27=\x27.repeat(60) + " : String).data) ("\x27\\n\x27);\n\t\x7d\n" : String).data (vsTs7).data frontendNeedle.data (by decide), b6, c6]
    rfl
  exact h6

theorem noFr_valscript_js : containsSub frontendNeedle.data (getValidationScriptTemplate ValidationLanguage.javascript).data = false := by
  unfold getValidationScriptTemplate
  rw [if_neg (by decide)]
  rw [strDataAppend, strDataAppend, strDataAppend, strDataAppend, strDataAppend]
  have h0 : containsSub frontendNeedle.data (vsJs1).data = false := rfl
  have sp1 : (vsJs1).data = ("#!/usr/bin/env node\n/**\n * Structure Validation Script\n * Validates the agent-first project structure and documentation\n */\n\nimport \x7b existsSync, readdirSync, readFileSync, statSync \x7d from \x27node:fs\x27;\nimport \x7b join \x7d from \x27node:path\x27;\n\nclass StructureValidator \x7b\n\tconstructor(rootDir = process.cwd()) \x7b\n\t\tthis.rootDir = rootDir;\n\t\tthis.errors = [];\n\t\tthis.warnings = [];\n\t\x7d\n\n\tvalidate() \x7b\n\t\tconsole.log(\x27🔍 Validating project structure...\\n\x27);\n\n\t\tthis.validateRootDocs();\n\t\tthis.validateDocsStructure();\n\t\tthis.validateCrossLinks();\n\t\tthis.validateDocFreshness();\n\n\t\tthis.printResults();\n\n\t\treturn this.errors.length === 0;\n\t\x7d\n\n\tvalidateRootDocs() \x7b\n\t\tconst requiredDocs = [\n\t\t\t\x27AGENTS.md\x27,\n\t\t\t\x27CLAUDE.md\x27,\n\t\t\t\x27ARCHITECTURE.md\x27,\n\t\t\t\x27DESIGN.md\x27,\n\t\t\t\x27PLANS.md\x27,\n\t\t\t\x27PRODUCT_SENSE.md\x27,\n\t\t\t\x27QUALITY_S" : String).data ++ ("CORE.md\x27,\n" : String).data := rfl
  have eq1 : (vsJs1).data ++ (vsJs2).data = ("#!/usr/bin/env node\n/**\n * Structure Validation Script\n * Validates the agent-first project structure and documentation\n */\n\nimport \x7b existsSync, readdirSync, readFileSync, statSync \x7d from \x27node:fs\x27;\nimport \x7b join \x7d from \x27node:path\x27;\n\nclass StructureValidator \x7b\n\tconstructor(rootDir = process.cwd()) \x7b\n\t\tthis.rootDir = rootDir;\n\t\tthis.errors = [];\n\t\tthis.warnings = [];\n\t\x7d\n\n\tvalidate() \x7b\n\t\tconsole.log(\x27🔍 Validating project structure...\\n\x27);\n\n\t\tthis.validateRootDocs();\n\t\tthis.validateDocsStructure();\n\t\tthis.validateCrossLinks();\n\t\tthis.validateDocFreshness();\n\n\t\tthis.printResults();\n\n\t\treturn this.errors.length === 0;\n\t\x7d\n\n\tvalidateRootDocs() \x7b\n\t\tconst requiredDocs = [\n\t\t\t\x27AGENTS.md\x27,\n\t\t\t\x27CLAUDE.md\x27,\n\t\t\t\x27ARCHITECTURE.md\x27,\n\t\t\t\x27DESIGN.md\x27,\n\t\t\t\x27PLANS.md\x27,\n\t\t\t\x27PRODUCT_SENSE.md\x27,\n\t\t\t\x27QUALITY_S" : String).data ++ (("CORE.md\x27,\n" : String).data ++ (vsJs2).data) := by
    rw [sp1, List.append_assoc ("#!/usr/bin/env node\n/**\n * Structure Validation Script\n * Validates the agent-first project structure and documentation\n */\n\nimport \x7b existsSync, readdirSync, readFileSync, statSync \x7d from \x27node:fs\x27;\nimport \x7b join \x7d from \x27node:path\x27;\n\nclass StructureValidator \x7b\n\tconstructor(rootDir = process.cwd()) \x7b\n\t\tthis.rootDir = rootDir;\n\t\tthis.errors = [];\n\t\tthis.warnings = [];\n\t\x7d\n\n\tvalidate() \x7b\n\t\tconsole.log(\x27🔍 Validating project structure...\\n\x27);\n\n\t\tthis.validateRootDocs();\n\t\tthis.validateDocsStructure();\n\t\tthis.validateCrossLinks();\n\t\tthis.validateDocFreshness();\n\n\t\tthis.printResults();\n\n\t\treturn this.errors.length === 0;\n\t\x7d\n\n\tvalidateRootDocs() \x7b\n\t\tconst requiredDocs = [\n\t\t\t\x27AGENTS.md\x27,\n\t\t\t\x27CLAUDE.md\x27,\n\t\t\t\x27ARCHITECTURE.md\x27,\n\t\t\t\x27DESIGN.md\x27,\n\t\t\t\x27PLANS.md\x27,\n\t\t\t\x27PRODUCT_SENSE.md\x27,\n\t\t\t\x27QUALITY_S" : String).data ("CORE.md\x27,\n" : String).data (vsJs2).data]
  have c1 : containsSub frontendNeedle.data (("CORE.md\x27,\n" : String).data ++ (vsJs2).data) = false := rfl
  have b1 : containsSub frontendNeedle.data (("#!/usr/bin/env node\n/**\n * Structure Validation Script\n * Validates the agent-first project structure and documentation\n */\n\nimport \x7b existsSync, readdirSync, readFileSync, statSync \x7d from \x27node:fs\x27;\nimport \x7b join \x7d from \x27node:path\x27;\n\nclass StructureValidator \x7b\n\tconstructor(rootDir = process.cwd()) \x7b\n\t\tthis.rootDir = rootDir;\n\t\tthis.errors = [];\n\t\tthis.warnings = [];\n\t\x7d\n\n\tvalidate() \x7b\n\t\tconsole.log(\x27🔍 Validating project structure...\\n\x27);\n\n\t\tthis.validateRootDocs();\n\t\tthis.validateDocsStructure();\n\t\tthis.validateCrossLinks();\n\t\tthis.validateDocFreshness();\n\n\t\tthis.printResults();\n\n\t\treturn this.errors.length === 0;\n\t\x7d\n\n\tvalidateRootDocs() \x7b\n\t\tconst requiredDocs = [\n\t\t\t\x27AGENTS.md\x27,\n\t\t\t\x27CLAUDE.md\x27,\n\t\t\t\x27ARCHITECTURE.md\x27,\n\t\t\t\x27DESIGN.md\x27,\n\t\t\t\x27PLANS.md\x27,\n\t\t\t\x27PRODUCT_SENSE.md\x27,\n\t\t\t\x27QUALITY_S" : String).data ++ ("CORE.md\x27,\n" : String).data) = false := by
    rw [← sp1]
    exact h0
  have h1 : containsSub frontendNeedle.data ((vsJs1).data ++ (vsJs2).data) = false := by
    rw [eq1, containsSub_chain ("#!/usr/bin/env node\n/**\n * Structure Validation Script\n * Validates the agent-first project structure and documentation\n */\n\nimport \x7b existsSync, readdirSync, readFileSync, statSync \x7d from \x27node:fs\x27;\nimport \x7b join \x7d from \x27node:path\x27;\n\nclass StructureValidator \x7b\n\tconstructor(rootDir = process.cwd()) \x7b\n\t\tthis.rootDir = rootDir;\n\t\tthis.errors = [];\n\t\tthis.warnings = [];\n\t\x7d\n\n\tvalidate() \x7b\n\t\tconsole.log(\x27🔍 Validating project structure...\\n\x27);\n\n\t\tthis.validateRootDocs();\n\t\tthis.validateDocsStructure();\n\t\tthis.validateCrossLinks();\n\t\tthis.validateDocFreshness();\n\n\t\tthis.printResults();\n\n\t\treturn this.errors.length === 0;\n\t\x7d\n\n\tvalidateRootDocs() \x7b\n\t\tconst requiredDocs = [\n\t\t\t\x27AGENTS.md\x27,\n\t\t\t\x27CLAUDE.md\x27,\n\t\t\t\x27ARCHITECTURE.md\x27,\n\t\t\t\x27DESIGN.md\x27,\n\t\t\t\x27PLANS.md\x27,\n\t\t\t\x27PRODUCT_SENSE.md\x27,\n\t\t\t\x27QUALITY_S" : String).data ("CORE.md\x27,\n" : String).data (vsJs2).data frontendNeedle.data (by decide), b1, c1]
    rfl
  have sp2 : (vsJs2).data = ("\t\t\t\x27RELIABILITY.md\x27,\n\t\t\t\x27SECURITY.md\x27,\n\t\t];\n\n\t\tfor (const doc of requiredDocs) \x7b\n\t\t\tif (!existsSync(join(this.rootDir, doc))) \x7b\n\t\t\t\tthis.errors.push(\x60Missing required document: $\x7bdoc\x7d\x60);\n\t\t\t\x7d\n\t\t\x7d\n\n\t\t// Validate AGENTS.md and CLAUDE.md are identical\n\t\tif (\n\t\t\texistsSync(join(this.rootDir, \x27AGENTS.md\x27)) &&\n\t\t\texistsSync(join(this.rootDir, \x27CLAUDE.md\x27))\n\t\t) \x7b\n\t\t\tconst agentsContent = readFileSync(\n\t\t\t\tjoin(this.rootDir, \x27AGENTS.md\x27),\n\t\t\t\t\x27utf-8\x27,\n\t\t\t);\n\t\t\tconst claudeContent = readFileSync(\n\t\t\t\tjoin(this.rootDir, \x27CLAUDE.md\x27),\n\t\t\t\t\x27utf-8\x27,\n\t\t\t);\n\n\t\t\tif (agentsContent !== claudeContent) \x7b\n\t\t\t\tthis.errors.push(\x27AGENTS.md and CLAUDE.md must be identical\x27);\n\t\t\t\x7d\n\t\t\x7d\n\n\t\t// Validate AGENTS.md is roughly 100 lines (allow some variance)\n\t\tif (existsSync(join(this.rootDir, \x27AGENTS" : String).data ++ (".md\x27))) \x7b\n" : String).data := rfl
  have eq2 : ((vsJs1).data ++ (vsJs2).data) ++ (vsJs3).data = ((vsJs1).data ++ ("\t\t\t\x27RELIABILITY.md\x27,\n\t\t\t\x27SECURITY.md\x27,\n\t\t];\n\n\t\tfor (const doc of requiredDocs) \x7b\n\t\t\tif (!existsSync(join(this.rootDir, doc))) \x7b\n\t\t\t\tthis.errors.push(\x60Missing required document: $\x7bdoc\x7d\x60);\n\t\t\t\x7d\n\t\t\x7d\n\n\t\t// Validate AGENTS.md and CLAUDE.md are identical\n\t\tif (\n\t\t\texistsSync(join(this.rootDir, \x27AGENTS.md\x27)) &&\n\t\t\texistsSync(join(this.rootDir, \x27CLAUDE.md\x27))\n\t\t) \x7b\n\t\t\tconst agentsContent = readFileSync(\n\t\t\t\tjoin(this.rootDir, \x27AGENTS.md\x27),\n\t\t\t\t\x27utf-8\x27,\n\t\t\t);\n\t\t\tconst claudeContent = readFileSync(\n\t\t\t\tjoin(this.rootDir, \x27CLAUDE.md\x27),\n\t\t\t\t\x27utf-8\x27,\n\t\t\t);\n\n\t\t\tif (agentsContent !== claudeContent) \x7b\n\t\t\t\tthis.errors.push(\x27AGENTS.md and CLAUDE.md must be identical\x27);\n\t\t\t\x7d\n\t\t\x7d\n\n\t\t// Validate AGENTS.md is roughly 100 lines (allow some variance)\n\t\tif (existsSync(join(this.rootDir, \x27AGENTS" : String).data) ++ ((".md\x27))) \x7b\n" : String).data ++ (vsJs3).data) := by
    rw [sp2, ← List.append_assoc (vsJs1).data ("\t\t\t\x27RELIABILITY.md\x27,\n\t\t\t\x27SECURITY.md\x27,\n\t\t];\n\n\t\tfor (const doc of requiredDocs) \x7b\n\t\t\tif (!existsSync(join(this.rootDir, doc))) \x7b\n\t\t\t\tthis.errors.push(\x60Missing required document: $\x7bdoc\x7d\x60);\n\t\t\t\x7d\n\t\t\x7d\n\n\t\t// Validate AGENTS.md and CLAUDE.md are identical\n\t\tif (\n\t\t\texistsSync(join(this.rootDir, \x27AGENTS.md\x27)) &&\n\t\t\texistsSync(join(this.rootDir, \x27CLAUDE.md\x27))\n\t\t) \x7b\n\t\t\tconst agentsContent = readFileSync(\n\t\t\t\tjoin(this.rootDir, \x27AGENTS.md\x27),\n\t\t\t\t\x27utf-8\x27,\n\t\t\t);\n\t\t\tconst claudeContent = readFileSync(\n\t\t\t\tjoin(this.rootDir, \x27CLAUDE.md\x27),\n\t\t\t\t\x27utf-8\x27,\n\t\t\t);\n\n\t\t\tif (agentsContent !== claudeContent) \x7b\n\t\t\t\tthis.errors.push(\x27AGENTS.md and CLAUDE.md must be identical\x27);\n\t\t\t\x7d\n\t\t\x7d\n\n\t\t// Validate AGENTS.md is roughly 100 lines (allow some variance)\n\t\tif (existsSync(join(this.rootDir, \x27AGENTS" : String).data (".md\x27))) \x7b\n" : String).data, List.append_assoc ((vsJs1).data ++ ("\t\t\t\x27RELIABILITY.md\x27,\n\t\t\t\x27SECURITY.md\x27,\n\t\t];\n\n\t\tfor (const doc of requiredDocs) \x7b\n\t\t\tif (!existsSync(join(this.rootDir, doc))) \x7b\n\t\t\t\tthis.errors.push(\x60Missing required document: $\x7bdoc\x7d\x60);\n\t\t\t\x7d\n\t\t\x7d\n\n\t\t// Validate AGENTS.md and CLAUDE.md are identical\n\t\tif (\n\t\t\texistsSync(join(this.rootDir, \x27AGENTS.md\x27)) &&\n\t\t\texistsSync(join(this.rootDir, \x27CLAUDE.md\x27))\n\t\t) \x7b\n\t\t\tconst agentsContent = readFileSync(\n\t\t\t\tjoin(this.rootDir, \x27AGENTS.md\x27),\n\t\t\t\t\x27utf-8\x27,\n\t\t\t);\n\t\t\tconst claudeContent = readFileSync(\n\t\t\t\tjoin(this.rootDir, \x27CLAUDE.md\x27),\n\t\t\t\t\x27utf-8\x27,\n\t\t\t);\n\n\t\t\tif (agentsContent !== claudeContent) \x7b\n\t\t\t\tthis.errors.push(\x27AGENTS.md and CLAUDE.md must be identical\x27);\n\t\t\t\x7d\n\t\t\x7d\n\n\t\t// Validate AGENTS.md is roughly 100 lines (allow some variance)\n\t\tif (existsSync(join(this.rootDir, \x27AGENTS" : String).data) (".md\x27))) \x7b\n" : String).data (vsJs3).data]
  have c2 : containsSub frontendNeedle.data ((".md\x27))) \x7b\n" : String).data ++ (vsJs3).data) = false := rfl
  have b2 : containsSub frontendNeedle.data (((vsJs1).data ++ ("\t\t\t\x27RELIABILITY.md\x27,\n\t\t\t\x27SECURITY.md\x27,\n\t\t];\n\n\t\tfor (const doc of requiredDocs) \x7b\n\t\t\tif (!existsSync(join(this.rootDir, doc))) \x7b\n\t\t\t\tthis.errors.push(\x60Missing required document: $\x7bdoc\x7d\x60);\n\t\t\t\x7d\n\t\t\x7d\n\n\t\t// Validate AGENTS.md and CLAUDE.md are identical\n\t\tif (\n\t\t\texistsSync(join(this.rootDir, \x27AGENTS.md\x27)) &&\n\t\t\texistsSync(join(this.rootDir, \x27CLAUDE.md\x27))\n\t\t) \x7b\n\t\t\tconst agentsContent = readFileSync(\n\t\t\t\tjoin(this.rootDir, \x27AGENTS.md\x27),\n\t\t\t\t\x27utf-8\x27,\n\t\t\t);\n\t\t\tconst claudeContent = readFileSync(\n\t\t\t\tjoin(this.rootDir, \x27CLAUDE.md\x27),\n\t\t\t\t\x27utf-8\x27,\n\t\t\t);\n\n\t\t\tif (agentsContent !== claudeContent) \x7b\n\t\t\t\tthis.errors.push(\x27AGENTS.md and CLAUDE.md must be identical\x27);\n\t\t\t\x7d\n\t\t\x7d\n\n\t\t// Validate AGENTS.md is roughly 100 lines (allow some variance)\n\t\tif (existsSync(join(this.rootDir, \x27AGENTS" : String).data) ++ (".md\x27))) \x7b\n" : String).data) = false := by
    rw [List.append_assoc (vsJs1).data ("\t\t\t\x27RELIABILITY.md\x27,\n\t\t\t\x27SECURITY.md\x27,\n\t\t];\n\n\t\tfor (const doc of requiredDocs) \x7b\n\t\t\tif (!existsSync(join(this.rootDir, doc))) \x7b\n\t\t\t\tthis.errors.push(\x60Missing required document: $\x7bdoc\x7d\x60);\n\t\t\t\x7d\n\t\t\x7d\n\n\t\t// Validate AGENTS.md and CLAUDE.md are identical\n\t\tif (\n\t\t\texistsSync(join(this.rootDir, \x27AGENTS.md\x27)) &&\n\t\t\texistsSync(join(this.rootDir, \x27CLAUDE.md\x27))\n\t\t) \x7b\n\t\t\tconst agentsContent = readFileSync(\n\t\t\t\tjoin(this.rootDir, \x27AGENTS.md\x27),\n\t\t\t\t\x27utf-8\x27,\n\t\t\t);\n\t\t\tconst claudeContent = readFileSync(\n\t\t\t\tjoin(this.rootDir, \x27CLAUDE.md\x27),\n\t\t\t\t\x27utf-8\x27,\n\t\t\t);\n\n\t\t\tif (agentsContent !== claudeContent) \x7b\n\t\t\t\tthis.errors.push(\x27AGENTS.md and CLAUDE.md must be identical\x27);\n\t\t\t\x7d\n\t\t\x7d\n\n\t\t// Validate AGENTS.md is roughly 100 lines (allow some variance)\n\t\tif (existsSync(join(this.rootDir, \x27AGENTS" : String).data (".md\x27))) \x7b\n" : String).data, ← sp2]
    exact h1
  have h2 : containsSub frontendNeedle.data (((vsJs1).data ++ (vsJs2).data) ++ (vsJs3).data) = false := by
    rw [eq2, containsSub_chain ((vsJs1).data ++ ("\t\t\t\x27RELIABILITY.md\x27,\n\t\t\t\x27SECURITY.md\x27,\n\t\t];\n\n\t\tfor (const doc of requiredDocs) \x7b\n\t\t\tif (!existsSync(join(this.rootDir, doc))) \x7b\n\t\t\t\tthis.errors.push(\x60Missing required document: $\x7bdoc\x7d\x60);\n\t\t\t\x7d\n\t\t\x7d\n\n\t\t// Validate AGENTS.md and CLAUDE.md are identical\n\t\tif (\n\t\t\texistsSync(join(this.rootDir, \x27AGENTS.md\x27)) &&\n\t\t\texistsSync(join(this.rootDir, \x27CLAUDE.md\x27))\n\t\t) \x7b\n\t\t\tconst agentsContent = readFileSync(\n\t\t\t\tjoin(this.rootDir, \x27AGENTS.md\x27),\n\t\t\t\t\x27utf-8\x27,\n\t\t\t);\n\t\t\tconst claudeContent = readFileSync(\n\t\t\t\tjoin(this.rootDir, \x27CLAUDE.md\x27),\n\t\t\t\t\x27utf-8\x27,\n\t\t\t);\n\n\t\t\tif (agentsContent !== claudeContent) \x7b\n\t\t\t\tthis.errors.push(\x27AGENTS.md and CLAUDE.md must be identical\x27);\n\t\t\t\x7d\n\t\t\x7d\n\n\t\t// Validate AGENTS.md is roughly 100 lines (allow some variance)\n\t\tif (existsSync(join(this.rootDir, \x27AGENTS" : String).data) (".md\x27))) \x7b\n" : String).data (vsJs3).data frontendNeedle.data (by decide), b2, c2]
    rfl
  have sp3 : (vsJs3).data = ("\t\t\tconst agentsContent = readFileSync(\n\t\t\t\tjoin(this.rootDir, \x27AGENTS.md\x27),\n\t\t\t\t\x27utf-8\x27,\n\t\t\t);\n\t\t\tconst lineCount = agentsContent.split(\x27\\n\x27).length;\n\n\t\t\tif (lineCount > 150) \x7b\n\t\t\t\tthis.warnings.push(\n\t\t\t\t\t\x60AGENTS.md is $\x7blineCount\x7d lines (recommended: ~100 lines). Consider moving details to docs/\x60,\n\t\t\t\t);\n\t\t\t\x7d\n\t\t\x7d\n\t\x7d\n\n\tvalidateDocsStructure() \x7b\n\t\tconst requiredDirs = [\n\t\t\t\x27docs/design-docs\x27,\n\t\t\t\x27docs/exec-plans/active\x27,\n\t\t\t\x27docs/exec-plans/completed\x27,\n\t\t\t\x27docs/product-specs\x27,\n\t\t\t\x27docs/references\x27,\n\t\t\t\x27docs/generated\x27,\n\t\t];\n\n\t\tfor (const dir of requiredDirs) \x7b\n\t\t\tif (!existsSync(join(this.rootDir, dir))) \x7b\n\t\t\t\tthis.errors.push(\x60Missing required directory: $\x7bdir\x7d\x60);\n\t\t\t\x7d\n\t\t\x7d\n\n\t\t// Validate index files exist\n\t\tconst requiredIndexes = [\n\t\t\t\x27docs/design-docs/index.md\x27,\n\t\t\t\x27docs/product-specs/index.m" : String).data ++ ("d\x27,\n\t\t];\n\n" : String).data := rfl
  have eq3 : (((vsJs1).data ++ (vsJs2).data) ++ (vsJs3).data) ++ (vsJs4).data = (((vsJs1).data ++ (vsJs2).data) ++ ("\t\t\tconst agentsContent = readFileSync(\n\t\t\t\tjoin(this.rootDir, \x27AGENTS.md\x27),\n\t\t\t\t\x27utf-8\x27,\n\t\t\t);\n\t\t\tconst lineCount = agentsContent.split(\x27\\n\x27).length;\n\n\t\t\tif (lineCount > 150) \x7b\n\t\t\t\tthis.warnings.push(\n\t\t\t\t\t\x60AGENTS.md is $\x7blineCount\x7d lines (recommended: ~100 lines). Consider moving details to docs/\x60,\n\t\t\t\t);\n\t\t\t\x7d\n\t\t\x7d\n\t\x7d\n\n\tvalidateDocsStructure() \x7b\n\t\tconst requiredDirs = [\n\t\t\t\x27docs/design-docs\x27,\n\t\t\t\x27docs/exec-plans/active\x27,\n\t\t\t\x27docs/exec-plans/completed\x27,\n\t\t\t\x27docs/product-specs\x27,\n\t\t\t\x27docs/references\x27,\n\t\t\t\x27docs/generated\x27,\n\t\t];\n\n\t\tfor (const dir of requiredDirs) \x7b\n\t\t\tif (!existsSync(join(this.rootDir, dir))) \x7b\n\t\t\t\tthis.errors.push(\x60Missing required directory: $\x7bdir\x7d\x60);\n\t\t\t\x7d\n\t\t\x7d\n\n\t\t// Validate index files exist\n\t\tconst requiredIndexes = [\n\t\t\t\x27docs/design-docs/index.md\x27,\n\t\t\t\x27docs/product-specs/index.m" : String).data) ++ (("d\x27,\n\t\t];\n\n" : String).data ++ (vsJs4).data) := by
    rw [sp3, ← List.append_assoc ((vsJs1).data ++ (vsJs2).data) ("\t\t\tconst agentsContent = readFileSync(\n\t\t\t\tjoin(this.rootDir, \x27AGENTS.md\x27),\n\t\t\t\t\x27utf-8\x27,\n\t\t\t);\n\t\t\tconst lineCount = agentsContent.split(\x27\\n\x27).length;\n\n\t\t\tif (lineCount > 150) \x7b\n\t\t\t\tthis.warnings.push(\n\t\t\t\t\t\x60AGENTS.md is $\x7blineCount\x7d lines (recommended: ~100 lines). Consider moving details to docs/\x60,\n\t\t\t\t);\n\t\t\t\x7d\n\t\t\x7d\n\t\x7d\n\n\tvalidateDocsStructure() \x7b\n\t\tconst requiredDirs = [\n\t\t\t\x27docs/design-docs\x27,\n\t\t\t\x27docs/exec-plans/active\x27,\n\t\t\t\x27docs/exec-plans/completed\x27,\n\t\t\t\x27docs/product-specs\x27,\n\t\t\t\x27docs/references\x27,\n\t\t\t\x27docs/generated\x27,\n\t\t];\n\n\t\tfor (const dir of requiredDirs) \x7b\n\t\t\tif (!existsSync(join(this.rootDir, dir))) \x7b\n\t\t\t\tthis.errors.push(\x60Missing required directory: $\x7bdir\x7d\x60);\n\t\t\t\x7d\n\t\t\x7d\n\n\t\t// Validate index files exist\n\t\tconst requiredIndexes = [\n\t\t\t\x27docs/design-docs/index.md\x27,\n\t\t\t\x27docs/product-specs/index.m" : String).data ("d\x27,\n\t\t];\n\n" : String).data, List.append_assoc (((vsJs1).data ++ (vsJs2).data) ++ ("\t\t\tconst agentsContent = readFileSync(\n\t\t\t\tjoin(this.rootDir, \x27AGENTS.md\x27),\n\t\t\t\t\x27utf-8\x27,\n\t\t\t);\n\t\t\tconst lineCount = agentsContent.split(\x27\\n\x27).length;\n\n\t\t\tif (lineCount > 150) \x7b\n\t\t\t\tthis.warnings.push(\n\t\t\t\t\t\x60AGENTS.md is $\x7blineCount\x7d lines (recommended: ~100 lines). Consider moving details to docs/\x60,\n\t\t\t\t);\n\t\t\t\x7d\n\t\t\x7d\n\t\x7d\n\n\tvalidateDocsStructure() \x7b\n\t\tconst requiredDirs = [\n\t\t\t\x27docs/design-docs\x27,\n\t\t\t\x27docs/exec-plans/active\x27,\n\t\t\t\x27docs/exec-plans/completed\x27,\n\t\t\t\x27docs/product-specs\x27,\n\t\t\t\x27docs/references\x27,\n\t\t\t\x27docs/generated\x27,\n\t\t];\n\n\t\tfor (const dir of requiredDirs) \x7b\n\t\t\tif (!existsSync(join(this.rootDir, dir))) \x7b\n\t\t\t\tthis.errors.push(\x60Missing required directory: $\x7bdir\x7d\x60);\n\t\t\t\x7d\n\t\t\x7d\n\n\t\t// Validate index files exist\n\t\tconst requiredIndexes = [\n\t\t\t\x27docs/design-docs/index.md\x27,\n\t\t\t\x27docs/product-specs/index.m" : String).data) ("d\x27,\n\t\t];\n\n" : String).data (vsJs4).data]
  have c3 : containsSub frontendNeedle.data (("d\x27,\n\t\t];\n\n" : String).data ++ (vsJs4).data) = false := rfl
  have b3 : containsSub frontendNeedle.data ((((vsJs1).data ++ (vsJs2).data) ++ ("\t\t\tconst agentsContent = readFileSync(\n\t\t\t\tjoin(this.rootDir, \x27AGENTS.md\x27),\n\t\t\t\t\x27utf-8\x27,\n\t\t\t);\n\t\t\tconst lineCount = agentsContent.split(\x27\\n\x27).length;\n\n\t\t\tif (lineCount > 150) \x7b\n\t\t\t\tthis.warnings.push(\n\t\t\t\t\t\x60AGENTS.md is $\x7blineCount\x7d lines (recommended: ~100 lines). Consider moving details to docs/\x60,\n\t\t\t\t);\n\t\t\t\x7d\n\t\t\x7d\n\t\x7d\n\n\tvalidateDocsStructure() \x7b\n\t\tconst requiredDirs = [\n\t\t\t\x27docs/design-docs\x27,\n\t\t\t\x27docs/exec-plans/active\x27,\n\t\t\t\x27docs/exec-plans/completed\x27,\n\t\t\t\x27docs/product-specs\x27,\n\t\t\t\x27docs/references\x27,\n\t\t\t\x27docs/generated\x27,\n\t\t];\n\n\t\tfor (const dir of requiredDirs) \x7b\n\t\t\tif (!existsSync(join(this.rootDir, dir))) \x7b\n\t\t\t\tthis.errors.push(\x60Missing required directory: $\x7bdir\x7d\x60);\n\t\t\t\x7d\n\t\t\x7d\n\n\t\t// Validate index files exist\n\t\tconst requiredIndexes = [\n\t\t\t\x27docs/design-docs/index.md\x27,\n\t\t\t\x27docs/product-specs/index.m" : String).data) ++ ("d\x27,\n\t\t];\n\n" : String).data) = false := by
    rw [List.append_assoc ((vsJs1).data ++ (vsJs2).data) ("\t\t\tconst agentsContent = readFileSync(\n\t\t\t\tjoin(this.rootDir, \x27AGENTS.md\x27),\n\t\t\t\t\x27utf-8\x27,\n\t\t\t);\n\t\t\tconst lineCount = agentsContent.split(\x27\\n\x27).length;\n\n\t\t\tif (lineCount > 150) \x7b\n\t\t\t\tthis.warnings.push(\n\t\t\t\t\t\x60AGENTS.md is $\x7blineCount\x7d lines (recommended: ~100 lines). Consider moving details to docs/\x60,\n\t\t\t\t);\n\t\t\t\x7d\n\t\t\x7d\n\t\x7d\n\n\tvalidateDocsStructure() \x7b\n\t\tconst requiredDirs = [\n\t\t\t\x27docs/design-docs\x27,\n\t\t\t\x27docs/exec-plans/active\x27,\n\t\t\t\x27docs/exec-plans/completed\x27,\n\t\t\t\x27docs/product-specs\x27,\n\t\t\t\x27docs/references\x27,\n\t\t\t\x27docs/generated\x27,\n\t\t];\n\n\t\tfor (const dir of requiredDirs) \x7b\n\t\t\tif (!existsSync(join(this.rootDir, dir))) \x7b\n\t\t\t\tthis.errors.push(\x60Missing required directory: $\x7bdir\x7d\x60);\n\t\t\t\x7d\n\t\t\x7d\n\n\t\t// Validate index files exist\n\t\tconst requiredIndexes = [\n\t\t\t\x27docs/design-docs/index.md\x27,\n\t\t\t\x27docs/product-specs/index.m" : String).data ("d\x27,\n\t\t];\n\n" : String).data, ← sp3]
    exact h2
  have h3 : containsSub frontendNeedle.data ((((vsJs1).data ++ (vsJs2).data) ++ (vsJs3).data) ++ (vsJs4).data) = false := by
    rw [eq3, containsSub_chain (((vsJs1).data ++ (vsJs2).data) ++ ("\t\t\tconst agentsContent = readFileSync(\n\t\t\t\tjoin(this.rootDir, \x27AGENTS.md\x27),\n\t\t\t\t\x27utf-8\x27,\n\t\t\t);\n\t\t\tconst lineCount = agentsContent.split(\x27\\n\x27).length;\n\n\t\t\tif (lineCount > 150) \x7b\n\t\t\t\tthis.warnings.push(\n\t\t\t\t\t\x60AGENTS.md is $\x7blineCount\x7d lines (recommended: ~100 lines). Consider moving details to docs/\x60,\n\t\t\t\t);\n\t\t\t\x7d\n\t\t\x7d\n\t\x7d\n\n\tvalidateDocsStructure() \x7b\n\t\tconst requiredDirs = [\n\t\t\t\x27docs/design-docs\x27,\n\t\t\t\x27docs/exec-plans/active\x27,\n\t\t\t\x27docs/exec-plans/completed\x27,\n\t\t\t\x27docs/product-specs\x27,\n\t\t\t\x27docs/references\x27,\n\t\t\t\x27docs/generated\x27,\n\t\t];\n\n\t\tfor (const dir of requiredDirs) \x7b\n\t\t\tif (!existsSync(join(this.rootDir, dir))) \x7b\n\t\t\t\tthis.errors.push(\x60Missing required directory: $\x7bdir\x7d\x60);\n\t\t\t\x7d\n\t\t\x7d\n\n\t\t// Validate index files exist\n\t\tconst requiredIndexes = [\n\t\t\t\x27docs/design-docs/index.md\x27,\n\t\t\t\x27docs/product-specs/index.m" : String).data) ("d\x27,\n\t\t];\n\n" : String).data (vsJs4).data frontendNeedle.data (by decide), b3, c3]
    rfl
  have sp4 : (vsJs4).data = ("\t\tfor (const index of requiredIndexes) \x7b\n\t\t\tif (!existsSync(join(this.rootDir, index))) \x7b\n\t\t\t\tthis.warnings.push(\x60Missing index file: $\x7bindex\x7d\x60);\n\t\t\t\x7d\n\t\t\x7d\n\t\x7d\n\n\tvalidateCrossLinks() \x7b\n\t\t// Basic validation: check that referenced files exist\n\t\tconst agentsPath = join(this.rootDir, \x27AGENTS.md\x27);\n\t\tif (!existsSync(agentsPath)) return;\n\n\t\tconst agentsContent = readFileSync(agentsPath, \x27utf-8\x27);\n\t\tconst linkRegex = /\\[([^\\]]+)\\]\\(([^)]+)\\)/g;\n\t\tlet match;\n\n\t\twhile ((match = linkRegex.exec(agentsContent)) !== null) \x7b\n\t\t\tconst linkPath = match[2];\n\n\t\t\t// Skip external links\n\t\t\tif (linkPath.startsWith(\x27http\x27)) continue;\n\n\t\t\tconst fullPath = join(this.rootDir, linkPath);\n\t\t\tif (!existsSync(fullPath)) \x7b\n\t\t\t\tthis.warnings.push(\n\t\t\t\t\t\x60Broken link in AGENTS.md: $\x7blinkPath\x7d\x60,\n\t\t\t\t);\n\t\t\t\x7d\n\t\t\x7d\n\t\x7d\n\n\tvalidateDocFres" : String).data ++ ("hness() \x7b\n" : String).data := rfl
  have eq4 : ((((vsJs1).data ++ (vsJs2).data) ++ (vsJs3).data) ++ (vsJs4).data) ++ (vsJs5).data = ((((vsJs1).data ++ (vsJs2).data) ++ (vsJs3).data) ++ ("\t\tfor (const index of requiredIndexes) \x7b\n\t\t\tif (!existsSync(join(this.rootDir, index))) \x7b\n\t\t\t\tthis.warnings.push(\x60Missing index file: $\x7bindex\x7d\x60);\n\t\t\t\x7d\n\t\t\x7d\n\t\x7d\n\n\tvalidateCrossLinks() \x7b\n\t\t// Basic validation: check that referenced files exist\n\t\tconst agentsPath = join(this.rootDir, \x27AGENTS.md\x27);\n\t\tif (!existsSync(agentsPath)) return;\n\n\t\tconst agentsContent = readFileSync(agentsPath, \x27utf-8\x27);\n\t\tconst linkRegex = /\\[([^\\]]+)\\]\\(([^)]+)\\)/g;\n\t\tlet match;\n\n\t\twhile ((match = linkRegex.exec(agentsContent)) !== null) \x7b\n\t\t\tconst linkPath = match[2];\n\n\t\t\t// Skip external links\n\t\t\tif (linkPath.startsWith(\x27http\x27)) continue;\n\n\t\t\tconst fullPath = join(this.rootDir, linkPath);\n\t\t\tif (!existsSync(fullPath)) \x7b\n\t\t\t\tthis.warnings.push(\n\t\t\t\t\t\x60Broken link in AGENTS.md: $\x7blinkPath\x7d\x60,\n\t\t\t\t);\n\t\t\t\x7d\n\t\t\x7d\n\t\x7d\n\n\tvalidateDocFres" : String).data) ++ (("hness() \x7b\n" : String).data ++ (vsJs5).data) := by
    rw [sp4, ← List.append_assoc (((vsJs1).data ++ (vsJs2).data) ++ (vsJs3).data) ("\t\tfor (const index of requiredIndexes) \x7b\n\t\t\tif (!existsSync(join(this.rootDir, index))) \x7b\n\t\t\t\tthis.warnings.push(\x60Missing index file: $\x7bindex\x7d\x60);\n\t\t\t\x7d\n\t\t\x7d\n\t\x7d\n\n\tvalidateCrossLinks() \x7b\n\t\t// Basic validation: check that referenced files exist\n\t\tconst agentsPath = join(this.rootDir, \x27AGENTS.md\x27);\n\t\tif (!existsSync(agentsPath)) return;\n\n\t\tconst agentsContent = readFileSync(agentsPath, \x27utf-8\x27);\n\t\tconst linkRegex = /\\[([^\\]]+)\\]\\(([^)]+)\\)/g;\n\t\tlet match;\n\n\t\twhile ((match = linkRegex.exec(agentsContent)) !== null) \x7b\n\t\t\tconst linkPath = match[2];\n\n\t\t\t// Skip external links\n\t\t\tif (linkPath.startsWith(\x27http\x27)) continue;\n\n\t\t\tconst fullPath = join(this.rootDir, linkPath);\n\t\t\tif (!existsSync(fullPath)) \x7b\n\t\t\t\tthis.warnings.push(\n\t\t\t\t\t\x60Broken link in AGENTS.md: $\x7blinkPath\x7d\x60,\n\t\t\t\t);\n\t\t\t\x7d\n\t\t\x7d\n\t\x7d\n\n\tvalidateDocFres" : String).data ("hness() \x7b\n" : String).data, List.append_assoc ((((vsJs1).data ++ (vsJs2).data) ++ (vsJs3).data) ++ ("\t\tfor (const index of requiredIndexes) \x7b\n\t\t\tif (!existsSync(join(this.rootDir, index))) \x7b\n\t\t\t\tthis.warnings.push(\x60Missing index file: $\x7bindex\x7d\x60);\n\t\t\t\x7d\n\t\t\x7d\n\t\x7d\n\n\tvalidateCrossLinks() \x7b\n\t\t// Basic validation: check that referenced files exist\n\t\tconst agentsPath = join(this.rootDir, \x27AGENTS.md\x27);\n\t\tif (!existsSync(agentsPath)) return;\n\n\t\tconst agentsContent = readFileSync(agentsPath, \x27utf-8\x27);\n\t\tconst linkRegex = /\\[([^\\]]+)\\]\\(([^)]+)\\)/g;\n\t\tlet match;\n\n\t\twhile ((match = linkRegex.exec(agentsContent)) !== null) \x7b\n\t\t\tconst linkPath = match[2];\n\n\t\t\t// Skip external links\n\t\t\tif (linkPath.startsWith(\x27http\x27)) continue;\n\n\t\t\tconst fullPath = join(this.rootDir, linkPath);\n\t\t\tif (!existsSync(fullPath)) \x7b\n\t\t\t\tthis.warnings.push(\n\t\t\t\t\t\x60Broken link in AGENTS.md: $\x7blinkPath\x7d\x60,\n\t\t\t\t);\n\t\t\t\x7d\n\t\t\x7d\n\t\x7d\n\n\tvalidateDocFres" : String).data) ("hness() \x7b\n" : String).data (vsJs5).data]
  have c4 : containsSub frontendNeedle.data (("hness() \x7b\n" : String).data ++ (vsJs5).data) = false := rfl
  have b4 : containsSub frontendNeedle.data (((((vsJs1).data ++ (vsJs2).data) ++ (vsJs3).data) ++ ("\t\tfor (const index of requiredIndexes) \x7b\n\t\t\tif (!existsSync(join(this.rootDir, index))) \x7b\n\t\t\t\tthis.warnings.push(\x60Missing index file: $\x7bindex\x7d\x60);\n\t\t\t\x7d\n\t\t\x7d\n\t\x7d\n\n\tvalidateCrossLinks() \x7b\n\t\t// Basic validation: check that referenced files exist\n\t\tconst agentsPath = join(this.rootDir, \x27AGENTS.md\x27);\n\t\tif (!existsSync(agentsPath)) return;\n\n\t\tconst agentsContent = readFileSync(agentsPath, \x27utf-8\x27);\n\t\tconst linkRegex = /\\[([^\\]]+)\\]\\(([^)]+)\\)/g;\n\t\tlet match;\n\n\t\twhile ((match = linkRegex.exec(agentsContent)) !== null) \x7b\n\t\t\tconst linkPath = match[2];\n\n\t\t\t// Skip external links\n\t\t\tif (linkPath.startsWith(\x27http\x27)) continue;\n\n\t\t\tconst fullPath = join(this.rootDir, linkPath);\n\t\t\tif (!existsSync(fullPath)) \x7b\n\t\t\t\tthis.warnings.push(\n\t\t\t\t\t\x60Broken link in AGENTS.md: $\x7blinkPath\x7d\x60,\n\t\t\t\t);\n\t\t\t\x7d\n\t\t\x7d\n\t\x7d\n\n\tvalidateDocFres" : String).data) ++ ("hness() \x7b\n" : String).data) = false := by
    rw [List.append_assoc (((vsJs1).data ++ (vsJs2).data) ++ (vsJs3).data) ("\t\tfor (const index of requiredIndexes) \x7b\n\t\t\tif (!existsSync(join(this.rootDir, index))) \x7b\n\t\t\t\tthis.warnings.push(\x60Missing index file: $\x7bindex\x7d\x60);\n\t\t\t\x7d\n\t\t\x7d\n\t\x7d\n\n\tvalidateCrossLinks() \x7b\n\t\t// Basic validation: check that referenced files exist\n\t\tconst agentsPath = join(this.rootDir, \x27AGENTS.md\x27);\n\t\tif (!existsSync(agentsPath)) return;\n\n\t\tconst agentsContent = readFileSync(agentsPath, \x27utf-8\x27);\n\t\tconst linkRegex = /\\[([^\\]]+)\\]\\(([^)]+)\\)/g;\n\t\tlet match;\n\n\t\twhile ((match = linkRegex.exec(agentsContent)) !== null) \x7b\n\t\t\tconst linkPath = match[2];\n\n\t\t\t// Skip external links\n\t\t\tif (linkPath.startsWith(\x27http\x27)) continue;\n\n\t\t\tconst fullPath = join(this.rootDir, linkPath);\n\t\t\tif (!existsSync(fullPath)) \x7b\n\t\t\t\tthis.warnings.push(\n\t\t\t\t\t\x60Broken link in AGENTS.md: $\x7blinkPath\x7d\x60,\n\t\t\t\t);\n\t\t\t\x7d\n\t\t\x7d\n\t\x7d\n\n\tvalidateDocFres" : String).data ("hness() \x7b\n" : String).data, ← sp4]
    exact h3
  have h4 : containsSub frontendNeedle.data (((((vsJs1).data ++ (vsJs2).data) ++ (vsJs3).data) ++ (vsJs4).data) ++ (vsJs5).data) = false := by
    rw [eq4, containsSub_chain ((((vsJs1).data ++ (vsJs2).data) ++ (vsJs3).data) ++ ("\t\tfor (const index of requiredIndexes) \x7b\n\t\t\tif (!existsSync(join(this.rootDir, index))) \x7b\n\t\t\t\tthis.warnings.push(\x60Missing index file: $\x7bindex\x7d\x60);\n\t\t\t\x7d\n\t\t\x7d\n\t\x7d\n\n\tvalidateCrossLinks() \x7b\n\t\t// Basic validation: check that referenced files exist\n\t\tconst agentsPath = join(this.rootDir, \x27AGENTS.md\x27);\n\t\tif (!existsSync(agentsPath)) return;\n\n\t\tconst agentsContent = readFileSync(agentsPath, \x27utf-8\x27);\n\t\tconst linkRegex = /\\[([^\\]]+)\\]\\(([^)]+)\\)/g;\n\t\tlet match;\n\n\t\twhile ((match = linkRegex.exec(agentsContent)) !== null) \x7b\n\t\t\tconst linkPath = match[2];\n\n\t\t\t// Skip external links\n\t\t\tif (linkPath.startsWith(\x27http\x27)) continue;\n\n\t\t\tconst fullPath = join(this.rootDir, linkPath);\n\t\t\tif (!existsSync(fullPath)) \x7b\n\t\t\t\tthis.warnings.push(\n\t\t\t\t\t\x60Broken link in AGENTS.md: $\x7blinkPath\x7d\x60,\n\t\t\t\t);\n\t\t\t\x7d\n\t\t\x7d\n\t\x7d\n\n\tvalidateDocFres" : String).data) ("hness() \x7b\n" : String).data (vsJs5).data frontendNeedle.data (by decide), b4, c4]
    rfl
  have sp5 : (vsJs5).data = ("\t\t// Check that design docs have been updated recently\n\t\tconst designDocsDir = join(this.rootDir, \x27docs/design-docs\x27);\n\t\tif (!existsSync(designDocsDir)) return;\n\n\t\tconst files = readdirSync(designDocsDir).filter((f) =>\n\t\t\tf.endsWith(\x27.md\x27),\n\t\t);\n\n\t\tif (files.length === 0) \x7b\n\t\t\tthis.warnings.push(\n\t\t\t\t\x27No design documents found in docs/design-docs/\x27,\n\t\t\t);\n\t\t\treturn;\n\t\t\x7d\n\n\t\tconst now = Date.now();\n\t\tconst sixMonths = 6 * 30 * 24 * 60 * 60 * 1000;\n\n\t\tfor (const file of files) \x7b\n\t\t\tif (file === \x27index.md\x27 || file === \x27template.md\x27) continue;\n\n\t\t\tconst filePath = join(designDocsDir, file);\n\t\t\tconst stats = statSync(filePath);\n\t\t\tconst age = now - stats.mtimeMs;\n\n\t\t\tif (age > sixMonths) \x7b\n\t\t\t\tthis.warnings.push(\n\t\t\t\t\t\x60Design doc hasn\x27t been updated in 6+ months: $\x7bfile\x7d\x60,\n\t\t\t\t);\n\t\t\t\x7d\n\t\t\x7d\n\t\x7d\n\n\tprintRe" : String).data ++ ("sults() \x7b\n" : String).data := rfl
  have eq5 : (((((vsJs1).data ++ (vsJs2).data) ++ (vsJs3).data) ++ (vsJs4).data) ++ (vsJs5).data) ++ (vsJs6).data = (((((vsJs1).data ++ (vsJs2).data) ++ (vsJs3).data) ++ (vsJs4).data) ++ ("\t\t// Check that design docs have been updated recently\n\t\tconst designDocsDir = join(this.rootDir, \x27docs/design-docs\x27);\n\t\tif (!existsSync(designDocsDir)) return;\n\n\t\tconst files = readdirSync(designDocsDir).filter((f) =>\n\t\t\tf.endsWith(\x27.md\x27),\n\t\t);\n\n\t\tif (files.length === 0) \x7b\n\t\t\tthis.warnings.push(\n\t\t\t\t\x27No design documents found in docs/design-docs/\x27,\n\t\t\t);\n\t\t\treturn;\n\t\t\x7d\n\n\t\tconst now = Date.now();\n\t\tconst sixMonths = 6 * 30 * 24 * 60 * 60 * 1000;\n\n\t\tfor (const file of files) \x7b\n\t\t\tif (file === \x27index.md\x27 || file === \x27template.md\x27) continue;\n\n\t\t\tconst filePath = join(designDocsDir, file);\n\t\t\tconst stats = statSync(filePath);\n\t\t\tconst age = now - stats.mtimeMs;\n\n\t\t\tif (age > sixMonths) \x7b\n\t\t\t\tthis.warnings.push(\n\t\t\t\t\t\x60Design doc hasn\x27t been updated in 6+ months: $\x7bfile\x7d\x60,\n\t\t\t\t);\n\t\t\t\x7d\n\t\t\x7d\n\t\x7d\n\n\tprintRe" : String).data) ++ (("sults() \x7b\n" : String).data ++ (vsJs6).data) := by
    rw [sp5, ← List.append_assoc ((((vsJs1).data ++ (vsJs2).data) ++ (vsJs3).data) ++ (vsJs4).data) ("\t\t// Check that design docs have been updated recently\n\t\tconst designDocsDir = join(this.rootDir, \x27docs/design-docs\x27);\n\t\tif (!existsSync(designDocsDir)) return;\n\n\t\tconst files = readdirSync(designDocsDir).filter((f) =>\n\t\t\tf.endsWith(\x27.md\x27),\n\t\t);\n\n\t\tif (files.length === 0) \x7b\n\t\t\tthis.warnings.push(\n\t\t\t\t\x27No design documents found in docs/design-docs/\x27,\n\t\t\t);\n\t\t\treturn;\n\t\t\x7d\n\n\t\tconst now = Date.now();\n\t\tconst sixMonths = 6 * 30 * 24 * 60 * 60 * 1000;\n\n\t\tfor (const file of files) \x7b\n\t\t\tif (file === \x27index.md\x27 || file === \x27template.md\x27) continue;\n\n\t\t\tconst filePath = join(designDocsDir, file);\n\t\t\tconst stats = statSync(filePath);\n\t\t\tconst age = now - stats.mtimeMs;\n\n\t\t\tif (age > sixMonths) \x7b\n\t\t\t\tthis.warnings.push(\n\t\t\t\t\t\x60Design doc hasn\x27t been updated in 6+ months: $\x7bfile\x7d\x60,\n\t\t\t\t);\n\t\t\t\x7d\n\t\t\x7d\n\t\x7d\n\n\tprintRe" : String).data ("sults() \x7b\n" : String).data, List.append_assoc (((((vsJs1).data ++ (vsJs2).data) ++ (vsJs3).data) ++ (vsJs4).data) ++ ("\t\t// Check that design docs have been updated recently\n\t\tconst designDocsDir = join(this.rootDir, \x27docs/design-docs\x27);\n\t\tif (!existsSync(designDocsDir)) return;\n\n\t\tconst files = readdirSync(designDocsDir).filter((f) =>\n\t\t\tf.endsWith(\x27.md\x27),\n\t\t);\n\n\t\tif (files.length === 0) \x7b\n\t\t\tthis.warnings.push(\n\t\t\t\t\x27No design documents found in docs/design-docs/\x27,\n\t\t\t);\n\t\t\treturn;\n\t\t\x7d\n\n\t\tconst now = Date.now();\n\t\tconst sixMonths = 6 * 30 * 24 * 60 * 60 * 1000;\n\n\t\tfor (const file of files) \x7b\n\t\t\tif (file === \x27index.md\x27 || file === \x27template.md\x27) continue;\n\n\t\t\tconst filePath = join(designDocsDir, file);\n\t\t\tconst stats = statSync(filePath);\n\t\t\tconst age = now - stats.mtimeMs;\n\n\t\t\tif (age > sixMonths) \x7b\n\t\t\t\tthis.warnings.push(\n\t\t\t\t\t\x60Design doc hasn\x27t been updated in 6+ months: $\x7bfile\x7d\x60,\n\t\t\t\t);\n\t\t\t\x7d\n\t\t\x7d\n\t\x7d\n\n\tprintRe" : String).data) ("sults() \x7b\n" : String).data (vsJs6).data]
  have c5 : containsSub frontendNeedle.data (("sults() \x7b\n" : String).data ++ (vsJs6).data) = false := rfl
  have b5 : containsSub frontendNeedle.data ((((((vsJs1).data ++ (vsJs2).data) ++ (vsJs3).data) ++ (vsJs4).data) ++ ("\t\t// Check that design docs have been updated recently\n\t\tconst designDocsDir = join(this.rootDir, \x27docs/design-docs\x27);\n\t\tif (!existsSync(designDocsDir)) return;\n\n\t\tconst files = readdirSync(designDocsDir).filter((f) =>\n\t\t\tf.endsWith(\x27.md\x27),\n\t\t);\n\n\t\tif (files.length === 0) \x7b\n\t\t\tthis.warnings.push(\n\t\t\t\t\x27No design documents found in docs/design-docs/\x27,\n\t\t\t);\n\t\t\treturn;\n\t\t\x7d\n\n\t\tconst now = Date.now();\n\t\tconst sixMonths = 6 * 30 * 24 * 60 * 60 * 1000;\n\n\t\tfor (const file of files) \x7b\n\t\t\tif (file === \x27index.md\x27 || file === \x27template.md\x27) continue;\n\n\t\t\tconst filePath = join(designDocsDir, file);\n\t\t\tconst stats = statSync(filePath);\n\t\t\tconst age = now - stats.mtimeMs;\n\n\t\t\tif (age > sixMonths) \x7b\n\t\t\t\tthis.warnings.push(\n\t\t\t\t\t\x60Design doc hasn\x27t been updated in 6+ months: $\x7bfile\x7d\x60,\n\t\t\t\t);\n\t\t\t\x7d\n\t\t\x7d\n\t\x7d\n\n\tprintRe" : String).data) ++ ("sults() \x7b\n" : String).data) = false := by
    rw [List.append_assoc ((((vsJs1).data ++ (vsJs2).data) ++ (vsJs3).data) ++ (vsJs4).data) ("\t\t// Check that design docs have been updated recently\n\t\tconst designDocsDir = join(this.rootDir, \x27docs/design-docs\x27);\n\t\tif (!existsSync(designDocsDir)) return;\n\n\t\tconst files = readdirSync(designDocsDir).filter((f) =>\n\t\t\tf.endsWith(\x27.md\x27),\n\t\t);\n\n\t\tif (files.length === 0) \x7b\n\t\t\tthis.warnings.push(\n\t\t\t\t\x27No design documents found in docs/design-docs/\x27,\n\t\t\t);\n\t\t\treturn;\n\t\t\x7d\n\n\t\tconst now = Date.now();\n\t\tconst sixMonths = 6 * 30 * 24 * 60 * 60 * 1000;\n\n\t\tfor (const file of files) \x7b\n\t\t\tif (file === \x27index.md\x27 || file === \x27template.md\x27) continue;\n\n\t\t\tconst filePath = join(designDocsDir, file);\n\t\t\tconst stats = statSync(filePath);\n\t\t\tconst age = now - stats.mtimeMs;\n\n\t\t\tif (age > sixMonths) \x7b\n\t\t\t\tthis.warnings.push(\n\t\t\t\t\t\x60Design doc hasn\x27t been updated in 6+ months: $\x7bfile\x7d\x60,\n\t\t\t\t);\n\t\t\t\x7d\n\t\t\x7d\n\t\x7d\n\n\tprintRe" : String).data ("sults() \x7b\n" : String).data, ← sp5]
    exact h4
  have h5 : containsSub frontendNeedle.data ((((((vsJs1).data ++ (vsJs2).data) ++ (vsJs3).data) ++ (vsJs4).data) ++ (vsJs5).data) ++ (vsJs6).data) = false := by
    rw [eq5, containsSub_chain (((((vsJs1).data ++ (vsJs2).data) ++ (vsJs3).data) ++ (vsJs4).data) ++ ("\t\t// Check that design docs have been updated recently\n\t\tconst designDocsDir = join(this.rootDir, \x27docs/design-docs\x27);\n\t\tif (!existsSync(designDocsDir)) return;\n\n\t\tconst files = readdirSync(designDocsDir).filter((f) =>\n\t\t\tf.endsWith(\x27.md\x27),\n\t\t);\n\n\t\tif (files.length === 0) \x7b\n\t\t\tthis.warnings.push(\n\t\t\t\t\x27No design documents found in docs/design-docs/\x27,\n\t\t\t);\n\t\t\treturn;\n\t\t\x7d\n\n\t\tconst now = Date.now();\n\t\tconst sixMonths = 6 * 30 * 24 * 60 * 60 * 1000;\n\n\t\tfor (const file of files) \x7b\n\t\t\tif (file === \x27index.md\x27 || file === \x27template.md\x27) continue;\n\n\t\t\tconst filePath = join(designDocsDir, file);\n\t\t\tconst stats = statSync(filePath);\n\t\t\tconst age = now - stats.mtimeMs;\n\n\t\t\tif (age > sixMonths) \x7b\n\t\t\t\tthis.warnings.push(\n\t\t\t\t\t\x60Design doc hasn\x27t been updated in 6+ months: $\x7bfile\x7d\x60,\n\t\t\t\t);\n\t\t\t\x7d\n\t\t\x7d\n\t\x7d\n\n\tprintRe" : String).data) ("sults() \x7b\n" : String).data (vsJs6).data frontendNeedle.data (by decide), b5, c5]
    rfl
  exact h5

theorem noFr_workflow_ts_pre : getGithubWorkflowTemplate ValidationLanguage.typescript
    = wfA1 ++ ("cd scripts && npm install && npm run validate" : String) ++ wfB1 ++ wfB2 := rfl

theorem noFr_workflow_ts : containsSub frontendNeedle.data (getGithubWorkflowTemplate ValidationLanguage.typescript).data = false := by
  rw [noFr_workflow_ts_pre]
  rw [strDataAppend, strDataAppend, strDataAppend]
  have h0 : containsSub frontendNeedle.data (wfA1).data = false := rfl
  have sp1 : (wfA1).data = ("name: Validate Documentation Structure\n\non:\n  pull_request:\n    branches: [main, develop]\n    paths:\n      - \x27docs/**\x27\n      - \x27AGENTS.md\x27\n      - \x27CLAUDE.md\x27\n      - \x27ARCHITECTURE.md\x27\n      - \x27*.md\x27\n  push:\n    branches: [main, develop]\n  schedule:\n    # Run weekly to catch stale documentation\n    - cron: \x270 0 * * 0\x27\n\njobs:\n  validate-structure:\n    runs-on: ubuntu-latest\n\n    steps:\n      - name: Checkout code\n        uses: actions/checkout@v4\n\n      - name: Setup Node.js\n        uses: actions/setup-node@v4\n        with:\n          node-version: \x2720\x27\n\n      - name: Run structure validation\n   " : String).data ++ ("     run: " : String).data := rfl
  have eq1 : (wfA1).data ++ (("cd scripts && npm install && npm run validate" : String)).data = ("name: Validate Documentation Structure\n\non:\n  pull_request:\n    branches: [main, develop]\n    paths:\n      - \x27docs/**\x27\n      - \x27AGENTS.md\x27\n      - \x27CLAUDE.md\x27\n      - \x27ARCHITECTURE.md\x27\n      - \x27*.md\x27\n  push:\n    branches: [main, develop]\n  schedule:\n    # Run weekly to catch stale documentation\n    - cron: \x270 0 * * 0\x27\n\njobs:\n  validate-structure:\n    runs-on: ubuntu-latest\n\n    steps:\n      - name: Checkout code\n        uses: actions/checkout@v4\n\n      - name: Setup Node.js\n        uses: actions/setup-node@v4\n        with:\n          node-version: \x2720\x27\n\n      - name: Run structure validation\n   " : String).data ++ (("     run: " : String).data ++ (("cd scripts && npm install && npm run validate" : String)).data) := by
    rw [sp1, List.append_assoc ("name: Validate Documentation Structure\n\non:\n  pull_request:\n    branches: [main, develop]\n    paths:\n      - \x27docs/**\x27\n      - \x27AGENTS.md\x27\n      - \x27CLAUDE.md\x27\n      - \x27ARCHITECTURE.md\x27\n      - \x27*.md\x27\n  push:\n    branches: [main, develop]\n  schedule:\n    # Run weekly to catch stale documentation\n    - cron: \x270 0 * * 0\x27\n\njobs:\n  validate-structure:\n    runs-on: ubuntu-latest\n\n    steps:\n      - name: Checkout code\n        uses: actions/checkout@v4\n\n      - name: Setup Node.js\n        uses: actions/setup-node@v4\n        with:\n          node-version: \x2720\x27\n\n      - name: Run structure validation\n   " : String).data ("     run: " : String).data (("cd scripts && npm install && npm run validate" : String)).data]
  have c1 : containsSub frontendNeedle.data (("     run: " : String).data ++ (("cd scripts && npm install && npm run validate" : String)).data) = false := rfl
  have b1 : containsSub frontendNeedle.data (("name: Validate Documentation Structure\n\non:\n  pull_request:\n    branches: [main, develop]\n    paths:\n      - \x27docs/**\x27\n      - \x27AGENTS.md\x27\n      - \x27CLAUDE.md\x27\n      - \x27ARCHITECTURE.md\x27\n      - \x27*.md\x27\n  push:\n    branches: [main, develop]\n  schedule:\n    # Run weekly to catch stale documentation\n    - cron: \x270 0 * * 0\x27\n\njobs:\n  validate-structure:\n    runs-on: ubuntu-latest\n\n    steps:\n      - name: Checkout code\n        uses: actions/checkout@v4\n\n      - name: Setup Node.js\n        uses: actions/setup-node@v4\n        with:\n          node-version: \x2720\x27\n\n      - name: Run structure validation\n   " : String).data ++ ("     run: " : String).data) = false := by
    rw [← sp1]
    exact h0
  have h1 : containsSub frontendNeedle.data ((wfA1).data ++ (("cd scripts && npm install && npm run validate" : String)).data) = false := by
    rw [eq1, containsSub_chain ("name: Validate Documentation Structure\n\non:\n  pull_request:\n    branches: [main, develop]\n    paths:\n      - \x27docs/**\x27\n      - \x27AGENTS.md\x27\n      - \x27CLAUDE.md\x27\n      - \x27ARCHITECTURE.md\x27\n      - \x27*.md\x27\n  push:\n    branches: [main, develop]\n  schedule:\n    # Run weekly to catch stale documentation\n    - cron: \x270 0 * * 0\x27\n\njobs:\n  validate-structure:\n    runs-on: ubuntu-latest\n\n    steps:\n      - name: Checkout code\n        uses: actions/checkout@v4\n\n      - name: Setup Node.js\n        uses: actions/setup-node@v4\n        with:\n          node-version: \x2720\x27\n\n      - name: Run structure validation\n   " : String).data ("     run: " : String).data (("cd scripts && npm install && npm run validate" : String)).data frontendNeedle.data (by decide), b1, c1]
    rfl
  have sp2 : (("cd scripts && npm install && npm run validate" : String)).data = ("cd scripts && npm install && npm ru" : String).data ++ ("n validate" : String).data := rfl
  have eq2 : ((wfA1).data ++ (("cd scripts && npm install && npm run validate" : String)).data) ++ (wfB1).data = ((wfA1).data ++ ("cd scripts && npm install && npm ru" : String).data) ++ (("n validate" : String).data ++ (wfB1).data) := by
    rw [sp2, ← List.append_assoc (wfA1).data ("cd scripts && npm install && npm ru" : String).data ("n validate" : String).data, List.append_assoc ((wfA1).data ++ ("cd scripts && npm install && npm ru" : String).data) ("n validate" : String).data (wfB1).data]
  have c2 : containsSub frontendNeedle.data (("n validate" : String).data ++ (wfB1).data) = false := rfl
  have b2 : containsSub frontendNeedle.data (((wfA1).data ++ ("cd scripts && npm install && npm ru" : String).data) ++ ("n validate" : String).data) = false := by
    rw [List.append_assoc (wfA1).data ("cd scripts && npm install && npm ru" : String).data ("n validate" : String).data, ← sp2]
    exact h1
  have h2 : containsSub frontendNeedle.data (((wfA1).data ++ (("cd scripts && npm install && npm run validate" : String)).data) ++ (wfB1).data) = false := by
    rw [eq2, containsSub_chain ((wfA1).data ++ ("cd scripts && npm install && npm ru" : String).data) ("n validate" : String).data (wfB1).data frontendNeedle.data (by decide), b2, c2]
    rfl
  have sp3 : (wfB1).data = ("\n\n      - name: Check for broken links\n        uses: gaurav-nelson/github-action-markdown-link-check@v1\n        with:\n          use-quiet-mode: \x27yes\x27\n          config-file: \x27.github/markdown-link-check-config.json\x27\n\n  check-freshness:\n    runs-on: ubuntu-latest\n\n    steps:\n      - name: Checkout code\n        uses: actions/checkout@v4\n        with:\n          fetch-depth: 0  # Fetch full history for freshness checks\n\n      - name: Check AGENTS.md and CLAUDE.md are identical\n        run: |\n          if ! cmp -s AGENTS.md CLAUDE.md; then\n            echo \"❌ AGENTS.md and CLAUDE.md must be identical\"\n            exit 1\n          fi\n          echo \"✅ AGENTS.md and CLAUDE.md are identical\"\n\n      - name: Validate AGENTS.md size\n        run: |\n          lines=$(wc -l < A" : String).data ++ ("GENTS.md)\n" : String).data := rfl
  have eq3 : (((wfA1).data ++ (("cd scripts && npm install && npm run validate" : String)).data) ++ (wfB1).data) ++ (wfB2).data = (((wfA1).data ++ (("cd scripts && npm install && npm run validate" : String)).data) ++ ("\n\n      - name: Check for broken links\n        uses: gaurav-nelson/github-action-markdown-link-check@v1\n        with:\n          use-quiet-mode: \x27yes\x27\n          config-file: \x27.github/markdown-link-check-config.json\x27\n\n  check-freshness:\n    runs-on: ubuntu-latest\n\n    steps:\n      - name: Checkout code\n        uses: actions/checkout@v4\n        with:\n          fetch-depth: 0  # Fetch full history for freshness checks\n\n      - name: Check AGENTS.md and CLAUDE.md are identical\n        run: |\n          if ! cmp -s AGENTS.md CLAUDE.md; then\n            echo \"❌ AGENTS.md and CLAUDE.md must be identical\"\n            exit 1\n          fi\n          echo \"✅ AGENTS.md and CLAUDE.md are identical\"\n\n      - name: Validate AGENTS.md size\n        run: |\n          lines=$(wc -l < A" : String).data) ++ (("GENTS.md)\n" : String).data ++ (wfB2).data) := by
    rw [sp3, ← List.append_assoc ((wfA1).data ++ (("cd scripts && npm install && npm run validate" : String)).data) ("\n\n      - name: Check for broken links\n        uses: gaurav-nelson/github-action-markdown-link-check@v1\n        with:\n          use-quiet-mode: \x27yes\x27\n          config-file: \x27.github/markdown-link-check-config.json\x27\n\n  check-freshness:\n    runs-on: ubuntu-latest\n\n    steps:\n      - name: Checkout code\n        uses: actions/checkout@v4\n        with:\n          fetch-depth: 0  # Fetch full history for freshness checks\n\n      - name: Check AGENTS.md and CLAUDE.md are identical\n        run: |\n          if ! cmp -s AGENTS.md CLAUDE.md; then\n            echo \"❌ AGENTS.md and CLAUDE.md must be identical\"\n            exit 1\n          fi\n          echo \"✅ AGENTS.md and CLAUDE.md are identical\"\n\n      - name: Validate AGENTS.md size\n        run: |\n          lines=$(wc -l < A" : String).data ("GENTS.md)\n" : String).data, List.append_assoc (((wfA1).data ++ (("cd scripts && npm install && npm run validate" : String)).data) ++ ("\n\n      - name: Check for broken links\n        uses: gaurav-nelson/github-action-markdown-link-check@v1\n        with:\n          use-quiet-mode: \x27yes\x27\n          config-file: \x27.github/markdown-link-check-config.json\x27\n\n  check-freshness:\n    runs-on: ubuntu-latest\n\n    steps:\n      - name: Checkout code\n        uses: actions/checkout@v4\n        with:\n          fetch-depth: 0  # Fetch full history for freshness checks\n\n      - name: Check AGENTS.md and CLAUDE.md are identical\n        run: |\n          if ! cmp -s AGENTS.md CLAUDE.md; then\n            echo \"❌ AGENTS.md and CLAUDE.md must be identical\"\n            exit 1\n          fi\n          echo \"✅ AGENTS.md and CLAUDE.md are identical\"\n\n      - name: Validate AGENTS.md size\n        run: |\n          lines=$(wc -l < A" : String).data) ("GENTS.md)\n" : String).data (wfB2).data]
  have c3 : containsSub frontendNeedle.data (("GENTS.md)\n" : String).data ++ (wfB2).data) = false := rfl
  have b3 : containsSub frontendNeedle.data ((((wfA1).data ++ (("cd scripts && npm install && npm run validate" : String)).data) ++ ("\n\n      - name: Check for broken links\n        uses: gaurav-nelson/github-action-markdown-link-check@v1\n        with:\n          use-quiet-mode: \x27yes\x27\n          config-file: \x27.github/markdown-link-check-config.json\x27\n\n  check-freshness:\n    runs-on: ubuntu-latest\n\n    steps:\n      - name: Checkout code\n        uses: actions/checkout@v4\n        with:\n          fetch-depth: 0  # Fetch full history for freshness checks\n\n      - name: Check AGENTS.md and CLAUDE.md are identical\n        run: |\n          if ! cmp -s AGENTS.md CLAUDE.md; then\n            echo \"❌ AGENTS.md and CLAUDE.md must be identical\"\n            exit 1\n          fi\n          echo \"✅ AGENTS.md and CLAUDE.md are identical\"\n\n      - name: Validate AGENTS.md size\n        run: |\n          lines=$(wc -l < A" : String).data) ++ ("GENTS.md)\n" : String).data) = false := by
    rw [List.append_assoc ((wfA1).data ++ (("cd scripts && npm install && npm run validate" : String)).data) ("\n\n      - name: Check for broken links\n        uses: gaurav-nelson/github-action-markdown-link-check@v1\n        with:\n          use-quiet-mode: \x27yes\x27\n          config-file: \x27.github/markdown-link-check-config.json\x27\n\n  check-freshness:\n    runs-on: ubuntu-latest\n\n    steps:\n      - name: Checkout code\n        uses: actions/checkout@v4\n        with:\n          fetch-depth: 0  # Fetch full history for freshness checks\n\n      - name: Check AGENTS.md and CLAUDE.md are identical\n        run: |\n          if ! cmp -s AGENTS.md CLAUDE.md; then\n            echo \"❌ AGENTS.md and CLAUDE.md must be identical\"\n            exit 1\n          fi\n          echo \"✅ AGENTS.md and CLAUDE.md are identical\"\n\n      - name: Validate AGENTS.md size\n        run: |\n          lines=$(wc -l < A" : String).data ("GENTS.md)\n" : String).data, ← sp3]
    exact h2
  have h3 : containsSub frontendNeedle.data ((((wfA1).data ++ (("cd scripts && npm install && npm run validate" : String)).data) ++ (wfB1).data) ++ (wfB2).data) = false := by
    rw [eq3, containsSub_chain (((wfA1).data ++ (("cd scripts && npm install && npm run validate" : String)).data) ++ ("\n\n      - name: Check for broken links\n        uses: gaurav-nelson/github-action-markdown-link-check@v1\n        with:\n          use-quiet-mode: \x27yes\x27\n          config-file: \x27.github/markdown-link-check-config.json\x27\n\n  check-freshness:\n    runs-on: ubuntu-latest\n\n    steps:\n      - name: Checkout code\n        uses: actions/checkout@v4\n        with:\n          fetch-depth: 0  # Fetch full history for freshness checks\n\n      - name: Check AGENTS.md and CLAUDE.md are identical\n        run: |\n          if ! cmp -s AGENTS.md CLAUDE.md; then\n            echo \"❌ AGENTS.md and CLAUDE.md must be identical\"\n            exit 1\n          fi\n          echo \"✅ AGENTS.md and CLAUDE.md are identical\"\n\n      - name: Validate AGENTS.md size\n        run: |\n          lines=$(wc -l < A" : String).data) ("GENTS.md)\n" : String).data (wfB2).data frontendNeedle.data (by decide), b3, c3]
    rfl
  exact h3

theorem noFr_workflow_js_pre : getGithubWorkflowTemplate ValidationLanguage.javascript
    = wfA1 ++ ("node scripts/validate-structure.js" : String) ++ wfB1 ++ wfB2 := rfl

theorem noFr_workflow_js : containsSub frontendNeedle.data (getGithubWorkflowTemplate ValidationLanguage.javascript).data = false := by
  rw [noFr_workflow_js_pre]
  rw [strDataAppend, strDataAppend, strDataAppend]
  have h0 : containsSub frontendNeedle.data (wfA1).data = false := rfl
  have sp1 : (wfA1).data = ("name: Validate Documentation Structure\n\non:\n  pull_request:\n    branches: [main, develop]\n    paths:\n      - \x27docs/**\x27\n      - \x27AGENTS.md\x27\n      - \x27CLAUDE.md\x27\n      - \x27ARCHITECTURE.md\x27\n      - \x27*.md\x27\n  push:\n    branches: [main, develop]\n  schedule:\n    # Run weekly to catch stale documentation\n    - cron: \x270 0 * * 0\x27\n\njobs:\n  validate-structure:\n    runs-on: ubuntu-latest\n\n    steps:\n      - name: Checkout code\n        uses: actions/checkout@v4\n\n      - name: Setup Node.js\n        uses: actions/setup-node@v4\n        with:\n          node-version: \x2720\x27\n\n      - name: Run structure validation\n   " : String).data ++ ("     run: " : String).data := rfl
  have eq1 : (wfA1).data ++ (("node scripts/validate-structure.js" : String)).data = ("name: Validate Documentation Structure\n\non:\n  pull_request:\n    branches: [main, develop]\n    paths:\n      - \x27docs/**\x27\n      - \x27AGENTS.md\x27\n      - \x27CLAUDE.md\x27\n      - \x27ARCHITECTURE.md\x27\n      - \x27*.md\x27\n  push:\n    branches: [main, develop]\n  schedule:\n    # Run weekly to catch stale documentation\n    - cron: \x270 0 * * 0\x27\n\njobs:\n  validate-structure:\n    runs-on: ubuntu-latest\n\n    steps:\n      - name: Checkout code\n        uses: actions/checkout@v4\n\n      - name: Setup Node.js\n        uses: actions/setup-node@v4\n        with:\n          node-version: \x2720\x27\n\n      - name: Run structure validation\n   " : String).data ++ (("     run: " : String).data ++ (("node scripts/validate-structure.js" : String)).data) := by
    rw [sp1, List.append_assoc ("name: Validate Documentation Structure\n\non:\n  pull_request:\n    branches: [main, develop]\n    paths:\n      - \x27docs/**\x27\n      - \x27AGENTS.md\x27\n      - \x27CLAUDE.md\x27\n      - \x27ARCHITECTURE.md\x27\n      - \x27*.md\x27\n  push:\n    branches: [main, develop]\n  schedule:\n    # Run weekly to catch stale documentation\n    - cron: \x270 0 * * 0\x27\n\njobs:\n  validate-structure:\n    runs-on: ubuntu-latest\n\n    steps:\n      - name: Checkout code\n        uses: actions/checkout@v4\n\n      - name: Setup Node.js\n        uses: actions/setup-node@v4\n        with:\n          node-version: \x2720\x27\n\n      - name: Run structure validation\n   " : String).data ("     run: " : String).data (("node scripts/validate-structure.js" : String)).data]
  have c1 : containsSub frontendNeedle.data (("     run: " : String).data ++ (("node scripts/validate-structure.js" : String)).data) = false := rfl
  have b1 : containsSub frontendNeedle.data (("name: Validate Documentation Structure\n\non:\n  pull_request:\n    branches: [main, develop]\n    paths:\n      - \x27docs/**\x27\n      - \x27AGENTS.md\x27\n      - \x27CLAUDE.md\x27\n      - \x27ARCHITECTURE.md\x27\n      - \x27*.md\x27\n  push:\n    branches: [main, develop]\n  schedule:\n    # Run weekly to catch stale documentation\n    - cron: \x270 0 * * 0\x27\n\njobs:\n  validate-structure:\n    runs-on: ubuntu-latest\n\n    steps:\n      - name: Checkout code\n        uses: actions/checkout@v4\n\n      - name: Setup Node.js\n        uses: actions/setup-node@v4\n        with:\n          node-version: \x2720\x27\n\n      - name: Run structure validation\n   " : String).data ++ ("     run: " : String).data) = false := by
    rw [← sp1]
    exact h0
  have h1 : containsSub frontendNeedle.data ((wfA1).data ++ (("node scripts/validate-structure.js" : String)).data) = false := by
    rw [eq1, containsSub_chain ("name: Validate Documentation Structure\n\non:\n  pull_request:\n    branches: [main, develop]\n    paths:\n      - \x27docs/**\x27\n      - \x27AGENTS.md\x27\n      - \x27CLAUDE.md\x27\n      - \x27ARCHITECTURE.md\x27\n      - \x27*.md\x27\n  push:\n    branches: [main, develop]\n  schedule:\n    # Run weekly to catch stale documentation\n    - cron: \x270 0 * * 0\x27\n\njobs:\n  validate-structure:\n    runs-on: ubuntu-latest\n\n    steps:\n      - name: Checkout code\n        uses: actions/checkout@v4\n\n      - name: Setup Node.js\n        uses: actions/setup-node@v4\n        with:\n          node-version: \x2720\x27\n\n      - name: Run structure validation\n   " : String).data ("     run: " : String).data (("node scripts/validate-structure.js" : String)).data frontendNeedle.data (by decide), b1, c1]
    rfl
  have sp2 : (("node scripts/validate-structure.js" : String)).data = ("node scripts/validate-st" : String).data ++ ("ructure.js" : String).data := rfl
  have eq2 : ((wfA1).data ++ (("node scripts/validate-structure.js" : String)).data) ++ (wfB1).data = ((wfA1).data ++ ("node scripts/validate-st" : String).data) ++ (("ructure.js" : String).data ++ (wfB1).data) := by
    rw [sp2, ← List.append_assoc (wfA1).data ("node scripts/validate-st" : String).data ("ructure.js" : String).data, List.append_assoc ((wfA1).data ++ ("node scripts/validate-st" : String).data) ("ructure.js" : String).data (wfB1).data]
  have c2 : containsSub frontendNeedle.data (("ructure.js" : String).data ++ (wfB1).data) = false := rfl
  have b2 : containsSub frontendNeedle.data (((wfA1).data ++ ("node scripts/validate-st" : String).data) ++ ("ructure.js" : String).data) = false := by
    rw [List.append_assoc (wfA1).data ("node scripts/validate-st" : String).data ("ructure.js" : String).data, ← sp2]
    exact h1
  have h2 : containsSub frontendNeedle.data (((wfA1).data ++ (("node scripts/validate-structure.js" : String)).data) ++ (wfB1).data) = false := by
    rw [eq2, containsSub_chain ((wfA1).data ++ ("node scripts/validate-st" : String).data) ("ructure.js" : String).data (wfB1).data frontendNeedle.data (by decide), b2, c2]
    rfl
  have sp3 : (wfB1).data = ("\n\n      - name: Check for broken links\n        uses: gaurav-nelson/github-action-markdown-link-check@v1\n        with:\n          use-quiet-mode: \x27yes\x27\n          config-file: \x27.github/markdown-link-check-config.json\x27\n\n  check-freshness:\n    runs-on: ubuntu-latest\n\n    steps:\n      - name: Checkout code\n        uses: actions/checkout@v4\n        with:\n          fetch-depth: 0  # Fetch full history for freshness checks\n\n      - name: Check AGENTS.md and CLAUDE.md are identical\n        run: |\n          if ! cmp -s AGENTS.md CLAUDE.md; then\n            echo \"❌ AGENTS.md and CLAUDE.md must be identical\"\n            exit 1\n          fi\n          echo \"✅ AGENTS.md and CLAUDE.md are identical\"\n\n      - name: Validate AGENTS.md size\n        run: |\n          lines=$(wc -l < A" : String).data ++ ("GENTS.md)\n" : String).data := rfl
  have eq3 : (((wfA1).data ++ (("node scripts/validate-structure.js" : String)).data) ++ (wfB1).data) ++ (wfB2).data = (((wfA1).data ++ (("node scripts/validate-structure.js" : String)).data) ++ ("\n\n      - name: Check for broken links\n        uses: gaurav-nelson/github-action-markdown-link-check@v1\n        with:\n          use-quiet-mode: \x27yes\x27\n          config-file: \x27.github/markdown-link-check-config.json\x27\n\n  check-freshness:\n    runs-on: ubuntu-latest\n\n    steps:\n      - name: Checkout code\n        uses: actions/checkout@v4\n        with:\n          fetch-depth: 0  # Fetch full history for freshness checks\n\n      - name: Check AGENTS.md and CLAUDE.md are identical\n        run: |\n          if ! cmp -s AGENTS.md CLAUDE.md; then\n            echo \"❌ AGENTS.md and CLAUDE.md must be identical\"\n            exit 1\n          fi\n          echo \"✅ AGENTS.md and CLAUDE.md are identical\"\n\n      - name: Validate AGENTS.md size\n        run: |\n          lines=$(wc -l < A" : String).data) ++ (("GENTS.md)\n" : String).data ++ (wfB2).data) := by
    rw [sp3, ← List.append_assoc ((wfA1).data ++ (("node scripts/validate-structure.js" : String)).data) ("\n\n      - name: Check for broken links\n        uses: gaurav-nelson/github-action-markdown-link-check@v1\n        with:\n          use-quiet-mode: \x27yes\x27\n          config-file: \x27.github/markdown-link-check-config.json\x27\n\n  check-freshness:\n    runs-on: ubuntu-latest\n\n    steps:\n      - name: Checkout code\n        uses: actions/checkout@v4\n        with:\n          fetch-depth: 0  # Fetch full history for freshness checks\n\n      - name: Check AGENTS.md and CLAUDE.md are identical\n        run: |\n          if ! cmp -s AGENTS.md CLAUDE.md; then\n            echo \"❌ AGENTS.md and CLAUDE.md must be identical\"\n            exit 1\n          fi\n          echo \"✅ AGENTS.md and CLAUDE.md are identical\"\n\n      - name: Validate AGENTS.md size\n        run: |\n          lines=$(wc -l < A" : String).data ("GENTS.md)\n" : String).data, List.append_assoc (((wfA1).data ++ (("node scripts/validate-structure.js" : String)).data) ++ ("\n\n      - name: Check for broken links\n        uses: gaurav-nelson/github-action-markdown-link-check@v1\n        with:\n          use-quiet-mode: \x27yes\x27\n          config-file: \x27.github/markdown-link-check-config.json\x27\n\n  check-freshness:\n    runs-on: ubuntu-latest\n\n    steps:\n      - name: Checkout code\n        uses: actions/checkout@v4\n        with:\n          fetch-depth: 0  # Fetch full history for freshness checks\n\n      - name: Check AGENTS.md and CLAUDE.md are identical\n        run: |\n          if ! cmp -s AGENTS.md CLAUDE.md; then\n            echo \"❌ AGENTS.md and CLAUDE.md must be identical\"\n            exit 1\n          fi\n          echo \"✅ AGENTS.md and CLAUDE.md are identical\"\n\n      - name: Validate AGENTS.md size\n        run: |\n          lines=$(wc -l < A" : String).data) ("GENTS.md)\n" : String).data (wfB2).data]
  have c3 : containsSub frontendNeedle.data (("GENTS.md)\n" : String).data ++ (wfB2).data) = false := rfl
  have b3 : containsSub frontendNeedle.data ((((wfA1).data ++ (("node scripts/validate-structure.js" : String)).data) ++ ("\n\n      - name: Check for broken links\n        uses: gaurav-nelson/github-action-markdown-link-check@v1\n        with:\n          use-quiet-mode: \x27yes\x27\n          config-file: \x27.github/markdown-link-check-config.json\x27\n\n  check-freshness:\n    runs-on: ubuntu-latest\n\n    steps:\n      - name: Checkout code\n        uses: actions/checkout@v4\n        with:\n          fetch-depth: 0  # Fetch full history for freshness checks\n\n      - name: Check AGENTS.md and CLAUDE.md are identical\n        run: |\n          if ! cmp -s AGENTS.md CLAUDE.md; then\n            echo \"❌ AGENTS.md and CLAUDE.md must be identical\"\n            exit 1\n          fi\n          echo \"✅ AGENTS.md and CLAUDE.md are identical\"\n\n      - name: Validate AGENTS.md size\n        run: |\n          lines=$(wc -l < A" : String).data) ++ ("GENTS.md)\n" : String).data) = false := by
    rw [List.append_assoc ((wfA1).data ++ (("node scripts/validate-structure.js" : String)).data) ("\n\n      - name: Check for broken links\n        uses: gaurav-nelson/github-action-markdown-link-check@v1\n        with:\n          use-quiet-mode: \x27yes\x27\n          config-file: \x27.github/markdown-link-check-config.json\x27\n\n  check-freshness:\n    runs-on: ubuntu-latest\n\n    steps:\n      - name: Checkout code\n        uses: actions/checkout@v4\n        with:\n          fetch-depth: 0  # Fetch full history for freshness checks\n\n      - name: Check AGENTS.md and CLAUDE.md are identical\n        run: |\n          if ! cmp -s AGENTS.md CLAUDE.md; then\n            echo \"❌ AGENTS.md and CLAUDE.md must be identical\"\n            exit 1\n          fi\n          echo \"✅ AGENTS.md and CLAUDE.md are identical\"\n\n      - name: Validate AGENTS.md size\n        run: |\n          lines=$(wc -l < A" : String).data ("GENTS.md)\n" : String).data, ← sp3]
    exact h2
  have h3 : containsSub frontendNeedle.data ((((wfA1).data ++ (("node scripts/validate-structure.js" : String)).data) ++ (wfB1).data) ++ (wfB2).data) = false := by
    rw [eq3, containsSub_chain (((wfA1).data ++ (("node scripts/validate-structure.js" : String)).data) ++ ("\n\n      - name: Check for broken links\n        uses: gaurav-nelson/github-action-markdown-link-check@v1\n        with:\n          use-quiet-mode: \x27yes\x27\n          config-file: \x27.github/markdown-link-check-config.json\x27\n\n  check-freshness:\n    runs-on: ubuntu-latest\n\n    steps:\n      - name: Checkout code\n        uses: actions/checkout@v4\n        with:\n          fetch-depth: 0  # Fetch full history for freshness checks\n\n      - name: Check AGENTS.md and CLAUDE.md are identical\n        run: |\n          if ! cmp -s AGENTS.md CLAUDE.md; then\n            echo \"❌ AGENTS.md and CLAUDE.md must be identical\"\n            exit 1\n          fi\n          echo \"✅ AGENTS.md and CLAUDE.md are identical\"\n\n      - name: Validate AGENTS.md size\n        run: |\n          lines=$(wc -l < A" : String).data) ("GENTS.md)\n" : String).data (wfB2).data frontendNeedle.data (by decide), b3, c3]
    rfl
  exact h3

theorem noFr_ddIndex : containsSub frontendNeedle.data (designDocsIndexContent).data = false := rfl

theorem noFr_psIndex : containsSub frontendNeedle.data (productSpecsIndexContent).data = false := rfl

theorem noFr_pkgjson : containsSub frontendNeedle.data (validationPackageJsonText).data = false := rfl

/-- The README structure diagram always lists FRONTEND.md, for every configuration. -/
theorem readme_contains_fr (pt : ProjectType) (vl : ValidationLanguage) :
    containsSub frontendNeedle.data (getReadmeTemplate pt vl).data = true := by
  simp only [getReadmeTemplate, strDataAppend]
  have h0 : containsSub frontendNeedle.data (rmA1).data = true := rfl
  exact containsSub_extend_right _ _ _ (containsSub_extend_right _ _ _ (containsSub_extend_right _ _ _ (containsSub_extend_right _ _ _ (containsSub_extend_right _ _ _ (containsSub_extend_right _ _ _ (containsSub_extend_right _ _ _ (containsSub_extend_right _ _ _ (containsSub_extend_right _ _ _ (containsSub_extend_right _ _ _ (containsSub_extend_right _ _ _ (h0)))))))))))
/-! ## The claims

One theorem per claim of the frozen claim list, with its witness or
counterexample where the claim calls for one. -/

/-- Dropping the timestamps of a freshly written plan recovers the plan. -/
theorem map_shape (t : Int) : ∀ (L : List (String × String)),
    (L.map (fun pc => (⟨pc.1, pc.2, t⟩ : FSFile))).map (fun f => (f.path, f.content)) = L
  | [] => rfl
  | pc :: L => by rw [List.map_cons, List.map_cons, map_shape t L]

/-- The paths of a freshly written plan are the plan paths. -/
theorem map_path (t : Int) : ∀ (L : List (String × String)),
    (L.map (fun pc => (⟨pc.1, pc.2, t⟩ : FSFile))).map FSFile.path = L.map Prod.fst
  | [] => rfl
  | pc :: L => by rw [List.map_cons, List.map_cons, List.map_cons, map_path t L]

/-- The directory list of every configuration has no duplicates. -/
theorem directories_nodup (c : ProjectConfig) : (directories c).Nodup := by
  obtain ⟨pt, vl, obs, ci⟩ := c
  cases ci
  · exact show (["docs/design-docs", "docs/exec-plans/active", "docs/exec-plans/completed", "docs/product-specs", "docs/references", "docs/generated", "scripts"] : List String).Nodup from by decide
  · exact show (["docs/design-docs", "docs/exec-plans/active", "docs/exec-plans/completed", "docs/product-specs", "docs/references", "docs/generated", "scripts", ".github/workflows"] : List String).Nodup from by decide

/-- The emitted path list of every configuration has no duplicates. -/
theorem emittedPaths_nodup (c : ProjectConfig) : (emittedPaths c).Nodup := by
  obtain ⟨pt, vl, obs, ci⟩ := c
  cases pt <;> cases vl <;> cases ci
  · rw [emittedPaths_FuTsNc obs]; decide
  · rw [emittedPaths_FuTsCi obs]; decide
  · rw [emittedPaths_FuJsNc obs]; decide
  · rw [emittedPaths_FuJsCi obs]; decide
  · rw [emittedPaths_BkTsNc obs]; decide
  · rw [emittedPaths_BkTsCi obs]; decide
  · rw [emittedPaths_BkJsNc obs]; decide
  · rw [emittedPaths_BkJsCi obs]; decide
  · rw [emittedPaths_FrTsNc obs]; decide
  · rw [emittedPaths_FrTsCi obs]; decide
  · rw [emittedPaths_FrJsNc obs]; decide
  · rw [emittedPaths_FrJsCi obs]; decide

/-- C1 (corrected): running the generated Structure Validator immediately
after a successful scaffold of any configuration, at the scaffold time,
yields zero errors and zero warnings — in particular the claimed
"no design docs" warning is not emitted, because the scaffold writes
`core-beliefs.md` into `docs/design-docs`, so the validator counts three
`.md` files there. -/
theorem C1_scaffold_validate (c : ProjectConfig) (t : Int) :
    validate (scaffoldFS c t) t = ⟨[], [], true⟩ := by
  obtain ⟨pt, vl, obs, ci⟩ := c
  cases pt <;> cases vl <;> cases ci
  · rw [scaffold_FuTsNc obs t]; exact validateScaffold_FuTsNc t
  · rw [scaffold_FuTsCi obs t]; exact validateScaffold_FuTsCi t
  · rw [scaffold_FuJsNc obs t]; exact validateScaffold_FuJsNc t
  · rw [scaffold_FuJsCi obs t]; exact validateScaffold_FuJsCi t
  · rw [scaffold_BkTsNc obs t]; exact validateScaffold_BkTsNc t
  · rw [scaffold_BkTsCi obs t]; exact validateScaffold_BkTsCi t
  · rw [scaffold_BkJsNc obs t]; exact validateScaffold_BkJsNc t
  · rw [scaffold_BkJsCi obs t]; exact validateScaffold_BkJsCi t
  · rw [scaffold_FrTsNc obs t]; exact validateScaffold_FrTsNc t
  · rw [scaffold_FrTsCi obs t]; exact validateScaffold_FrTsCi t
  · rw [scaffold_FrJsNc obs t]; exact validateScaffold_FrJsNc t
  · rw [scaffold_FrJsCi obs t]; exact validateScaffold_FrJsCi t

/-- C1 counterexample: for the backend/javascript configuration without
observability or CI, the validator run right after the scaffold produces
an empty warning list — not the single "no design docs" warning the claim
asserts. -/
theorem C1_counterexample :
    (validate (scaffoldFS ⟨ProjectType.backend, ValidationLanguage.javascript, false, false⟩ 0) 0).warnings = [] := by
  rw [scaffold_BkJsNc false 0, validateScaffold_BkJsNc 0]

/-- C2 (corrected): when the user cancels the interactive session, `main`
exits with code 0 — not a non-zero code — after printing the distinct
message `Operation cancelled.`, and the file system is left untouched. -/
theorem C2_cancel_outcome (c : ProjectConfig) (fs0 : FS) (t : Int) :
    runMain true c fs0 t = RunOutcome.cancelled 0 "Operation cancelled." fs0 := rfl

/-- C2 counterexample: a cancelled run exits with code 0, refuting the
claimed non-zero exit code for cancellation. -/
theorem C2_counterexample :
    (runMain true ⟨ProjectType.backend, ValidationLanguage.javascript, false, false⟩ emptyFS 0).exitCode = 0 := rfl

/-- C3 (corrected): for `projectType = backend` exactly one emitted document
references `FRONTEND.md`: the README, whose structure diagram always lists
it (annotated "(if applicable)").  Every other emitted document of a
backend configuration is free of the reference. -/
theorem C3_backend_refs (vl : ValidationLanguage) (obs ci : Bool) :
    ∀ pc ∈ emittedFiles ⟨ProjectType.backend, vl, obs, ci⟩,
      containsSub frontendNeedle.data pc.2.data = beqStr pc.1 "README.md" := by
  cases vl <;> cases ci <;> intro pc hpc
  · rw [show emittedFiles ⟨ProjectType.backend, ValidationLanguage.typescript, obs, false⟩ = [("AGENTS.md", getAgentsTemplate ProjectType.backend), ("CLAUDE.md", getAgentsTemplate ProjectType.backend), ("ARCHITECTURE.md", getArchitectureTemplate ProjectType.backend), ("DESIGN.md", getDesignTemplate), ("PLANS.md", getPlansTemplate), ("PRODUCT_SENSE.md", getProductSenseTemplate), ("QUALITY_SCORE.md", getQualityScoreTemplate), ("RELIABILITY.md", getReliabilityTemplate), ("SECURITY.md", getSecurityTemplate), ("docs/design-docs/index.md", designDocsIndexContent), ("docs/design-docs/core-beliefs.md", getCoreBeliefsTemplate), ("docs/design-docs/template.md", getDesignDocTemplate), ("docs/exec-plans/template.md", getExecPlanTemplate), ("docs/exec-plans/tech-debt-tracker.md", getTechDebtTrackerTemplate), ("docs/product-specs/index.md", productSpecsIndexContent), ("docs/product-specs/template.md", getProductSpecTemplate), ("scripts/validate-structure.ts", getValidationScriptTemplate ValidationLanguage.typescript), ("scripts/package.json", validationPackageJsonText), (".gitignore", getGitignoreTemplate), ("biome.json", getBiomeConfigTemplate), ("README.md", getReadmeTemplate ProjectType.backend ValidationLanguage.typescript)] from rfl] at hpc
    fin_cases hpc
    · exact noFr_agents_backend.trans rfl
    · exact noFr_agents_backend.trans rfl
    · exact noFr_architecture_backend.trans rfl
    · exact noFr_design.trans rfl
    · exact noFr_plans.trans rfl
    · exact noFr_psense.trans rfl
    · exact noFr_qscore.trans rfl
    · exact noFr_rel.trans rfl
    · exact noFr_sec.trans rfl
    · exact noFr_ddIndex.trans rfl
    · exact noFr_cbel.trans rfl
    · exact noFr_ddoc.trans rfl
    · exact noFr_eplan.trans rfl
    · exact noFr_tdebt.trans rfl
    · exact noFr_psIndex.trans rfl
    · exact noFr_pspec.trans rfl
    · exact noFr_valscript_ts.trans rfl
    · exact noFr_pkgjson.trans rfl
    · exact noFr_gi.trans rfl
    · exact noFr_biome.trans rfl
    · exact (readme_contains_fr ProjectType.backend ValidationLanguage.typescript).trans rfl
  · rw [show emittedFiles ⟨ProjectType.backend, ValidationLanguage.typescript, obs, true⟩ = [("AGENTS.md", getAgentsTemplate ProjectType.backend), ("CLAUDE.md", getAgentsTemplate ProjectType.backend), ("ARCHITECTURE.md", getArchitectureTemplate ProjectType.backend), ("DESIGN.md", getDesignTemplate), ("PLANS.md", getPlansTemplate), ("PRODUCT_SENSE.md", getProductSenseTemplate), ("QUALITY_SCORE.md", getQualityScoreTemplate), ("RELIABILITY.md", getReliabilityTemplate), ("SECURITY.md", getSecurityTemplate), ("docs/design-docs/index.md", designDocsIndexContent), ("docs/design-docs/core-beliefs.md", getCoreBeliefsTemplate), ("docs/design-docs/template.md", getDesignDocTemplate), ("docs/exec-plans/template.md", getExecPlanTemplate), ("docs/exec-plans/tech-debt-tracker.md", getTechDebtTrackerTemplate), ("docs/product-specs/index.md", productSpecsIndexContent), ("docs/product-specs/template.md", getProductSpecTemplate), ("scripts/validate-structure.ts", getValidationScriptTemplate ValidationLanguage.typescript), ("scripts/package.json", validationPackageJsonText), (".github/workflows/validate-docs.yml", getGithubWorkflowTemplate ValidationLanguage.typescript), (".github/markdown-link-check-config.json", getMarkdownLinkCheckConfig), (".gitignore", getGitignoreTemplate), ("biome.json", getBiomeConfigTemplate), ("README.md", getReadmeTemplate ProjectType.backend ValidationLanguage.typescript)] from rfl] at hpc
    fin_cases hpc
    · exact noFr_agents_backend.trans rfl
    · exact noFr_agents_backend.trans rfl
    · exact noFr_architecture_backend.trans rfl
    · exact noFr_design.trans rfl
    · exact noFr_plans.trans rfl
    · exact noFr_psense.trans rfl
    · exact noFr_qscore.trans rfl
    · exact noFr_rel.trans rfl
    · exact noFr_sec.trans rfl
    · exact noFr_ddIndex.trans rfl
    · exact noFr_cbel.trans rfl
    · exact noFr_ddoc.trans rfl
    · exact noFr_eplan.trans rfl
    · exact noFr_tdebt.trans rfl
    · exact noFr_psIndex.trans rfl
    · exact noFr_pspec.trans rfl
    · exact noFr_valscript_ts.trans rfl
    · exact noFr_pkgjson.trans rfl
    · exact noFr_workflow_ts.trans rfl
    · exact noFr_mlc.trans rfl
    · exact noFr_gi.trans rfl
    · exact noFr_biome.trans rfl
    · exact (readme_contains_fr ProjectType.backend ValidationLanguage.typescript).trans rfl
  · rw [show emittedFiles ⟨ProjectType.backend, ValidationLanguage.javascript, obs, false⟩ = [("AGENTS.md", getAgentsTemplate ProjectType.backend), ("CLAUDE.md", getAgentsTemplate ProjectType.backend), ("ARCHITECTURE.md", getArchitectureTemplate ProjectType.backend), ("DESIGN.md", getDesignTemplate), ("PLANS.md", getPlansTemplate), ("PRODUCT_SENSE.md", getProductSenseTemplate), ("QUALITY_SCORE.md", getQualityScoreTemplate), ("RELIABILITY.md", getReliabilityTemplate), ("SECURITY.md", getSecurityTemplate), ("docs/design-docs/index.md", designDocsIndexContent), ("docs/design-docs/core-beliefs.md", getCoreBeliefsTemplate), ("docs/design-docs/template.md", getDesignDocTemplate), ("docs/exec-plans/template.md", getExecPlanTemplate), ("docs/exec-plans/tech-debt-tracker.md", getTechDebtTrackerTemplate), ("docs/product-specs/index.md", productSpecsIndexContent), ("docs/product-specs/template.md", getProductSpecTemplate), ("scripts/validate-structure.js", getValidationScriptTemplate ValidationLanguage.javascript), (".gitignore", getGitignoreTemplate), ("biome.json", getBiomeConfigTemplate), ("README.md", getReadmeTemplate ProjectType.backend ValidationLanguage.javascript)] from rfl] at hpc
    fin_cases hpc
    · exact noFr_agents_backend.trans rfl
    · exact noFr_agents_backend.trans rfl
    · exact noFr_architecture_backend.trans rfl
    · exact noFr_design.trans rfl
    · exact noFr_plans.trans rfl
    · exact noFr_psense.trans rfl
    · exact noFr_qscore.trans rfl
    · exact noFr_rel.trans rfl
    · exact noFr_sec.trans rfl
    · exact noFr_ddIndex.trans rfl
    · exact noFr_cbel.trans rfl
    · exact noFr_ddoc.trans rfl
    · exact noFr_eplan.trans rfl
    · exact noFr_tdebt.trans rfl
    · exact noFr_psIndex.trans rfl
    · exact noFr_pspec.trans rfl
    · exact noFr_valscript_js.trans rfl
    · exact noFr_gi.trans rfl
    · exact noFr_biome.trans rfl
    · exact (readme_contains_fr ProjectType.backend ValidationLanguage.javascript).trans rfl
  · rw [show emittedFiles ⟨ProjectType.backend, ValidationLanguage.javascript, obs, true⟩ = [("AGENTS.md", getAgentsTemplate ProjectType.backend), ("CLAUDE.md", getAgentsTemplate ProjectType.backend), ("ARCHITECTURE.md", getArchitectureTemplate ProjectType.backend), ("DESIGN.md", getDesignTemplate), ("PLANS.md", getPlansTemplate), ("PRODUCT_SENSE.md", getProductSenseTemplate), ("QUALITY_SCORE.md", getQualityScoreTemplate), ("RELIABILITY.md", getReliabilityTemplate), ("SECURITY.md", getSecurityTemplate), ("docs/design-docs/index.md", designDocsIndexContent), ("docs/design-docs/core-beliefs.md", getCoreBeliefsTemplate), ("docs/design-docs/template.md", getDesignDocTemplate), ("docs/exec-plans/template.md", getExecPlanTemplate), ("docs/exec-plans/tech-debt-tracker.md", getTechDebtTrackerTemplate), ("docs/product-specs/index.md", productSpecsIndexContent), ("docs/product-specs/template.md", getProductSpecTemplate), ("scripts/validate-structure.js", getValidationScriptTemplate ValidationLanguage.javascript), (".github/workflows/validate-docs.yml", getGithubWorkflowTemplate ValidationLanguage.javascript), (".github/markdown-link-check-config.json", getMarkdownLinkCheckConfig), (".gitignore", getGitignoreTemplate), ("biome.json", getBiomeConfigTemplate), ("README.md", getReadmeTemplate ProjectType.backend ValidationLanguage.javascript)] from rfl] at hpc
    fin_cases hpc
    · exact noFr_agents_backend.trans rfl
    · exact noFr_agents_backend.trans rfl
    · exact noFr_architecture_backend.trans rfl
    · exact noFr_design.trans rfl
    · exact noFr_plans.trans rfl
    · exact noFr_psense.trans rfl
    · exact noFr_qscore.trans rfl
    · exact noFr_rel.trans rfl
    · exact noFr_sec.trans rfl
    · exact noFr_ddIndex.trans rfl
    · exact noFr_cbel.trans rfl
    · exact noFr_ddoc.trans rfl
    · exact noFr_eplan.trans rfl
    · exact noFr_tdebt.trans rfl
    · exact noFr_psIndex.trans rfl
    · exact noFr_pspec.trans rfl
    · exact noFr_valscript_js.trans rfl
    · exact noFr_workflow_js.trans rfl
    · exact noFr_mlc.trans rfl
    · exact noFr_gi.trans rfl
    · exact noFr_biome.trans rfl
    · exact (readme_contains_fr ProjectType.backend ValidationLanguage.javascript).trans rfl

/-- C3 counterexample: the backend README is emitted and does reference
`FRONTEND.md`, refuting the claim that no backend document contains the
reference. -/
theorem C3_counterexample :
    emittedContent ⟨ProjectType.backend, ValidationLanguage.javascript, false, false⟩ "README.md"
        = some (getReadmeTemplate ProjectType.backend ValidationLanguage.javascript)
      ∧ containsSub frontendNeedle.data
          (getReadmeTemplate ProjectType.backend ValidationLanguage.javascript).data = true :=
  ⟨rfl, readme_contains_fr ProjectType.backend ValidationLanguage.javascript⟩

/-- C3 witness: the backend agent guide is an emitted file of the
backend/javascript configuration and, by `C3_backend_refs`, is free of the
`FRONTEND.md` reference. -/
theorem C3_witness :
    ("AGENTS.md", getAgentsTemplate ProjectType.backend)
        ∈ emittedFiles ⟨ProjectType.backend, ValidationLanguage.javascript, false, false⟩
      ∧ containsSub frontendNeedle.data (getAgentsTemplate ProjectType.backend).data
          = beqStr "AGENTS.md" "README.md" := by
  have hm : ("AGENTS.md", getAgentsTemplate ProjectType.backend)
      ∈ emittedFiles ⟨ProjectType.backend, ValidationLanguage.javascript, false, false⟩ := by
    rw [show emittedFiles ⟨ProjectType.backend, ValidationLanguage.javascript, false, false⟩ = [("AGENTS.md", getAgentsTemplate ProjectType.backend), ("CLAUDE.md", getAgentsTemplate ProjectType.backend), ("ARCHITECTURE.md", getArchitectureTemplate ProjectType.backend), ("DESIGN.md", getDesignTemplate), ("PLANS.md", getPlansTemplate), ("PRODUCT_SENSE.md", getProductSenseTemplate), ("QUALITY_SCORE.md", getQualityScoreTemplate), ("RELIABILITY.md", getReliabilityTemplate), ("SECURITY.md", getSecurityTemplate), ("docs/design-docs/index.md", designDocsIndexContent), ("docs/design-docs/core-beliefs.md", getCoreBeliefsTemplate), ("docs/design-docs/template.md", getDesignDocTemplate), ("docs/exec-plans/template.md", getExecPlanTemplate), ("docs/exec-plans/tech-debt-tracker.md", getTechDebtTrackerTemplate), ("docs/product-specs/index.md", productSpecsIndexContent), ("docs/product-specs/template.md", getProductSpecTemplate), ("scripts/validate-structure.js", getValidationScriptTemplate ValidationLanguage.javascript), (".gitignore", getGitignoreTemplate), ("biome.json", getBiomeConfigTemplate), ("README.md", getReadmeTemplate ProjectType.backend ValidationLanguage.javascript)] from rfl]
    exact List.mem_cons_self _ _
  have h2 := C3_backend_refs ValidationLanguage.javascript false false _ hm
  exact ⟨hm, h2⟩

/-- C4 (confirmed): for every configuration the emitted `CLAUDE.md` content
is byte-for-byte the emitted `AGENTS.md` content — both writes use
`getAgentsTemplate projectType`. -/
theorem C4_claude_equals_agents (c : ProjectConfig) :
    emittedContent c "CLAUDE.md" = emittedContent c "AGENTS.md"
      ∧ emittedContent c "AGENTS.md" = some (getAgentsTemplate c.projectType) :=
  ⟨rfl, rfl⟩

/-- C5 (corrected): a link found in the agent guide is recorded as broken
exactly when its path does not start with the **literal string** `http`
(not: a URL scheme) and does not resolve against the project root.  The
skip condition is the literal prefix, so non-scheme paths such as
`httpx.md` are also skipped (see `C5_counterexample`). -/
theorem C5_link_check_iff (fs : FS) (s p : String)
    (h1 : existsFS fs "AGENTS.md" = true) (h2 : readFileFS fs "AGENTS.md" = some s)
    (hp : p ∈ extractLinks s) :
    brokenLinkWarning p ∈ validateCrossLinks fs
      ↔ ("http".data.isPrefixOf p.data = false ∧ existsFS fs p = false) := by
  rw [validateCrossLinks_eq fs s h1 h2]
  exact mem_brokenOf_iff fs (extractLinks s) p hp

/-- C5 counterexample: the agent guide of `c5fs` links to `httpx.md`, whose
path starts with no URL scheme and which does not exist, yet the validator
records no warning — the skip tests the literal prefix `http`. -/
theorem C5_counterexample :
    extractLinks "see [notes](httpx.md)" = ["httpx.md"]
      ∧ hasUrlScheme "httpx.md" = false
      ∧ existsFS c5fs "httpx.md" = false
      ∧ validateCrossLinks c5fs = [] :=
  ⟨rfl, rfl, rfl, rfl⟩

/-- C5 witness: in `c5wfs` the linked path `missing.md` has no `http`
prefix and does not exist, and `C5_link_check_iff` yields its broken-link
warning. -/
theorem C5_witness :
    brokenLinkWarning "missing.md" ∈ validateCrossLinks c5wfs
      ∧ "http".data.isPrefixOf "missing.md".data = false
      ∧ existsFS c5wfs "missing.md" = false := by
  have hp : "missing.md" ∈ extractLinks "see [a](missing.md)" := by
    rw [show extractLinks "see [a](missing.md)" = ["missing.md"] from rfl]
    exact List.mem_cons_self _ _
  have h := C5_link_check_iff c5wfs "see [a](missing.md)" "missing.md" rfl rfl hp
  exact ⟨h.mpr ⟨rfl, rfl⟩, rfl, rfl⟩

/-- C6 (confirmed): without CI no `.github` entry exists after the scaffold
(no directory and no file below it); with CI both the workflow file and
the link-check configuration exist. -/
theorem C6_ci_gating (c : ProjectConfig) (t : Int) :
    (c.includeCI = false → existsFS (scaffoldFS c t) ".github" = false)
      ∧ (c.includeCI = true →
          existsFS (scaffoldFS c t) ".github/workflows/validate-docs.yml" = true
            ∧ existsFS (scaffoldFS c t) ".github/markdown-link-check-config.json" = true) := by
  obtain ⟨pt, vl, obs, ci⟩ := c
  cases pt <;> cases vl <;> cases ci
  · exact ⟨fun _ => by rw [scaffold_FuTsNc obs t]; rfl, fun h => nomatch h⟩
  · exact ⟨(fun h => nomatch h), fun _ => ⟨by rw [scaffold_FuTsCi obs t]; rfl, by rw [scaffold_FuTsCi obs t]; rfl⟩⟩
  · exact ⟨fun _ => by rw [scaffold_FuJsNc obs t]; rfl, fun h => nomatch h⟩
  · exact ⟨(fun h => nomatch h), fun _ => ⟨by rw [scaffold_FuJsCi obs t]; rfl, by rw [scaffold_FuJsCi obs t]; rfl⟩⟩
  · exact ⟨fun _ => by rw [scaffold_BkTsNc obs t]; rfl, fun h => nomatch h⟩
  · exact ⟨(fun h => nomatch h), fun _ => ⟨by rw [scaffold_BkTsCi obs t]; rfl, by rw [scaffold_BkTsCi obs t]; rfl⟩⟩
  · exact ⟨fun _ => by rw [scaffold_BkJsNc obs t]; rfl, fun h => nomatch h⟩
  · exact ⟨(fun h => nomatch h), fun _ => ⟨by rw [scaffold_BkJsCi obs t]; rfl, by rw [scaffold_BkJsCi obs t]; rfl⟩⟩
  · exact ⟨fun _ => by rw [scaffold_FrTsNc obs t]; rfl, fun h => nomatch h⟩
  · exact ⟨(fun h => nomatch h), fun _ => ⟨by rw [scaffold_FrTsCi obs t]; rfl, by rw [scaffold_FrTsCi obs t]; rfl⟩⟩
  · exact ⟨fun _ => by rw [scaffold_FrJsNc obs t]; rfl, fun h => nomatch h⟩
  · exact ⟨(fun h => nomatch h), fun _ => ⟨by rw [scaffold_FrJsCi obs t]; rfl, by rw [scaffold_FrJsCi obs t]; rfl⟩⟩

/-- C7 (confirmed): the typescript variant emits the validation script at
the `.ts` path together with `scripts/package.json` declaring exactly one
tooling dependency; the javascript variant emits the `.js` script and no
manifest. -/
theorem C7_validation_language (c : ProjectConfig) (t : Int) :
    (c.validationLanguage = ValidationLanguage.typescript →
        existsFS (scaffoldFS c t) "scripts/validate-structure.ts" = true
          ∧ existsFS (scaffoldFS c t) "scripts/validate-structure.js" = false
          ∧ emittedContent c "scripts/package.json" = some validationPackageJsonText
          ∧ validationPackageJsonDevDependencies.length = 1)
      ∧ (c.validationLanguage = ValidationLanguage.javascript →
          existsFS (scaffoldFS c t) "scripts/validate-structure.js" = true
            ∧ existsFS (scaffoldFS c t) "scripts/validate-structure.ts" = false
            ∧ emittedContent c "scripts/package.json" = none) := by
  obtain ⟨pt, vl, obs, ci⟩ := c
  cases pt <;> cases vl <;> cases ci
  · exact ⟨fun _ => ⟨by rw [scaffold_FuTsNc obs t]; rfl, by rw [scaffold_FuTsNc obs t]; rfl, rfl, rfl⟩, fun h => nomatch h⟩
  · exact ⟨fun _ => ⟨by rw [scaffold_FuTsCi obs t]; rfl, by rw [scaffold_FuTsCi obs t]; rfl, rfl, rfl⟩, fun h => nomatch h⟩
  · exact ⟨(fun h => nomatch h), fun _ => ⟨by rw [scaffold_FuJsNc obs t]; rfl, by rw [scaffold_FuJsNc obs t]; rfl, rfl⟩⟩
  · exact ⟨(fun h => nomatch h), fun _ => ⟨by rw [scaffold_FuJsCi obs t]; rfl, by rw [scaffold_FuJsCi obs t]; rfl, rfl⟩⟩
  · exact ⟨fun _ => ⟨by rw [scaffold_BkTsNc obs t]; rfl, by rw [scaffold_BkTsNc obs t]; rfl, rfl, rfl⟩, fun h => nomatch h⟩
  · exact ⟨fun _ => ⟨by rw [scaffold_BkTsCi obs t]; rfl, by rw [scaffold_BkTsCi obs t]; rfl, rfl, rfl⟩, fun h => nomatch h⟩
  · exact ⟨(fun h => nomatch h), fun _ => ⟨by rw [scaffold_BkJsNc obs t]; rfl, by rw [scaffold_BkJsNc obs t]; rfl, rfl⟩⟩
  · exact ⟨(fun h => nomatch h), fun _ => ⟨by rw [scaffold_BkJsCi obs t]; rfl, by rw [scaffold_BkJsCi obs t]; rfl, rfl⟩⟩
  · exact ⟨fun _ => ⟨by rw [scaffold_FrTsNc obs t]; rfl, by rw [scaffold_FrTsNc obs t]; rfl, rfl, rfl⟩, fun h => nomatch h⟩
  · exact ⟨fun _ => ⟨by rw [scaffold_FrTsCi obs t]; rfl, by rw [scaffold_FrTsCi obs t]; rfl, rfl, rfl⟩, fun h => nomatch h⟩
  · exact ⟨(fun h => nomatch h), fun _ => ⟨by rw [scaffold_FrJsNc obs t]; rfl, by rw [scaffold_FrJsNc obs t]; rfl, rfl⟩⟩
  · exact ⟨(fun h => nomatch h), fun _ => ⟨by rw [scaffold_FrJsCi obs t]; rfl, by rw [scaffold_FrJsCi obs t]; rfl, rfl⟩⟩

/-- C8 (confirmed): the validator succeeds exactly when its accumulated
error list is empty; the returned boolean is computed from the error list
alone, so warnings never affect the outcome. -/
theorem C8_success_iff (fs : FS) (now : Int) :
    (validate fs now).success = true ↔ (validate fs now).errors = [] := by
  constructor
  · intro h
    have h2 : ((validate fs now).errors.length == 0) = true := h
    exact List.length_eq_zero.mp (beq_iff_eq.mp h2)
  · intro h
    show ((validate fs now).errors.length == 0) = true
    rw [h]
    rfl

/-- C8 witness: the iff instantiated at a concrete state. -/
theorem C8_witness :
    (validate emptyFS 0).success = true ↔ (validate emptyFS 0).errors = [] :=
  C8_success_iff emptyFS 0

/-- C9 (confirmed): the emitted bytes are a pure function of the
configuration — the shapes of two scaffolds of the same configuration at
any two times agree — and a second emission over an existing scaffold
overwrites in place, leaving the shape unchanged (idempotence). -/
theorem C9_determinism_idempotence (c : ProjectConfig) (t t2 : Int) :
    fsShape (scaffoldFS c t2) = fsShape (scaffoldFS c t)
      ∧ fsShape (applyScaffold (scaffoldFS c t) c t2) = fsShape (scaffoldFS c t) := by
  have h1 := directories_nodup c
  have h2 := emittedPaths_nodup c
  constructor
  · rw [scaffoldFS_eq c t h1 h2, scaffoldFS_eq c t2 h1 h2]
    exact Prod.ext rfl ((map_shape t2 (emittedFiles c)).trans (map_shape t (emittedFiles c)).symm)
  · rw [scaffoldFS_eq c t h1 h2]
    unfold applyScaffold
    rw [foldl_mkdirp_mem (directories c)
        (FS.mk (directories c) ((emittedFiles c).map (fun pc => (⟨pc.1, pc.2, t⟩ : FSFile))))
        (fun d hd => hd)]
    have hmem : ∀ pc ∈ emittedFiles c, ((pc : String × String).1, pc.2)
        ∈ ((emittedFiles c).map (fun q => (⟨q.1, q.2, t⟩ : FSFile))).map (fun f => (f.path, f.content)) := by
      intro pc hpc
      rw [map_shape t (emittedFiles c)]
      exact hpc
    have hnd : (((emittedFiles c).map (fun q => (⟨q.1, q.2, t⟩ : FSFile))).map FSFile.path).Nodup := by
      rw [map_path t (emittedFiles c)]
      exact h2
    have hw := foldl_writeFile_overwrite t2 (emittedFiles c)
        (FS.mk (directories c) ((emittedFiles c).map (fun q => (⟨q.1, q.2, t⟩ : FSFile)))) hmem hnd
    exact Prod.ext hw.2 hw.1

/-- C10 (confirmed): a cancelled run performs no file-system effect; the
target is exactly as it was. -/
theorem C10_cancel_preserves_fs (c : ProjectConfig) (fs0 : FS) (t : Int) :
    (runMain true c fs0 t).fs = fs0 := rfl
end AgenticEngine
